import Mathlib

/-!
# soc2030 sensor driver: register bus, table interpreter, mode controller

Shallow embedding of `drivers/media/video/tegra/soc2030.c`.

* The I2C bus is an environment: `i2c_client` carries the answer the adapter
  gives to a transfer as a function of the transfers attempted so far, so every
  deterministic bus behaviour is an instance.  Every attempted transfer is
  appended to the history (`Drv.trace`, oldest first).
* `u16`/`u32` values are `Nat`; a reduction `% 65536` or `% 2 ^ 32` is written
  wherever the C code can truncate.  `int` values (error codes, EV bias, mode
  index) are `Int`.
* `msleep` and `pr_info`/`pr_err` have no effect on the modelled state.
* A table is a `List soc2030_regs`; walking past the end of the array (a table
  without `REG_TABLE_END`) has no defined result and is `none`.
-/

namespace Soc2030

/-! ## Constants -/

/-- Value of `EIO` in `errno-base.h`. -/
def EIO_errno : Int := 5
/-- Value of `ENODEV` in `errno-base.h`. -/
def ENODEV_errno : Int := 19
/-- Value of `EINVAL` in `errno-base.h`. -/
def EINVAL_errno : Int := 22

/-- Modelled from the spec: the numeric macros of `media/soc2030.h`, a header
that is not among the sources.  The driver is embedded over arbitrary values of
these constants. -/
structure Consts where
  SOC2030_MAX_RETRIES : Nat
  SOC2030_POLL_RETRIES : Nat
  EFFECT_MAX : Nat
  WB_MAX : Nat
  EXP_TARGET : Int
  SOC_EV_MAX : Int
  SOC_EV_MIN : Int

def REG_CONTEXT : Nat := 0xa104
def REG_LINE_LENGTH_A : Nat := 0x2721
def REG_LINE_LENGTH_B : Nat := 0x2737
def REG_COARSE_INTEGRATION : Nat := 0x3012
def REG_EV : Nat := 0x2222

def INDEX_15FPS : Nat := 8
def INDEX_10FPS : Nat := 12

/-! ## Data model -/

/-- Modelled from the spec: the opcode enumeration of `media/soc2030.h` (header
not among the sources).  The four `WRITE_REG_VARn` and the four `READ_REG_VARn`
codes are consecutive, so `op - WRITE_REG_VAR1` is the slot index `0..3`; a
16-bit code that is none of the named ones is `other`. -/
inductive Op where
  | REG_TABLE_END
  | WRITE_REG_DATA
  | WRITE_REG_BIT_H
  | WRITE_REG_BIT_L
  | POLL_REG_DATA
  | POLL_REG_BIT_H
  | POLL_REG_BIT_L
  | WRITE_VAR_DATA
  | POLL_VAR_DATA
  | DELAY_MS
  | WRITE_REG_VAR (i : Fin 4)
  | READ_REG_VAR (i : Fin 4)
  | other (code : Nat)
  deriving DecidableEq, Repr

/-- One table record: `struct soc2030_regs {op, addr, val}`. -/
structure soc2030_regs where
  op : Op
  addr : Nat
  val : Nat
  deriving DecidableEq, Repr

/-- One I2C transfer attempted by the driver: a 4-byte register write
(address, value) or a 2+2-byte register read (address). -/
inductive Xfer where
  | write (addr val : Nat)
  | read (addr : Nat)
  deriving DecidableEq, Repr

/-- The I2C client.  `adapter` tells whether `client->adapter` is non-NULL.
`xfer_write h a v` is what `i2c_transfer` returns for the write message of
`soc2030_write_reg` after the transfers `h`; `xfer_read h a` is what it returns
for the two messages of `soc2030_read_reg`, with the big-endian number formed
by the two received bytes. -/
structure i2c_client where
  adapter : Bool
  xfer_write : List Xfer → Nat → Nat → Int
  xfer_read : List Xfer → Nat → Int × Nat

/-- Lock request `struct soc2030_lock` (the global `lockBuff`). -/
structure soc2030_lock where
  aelock : Bool
  aerelock : Bool
  awblock : Bool
  awbrelock : Bool
  previewactive : Bool
  deriving DecidableEq, Repr

/-- Fields of `struct soc2030_info` that the control paths use. -/
structure soc2030_info where
  mode : Int
  current_ev : Int
  ae_lock_inhibit : Bool
  awb_lock_inhibit : Bool
  valid_ae_lock_state : Bool
  valid_awb_lock_state : Bool
  deriving DecidableEq, Repr

/-- The file-scope state of the driver together with the bus history. -/
structure Drv where
  trace : List Xfer
  vars : Fin 4 → Nat
  lockBuff : soc2030_lock
  ae_lock_state : Nat → Nat
  awb_lock_state : Nat → Nat
  info : soc2030_info

/-- Catalog entry `struct soc2030_mode`. -/
structure soc2030_mode where
  xres : Int
  yres : Int
  fps : Int
  regset : List soc2030_regs

/-! ## Register access -/

/-- Function `soc2030_read_reg`: one read transfer; `val` is the previous
content of the out-parameter, kept when the transfer fails. -/
def soc2030_read_reg (client : i2c_client) (addr : Nat) (val : Nat)
    (tr : List Xfer) : Int × Nat × List Xfer :=
  if client.adapter = false then (-ENODEV_errno, val, tr)
  else
    let r := client.xfer_read tr addr
    if r.1 ≠ 2 then (-EIO_errno, val, tr ++ [Xfer.read addr])
    else (0, r.2 % 65536, tr ++ [Xfer.read addr])

/-- The `do { } while (retry <= SOC2030_MAX_RETRIES)` loop of
`soc2030_write_reg`; `n` is the number of attempts still allowed.  When the
loop runs out, `retry > SOC2030_MAX_RETRIES` holds and the result is `-EIO`. -/
def write_reg_loop (client : i2c_client) (addr val : Nat) :
    Nat → List Xfer → Int × List Xfer
  | 0, tr => (-EIO_errno, tr)
  | n + 1, tr =>
    if client.xfer_write tr addr val = 1 then (0, tr ++ [Xfer.write addr val])
    else write_reg_loop client addr val n (tr ++ [Xfer.write addr val])

/-- Function `soc2030_write_reg`: up to `SOC2030_MAX_RETRIES + 1` write transfers. -/
def soc2030_write_reg (k : Consts) (client : i2c_client) (addr val : Nat)
    (tr : List Xfer) : Int × List Xfer :=
  if client.adapter = false then (-ENODEV_errno, tr)
  else write_reg_loop client addr val (k.SOC2030_MAX_RETRIES + 1) tr

/-- Function `soc2030_write_bits`: read, merge `val` under `mask`, write back. -/
def soc2030_write_bits (k : Consts) (client : i2c_client) (addr val mask : Nat)
    (tr : List Xfer) : Int × List Xfer :=
  let r := soc2030_read_reg client addr 0 tr
  if r.1 ≠ 0 then (r.1, r.2.2)
  else
    let wval := (((65535 ^^^ mask) &&& r.2.1) ||| val) % 65536
    soc2030_write_reg k client addr wval r.2.2

def soc2030_clear_bits (k : Consts) (client : i2c_client) (addr bits : Nat)
    (tr : List Xfer) : Int × List Xfer :=
  soc2030_write_bits k client addr 0 bits tr

def soc2030_set_bits (k : Consts) (client : i2c_client) (addr bits : Nat)
    (tr : List Xfer) : Int × List Xfer :=
  soc2030_write_bits k client addr bits bits tr

/-- The `for (try = 0; try < SOC2030_POLL_RETRIES; try++)` loop of
`soc2030_poll`; `n` is the number of tries left. -/
def poll_loop (client : i2c_client) (addr expected mask : Nat) :
    Nat → List Xfer → Int × List Xfer
  | 0, tr => (-EIO_errno, tr)
  | n + 1, tr =>
    let r := soc2030_read_reg client addr 0 tr
    if r.1 ≠ 0 then (r.1, r.2.2)
    else if expected = r.2.1 &&& mask then (0, r.2.2)
    else poll_loop client addr expected mask n r.2.2

def soc2030_poll (k : Consts) (client : i2c_client) (addr expected mask : Nat)
    (tr : List Xfer) : Int × List Xfer :=
  poll_loop client addr expected mask k.SOC2030_POLL_RETRIES tr

def soc2030_poll_bit_set (k : Consts) (client : i2c_client) (addr bit : Nat)
    (tr : List Xfer) : Int × List Xfer :=
  soc2030_poll k client addr bit bit tr

def soc2030_poll_bit_clear (k : Consts) (client : i2c_client) (addr bit : Nat)
    (tr : List Xfer) : Int × List Xfer :=
  soc2030_poll k client addr 0 bit tr

/-- Function `soc2030_write_xdma_reg`: address register `0x098c`, then data
register `0x0990`. -/
def soc2030_write_xdma_reg (k : Consts) (client : i2c_client) (addr val : Nat)
    (tr : List Xfer) : Int × List Xfer :=
  let r := soc2030_write_reg k client 0x098c addr tr
  if r.1 ≠ 0 then r
  else
    let r2 := soc2030_write_reg k client 0x0990 val r.2
    if r2.1 ≠ 0 then r2 else (0, r2.2)

/-- Function `soc2030_read_xdma_reg`: address register `0x098c`, then read `0x0990`. -/
def soc2030_read_xdma_reg (k : Consts) (client : i2c_client) (addr : Nat)
    (val : Nat) (tr : List Xfer) : Int × Nat × List Xfer :=
  let r := soc2030_write_reg k client 0x098c addr tr
  if r.1 ≠ 0 then (r.1, val, r.2)
  else
    let r2 := soc2030_read_reg client 0x0990 val r.2
    if r2.1 ≠ 0 then r2 else (0, r2.2.1, r2.2.2)

/-- The retry loop of `soc2030_poll_xdma_reg`; exhaustion returns `-EINVAL`. -/
def poll_xdma_loop (k : Consts) (client : i2c_client) (addr expected : Nat) :
    Nat → List Xfer → Int × List Xfer
  | 0, tr => (-EINVAL_errno, tr)
  | n + 1, tr =>
    let r := soc2030_read_xdma_reg k client addr 0 tr
    if r.1 ≠ 0 then (r.1, r.2.2)
    else if expected = r.2.1 then (0, r.2.2)
    else poll_xdma_loop k client addr expected n r.2.2

def soc2030_poll_xdma_reg (k : Consts) (client : i2c_client)
    (addr expected : Nat) (tr : List Xfer) : Int × List Xfer :=
  poll_xdma_loop k client addr expected k.SOC2030_POLL_RETRIES tr

/-! ## Table interpreter -/

/-- Outcome of one pass through the `switch` of `soc2030_write_table`:
`ret` is a `return err`, `next` is a `break` (the loop goes on to the next
record with the current `err`). -/
inductive Flow where
  | ret (err : Int) (s : Drv)
  | next (err : Int) (s : Drv)

/-- Value of `sizeof(vars)`: four `u16` slots. -/
def sizeof_vars : Nat := 4 * 2

/-- Wraps the result of a register operation: `if (err) return err; break;`. -/
def after_op (s : Drv) (r : Int × List Xfer) : Flow :=
  if r.1 ≠ 0 then Flow.ret r.1 { s with trace := r.2 }
  else Flow.next r.1 { s with trace := r.2 }

/-- The `switch (next->op)` of `soc2030_write_table` for a record that is not
`REG_TABLE_END`; `err` is the value the variable holds on entry. -/
def write_table_case (k : Consts) (client : i2c_client) (next : soc2030_regs)
    (err : Int) (s : Drv) : Flow :=
  match next.op with
  | Op.WRITE_REG_DATA =>
    after_op s (soc2030_write_reg k client next.addr next.val s.trace)
  | Op.WRITE_REG_BIT_H =>
    after_op s (soc2030_set_bits k client next.addr next.val s.trace)
  | Op.WRITE_REG_BIT_L =>
    after_op s (soc2030_clear_bits k client next.addr next.val s.trace)
  | Op.POLL_REG_DATA =>
    after_op s (soc2030_poll k client next.addr next.val 0xFFFF s.trace)
  | Op.POLL_REG_BIT_H =>
    after_op s (soc2030_poll_bit_set k client next.addr next.val s.trace)
  | Op.POLL_REG_BIT_L =>
    after_op s (soc2030_poll_bit_clear k client next.addr next.val s.trace)
  | Op.WRITE_VAR_DATA =>
    after_op s (soc2030_write_xdma_reg k client next.addr next.val s.trace)
  | Op.POLL_VAR_DATA =>
    after_op s (soc2030_poll_xdma_reg k client next.addr next.val s.trace)
  | Op.DELAY_MS => Flow.next err s
  | Op.WRITE_REG_VAR i =>
    if i.val ≥ sizeof_vars then Flow.next err s
    else after_op s (soc2030_write_reg k client next.addr (s.vars i) s.trace)
  | Op.READ_REG_VAR i =>
    if i.val ≥ sizeof_vars then Flow.next err s
    else
      let r := soc2030_read_reg client next.addr (s.vars i) s.trace
      after_op { s with vars := Function.update s.vars i r.2.1 } (r.1, r.2.2)
  | Op.REG_TABLE_END => Flow.ret err s
  | Op.other _ => Flow.ret err s

/-- The `for (next = table; next->op != REG_TABLE_END; next++)` loop of
`soc2030_write_table`. -/
def write_table_loop (k : Consts) (client : i2c_client) :
    List soc2030_regs → Int → Drv → Option (Int × Drv)
  | [], _, _ => none
  | next :: rest, err, s =>
    if next.op = Op.REG_TABLE_END then some (0, s)
    else
      match write_table_case k client next err s with
      | Flow.ret e s1 => some (e, s1)
      | Flow.next e s1 => write_table_loop k client rest e s1

/-- Function `soc2030_write_table`: `err` starts as `-EIO`. -/
def soc2030_write_table (k : Consts) (client : i2c_client)
    (table : List soc2030_regs) (s : Drv) : Option (Int × Drv) :=
  write_table_loop k client table (-EIO_errno) s

/-- Runs the records of `cmds` one after the other as the loop of
`soc2030_write_table` does, provided none of them is `REG_TABLE_END` and none
makes the function return: the value of `err` and the state after the last
one.  Used to speak about the records that precede a given record. -/
def run_records (k : Consts) (client : i2c_client) :
    List soc2030_regs → Int → Drv → Option (Int × Drv)
  | [], err, s => some (err, s)
  | next :: rest, err, s =>
    if next.op = Op.REG_TABLE_END then none
    else
      match write_table_case k client next err s with
      | Flow.ret _ _ => none
      | Flow.next e s1 => run_records k client rest e s1


/-! ## Tables (register sequences of the driver, in source order) -/

def base_mode : List soc2030_regs :=
  ⟨Op.WRITE_REG_DATA, 0x98C, 0x2703⟩ ::
  ⟨Op.WRITE_REG_DATA, 0x990, 0x0320⟩ ::
  ⟨Op.WRITE_REG_DATA, 0x98C, 0x2705⟩ ::
  ⟨Op.WRITE_REG_DATA, 0x990, 0x0258⟩ ::
  ⟨Op.WRITE_REG_DATA, 0x98C, 0x2707⟩ ::
  ⟨Op.WRITE_REG_DATA, 0x990, 0x0640⟩ ::
  ⟨Op.WRITE_REG_DATA, 0x98C, 0x2709⟩ ::
  ⟨Op.WRITE_REG_DATA, 0x990, 0x04B0⟩ ::
  ⟨Op.WRITE_REG_DATA, 0x98C, 0x270D⟩ ::
  ⟨Op.WRITE_REG_DATA, 0x990, 0x0000⟩ ::
  ⟨Op.WRITE_REG_DATA, 0x98C, 0x270F⟩ ::
  ⟨Op.WRITE_REG_DATA, 0x990, 0x0000⟩ ::
  ⟨Op.WRITE_REG_DATA, 0x98C, 0x2711⟩ ::
  ⟨Op.WRITE_REG_DATA, 0x990, 0x04BD⟩ ::
  ⟨Op.WRITE_REG_DATA, 0x98C, 0x2713⟩ ::
  ⟨Op.WRITE_REG_DATA, 0x990, 0x064D⟩ ::
  ⟨Op.WRITE_REG_DATA, 0x98C, 0x2715⟩ ::
  ⟨Op.WRITE_REG_DATA, 0x990, 0x0111⟩ ::
  ⟨Op.WRITE_REG_DATA, 0x98C, 0x2717⟩ ::
  ⟨Op.WRITE_REG_DATA, 0x990, 0x046C⟩ ::
  ⟨Op.WRITE_REG_DATA, 0x98C, 0x2719⟩ ::
  ⟨Op.WRITE_REG_DATA, 0x990, 0x005A⟩ ::
  ⟨Op.WRITE_REG_DATA, 0x98C, 0x271B⟩ ::
  ⟨Op.WRITE_REG_DATA, 0x990, 0x01BE⟩ ::
  ⟨Op.WRITE_REG_DATA, 0x98C, 0x271D⟩ ::
  ⟨Op.WRITE_REG_DATA, 0x990, 0x0131⟩ ::
  ⟨Op.WRITE_REG_DATA, 0x98C, 0x271F⟩ ::
  ⟨Op.WRITE_REG_DATA, 0x990, 0x02B3⟩ ::
  ⟨Op.WRITE_REG_DATA, 0x98C, 0x2721⟩ ::
  ⟨Op.WRITE_REG_DATA, 0x990, 0x07EA⟩ ::
  ⟨Op.WRITE_REG_DATA, 0x98C, 0x2723⟩ ::
  ⟨Op.WRITE_REG_DATA, 0x990, 0x0004⟩ ::
  ⟨Op.WRITE_REG_DATA, 0x98C, 0x2725⟩ ::
  ⟨Op.WRITE_REG_DATA, 0x990, 0x0004⟩ ::
  ⟨Op.WRITE_REG_DATA, 0x98C, 0x2727⟩ ::
  ⟨Op.WRITE_REG_DATA, 0x990, 0x04BB⟩ ::
  ⟨Op.WRITE_REG_DATA, 0x98C, 0x2729⟩ ::
  ⟨Op.WRITE_REG_DATA, 0x990, 0x064B⟩ ::
  ⟨Op.WRITE_REG_DATA, 0x98C, 0x272B⟩ ::
  ⟨Op.WRITE_REG_DATA, 0x990, 0x0111⟩ ::
  ⟨Op.WRITE_REG_DATA, 0x98C, 0x272D⟩ ::
  ⟨Op.WRITE_REG_DATA, 0x990, 0x0024⟩ ::
  ⟨Op.WRITE_REG_DATA, 0x98C, 0x272F⟩ ::
  ⟨Op.WRITE_REG_DATA, 0x990, 0x003A⟩ ::
  ⟨Op.WRITE_REG_DATA, 0x98C, 0x2731⟩ ::
  ⟨Op.WRITE_REG_DATA, 0x990, 0x00F6⟩ ::
  ⟨Op.WRITE_REG_DATA, 0x98C, 0x2733⟩ ::
  ⟨Op.WRITE_REG_DATA, 0x990, 0x008B⟩ ::
  ⟨Op.WRITE_REG_DATA, 0x98C, 0x2735⟩ ::
  ⟨Op.WRITE_REG_DATA, 0x990, 0x050D⟩ ::
  ⟨Op.WRITE_REG_DATA, 0x98C, 0x2737⟩ ::
  ⟨Op.WRITE_REG_DATA, 0x990, 0x08A9⟩ ::
  ⟨Op.WRITE_REG_DATA, 0x98C, 0x2739⟩ ::
  ⟨Op.WRITE_REG_DATA, 0x990, 0x0000⟩ ::
  ⟨Op.WRITE_REG_DATA, 0x98C, 0x273B⟩ ::
  ⟨Op.WRITE_REG_DATA, 0x990, 0x031F⟩ ::
  ⟨Op.WRITE_REG_DATA, 0x98C, 0x273D⟩ ::
  ⟨Op.WRITE_REG_DATA, 0x990, 0x0000⟩ ::
  ⟨Op.WRITE_REG_DATA, 0x98C, 0x273F⟩ ::
  ⟨Op.WRITE_REG_DATA, 0x990, 0x0257⟩ ::
  ⟨Op.WRITE_REG_DATA, 0x98C, 0x2747⟩ ::
  ⟨Op.WRITE_REG_DATA, 0x990, 0x0000⟩ ::
  ⟨Op.WRITE_REG_DATA, 0x98C, 0x2749⟩ ::
  ⟨Op.WRITE_REG_DATA, 0x990, 0x063F⟩ ::
  ⟨Op.WRITE_REG_DATA, 0x98C, 0x274B⟩ ::
  ⟨Op.WRITE_REG_DATA, 0x990, 0x0000⟩ ::
  ⟨Op.WRITE_REG_DATA, 0x98C, 0x274D⟩ ::
  ⟨Op.WRITE_REG_DATA, 0x990, 0x04AF⟩ ::
  ⟨Op.WRITE_REG_DATA, 0x98C, 0x222D⟩ ::
  ⟨Op.WRITE_REG_DATA, 0x990, 0x00AD⟩ ::
  ⟨Op.WRITE_REG_DATA, 0x98C, 0xA408⟩ ::
  ⟨Op.WRITE_REG_DATA, 0x990, 0x002A⟩ ::
  ⟨Op.WRITE_REG_DATA, 0x98C, 0xA409⟩ ::
  ⟨Op.WRITE_REG_DATA, 0x990, 0x002C⟩ ::
  ⟨Op.WRITE_REG_DATA, 0x98C, 0xA40A⟩ ::
  ⟨Op.WRITE_REG_DATA, 0x990, 0x0032⟩ ::
  ⟨Op.WRITE_REG_DATA, 0x98C, 0xA40B⟩ ::
  ⟨Op.WRITE_REG_DATA, 0x990, 0x0034⟩ ::
  ⟨Op.WRITE_REG_DATA, 0x98C, 0x2411⟩ ::
  ⟨Op.WRITE_REG_DATA, 0x990, 0x00AD⟩ ::
  ⟨Op.WRITE_REG_DATA, 0x98C, 0x2413⟩ ::
  ⟨Op.WRITE_REG_DATA, 0x990, 0x00CF⟩ ::
  ⟨Op.WRITE_REG_DATA, 0x98C, 0x2415⟩ ::
  ⟨Op.WRITE_REG_DATA, 0x990, 0x009E⟩ ::
  ⟨Op.WRITE_REG_DATA, 0x98C, 0x2417⟩ ::
  ⟨Op.WRITE_REG_DATA, 0x990, 0x00BD⟩ ::
  ⟨Op.WRITE_REG_DATA, 0x98C, 0xA404⟩ ::
  ⟨Op.WRITE_REG_DATA, 0x990, 0x0010⟩ ::
  ⟨Op.WRITE_REG_DATA, 0x98C, 0xA40D⟩ ::
  ⟨Op.WRITE_REG_DATA, 0x990, 0x0002⟩ ::
  ⟨Op.WRITE_REG_DATA, 0x98C, 0xA40E⟩ ::
  ⟨Op.WRITE_REG_DATA, 0x990, 0x0003⟩ ::
  ⟨Op.WRITE_REG_DATA, 0x98C, 0xA410⟩ ::
  ⟨Op.WRITE_REG_DATA, 0x990, 0x000A⟩ ::
  ⟨Op.REG_TABLE_END, 0x0000, 0x0000⟩ :: []

def refresh_mode : List soc2030_regs :=
  ⟨Op.WRITE_REG_DATA, 0x098C, 0xa103⟩ ::
  ⟨Op.WRITE_REG_DATA, 0x0990, 0x0006⟩ ::
  ⟨Op.POLL_VAR_DATA, 0xa103, 0x0000⟩ ::
  ⟨Op.REG_TABLE_END, 0x0000, 0x0000⟩ :: []

def refresh_state : List soc2030_regs :=
  ⟨Op.WRITE_REG_DATA, 0x098C, 0xa103⟩ ::
  ⟨Op.WRITE_REG_DATA, 0x0990, 0x0005⟩ ::
  ⟨Op.POLL_VAR_DATA, 0xa103, 0x0000⟩ ::
  ⟨Op.REG_TABLE_END, 0x0000, 0x0000⟩ :: []

def mode_800x600 : List soc2030_regs :=
  ⟨Op.WRITE_REG_DATA, 0x98C, 0x2703⟩ ::
  ⟨Op.WRITE_REG_DATA, 0x990, 0x0320⟩ ::
  ⟨Op.WRITE_REG_DATA, 0x98C, 0x2705⟩ ::
  ⟨Op.WRITE_REG_DATA, 0x990, 0x0258⟩ ::
  ⟨Op.WRITE_REG_DATA, 0x98C, 0x270D⟩ ::
  ⟨Op.WRITE_REG_DATA, 0x990, 0x0000⟩ ::
  ⟨Op.WRITE_REG_DATA, 0x98C, 0x270F⟩ ::
  ⟨Op.WRITE_REG_DATA, 0x990, 0x0000⟩ ::
  ⟨Op.WRITE_REG_DATA, 0x98C, 0x2711⟩ ::
  ⟨Op.WRITE_REG_DATA, 0x990, 0x04BD⟩ ::
  ⟨Op.WRITE_REG_DATA, 0x98C, 0x2713⟩ ::
  ⟨Op.WRITE_REG_DATA, 0x990, 0x064D⟩ ::
  ⟨Op.WRITE_REG_DATA, 0x98C, 0x2715⟩ ::
  ⟨Op.WRITE_REG_DATA, 0x990, 0x0111⟩ ::
  ⟨Op.WRITE_REG_DATA, 0x98C, 0x2717⟩ ::
  ⟨Op.WRITE_REG_DATA, 0x990, 0x046C⟩ ::
  ⟨Op.WRITE_REG_DATA, 0x98C, 0x2719⟩ ::
  ⟨Op.WRITE_REG_DATA, 0x990, 0x005A⟩ ::
  ⟨Op.WRITE_REG_DATA, 0x98C, 0x271B⟩ ::
  ⟨Op.WRITE_REG_DATA, 0x990, 0x01BE⟩ ::
  ⟨Op.WRITE_REG_DATA, 0x98C, 0x271D⟩ ::
  ⟨Op.WRITE_REG_DATA, 0x990, 0x0131⟩ ::
  ⟨Op.WRITE_REG_DATA, 0x98C, 0x271F⟩ ::
  ⟨Op.WRITE_REG_DATA, 0x990, 0x02B3⟩ ::
  ⟨Op.WRITE_REG_DATA, 0x98C, 0x2721⟩ ::
  ⟨Op.WRITE_REG_DATA, 0x990, 0x07EA⟩ ::
  ⟨Op.WRITE_REG_DATA, 0x98C, 0x2739⟩ ::
  ⟨Op.WRITE_REG_DATA, 0x990, 0x0000⟩ ::
  ⟨Op.WRITE_REG_DATA, 0x98C, 0x273B⟩ ::
  ⟨Op.WRITE_REG_DATA, 0x990, 0x031F⟩ ::
  ⟨Op.WRITE_REG_DATA, 0x98C, 0x273D⟩ ::
  ⟨Op.WRITE_REG_DATA, 0x990, 0x0000⟩ ::
  ⟨Op.WRITE_REG_DATA, 0x98C, 0x273F⟩ ::
  ⟨Op.WRITE_REG_DATA, 0x990, 0x0257⟩ ::
  ⟨Op.WRITE_REG_DATA, 0x98C, 0x222D⟩ ::
  ⟨Op.WRITE_REG_DATA, 0x990, 0x00AD⟩ ::
  ⟨Op.WRITE_REG_DATA, 0x98C, 0xA408⟩ ::
  ⟨Op.WRITE_REG_DATA, 0x990, 0x002A⟩ ::
  ⟨Op.WRITE_REG_DATA, 0x98C, 0xA409⟩ ::
  ⟨Op.WRITE_REG_DATA, 0x990, 0x002C⟩ ::
  ⟨Op.WRITE_REG_DATA, 0x98C, 0xA40A⟩ ::
  ⟨Op.WRITE_REG_DATA, 0x990, 0x0032⟩ ::
  ⟨Op.WRITE_REG_DATA, 0x98C, 0xA40B⟩ ::
  ⟨Op.WRITE_REG_DATA, 0x990, 0x0034⟩ ::
  ⟨Op.WRITE_REG_DATA, 0x98C, 0x2411⟩ ::
  ⟨Op.WRITE_REG_DATA, 0x990, 0x00AD⟩ ::
  ⟨Op.WRITE_REG_DATA, 0x98C, 0x2413⟩ ::
  ⟨Op.WRITE_REG_DATA, 0x990, 0x00CF⟩ ::
  ⟨Op.WRITE_REG_BIT_L, 0x3040, 0x1000⟩ ::
  ⟨Op.WRITE_REG_DATA, 0x098C, 0xA215⟩ ::
  ⟨Op.WRITE_REG_DATA, 0x0990, INDEX_15FPS⟩ ::
  ⟨Op.WRITE_REG_DATA, 0x098C, 0xA20C⟩ ::
  ⟨Op.WRITE_REG_DATA, 0x0990, INDEX_15FPS⟩ ::
  ⟨Op.WRITE_REG_DATA, 0x098C, 0xA115⟩ ::
  ⟨Op.WRITE_REG_VAR 0, 0x0990, 0x0000⟩ ::
  ⟨Op.WRITE_REG_DATA, 0x098C, 0xA11D⟩ ::
  ⟨Op.WRITE_REG_VAR 1, 0x0990, 0x0000⟩ ::
  ⟨Op.WRITE_REG_DATA, 0x098C, 0xA117⟩ ::
  ⟨Op.WRITE_REG_VAR 1, 0x0990, 0x0000⟩ ::
  ⟨Op.WRITE_REG_DATA, 0x098C, 0xA129⟩ ::
  ⟨Op.WRITE_REG_VAR 1, 0x0990, 0x0000⟩ ::
  ⟨Op.WRITE_REG_DATA, 0x098C, 0xA11F⟩ ::
  ⟨Op.WRITE_REG_VAR 2, 0x0990, 0x0000⟩ ::
  ⟨Op.WRITE_REG_DATA, 0x098C, 0xA120⟩ ::
  ⟨Op.WRITE_REG_VAR 3, 0x0990, 0x0000⟩ ::
  ⟨Op.WRITE_REG_DATA, 0x098C, 0xA103⟩ ::
  ⟨Op.WRITE_REG_DATA, 0x0990, 0x0001⟩ ::
  ⟨Op.POLL_VAR_DATA, 0xa104, 0x0003⟩ ::
  ⟨Op.REG_TABLE_END, 0x0000, 0x0000⟩ :: []

def mode_1600x1200 : List soc2030_regs :=
  ⟨Op.WRITE_REG_DATA, 0x098C, 0xA215⟩ ::
  ⟨Op.WRITE_REG_DATA, 0x0990, INDEX_10FPS⟩ ::
  ⟨Op.WRITE_REG_DATA, 0x098C, 0xA20C⟩ ::
  ⟨Op.WRITE_REG_DATA, 0x0990, INDEX_10FPS⟩ ::
  ⟨Op.WRITE_REG_DATA, 0x098C, 0xA115⟩ ::
  ⟨Op.WRITE_REG_VAR 0, 0x0990, 0x0000⟩ ::
  ⟨Op.WRITE_REG_DATA, 0x098C, 0xA11D⟩ ::
  ⟨Op.WRITE_REG_VAR 1, 0x0990, 0x0000⟩ ::
  ⟨Op.WRITE_REG_DATA, 0x098C, 0xA117⟩ ::
  ⟨Op.WRITE_REG_VAR 1, 0x0990, 0x0000⟩ ::
  ⟨Op.WRITE_REG_DATA, 0x098C, 0xA129⟩ ::
  ⟨Op.WRITE_REG_VAR 1, 0x0990, 0x0000⟩ ::
  ⟨Op.WRITE_REG_DATA, 0x098C, 0xA11F⟩ ::
  ⟨Op.WRITE_REG_VAR 2, 0x0990, 0x0000⟩ ::
  ⟨Op.WRITE_REG_DATA, 0x098C, 0xA120⟩ ::
  ⟨Op.WRITE_REG_VAR 3, 0x0990, 0x0000⟩ ::
  ⟨Op.WRITE_REG_DATA, 0x098C, 0xA103⟩ ::
  ⟨Op.WRITE_REG_DATA, 0x0990, 0x0002⟩ ::
  ⟨Op.POLL_VAR_DATA, 0xa104, 0x0007⟩ ::
  ⟨Op.POLL_VAR_DATA, 0xa103, 0x0000⟩ ::
  ⟨Op.REG_TABLE_END, 0x0000, 0x0000⟩ :: []

def mode_1280x720 : List soc2030_regs :=
  ⟨Op.WRITE_REG_DATA, 0x98C, 0x2703⟩ ::
  ⟨Op.WRITE_REG_DATA, 0x990, 0x0500⟩ ::
  ⟨Op.WRITE_REG_DATA, 0x98C, 0x2705⟩ ::
  ⟨Op.WRITE_REG_DATA, 0x990, 0x02D0⟩ ::
  ⟨Op.WRITE_REG_DATA, 0x98C, 0x270D⟩ ::
  ⟨Op.WRITE_REG_DATA, 0x990, 0x00F6⟩ ::
  ⟨Op.WRITE_REG_DATA, 0x98C, 0x270F⟩ ::
  ⟨Op.WRITE_REG_DATA, 0x990, 0x00A6⟩ ::
  ⟨Op.WRITE_REG_DATA, 0x98C, 0x2711⟩ ::
  ⟨Op.WRITE_REG_DATA, 0x990, 0x03CD⟩ ::
  ⟨Op.WRITE_REG_DATA, 0x98C, 0x2713⟩ ::
  ⟨Op.WRITE_REG_DATA, 0x990, 0x05AD⟩ ::
  ⟨Op.WRITE_REG_DATA, 0x98C, 0x2715⟩ ::
  ⟨Op.WRITE_REG_DATA, 0x990, 0x0111⟩ ::
  ⟨Op.WRITE_REG_DATA, 0x98C, 0x2717⟩ ::
  ⟨Op.WRITE_REG_DATA, 0x990, 0x0024⟩ ::
  ⟨Op.WRITE_REG_DATA, 0x98C, 0x2719⟩ ::
  ⟨Op.WRITE_REG_DATA, 0x990, 0x003A⟩ ::
  ⟨Op.WRITE_REG_DATA, 0x98C, 0x271B⟩ ::
  ⟨Op.WRITE_REG_DATA, 0x990, 0x00F6⟩ ::
  ⟨Op.WRITE_REG_DATA, 0x98C, 0x271D⟩ ::
  ⟨Op.WRITE_REG_DATA, 0x990, 0x008B⟩ ::
  ⟨Op.WRITE_REG_DATA, 0x98C, 0x271F⟩ ::
  ⟨Op.WRITE_REG_DATA, 0x990, 0x032D⟩ ::
  ⟨Op.WRITE_REG_DATA, 0x98C, 0x2721⟩ ::
  ⟨Op.WRITE_REG_DATA, 0x990, 0x06BA⟩ ::
  ⟨Op.WRITE_REG_DATA, 0x98C, 0x2739⟩ ::
  ⟨Op.WRITE_REG_DATA, 0x990, 0x0000⟩ ::
  ⟨Op.WRITE_REG_DATA, 0x98C, 0x273B⟩ ::
  ⟨Op.WRITE_REG_DATA, 0x990, 0x04FF⟩ ::
  ⟨Op.WRITE_REG_DATA, 0x98C, 0x273D⟩ ::
  ⟨Op.WRITE_REG_DATA, 0x990, 0x0000⟩ ::
  ⟨Op.WRITE_REG_DATA, 0x98C, 0x273F⟩ ::
  ⟨Op.WRITE_REG_DATA, 0x990, 0x02CF⟩ ::
  ⟨Op.WRITE_REG_DATA, 0x98C, 0x2747⟩ ::
  ⟨Op.WRITE_REG_DATA, 0x990, 0x0000⟩ ::
  ⟨Op.WRITE_REG_DATA, 0x98C, 0x2749⟩ ::
  ⟨Op.WRITE_REG_DATA, 0x990, 0x063F⟩ ::
  ⟨Op.WRITE_REG_DATA, 0x98C, 0x274B⟩ ::
  ⟨Op.WRITE_REG_DATA, 0x990, 0x0000⟩ ::
  ⟨Op.WRITE_REG_DATA, 0x98C, 0x274D⟩ ::
  ⟨Op.WRITE_REG_DATA, 0x990, 0x04AF⟩ ::
  ⟨Op.WRITE_REG_DATA, 0x98C, 0x222D⟩ ::
  ⟨Op.WRITE_REG_DATA, 0x990, 0x00CB⟩ ::
  ⟨Op.WRITE_REG_DATA, 0x98C, 0xA408⟩ ::
  ⟨Op.WRITE_REG_DATA, 0x990, 0x0031⟩ ::
  ⟨Op.WRITE_REG_DATA, 0x98C, 0xA409⟩ ::
  ⟨Op.WRITE_REG_DATA, 0x990, 0x0033⟩ ::
  ⟨Op.WRITE_REG_DATA, 0x98C, 0xA40A⟩ ::
  ⟨Op.WRITE_REG_DATA, 0x990, 0x003C⟩ ::
  ⟨Op.WRITE_REG_DATA, 0x98C, 0xA40B⟩ ::
  ⟨Op.WRITE_REG_DATA, 0x990, 0x003E⟩ ::
  ⟨Op.WRITE_REG_DATA, 0x98C, 0x2411⟩ ::
  ⟨Op.WRITE_REG_DATA, 0x990, 0x00CB⟩ ::
  ⟨Op.WRITE_REG_DATA, 0x98C, 0x2413⟩ ::
  ⟨Op.WRITE_REG_DATA, 0x990, 0x00F4⟩ ::
  ⟨Op.WRITE_REG_DATA, 0x98C, 0xA404⟩ ::
  ⟨Op.WRITE_REG_DATA, 0x990, 0x0010⟩ ::
  ⟨Op.WRITE_REG_DATA, 0x98C, 0xA40D⟩ ::
  ⟨Op.WRITE_REG_DATA, 0x990, 0x0002⟩ ::
  ⟨Op.WRITE_REG_DATA, 0x98C, 0xA40E⟩ ::
  ⟨Op.WRITE_REG_DATA, 0x990, 0x0003⟩ ::
  ⟨Op.WRITE_REG_DATA, 0x98C, 0xA410⟩ ::
  ⟨Op.WRITE_REG_DATA, 0x990, 0x000A⟩ ::
  ⟨Op.WRITE_REG_BIT_H, 0x3040, 0x1000⟩ ::
  ⟨Op.WRITE_REG_DATA, 0x098C, 0xA215⟩ ::
  ⟨Op.WRITE_REG_DATA, 0x0990, INDEX_15FPS⟩ ::
  ⟨Op.WRITE_REG_DATA, 0x098C, 0xA20C⟩ ::
  ⟨Op.WRITE_REG_DATA, 0x0990, INDEX_15FPS⟩ ::
  ⟨Op.WRITE_REG_DATA, 0x098C, 0xA115⟩ ::
  ⟨Op.WRITE_REG_DATA, 0x0990, 0x0072⟩ ::
  ⟨Op.WRITE_REG_DATA, 0x098C, 0xA11D⟩ ::
  ⟨Op.WRITE_REG_DATA, 0x0990, 0x0001⟩ ::
  ⟨Op.WRITE_REG_DATA, 0x098C, 0xA117⟩ ::
  ⟨Op.WRITE_REG_DATA, 0x0990, 0x0001⟩ ::
  ⟨Op.WRITE_REG_DATA, 0x098C, 0xA129⟩ ::
  ⟨Op.WRITE_REG_DATA, 0x0990, 0x0001⟩ ::
  ⟨Op.WRITE_REG_DATA, 0x098C, 0xA11F⟩ ::
  ⟨Op.WRITE_REG_DATA, 0x0990, 0x0001⟩ ::
  ⟨Op.WRITE_REG_DATA, 0x098C, 0xA120⟩ ::
  ⟨Op.WRITE_REG_VAR 3, 0x0990, 0x0000⟩ ::
  ⟨Op.WRITE_REG_DATA, 0x098C, 0xA103⟩ ::
  ⟨Op.WRITE_REG_DATA, 0x0990, 0x0001⟩ ::
  ⟨Op.POLL_VAR_DATA, 0xa104, 0x0003⟩ ::
  ⟨Op.REG_TABLE_END, 0x0000, 0x0000⟩ :: []

def pll_table : List soc2030_regs :=
  ⟨Op.WRITE_REG_DATA, 0x001e, 0x0503⟩ ::
  ⟨Op.WRITE_REG_DATA, 0x0014, 0x2545⟩ ::
  ⟨Op.WRITE_REG_DATA, 0x0010, 0x0a56⟩ ::
  ⟨Op.WRITE_REG_DATA, 0x0012, 0x10F7⟩ ::
  ⟨Op.WRITE_REG_DATA, 0x0014, 0x2547⟩ ::
  ⟨Op.WRITE_REG_DATA, 0x0014, 0x2447⟩ ::
  ⟨Op.DELAY_MS, 0x0000, 0x0010⟩ ::
  ⟨Op.WRITE_REG_DATA, 0x0014, 0x2047⟩ ::
  ⟨Op.WRITE_REG_BIT_L, 0x0014, 0x0001⟩ ::
  ⟨Op.WRITE_REG_BIT_H, 0x001a, 0x0200⟩ ::
  ⟨Op.WRITE_REG_BIT_L, 0x001a, 0x0004⟩ ::
  ⟨Op.WRITE_REG_BIT_H, 0x0018, 0x0004⟩ ::
  ⟨Op.WRITE_REG_BIT_L, 0x0018, 0x0001⟩ ::
  ⟨Op.POLL_REG_BIT_L, 0x0018, 0x4000⟩ ::
  ⟨Op.WRITE_REG_DATA, 0x321C, 0x0000⟩ ::
  ⟨Op.REG_TABLE_END, 0x0000, 0x0000⟩ :: []

def WakeMcuSequence : List soc2030_regs :=
  ⟨Op.WRITE_VAR_DATA, 0x2755, 0x0200⟩ ::
  ⟨Op.WRITE_VAR_DATA, 0x2757, 0x0200⟩ ::
  ⟨Op.WRITE_REG_BIT_L, 0x0018, 0x0004⟩ ::
  ⟨Op.POLL_VAR_DATA, 0xa104, 0x0003⟩ ::
  ⟨Op.POLL_REG_BIT_L, 0x0018, 0x4000⟩ ::
  ⟨Op.REG_TABLE_END, 0x0000, 0x0000⟩ :: []

def SetRev2ErrataSequence : List soc2030_regs :=
  ⟨Op.WRITE_REG_DATA, 0x3084, 0x240C⟩ ::
  ⟨Op.WRITE_REG_DATA, 0x3092, 0x0A4C⟩ ::
  ⟨Op.WRITE_REG_DATA, 0x3094, 0x4C4C⟩ ::
  ⟨Op.WRITE_REG_DATA, 0x3096, 0x4C54⟩ ::
  ⟨Op.REG_TABLE_END, 0x0000, 0x0000⟩ :: []

def SetLensCorrectionSequence : List soc2030_regs :=
  ⟨Op.WRITE_REG_DATA, 0x3210, 0x01B8⟩ ::
  ⟨Op.REG_TABLE_END, 0x0000, 0x0000⟩ :: []

def SetLowLightSequence : List soc2030_regs :=
  ⟨Op.WRITE_REG_DATA, 0x098C, 0x2B28⟩ ::
  ⟨Op.WRITE_REG_DATA, 0x0990, 0x35E8⟩ ::
  ⟨Op.WRITE_REG_DATA, 0x098C, 0x2B2A⟩ ::
  ⟨Op.WRITE_REG_DATA, 0x0990, 0xB3B0⟩ ::
  ⟨Op.WRITE_REG_DATA, 0x098C, 0xAB20⟩ ::
  ⟨Op.WRITE_REG_DATA, 0x0990, 0x004B⟩ ::
  ⟨Op.WRITE_REG_DATA, 0x098C, 0xAB24⟩ ::
  ⟨Op.WRITE_REG_DATA, 0x0990, 0x0000⟩ ::
  ⟨Op.WRITE_REG_DATA, 0x098C, 0xAB25⟩ ::
  ⟨Op.WRITE_REG_DATA, 0x0990, 0x00FF⟩ ::
  ⟨Op.WRITE_REG_DATA, 0x098C, 0xAB30⟩ ::
  ⟨Op.WRITE_REG_DATA, 0x0990, 0x00FF⟩ ::
  ⟨Op.WRITE_REG_DATA, 0x098C, 0xAB31⟩ ::
  ⟨Op.WRITE_REG_DATA, 0x0990, 0x00FF⟩ ::
  ⟨Op.WRITE_REG_DATA, 0x098C, 0xAB32⟩ ::
  ⟨Op.WRITE_REG_DATA, 0x0990, 0x00FF⟩ ::
  ⟨Op.WRITE_REG_DATA, 0x098C, 0xAB33⟩ ::
  ⟨Op.WRITE_REG_DATA, 0x0990, 0x0057⟩ ::
  ⟨Op.WRITE_REG_DATA, 0x098C, 0xAB34⟩ ::
  ⟨Op.WRITE_REG_DATA, 0x0990, 0x0080⟩ ::
  ⟨Op.WRITE_REG_DATA, 0x098C, 0xAB35⟩ ::
  ⟨Op.WRITE_REG_DATA, 0x0990, 0x00FF⟩ ::
  ⟨Op.WRITE_REG_DATA, 0x098C, 0xAB36⟩ ::
  ⟨Op.WRITE_REG_DATA, 0x0990, 0x0014⟩ ::
  ⟨Op.WRITE_REG_DATA, 0x098C, 0xAB37⟩ ::
  ⟨Op.WRITE_REG_DATA, 0x0990, 0x0003⟩ ::
  ⟨Op.WRITE_REG_DATA, 0x098C, 0x2B38⟩ ::
  ⟨Op.WRITE_REG_DATA, 0x0990, 0x32C8⟩ ::
  ⟨Op.WRITE_REG_DATA, 0x098C, 0x2B3A⟩ ::
  ⟨Op.WRITE_REG_DATA, 0x0990, 0x7918⟩ ::
  ⟨Op.WRITE_REG_DATA, 0x098C, 0x2B62⟩ ::
  ⟨Op.WRITE_REG_DATA, 0x0990, 0xFFFE⟩ ::
  ⟨Op.WRITE_REG_DATA, 0x098C, 0x2B64⟩ ::
  ⟨Op.WRITE_REG_DATA, 0x0990, 0xFFFF⟩ ::
  ⟨Op.REG_TABLE_END, 0x0000, 0x0000⟩ :: []

def SetCCMCommonSequence : List soc2030_regs :=
  ⟨Op.WRITE_REG_DATA, 0x098c, 0xA11F⟩ ::
  ⟨Op.WRITE_REG_DATA, 0x0990, 0x0001⟩ ::
  ⟨Op.WRITE_REG_DATA, 0x098c, 0xA20B⟩ ::
  ⟨Op.WRITE_REG_DATA, 0x0990, 0x0000⟩ ::
  ⟨Op.WRITE_REG_DATA, 0x098C, 0xA215⟩ ::
  ⟨Op.WRITE_REG_DATA, 0x0990, INDEX_15FPS⟩ ::
  ⟨Op.WRITE_REG_DATA, 0x098C, 0xA20C⟩ ::
  ⟨Op.WRITE_REG_DATA, 0x0990, INDEX_15FPS⟩ ::
  ⟨Op.REG_TABLE_END, 0x0000, 0x0000⟩ :: []

def SetCCMAutoSequence : List soc2030_regs :=
  ⟨Op.REG_TABLE_END, 0x0000, 0x0000⟩ :: []

def SetDenoiseSequence : List soc2030_regs :=
  ⟨Op.REG_TABLE_END, 0x0000, 0x0000⟩ :: []

def SetRev3PatchSequence : List soc2030_regs :=
  ⟨Op.WRITE_REG_DATA, 0x098C, 0x0415⟩ ::
  ⟨Op.WRITE_REG_DATA, 0x0990, 0xF601⟩ ::
  ⟨Op.WRITE_REG_DATA, 0x0992, 0x42C1⟩ ::
  ⟨Op.WRITE_REG_DATA, 0x0994, 0x0326⟩ ::
  ⟨Op.WRITE_REG_DATA, 0x0996, 0x11F6⟩ ::
  ⟨Op.WRITE_REG_DATA, 0x0998, 0x0143⟩ ::
  ⟨Op.WRITE_REG_DATA, 0x099A, 0xC104⟩ ::
  ⟨Op.WRITE_REG_DATA, 0x099C, 0x260A⟩ ::
  ⟨Op.WRITE_REG_DATA, 0x099E, 0xCC04⟩ ::
  ⟨Op.WRITE_REG_DATA, 0x098C, 0x0425⟩ ::
  ⟨Op.WRITE_REG_DATA, 0x0990, 0x33BD⟩ ::
  ⟨Op.WRITE_REG_DATA, 0x0992, 0xA362⟩ ::
  ⟨Op.WRITE_REG_DATA, 0x0994, 0xBD04⟩ ::
  ⟨Op.WRITE_REG_DATA, 0x0996, 0x3339⟩ ::
  ⟨Op.WRITE_REG_DATA, 0x0998, 0xC6FF⟩ ::
  ⟨Op.WRITE_REG_DATA, 0x099A, 0xF701⟩ ::
  ⟨Op.WRITE_REG_DATA, 0x099C, 0x6439⟩ ::
  ⟨Op.WRITE_REG_DATA, 0x099E, 0xFE01⟩ ::
  ⟨Op.WRITE_REG_DATA, 0x098C, 0x0435⟩ ::
  ⟨Op.WRITE_REG_DATA, 0x0990, 0x6918⟩ ::
  ⟨Op.WRITE_REG_DATA, 0x0992, 0xCE03⟩ ::
  ⟨Op.WRITE_REG_DATA, 0x0994, 0x25CC⟩ ::
  ⟨Op.WRITE_REG_DATA, 0x0996, 0x0013⟩ ::
  ⟨Op.WRITE_REG_DATA, 0x0998, 0xBDC2⟩ ::
  ⟨Op.WRITE_REG_DATA, 0x099A, 0xB8CC⟩ ::
  ⟨Op.WRITE_REG_DATA, 0x099C, 0x0489⟩ ::
  ⟨Op.WRITE_REG_DATA, 0x099E, 0xFD03⟩ ::
  ⟨Op.WRITE_REG_DATA, 0x098C, 0x0445⟩ ::
  ⟨Op.WRITE_REG_DATA, 0x0990, 0x27CC⟩ ::
  ⟨Op.WRITE_REG_DATA, 0x0992, 0x0325⟩ ::
  ⟨Op.WRITE_REG_DATA, 0x0994, 0xFD01⟩ ::
  ⟨Op.WRITE_REG_DATA, 0x0996, 0x69FE⟩ ::
  ⟨Op.WRITE_REG_DATA, 0x0998, 0x02BD⟩ ::
  ⟨Op.WRITE_REG_DATA, 0x099A, 0x18CE⟩ ::
  ⟨Op.WRITE_REG_DATA, 0x099C, 0x0339⟩ ::
  ⟨Op.WRITE_REG_DATA, 0x099E, 0xCC00⟩ ::
  ⟨Op.WRITE_REG_DATA, 0x098C, 0x0455⟩ ::
  ⟨Op.WRITE_REG_DATA, 0x0990, 0x11BD⟩ ::
  ⟨Op.WRITE_REG_DATA, 0x0992, 0xC2B8⟩ ::
  ⟨Op.WRITE_REG_DATA, 0x0994, 0xCC04⟩ ::
  ⟨Op.WRITE_REG_DATA, 0x0996, 0xC8FD⟩ ::
  ⟨Op.WRITE_REG_DATA, 0x0998, 0x0347⟩ ::
  ⟨Op.WRITE_REG_DATA, 0x099A, 0xCC03⟩ ::
  ⟨Op.WRITE_REG_DATA, 0x099C, 0x39FD⟩ ::
  ⟨Op.WRITE_REG_DATA, 0x099E, 0x02BD⟩ ::
  ⟨Op.WRITE_REG_DATA, 0x098C, 0x0465⟩ ::
  ⟨Op.WRITE_REG_DATA, 0x0990, 0xDE00⟩ ::
  ⟨Op.WRITE_REG_DATA, 0x0992, 0x18CE⟩ ::
  ⟨Op.WRITE_REG_DATA, 0x0994, 0x00C2⟩ ::
  ⟨Op.WRITE_REG_DATA, 0x0996, 0xCC00⟩ ::
  ⟨Op.WRITE_REG_DATA, 0x0998, 0x37BD⟩ ::
  ⟨Op.WRITE_REG_DATA, 0x099A, 0xC2B8⟩ ::
  ⟨Op.WRITE_REG_DATA, 0x099C, 0xCC04⟩ ::
  ⟨Op.WRITE_REG_DATA, 0x099E, 0xEFDD⟩ ::
  ⟨Op.WRITE_REG_DATA, 0x098C, 0x0475⟩ ::
  ⟨Op.WRITE_REG_DATA, 0x0990, 0xE6CC⟩ ::
  ⟨Op.WRITE_REG_DATA, 0x0992, 0x00C2⟩ ::
  ⟨Op.WRITE_REG_DATA, 0x0994, 0xDD00⟩ ::
  ⟨Op.WRITE_REG_DATA, 0x0996, 0xC601⟩ ::
  ⟨Op.WRITE_REG_DATA, 0x0998, 0xF701⟩ ::
  ⟨Op.WRITE_REG_DATA, 0x099A, 0x64C6⟩ ::
  ⟨Op.WRITE_REG_DATA, 0x099C, 0x03F7⟩ ::
  ⟨Op.WRITE_REG_DATA, 0x099E, 0x0165⟩ ::
  ⟨Op.WRITE_REG_DATA, 0x098C, 0x0485⟩ ::
  ⟨Op.WRITE_REG_DATA, 0x0990, 0x7F01⟩ ::
  ⟨Op.WRITE_REG_DATA, 0x0992, 0x6639⟩ ::
  ⟨Op.WRITE_REG_DATA, 0x0994, 0x3C3C⟩ ::
  ⟨Op.WRITE_REG_DATA, 0x0996, 0x3C34⟩ ::
  ⟨Op.WRITE_REG_DATA, 0x0998, 0xCC32⟩ ::
  ⟨Op.WRITE_REG_DATA, 0x099A, 0x3EBD⟩ ::
  ⟨Op.WRITE_REG_DATA, 0x099C, 0xA558⟩ ::
  ⟨Op.WRITE_REG_DATA, 0x099E, 0x30ED⟩ ::
  ⟨Op.WRITE_REG_DATA, 0x098C, 0x0495⟩ ::
  ⟨Op.WRITE_REG_DATA, 0x0990, 0x04BD⟩ ::
  ⟨Op.WRITE_REG_DATA, 0x0992, 0xB2D7⟩ ::
  ⟨Op.WRITE_REG_DATA, 0x0994, 0x30E7⟩ ::
  ⟨Op.WRITE_REG_DATA, 0x0996, 0x06CC⟩ ::
  ⟨Op.WRITE_REG_DATA, 0x0998, 0x323E⟩ ::
  ⟨Op.WRITE_REG_DATA, 0x099A, 0xED00⟩ ::
  ⟨Op.WRITE_REG_DATA, 0x099C, 0xEC04⟩ ::
  ⟨Op.WRITE_REG_DATA, 0x099E, 0xBDA5⟩ ::
  ⟨Op.WRITE_REG_DATA, 0x098C, 0x04A5⟩ ::
  ⟨Op.WRITE_REG_DATA, 0x0990, 0x44CC⟩ ::
  ⟨Op.WRITE_REG_DATA, 0x0992, 0x3244⟩ ::
  ⟨Op.WRITE_REG_DATA, 0x0994, 0xBDA5⟩ ::
  ⟨Op.WRITE_REG_DATA, 0x0996, 0x585F⟩ ::
  ⟨Op.WRITE_REG_DATA, 0x0998, 0x30ED⟩ ::
  ⟨Op.WRITE_REG_DATA, 0x099A, 0x02CC⟩ ::
  ⟨Op.WRITE_REG_DATA, 0x099C, 0x3244⟩ ::
  ⟨Op.WRITE_REG_DATA, 0x099E, 0xED00⟩ ::
  ⟨Op.WRITE_REG_DATA, 0x098C, 0x04B5⟩ ::
  ⟨Op.WRITE_REG_DATA, 0x0990, 0xF601⟩ ::
  ⟨Op.WRITE_REG_DATA, 0x0992, 0xD54F⟩ ::
  ⟨Op.WRITE_REG_DATA, 0x0994, 0xEA03⟩ ::
  ⟨Op.WRITE_REG_DATA, 0x0996, 0xAA02⟩ ::
  ⟨Op.WRITE_REG_DATA, 0x0998, 0xBDA5⟩ ::
  ⟨Op.WRITE_REG_DATA, 0x099A, 0x4430⟩ ::
  ⟨Op.WRITE_REG_DATA, 0x099C, 0xE606⟩ ::
  ⟨Op.WRITE_REG_DATA, 0x099E, 0x3838⟩ ::
  ⟨Op.WRITE_REG_DATA, 0x098C, 0x04C5⟩ ::
  ⟨Op.WRITE_REG_DATA, 0x0990, 0x3831⟩ ::
  ⟨Op.WRITE_REG_DATA, 0x0992, 0x39BD⟩ ::
  ⟨Op.WRITE_REG_DATA, 0x0994, 0xD661⟩ ::
  ⟨Op.WRITE_REG_DATA, 0x0996, 0xF602⟩ ::
  ⟨Op.WRITE_REG_DATA, 0x0998, 0xF4C1⟩ ::
  ⟨Op.WRITE_REG_DATA, 0x099A, 0x0126⟩ ::
  ⟨Op.WRITE_REG_DATA, 0x099C, 0x0BFE⟩ ::
  ⟨Op.WRITE_REG_DATA, 0x099E, 0x02BD⟩ ::
  ⟨Op.WRITE_REG_DATA, 0x098C, 0x04D5⟩ ::
  ⟨Op.WRITE_REG_DATA, 0x0990, 0xEE10⟩ ::
  ⟨Op.WRITE_REG_DATA, 0x0992, 0xFC02⟩ ::
  ⟨Op.WRITE_REG_DATA, 0x0994, 0xF5AD⟩ ::
  ⟨Op.WRITE_REG_DATA, 0x0996, 0x0039⟩ ::
  ⟨Op.WRITE_REG_DATA, 0x0998, 0xF602⟩ ::
  ⟨Op.WRITE_REG_DATA, 0x099A, 0xF4C1⟩ ::
  ⟨Op.WRITE_REG_DATA, 0x099C, 0x0226⟩ ::
  ⟨Op.WRITE_REG_DATA, 0x099E, 0x0AFE⟩ ::
  ⟨Op.WRITE_REG_DATA, 0x098C, 0x04E5⟩ ::
  ⟨Op.WRITE_REG_DATA, 0x0990, 0x02BD⟩ ::
  ⟨Op.WRITE_REG_DATA, 0x0992, 0xEE10⟩ ::
  ⟨Op.WRITE_REG_DATA, 0x0994, 0xFC02⟩ ::
  ⟨Op.WRITE_REG_DATA, 0x0996, 0xF7AD⟩ ::
  ⟨Op.WRITE_REG_DATA, 0x0998, 0x0039⟩ ::
  ⟨Op.WRITE_REG_DATA, 0x099A, 0x3CBD⟩ ::
  ⟨Op.WRITE_REG_DATA, 0x099C, 0xB059⟩ ::
  ⟨Op.WRITE_REG_DATA, 0x099E, 0xCC00⟩ ::
  ⟨Op.WRITE_REG_DATA, 0x098C, 0x04F5⟩ ::
  ⟨Op.WRITE_REG_DATA, 0x0990, 0x28BD⟩ ::
  ⟨Op.WRITE_REG_DATA, 0x0992, 0xA558⟩ ::
  ⟨Op.WRITE_REG_DATA, 0x0994, 0x8300⟩ ::
  ⟨Op.WRITE_REG_DATA, 0x0996, 0x0027⟩ ::
  ⟨Op.WRITE_REG_DATA, 0x0998, 0x0BCC⟩ ::
  ⟨Op.WRITE_REG_DATA, 0x099A, 0x0026⟩ ::
  ⟨Op.WRITE_REG_DATA, 0x099C, 0x30ED⟩ ::
  ⟨Op.WRITE_REG_DATA, 0x099E, 0x00C6⟩ ::
  ⟨Op.WRITE_REG_DATA, 0x098C, 0x0505⟩ ::
  ⟨Op.WRITE_REG_DATA, 0x0990, 0x03BD⟩ ::
  ⟨Op.WRITE_REG_DATA, 0x0992, 0xA544⟩ ::
  ⟨Op.WRITE_REG_DATA, 0x0994, 0x3839⟩ ::
  ⟨Op.WRITE_REG_DATA, 0x098C, 0x2006⟩ ::
  ⟨Op.WRITE_REG_DATA, 0x0990, 0x0415⟩ ::
  ⟨Op.WRITE_REG_DATA, 0x098C, 0xA005⟩ ::
  ⟨Op.WRITE_REG_DATA, 0x0990, 0x0001⟩ ::
  ⟨Op.DELAY_MS, 0x0000, 100⟩ ::
  ⟨Op.REG_TABLE_END, 0x0000, 0x0000⟩ :: []

def WbAutoSequence : List soc2030_regs :=
  ⟨Op.WRITE_REG_DATA, 0x098C, 0x2306⟩ ::
  ⟨Op.WRITE_REG_DATA, 0x0990, 0x0180⟩ ::
  ⟨Op.WRITE_REG_DATA, 0x098C, 0x2308⟩ ::
  ⟨Op.WRITE_REG_DATA, 0x0990, 0xFF00⟩ ::
  ⟨Op.WRITE_REG_DATA, 0x098C, 0x230A⟩ ::
  ⟨Op.WRITE_REG_DATA, 0x0990, 0x0080⟩ ::
  ⟨Op.WRITE_REG_DATA, 0x098C, 0x230C⟩ ::
  ⟨Op.WRITE_REG_DATA, 0x0990, 0xFF66⟩ ::
  ⟨Op.WRITE_REG_DATA, 0x098C, 0x230E⟩ ::
  ⟨Op.WRITE_REG_DATA, 0x0990, 0x0180⟩ ::
  ⟨Op.WRITE_REG_DATA, 0x098C, 0x2310⟩ ::
  ⟨Op.WRITE_REG_DATA, 0x0990, 0xFFEE⟩ ::
  ⟨Op.WRITE_REG_DATA, 0x098C, 0x2312⟩ ::
  ⟨Op.WRITE_REG_DATA, 0x0990, 0xFFCD⟩ ::
  ⟨Op.WRITE_REG_DATA, 0x098C, 0x2314⟩ ::
  ⟨Op.WRITE_REG_DATA, 0x0990, 0xFECD⟩ ::
  ⟨Op.WRITE_REG_DATA, 0x098C, 0x2316⟩ ::
  ⟨Op.WRITE_REG_DATA, 0x0990, 0x019A⟩ ::
  ⟨Op.WRITE_REG_DATA, 0x098C, 0x2318⟩ ::
  ⟨Op.WRITE_REG_DATA, 0x0990, 0x0020⟩ ::
  ⟨Op.WRITE_REG_DATA, 0x098C, 0x231A⟩ ::
  ⟨Op.WRITE_REG_DATA, 0x0990, 0x0033⟩ ::
  ⟨Op.WRITE_REG_DATA, 0x098C, 0x231C⟩ ::
  ⟨Op.WRITE_REG_DATA, 0x0990, 0x0100⟩ ::
  ⟨Op.WRITE_REG_DATA, 0x098C, 0x231E⟩ ::
  ⟨Op.WRITE_REG_DATA, 0x0990, 0xFF9A⟩ ::
  ⟨Op.WRITE_REG_DATA, 0x098C, 0x2320⟩ ::
  ⟨Op.WRITE_REG_DATA, 0x0990, 0x0000⟩ ::
  ⟨Op.WRITE_REG_DATA, 0x098C, 0x2322⟩ ::
  ⟨Op.WRITE_REG_DATA, 0x0990, 0x004D⟩ ::
  ⟨Op.WRITE_REG_DATA, 0x098C, 0x2324⟩ ::
  ⟨Op.WRITE_REG_DATA, 0x0990, 0xFFCD⟩ ::
  ⟨Op.WRITE_REG_DATA, 0x098C, 0x2326⟩ ::
  ⟨Op.WRITE_REG_DATA, 0x0990, 0xFFB8⟩ ::
  ⟨Op.WRITE_REG_DATA, 0x098C, 0x2328⟩ ::
  ⟨Op.WRITE_REG_DATA, 0x0990, 0x004D⟩ ::
  ⟨Op.WRITE_REG_DATA, 0x098C, 0x232A⟩ ::
  ⟨Op.WRITE_REG_DATA, 0x0990, 0x0080⟩ ::
  ⟨Op.WRITE_REG_DATA, 0x098C, 0x232C⟩ ::
  ⟨Op.WRITE_REG_DATA, 0x0990, 0xFF66⟩ ::
  ⟨Op.WRITE_REG_DATA, 0x098C, 0x232E⟩ ::
  ⟨Op.WRITE_REG_DATA, 0x0990, 0x0008⟩ ::
  ⟨Op.WRITE_REG_DATA, 0x098C, 0x2330⟩ ::
  ⟨Op.WRITE_REG_DATA, 0x0990, 0xFFF7⟩ ::
  ⟨Op.REG_TABLE_END, 0x0000, 0x0000⟩ :: []

def WbIncandescentSequence : List soc2030_regs :=
  ⟨Op.REG_TABLE_END, 0x0000, 0x0000⟩ :: []

def WbFluorescentSequence : List soc2030_regs :=
  ⟨Op.REG_TABLE_END, 0x0000, 0x0000⟩ :: []

def WbDaylightSequence : List soc2030_regs :=
  ⟨Op.REG_TABLE_END, 0x0000, 0x0000⟩ :: []

def WbCloudydaylightSequence : List soc2030_regs :=
  ⟨Op.REG_TABLE_END, 0x0000, 0x0000⟩ :: []

def WbNightSequence : List soc2030_regs :=
  ⟨Op.REG_TABLE_END, 0x0000, 0x0000⟩ :: []

def EffectNoneSequence : List soc2030_regs :=
  ⟨Op.WRITE_VAR_DATA, 0x2759, 0x6440⟩ ::
  ⟨Op.WRITE_VAR_DATA, 0x275B, 0x6440⟩ ::
  ⟨Op.REG_TABLE_END, 0x0000, 0x0000⟩ :: []

def EffectBwSequence : List soc2030_regs :=
  ⟨Op.WRITE_VAR_DATA, 0x2759, 0x6441⟩ ::
  ⟨Op.WRITE_VAR_DATA, 0x275B, 0x6441⟩ ::
  ⟨Op.REG_TABLE_END, 0x0000, 0x0000⟩ :: []

def EffectNegativeSequence : List soc2030_regs :=
  ⟨Op.WRITE_VAR_DATA, 0x2759, 0x6443⟩ ::
  ⟨Op.WRITE_VAR_DATA, 0x275B, 0x6443⟩ ::
  ⟨Op.REG_TABLE_END, 0x0000, 0x0000⟩ :: []

def EffectPosterizeSequence : List soc2030_regs :=
  ⟨Op.WRITE_VAR_DATA, 0x2759, 0x2044⟩ ::
  ⟨Op.WRITE_VAR_DATA, 0x275B, 0x2044⟩ ::
  ⟨Op.REG_TABLE_END, 0x0000, 0x0000⟩ :: []

def EffectSepiaSequence : List soc2030_regs :=
  ⟨Op.WRITE_VAR_DATA, 0x2759, 0x6442⟩ ::
  ⟨Op.WRITE_VAR_DATA, 0x275B, 0x6442⟩ ::
  ⟨Op.WRITE_VAR_DATA, 0x2763, 0xB023⟩ ::
  ⟨Op.REG_TABLE_END, 0x0000, 0x0000⟩ :: []

def EffectSolarizeSequence : List soc2030_regs :=
  ⟨Op.WRITE_VAR_DATA, 0x2759, 0x4444⟩ ::
  ⟨Op.WRITE_VAR_DATA, 0x275B, 0x4444⟩ ::
  ⟨Op.REG_TABLE_END, 0x0000, 0x0000⟩ :: []

def EffectAquaSequence : List soc2030_regs :=
  ⟨Op.WRITE_VAR_DATA, 0x2759, 0x6442⟩ ::
  ⟨Op.WRITE_VAR_DATA, 0x275B, 0x6442⟩ ::
  ⟨Op.WRITE_VAR_DATA, 0x2763, 0x1DE3⟩ ::
  ⟨Op.REG_TABLE_END, 0x0000, 0x0000⟩ :: []

def exposureLockSequence : List soc2030_regs :=
  ⟨Op.WRITE_REG_DATA, 0x098c, 0xA102⟩ ::
  ⟨Op.WRITE_REG_BIT_L, 0x0990, 0x0009⟩ ::
  ⟨Op.WRITE_REG_DATA, 0x098C, 0xA115⟩ ::
  ⟨Op.WRITE_REG_DATA, 0x0990, 0x0000⟩ ::
  ⟨Op.WRITE_REG_DATA, 0x098C, 0xA11D⟩ ::
  ⟨Op.WRITE_REG_DATA, 0x0990, 0x0000⟩ ::
  ⟨Op.WRITE_REG_DATA, 0x098C, 0xA117⟩ ::
  ⟨Op.WRITE_REG_DATA, 0x0990, 0x0000⟩ ::
  ⟨Op.WRITE_REG_DATA, 0x098C, 0xA129⟩ ::
  ⟨Op.WRITE_REG_DATA, 0x0990, 0x0000⟩ ::
  ⟨Op.WRITE_REG_DATA, 0x098C, 0xA120⟩ ::
  ⟨Op.WRITE_REG_DATA, 0x0990, 0x0000⟩ ::
  ⟨Op.REG_TABLE_END, 0x0000, 0x0000⟩ :: []

def exposureUnLockSequence : List soc2030_regs :=
  ⟨Op.WRITE_REG_DATA, 0x098c, 0xA102⟩ ::
  ⟨Op.WRITE_REG_BIT_H, 0x0990, 0x0009⟩ ::
  ⟨Op.WRITE_REG_DATA, 0x098C, 0xA115⟩ ::
  ⟨Op.WRITE_REG_DATA, 0x0990, 0x0001⟩ ::
  ⟨Op.WRITE_REG_DATA, 0x098C, 0xA11D⟩ ::
  ⟨Op.WRITE_REG_DATA, 0x0990, 0x0001⟩ ::
  ⟨Op.WRITE_REG_DATA, 0x098C, 0xA117⟩ ::
  ⟨Op.WRITE_REG_DATA, 0x0990, 0x0001⟩ ::
  ⟨Op.WRITE_REG_DATA, 0x098C, 0xA129⟩ ::
  ⟨Op.WRITE_REG_DATA, 0x0990, 0x0001⟩ ::
  ⟨Op.WRITE_REG_DATA, 0x098C, 0xA120⟩ ::
  ⟨Op.WRITE_REG_DATA, 0x0990, 0x0001⟩ ::
  ⟨Op.WRITE_REG_DATA, 0x098C, 0xa103⟩ ::
  ⟨Op.WRITE_REG_DATA, 0x0990, 0x0006⟩ ::
  ⟨Op.POLL_VAR_DATA, 0xa103, 0x0000⟩ ::
  ⟨Op.WRITE_REG_DATA, 0x098C, 0xa103⟩ ::
  ⟨Op.WRITE_REG_DATA, 0x0990, 0x0005⟩ ::
  ⟨Op.POLL_VAR_DATA, 0xa103, 0x0000⟩ ::
  ⟨Op.REG_TABLE_END, 0x0000, 0x0000⟩ :: []

def awbLockSequence : List soc2030_regs :=
  ⟨Op.WRITE_REG_DATA, 0x098c, 0xA102⟩ ::
  ⟨Op.WRITE_REG_BIT_L, 0x0990, 0x0004⟩ ::
  ⟨Op.WRITE_REG_DATA, 0x098C, 0xA11F⟩ ::
  ⟨Op.WRITE_REG_DATA, 0x0990, 0x0000⟩ ::
  ⟨Op.REG_TABLE_END, 0x0000, 0x0000⟩ :: []

def awbUnLockSequence : List soc2030_regs :=
  ⟨Op.WRITE_REG_DATA, 0x098c, 0xA102⟩ ::
  ⟨Op.WRITE_REG_BIT_H, 0x0990, 0x0004⟩ ::
  ⟨Op.WRITE_REG_DATA, 0x098C, 0xA11F⟩ ::
  ⟨Op.WRITE_REG_DATA, 0x0990, 0x0001⟩ ::
  ⟨Op.WRITE_REG_DATA, 0x098C, 0xa103⟩ ::
  ⟨Op.WRITE_REG_DATA, 0x0990, 0x0006⟩ ::
  ⟨Op.POLL_VAR_DATA, 0xa103, 0x0000⟩ ::
  ⟨Op.WRITE_REG_DATA, 0x098C, 0xa103⟩ ::
  ⟨Op.WRITE_REG_DATA, 0x0990, 0x0005⟩ ::
  ⟨Op.POLL_VAR_DATA, 0xa103, 0x0000⟩ ::
  ⟨Op.REG_TABLE_END, 0x0000, 0x0000⟩ :: []

def ae_lock_state_sequence : List soc2030_regs :=
  ⟨Op.WRITE_REG_DATA, 0x302e, 0x0000⟩ ::
  ⟨Op.WRITE_REG_DATA, 0x3028, 0x0000⟩ ::
  ⟨Op.WRITE_REG_DATA, 0x3030, 0x0000⟩ ::
  ⟨Op.WRITE_REG_DATA, 0x302a, 0x0000⟩ ::
  ⟨Op.WRITE_REG_DATA, 0x302c, 0x0000⟩ ::
  ⟨Op.WRITE_REG_DATA, 0x3058, 0x0000⟩ ::
  ⟨Op.WRITE_REG_DATA, 0x3012, 0x0000⟩ ::
  ⟨Op.WRITE_REG_DATA, 0x3036, 0x0000⟩ ::
  ⟨Op.WRITE_REG_DATA, 0x3038, 0x0000⟩ ::
  ⟨Op.WRITE_REG_DATA, 0x3032, 0x0000⟩ ::
  ⟨Op.WRITE_REG_DATA, 0x3034, 0x0000⟩ ::
  ⟨Op.WRITE_REG_DATA, 0x3014, 0x0000⟩ ::
  ⟨Op.WRITE_REG_DATA, 0x3056, 0x0000⟩ ::
  ⟨Op.WRITE_REG_DATA, 0x305c, 0x0000⟩ ::
  ⟨Op.WRITE_REG_DATA, 0x305a, 0x0000⟩ ::
  ⟨Op.REG_TABLE_END, 0x0000, 0x0000⟩ :: []

def awb_lock_state_sequence : List soc2030_regs :=
  ⟨Op.WRITE_REG_DATA, 0x326c, 0x0000⟩ ::
  ⟨Op.WRITE_REG_DATA, 0x32da, 0x0000⟩ ::
  ⟨Op.WRITE_REG_DATA, 0x3280, 0x0000⟩ ::
  ⟨Op.WRITE_REG_DATA, 0x32c4, 0x0000⟩ ::
  ⟨Op.WRITE_REG_DATA, 0x32c6, 0x0000⟩ ::
  ⟨Op.WRITE_REG_DATA, 0x32c8, 0x0000⟩ ::
  ⟨Op.WRITE_REG_DATA, 0x32ca, 0x0000⟩ ::
  ⟨Op.WRITE_REG_DATA, 0x32cc, 0x0000⟩ ::
  ⟨Op.WRITE_REG_DATA, 0x32c2, 0x0000⟩ ::
  ⟨Op.WRITE_REG_DATA, 0x32c0, 0x0000⟩ ::
  ⟨Op.WRITE_REG_DATA, 0x328e, 0x0000⟩ ::
  ⟨Op.WRITE_REG_DATA, 0x32d6, 0x0000⟩ ::
  ⟨Op.WRITE_REG_DATA, 0x327c, 0x0000⟩ ::
  ⟨Op.WRITE_REG_DATA, 0x32d8, 0x0000⟩ ::
  ⟨Op.WRITE_REG_DATA, 0x327e, 0x0000⟩ ::
  ⟨Op.WRITE_REG_DATA, 0x322c, 0x0000⟩ ::
  ⟨Op.WRITE_REG_DATA, 0x32d4, 0x0000⟩ ::
  ⟨Op.WRITE_REG_DATA, 0x327a, 0x0000⟩ ::
  ⟨Op.WRITE_REG_DATA, 0x322e, 0x0000⟩ ::
  ⟨Op.WRITE_VAR_DATA, 0x2332, 0x0000⟩ ::
  ⟨Op.WRITE_VAR_DATA, 0x2334, 0x0000⟩ ::
  ⟨Op.WRITE_VAR_DATA, 0x2336, 0x0000⟩ ::
  ⟨Op.WRITE_VAR_DATA, 0x2338, 0x0000⟩ ::
  ⟨Op.WRITE_VAR_DATA, 0x233a, 0x0000⟩ ::
  ⟨Op.WRITE_VAR_DATA, 0x233c, 0x0000⟩ ::
  ⟨Op.WRITE_VAR_DATA, 0x233e, 0x0000⟩ ::
  ⟨Op.WRITE_VAR_DATA, 0x2340, 0x0000⟩ ::
  ⟨Op.WRITE_VAR_DATA, 0x2342, 0x0000⟩ ::
  ⟨Op.WRITE_VAR_DATA, 0x2344, 0x0000⟩ ::
  ⟨Op.WRITE_VAR_DATA, 0x2346, 0x0000⟩ ::
  ⟨Op.WRITE_VAR_DATA, 0xA34e, 0x0000⟩ ::
  ⟨Op.WRITE_VAR_DATA, 0xA34f, 0x0000⟩ ::
  ⟨Op.WRITE_VAR_DATA, 0xA350, 0x0000⟩ ::
  ⟨Op.WRITE_VAR_DATA, 0xA353, 0x0000⟩ ::
  ⟨Op.WRITE_VAR_DATA, 0xA354, 0x0000⟩ ::
  ⟨Op.WRITE_VAR_DATA, 0xA355, 0x0000⟩ ::
  ⟨Op.WRITE_VAR_DATA, 0xA356, 0x0000⟩ ::
  ⟨Op.WRITE_VAR_DATA, 0x2358, 0x0000⟩ ::
  ⟨Op.REG_TABLE_END, 0x0000, 0x0000⟩ :: []

/-- The mode catalog `modes[]`. -/
def modes : List soc2030_mode :=
  [⟨800, 600, 30, mode_800x600⟩,
   ⟨1600, 1200, 15, mode_1600x1200⟩,
   ⟨1280, 720, 30, mode_1280x720⟩]

/-! ## Exposure conversion -/

/-- Function `soc2030_conv_exp2ev0a`: `exposure` is the content of `*exposure`
on entry; the second component of the result is its content on return.  The
shift counts are `abs(curr_ev)`; `>>` and `<<` are the shifts of `Nat`.  The
division by the line length read from the sensor is the division of `Nat`: the
C code makes no test for 0, so for a line length 0, where the C division has
no defined result, the quotient 0 given here says nothing about the driver;
the claims on the result of a conversion in context B are stated for a line
length other than 0 (`la ≠ 0`, `lb ≠ 0`, or `DivOk`). -/
def soc2030_conv_exp2ev0a (k : Consts) (client : i2c_client) (curr_ev : Int)
    (exposure : Nat) (tr : List Xfer) : Int × Nat × List Xfer :=
  let rc := soc2030_read_xdma_reg k client REG_CONTEXT 0 tr
  if rc.1 ≠ 0 then (rc.1, exposure, rc.2.2)
  else if rc.2.1 = 7 then
    let ra := soc2030_read_xdma_reg k client REG_LINE_LENGTH_A 0 rc.2.2
    if ra.1 ≠ 0 then (ra.1, exposure, ra.2.2)
    else
      let rb := soc2030_read_xdma_reg k client REG_LINE_LENGTH_B 0 ra.2.2
      if rb.1 ≠ 0 then (rb.1, exposure, rb.2.2)
      else
        let exp := (exposure * rb.2.1) % 2 ^ 32
        let exp := exp / ra.2.1
        let exposure := exp % 65536
        if curr_ev > 0 then (rb.1, exposure >>> curr_ev.natAbs, rb.2.2)
        else if curr_ev < 0 then
          (rb.1, (exposure <<< curr_ev.natAbs) % 65536, rb.2.2)
        else (rb.1, exposure, rb.2.2)
  else
    if curr_ev > 0 then (rc.1, exposure >>> curr_ev.natAbs, rc.2.2)
    else if curr_ev < 0 then
      (rc.1, (exposure <<< curr_ev.natAbs) % 65536, rc.2.2)
    else (rc.1, exposure, rc.2.2)

/-- Function `soc2030_conv_exp2evxx`: the shift is done on the 32-bit local
`exp`, the result is truncated to 16 bits when stored.  The division by the
line length read from the sensor is the division of `Nat`: the C code makes no
test for 0, so for a line length 0, where the C division has no defined
result, the quotient 0 given here says nothing about the driver; the claims
on the result of a conversion in context B are stated for a line length other
than 0 (`la ≠ 0`, `lb ≠ 0`, or `DivOk`). -/
def soc2030_conv_exp2evxx (k : Consts) (client : i2c_client) (curr_ev : Int)
    (exposure : Nat) (tr : List Xfer) : Int × Nat × List Xfer :=
  let rc := soc2030_read_xdma_reg k client REG_CONTEXT 0 tr
  if rc.1 ≠ 0 then (rc.1, exposure, rc.2.2)
  else
    let exp :=
      if curr_ev > 0 then (exposure <<< curr_ev.natAbs) % 2 ^ 32
      else if curr_ev < 0 then exposure >>> curr_ev.natAbs
      else exposure
    if rc.2.1 = 7 then
      let ra := soc2030_read_xdma_reg k client REG_LINE_LENGTH_A 0 rc.2.2
      if ra.1 ≠ 0 then (ra.1, exposure, ra.2.2)
      else
        let rb := soc2030_read_xdma_reg k client REG_LINE_LENGTH_B 0 ra.2.2
        if rb.1 ≠ 0 then (rb.1, exposure, rb.2.2)
        else
          let exp := (exp * ra.2.1) % 2 ^ 32
          let exp := exp / rb.2.1
          (rb.1, exp % 65536, rb.2.2)
    else (rc.1, exp % 65536, rc.2.2)

/-! ## Replaying the lock snapshot -/

/-- The idiom `err = f(...); if (err) return err;` followed by the rest of the
function. -/
def checked (r : Option (Int × Drv)) (rest : Drv → Option (Int × Drv)) :
    Option (Int × Drv) :=
  match r with
  | none => none
  | some (err, s) => if err ≠ 0 then some (err, s) else rest s

/-- First loop of `soc2030_restore_isp_state` (over `ae_lock_state_sequence`).
A result `(0, s)` means the loop was left (end of table or `break`), a nonzero
first component is a `return err`. -/
def restore_ae_loop (k : Consts) (client : i2c_client) (curr_ev : Int) :
    List soc2030_regs → Nat → Drv → Option (Int × Drv)
  | [], _, _ => none
  | next :: rest, index, s =>
    if next.op = Op.REG_TABLE_END then some (0, s)
    else if s.lockBuff.aelock = false then some (0, s)
    else
      let write_data := s.ae_lock_state index
      match next.op with
      | Op.WRITE_REG_DATA =>
        if next.addr = REG_COARSE_INTEGRATION then
          let rv := soc2030_conv_exp2evxx k client curr_ev write_data s.trace
          if rv.1 ≠ 0 then some (rv.1, { s with trace := rv.2.2 })
          else
            let rx := soc2030_write_xdma_reg k client REG_EV rv.2.1 rv.2.2
            let rw := soc2030_write_reg k client next.addr rv.2.1 rx.2
            if rw.1 ≠ 0 then some (rw.1, { s with trace := rw.2 })
            else restore_ae_loop k client curr_ev rest (index + 1)
              { s with trace := rw.2 }
        else
          let rw := soc2030_write_reg k client next.addr write_data s.trace
          if rw.1 ≠ 0 then some (rw.1, { s with trace := rw.2 })
          else restore_ae_loop k client curr_ev rest (index + 1)
            { s with trace := rw.2 }
      | Op.WRITE_VAR_DATA =>
        let rw := soc2030_write_xdma_reg k client next.addr write_data s.trace
        if rw.1 ≠ 0 then some (rw.1, { s with trace := rw.2 })
        else restore_ae_loop k client curr_ev rest (index + 1)
          { s with trace := rw.2 }
      | _ => restore_ae_loop k client curr_ev rest (index + 1) s

/-- Second loop of `soc2030_restore_isp_state` (over
`awb_lock_state_sequence`). -/
def restore_awb_loop (k : Consts) (client : i2c_client) :
    List soc2030_regs → Nat → Drv → Option (Int × Drv)
  | [], _, _ => none
  | next :: rest, index, s =>
    if next.op = Op.REG_TABLE_END then some (0, s)
    else if s.lockBuff.awblock = false then some (0, s)
    else
      match next.op with
      | Op.WRITE_REG_DATA =>
        let rw := soc2030_write_reg k client next.addr
          (s.awb_lock_state index) s.trace
        if rw.1 ≠ 0 then some (rw.1, { s with trace := rw.2 })
        else restore_awb_loop k client rest (index + 1)
          { s with trace := rw.2 }
      | Op.WRITE_VAR_DATA =>
        let rw := soc2030_write_xdma_reg k client next.addr
          (s.awb_lock_state index) s.trace
        if rw.1 ≠ 0 then some (rw.1, { s with trace := rw.2 })
        else restore_awb_loop k client rest (index + 1)
          { s with trace := rw.2 }
      | _ => restore_awb_loop k client rest (index + 1) s

/-- Function `soc2030_restore_isp_state`. -/
def soc2030_restore_isp_state (k : Consts) (client : i2c_client)
    (curr_ev : Int) (s : Drv) : Option (Int × Drv) :=
  let rc := soc2030_read_xdma_reg k client 0xa104 0 s.trace
  if rc.1 ≠ 0 then some (rc.1, { s with trace := rc.2.2 })
  else
    checked (restore_ae_loop k client curr_ev ae_lock_state_sequence 0
      { s with trace := rc.2.2 }) fun s1 =>
    checked (restore_awb_loop k client awb_lock_state_sequence 0 s1) fun s2 =>
    some (0, s2)

/-! ## Mode controller -/

/-- The catalog search loop of `soc2030_set_mode`: the index at which the loop
stops, `index + length` when no entry matches. -/
def set_mode_index (mode : soc2030_mode) : List soc2030_mode → Nat → Nat
  | [], index => index
  | m :: rest, index =>
    if mode.fps = m.fps ∧ mode.xres = m.xres ∧ mode.yres = m.yres then index
    else set_mode_index mode rest (index + 1)

/-- The block `if (info->mode == -1) { ... }` of `soc2030_set_mode`.  The
result of the PLL table is not assigned to `err`. -/
def set_mode_init (k : Consts) (client : i2c_client) (s : Drv) :
    Option (Int × Drv) :=
  if s.info.mode = -1 then
    match soc2030_write_table k client pll_table s with
    | none => none
    | some (_, s0) =>
      checked (soc2030_write_table k client base_mode s0) fun s1 =>
      checked (soc2030_write_table k client SetRev2ErrataSequence s1) fun s2 =>
      checked (soc2030_write_table k client SetLensCorrectionSequence s2) fun s3 =>
      checked (soc2030_write_table k client SetLowLightSequence s3) fun s4 =>
      checked (soc2030_write_table k client SetDenoiseSequence s4) fun s5 =>
      checked (soc2030_write_table k client SetCCMCommonSequence s5) fun s6 =>
      checked (soc2030_write_table k client SetCCMAutoSequence s6) fun s7 =>
      checked (soc2030_write_table k client SetRev3PatchSequence s7) fun s8 =>
      checked (soc2030_write_table k client WakeMcuSequence s8) fun s9 =>
      some (0, s9)
  else some (0, s)

/-- Modelled from the spec: `REG_VAR1..REG_VAR4` of `media/soc2030.h` index the
four slots in order.  The assignments to `vars[]` in `soc2030_set_mode`. -/
def set_mode_vars (lk : soc2030_lock) (vars : Fin 4 → Nat) : Fin 4 → Nat :=
  let v := Function.update vars 0 0x72
  let v := Function.update v 1 0x01
  let v := Function.update v 2 0x01
  let v := Function.update v 3 0x01
  let v :=
    if lk.aelock then
      Function.update (Function.update (Function.update v 0 ((v 0 ^^^ 0x10) % 65536)) 1 0x00) 3 0x00
    else v
  if lk.awblock then
    Function.update (Function.update v 0 ((v 0 ^^^ 0x20) % 65536)) 2 0x00
  else v

/-- Function `soc2030_set_mode`. -/
def soc2030_set_mode (k : Consts) (client : i2c_client) (s : Drv)
    (mode : soc2030_mode) : Option (Int × Drv) :=
  let index := set_mode_index mode modes 0
  if index = modes.length then some (-EINVAL_errno, s)
  else
    match modes[index]? with
    | none => none
    | some m =>
      checked (set_mode_init k client s) fun s1 =>
      let s2 := { s1 with vars := set_mode_vars s1.lockBuff s1.vars }
      checked (soc2030_write_table k client m.regset s2) fun s3 =>
      checked (soc2030_write_table k client refresh_mode s3) fun s4 =>
      checked (soc2030_write_table k client refresh_state s4) fun s5 =>
      if s5.lockBuff.aelock then
        checked (soc2030_restore_isp_state k client s5.info.current_ev s5) fun s6 =>
        some (0, { s6 with info := { s6.info with mode := index } })
      else some (0, { s5 with info := { s5.info with mode := index } })

/-- Function `soc2030_get_status`: `status` is the array of the caller on entry
and on return. -/
def soc2030_get_status (k : Consts) (client : i2c_client)
    (status : Fin 5 → Nat) (tr : List Xfer) : Int × (Fin 5 → Nat) × List Xfer :=
  let st0 := Function.update status 0 0
  let r0 := soc2030_read_xdma_reg k client 0x0 (st0 0) tr
  let st1 := Function.update st0 0 r0.2.1
  if r0.1 ≠ 0 then (r0.1, st1, r0.2.2)
  else
    let r1 := soc2030_read_xdma_reg k client 0x2104 (st1 1) r0.2.2
    let st2 := Function.update st1 1 r1.2.1
    if r1.1 ≠ 0 then (r1.1, st2, r1.2.2)
    else
      let r2 := soc2030_read_xdma_reg k client 0x2703 (st2 2) r1.2.2
      let st3 := Function.update st2 2 r2.2.1
      if r2.1 ≠ 0 then (r2.1, st3, r2.2.2)
      else
        let r3 := soc2030_read_xdma_reg k client 0x2705 (st3 3) r2.2.2
        let st4 := Function.update st3 3 r3.2.1
        if r3.1 ≠ 0 then (r3.1, st4, r3.2.2)
        else
          let r4 := soc2030_read_xdma_reg k client 0x2737 (st4 4) r3.2.2
          let st5 := Function.update st4 4 r4.2.1
          if r4.1 ≠ 0 then (r4.1, st5, r4.2.2) else (0, st5, r4.2.2)

/-- Function `soc2030_open`: resets the lock request and the per-open fields of
`info`; the slots and the snapshot arrays are statics and keep their content. -/
def soc2030_open (s : Drv) : Drv :=
  { s with
    lockBuff := ⟨false, false, false, false, false⟩
    info := ⟨-1, 0, false, false, false, false⟩ }

/-- The statics at module load (zero-initialised) with an empty bus history,
after a first `soc2030_open`. -/
def Drv.opened : Drv :=
  soc2030_open
    { trace := []
      vars := fun _ => 0
      lockBuff := ⟨false, false, false, false, false⟩
      ae_lock_state := fun _ => 0
      awb_lock_state := fun _ => 0
      info := ⟨0, 0, false, false, false, false⟩ }

/-! ## Auxiliary definitions for the statements -/

/-- State carried by an outcome of the `switch`. -/
def Flow.st : Flow → Drv
  | Flow.ret _ s => s
  | Flow.next _ s => s

/-- Error value carried by an outcome of the `switch`. -/
def Flow.err : Flow → Int
  | Flow.ret e _ => e
  | Flow.next e _ => e

/-- A bus on which every transfer succeeds: the adapter is present, every
write message is acknowledged and every read returns its two bytes. -/
def BusOk (client : i2c_client) : Prop :=
  client.adapter = true ∧ (∀ h a v, client.xfer_write h a v = 1) ∧
    (∀ h a, (client.xfer_read h a).1 = 2)

/-- Sample header constants used for the concrete evaluations. -/
def k0 : Consts := ⟨3, 5, 7, 6, 0x32, 2, -2⟩

/-- A bus that acknowledges every write and answers every read with 0. -/
def quietBus : i2c_client := ⟨true, fun _ _ _ => 1, fun _ _ => (2, 0)⟩

/-- A bus that acknowledges every write except those to register `0x20`. -/
def nack20Bus : i2c_client :=
  ⟨true, fun _ a _ => if a = 0x20 then 0 else 1, fun _ _ => (2, 0)⟩

/-- The second state has the same `info`, lock request and snapshot arrays as
the first (it may differ in the bus history and the slots). -/
def Drv.ctl_eq (s s1 : Drv) : Prop :=
  s1.info = s.info ∧ s1.lockBuff = s.lockBuff ∧
    s1.ae_lock_state = s.ae_lock_state ∧ s1.awb_lock_state = s.awb_lock_state

/-- Spec wording "run the steps in order, the first failure aborts": each step
is run on the state the previous one left; a step that reports a nonzero error
ends the run with that error. -/
def run_steps : List (Drv → Option (Int × Drv)) → Drv → Option (Int × Drv)
  | [], s => some (0, s)
  | f :: fs, s =>
    match f s with
    | none => none
    | some (e, s1) => if e = 0 then run_steps fs s1 else some (e, s1)

/-- Spec wording of `setMode` after the initialisation: the selected mode's
table, the refresh-mode table, the refresh-state table, then the snapshot
replay with the current exposure bias exactly when `aeLocked` is set in the
stored intent `s`; on success the catalog index is recorded and 0 returned, on
failure the error is returned and nothing is recorded. -/
def setMode_steps (k : Consts) (client : i2c_client) (index : Nat) (m : soc2030_mode)
    (s : Drv) (s2 : Drv) : Option (Int × Drv) :=
  match run_steps
      ([soc2030_write_table k client m.regset, soc2030_write_table k client refresh_mode,
        soc2030_write_table k client refresh_state] ++
        (if s.lockBuff.aelock then [soc2030_restore_isp_state k client s.info.current_ev]
          else [])) s2 with
  | none => none
  | some (e, s1) =>
    if e = 0 then some (0, { s1 with info := { s1.info with mode := index } })
    else some (e, s1)

/-- Is the adjacent pair "address register := 0xa103, data register := 2"
(the command that switches the sensor to context B) in the history? -/
def ctxB_requested : List Xfer → Bool
  | Xfer.write 0x098c 0xa103 :: Xfer.write 0x0990 0x0002 :: _ => true
  | _ :: rest => ctxB_requested rest
  | [] => false

/-- A simulated sensor: every write is acknowledged; an indirect read of the
context variable `0xa104` answers 7 once context B was requested and 3 before,
one of the line lengths `0x2721`, `0x2737` answers the value `base_mode` sets;
every other read answers 0. -/
def sensorBus : i2c_client :=
  ⟨true, fun _ _ _ => 1, fun h _ =>
    (2, match h.getLast? with
        | some (Xfer.write 0x098c 0xa104) => if ctxB_requested h then 7 else 3
        | some (Xfer.write 0x098c 0x2721) => 0x07EA
        | some (Xfer.write 0x098c 0x2737) => 0x08A9
        | _ => 0)⟩

/-- The simulated sensor behind a bus that never acknowledges a write to
register `0x001e`, the first register of `pll_table`. -/
def pllNackBus : i2c_client :=
  ⟨true, fun _ a _ => if a = 0x001e then 0 else 1, sensorBus.xfer_read⟩

/-- Spec wording of the EV step of `toBaseline`: `y >> b` if `b > 0`,
`(y << |b|) mod 2^16` if `b < 0`, `y` if `b = 0`. -/
def toBaseline_bias (b : Int) (y : Nat) : Nat :=
  if 0 < b then y / 2 ^ b.natAbs
  else if b < 0 then (y * 2 ^ b.natAbs) % 65536
  else y

/-- State after a previous `soc2030_set_mode` selected catalog entry 0. -/
def Drv.mode0 : Drv :=
  { Drv.opened with info := { Drv.opened.info with mode := 0 } }

/-- What a bus history says about the indirect ("extended") registers the
claims on geometry look at: the value last written to the address register
`0x098C`, and the values last written to the data register `0x0990` while the
address register held `0x2703` (output width, context A) and `0x2705` (output
height, context A). -/
structure Geom where
  addr : Option Nat
  width : Option Nat
  height : Option Nat
  deriving DecidableEq, Repr

/-- Effect of one transfer on the shadow; a repeated attempt of the same write
has the effect of one. -/
def Geom.step (g : Geom) : Xfer → Geom
  | Xfer.write a v =>
    if a = 0x098c then { g with addr := some v }
    else if a = 0x0990 then
      if g.addr = some 0x2703 then { g with width := some v }
      else if g.addr = some 0x2705 then { g with height := some v }
      else g
    else g
  | Xfer.read _ => g

/-- The shadow after a bus history that starts with nothing known. -/
def geom_of (tr : List Xfer) : Geom := tr.foldl Geom.step ⟨none, none, none⟩

/-- Effect on the shadow of a table record whose operation succeeds, when the
record alone determines it (`none` otherwise: end and unrecognised records,
bit operations on `0x098C`/`0x0990`, slot reads, slot writes that would reach
the address register or one of the two geometry registers). -/
def Geom.after_record (g : Geom) (r : soc2030_regs) : Option Geom :=
  match r.op with
  | Op.WRITE_REG_DATA => some (g.step (Xfer.write r.addr r.val))
  | Op.WRITE_REG_BIT_H => if r.addr = 0x098c ∨ r.addr = 0x0990 then none else some g
  | Op.WRITE_REG_BIT_L => if r.addr = 0x098c ∨ r.addr = 0x0990 then none else some g
  | Op.POLL_REG_DATA => some g
  | Op.POLL_REG_BIT_H => some g
  | Op.POLL_REG_BIT_L => some g
  | Op.WRITE_VAR_DATA =>
    some ((g.step (Xfer.write 0x098c r.addr)).step (Xfer.write 0x0990 r.val))
  | Op.POLL_VAR_DATA => some (g.step (Xfer.write 0x098c r.addr))
  | Op.DELAY_MS => some g
  | Op.WRITE_REG_VAR _ =>
    if r.addr = 0x098c then none
    else if r.addr = 0x0990 ∧ (g.addr = some 0x2703 ∨ g.addr = some 0x2705) then none
    else some g
  | Op.READ_REG_VAR _ => none
  | Op.REG_TABLE_END => none
  | Op.other _ => none

/-- Effect on the shadow of a table that runs to its end record. -/
def Geom.after_table : List soc2030_regs → Geom → Option Geom
  | [], _ => none
  | r :: rest, g =>
    if r.op = Op.REG_TABLE_END then some g
    else
      match g.after_record r with
      | none => none
      | some g1 => Geom.after_table rest g1

/-- Effect on the shadow of several tables run one after the other. -/
def Geom.after_tables : List (List soc2030_regs) → Geom → Option Geom
  | [], g => some g
  | t :: ts, g =>
    match g.after_table t with
    | none => none
    | some g1 => Geom.after_tables ts g1

/-- The width and height entries are `w` and `h`, and the address register
does not select either of them. -/
def Geom.Inv (w h : Option Nat) (g : Geom) : Prop :=
  g.width = w ∧ g.height = h ∧ g.addr ≠ some 0x2703 ∧ g.addr ≠ some 0x2705

/-- The tables of the initialisation block of `soc2030_set_mode` whose result
is checked, in the order in which they are run. -/
def init_tables : List (List soc2030_regs) :=
  [base_mode, SetRev2ErrataSequence, SetLensCorrectionSequence, SetLowLightSequence,
    SetDenoiseSequence, SetCCMCommonSequence, SetCCMAutoSequence, SetRev3PatchSequence,
    WakeMcuSequence]

/-! ## Capturing the lock snapshot, lock transitions, ioctl cases -/

/-- First loop of `soc2030_save_isp_state` (over `ae_lock_state_sequence`).
A result `(0, s)` means the loop was left (end of table or `break`), a nonzero
first component is a `return err`.  Each read stores through the pointer
`&(ae_lock_state[index])`. -/
def save_ae_loop (k : Consts) (client : i2c_client) (curr_ev : Int) :
    List soc2030_regs → Nat → Drv → Option (Int × Drv)
  | [], _, _ => none
  | next :: rest, index, s =>
    if next.op = Op.REG_TABLE_END then some (0, s)
    else if s.lockBuff.aelock = false then some (0, s)
    else
      match next.op with
      | Op.WRITE_REG_DATA =>
        let r := soc2030_read_reg client next.addr (s.ae_lock_state index) s.trace
        let s1 : Drv := { s with
          trace := r.2.2
          ae_lock_state := Function.update s.ae_lock_state index r.2.1 }
        if r.1 ≠ 0 then some (r.1, s1)
        else if next.addr = REG_COARSE_INTEGRATION then
          let cv := soc2030_conv_exp2ev0a k client curr_ev (s1.ae_lock_state index) s1.trace
          let s2 : Drv := { s1 with
            trace := cv.2.2
            ae_lock_state := Function.update s1.ae_lock_state index cv.2.1 }
          if cv.1 ≠ 0 then some (cv.1, s2)
          else save_ae_loop k client curr_ev rest (index + 1) s2
        else save_ae_loop k client curr_ev rest (index + 1) s1
      | Op.WRITE_VAR_DATA =>
        let r := soc2030_read_xdma_reg k client next.addr (s.ae_lock_state index) s.trace
        let s1 : Drv := { s with
          trace := r.2.2
          ae_lock_state := Function.update s.ae_lock_state index r.2.1 }
        if r.1 ≠ 0 then some (r.1, s1)
        else save_ae_loop k client curr_ev rest (index + 1) s1
      | _ => save_ae_loop k client curr_ev rest (index + 1) s

/-- Second loop of `soc2030_save_isp_state` (over
`awb_lock_state_sequence`). -/
def save_awb_loop (k : Consts) (client : i2c_client) :
    List soc2030_regs → Nat → Drv → Option (Int × Drv)
  | [], _, _ => none
  | next :: rest, index, s =>
    if next.op = Op.REG_TABLE_END then some (0, s)
    else if s.lockBuff.awblock = false then some (0, s)
    else
      match next.op with
      | Op.WRITE_REG_DATA =>
        let r := soc2030_read_reg client next.addr (s.awb_lock_state index) s.trace
        let s1 : Drv := { s with
          trace := r.2.2
          awb_lock_state := Function.update s.awb_lock_state index r.2.1 }
        if r.1 ≠ 0 then some (r.1, s1)
        else save_awb_loop k client rest (index + 1) s1
      | Op.WRITE_VAR_DATA =>
        let r := soc2030_read_xdma_reg k client next.addr (s.awb_lock_state index) s.trace
        let s1 : Drv := { s with
          trace := r.2.2
          awb_lock_state := Function.update s.awb_lock_state index r.2.1 }
        if r.1 ≠ 0 then some (r.1, s1)
        else save_awb_loop k client rest (index + 1) s1
      | _ => save_awb_loop k client rest (index + 1) s

/-- Function `soc2030_save_isp_state`. -/
def soc2030_save_isp_state (k : Consts) (client : i2c_client) (curr_ev : Int)
    (s : Drv) : Option (Int × Drv) :=
  checked (save_ae_loop k client curr_ev ae_lock_state_sequence 0 s) fun s1 =>
  checked (save_awb_loop k client awb_lock_state_sequence 0 s1) fun s2 =>
  some (0, s2)

/-- The AE half of `soc2030_lock_check` (from the declaration of `ael_changed`
to the end of the `else if (ael_changed)` branch).  A nonzero first component
is a `return err`; `(0, s)` means control reaches the AWB half. -/
def lock_check_ae (k : Consts) (client : i2c_client) (s : Drv) (aelocked : Bool) :
    Option (Int × Drv) :=
  let ael_changed := xor s.lockBuff.aelock aelocked
  let s1 : Drv :=
    if s.info.ae_lock_inhibit && s.lockBuff.aelock && ael_changed then
      { s with lockBuff := { s.lockBuff with aelock := false, aerelock := false } }
    else s
  if s1.lockBuff.aelock && ael_changed then
    checked (soc2030_write_table k client exposureLockSequence s1) fun s2 =>
    if s2.lockBuff.aerelock && s2.info.valid_ae_lock_state then
      checked (soc2030_restore_isp_state k client s2.info.current_ev s2) fun s3 =>
      some (0, s3)
    else if s2.info.ae_lock_inhibit = false then
      checked (soc2030_save_isp_state k client s2.info.current_ev s2) fun s3 =>
      some (0, { s3 with info := { s3.info with valid_ae_lock_state := true } })
    else some (0, s2)
  else if ael_changed then
    checked (soc2030_write_table k client exposureUnLockSequence s1) fun s2 =>
    some (0, s2)
  else some (0, s1)

/-- The AWB half of `soc2030_lock_check`; `awbl_changed` is the value computed
at the top of the function. -/
def lock_check_awb (k : Consts) (client : i2c_client) (s : Drv) (awbl_changed : Bool) :
    Option (Int × Drv) :=
  let s1 : Drv :=
    if s.info.awb_lock_inhibit && s.lockBuff.awblock && awbl_changed then
      { s with lockBuff := { s.lockBuff with awblock := false, awbrelock := false } }
    else s
  if s1.lockBuff.awblock && awbl_changed then
    checked (soc2030_write_table k client awbLockSequence s1) fun s2 =>
    if s2.lockBuff.awbrelock && s2.info.valid_awb_lock_state then
      checked (soc2030_restore_isp_state k client s2.info.current_ev s2) fun s3 =>
      some (0, s3)
    else if s2.info.awb_lock_inhibit = false then
      checked (soc2030_save_isp_state k client s2.info.current_ev s2) fun s3 =>
      some (0, { s3 with info := { s3.info with valid_awb_lock_state := true } })
    else some (0, s2)
  else if awbl_changed then
    checked (soc2030_write_table k client awbUnLockSequence s1) fun s2 =>
    some (0, s2)
  else some (0, s1)

/-- Function `soc2030_lock_check`: both `changed` flags are computed on entry;
the value returned at the end is the `err` of the last call, 0 on every path
that reaches it. -/
def soc2030_lock_check (k : Consts) (client : i2c_client) (s : Drv)
    (aelocked awblocked : Bool) : Option (Int × Drv) :=
  let awbl_changed := xor s.lockBuff.awblock awblocked
  checked (lock_check_ae k client s aelocked) fun s1 =>
  lock_check_awb k client s1 awbl_changed

/-- The block "check if preview state changed" of the case
`SOC2030_IOCTL_SET_LOCK`; `s` already holds the new request in `lockBuff`, the
three flags are the values saved before `copy_from_user`. -/
def set_lock_preview (s : Drv) (aelocked awblocked previewactivated : Bool) : Drv :=
  if xor s.lockBuff.previewactive previewactivated then
    let s1 : Drv :=
      if s.lockBuff.previewactive && !aelocked then
        { s with info := { s.info with valid_ae_lock_state := false } }
      else s
    if s1.lockBuff.previewactive && !awblocked then
      { s1 with info := { s1.info with valid_awb_lock_state := false } }
    else s1
  else s

/-- Case `SOC2030_IOCTL_SET_LOCK` of `soc2030_ioctl`, after
`copy_from_user` delivered the request `req` into `lockBuff`. -/
def ioctl_set_lock (k : Consts) (client : i2c_client) (req : soc2030_lock) (s : Drv) :
    Option (Int × Drv) :=
  let aelocked := s.lockBuff.aelock
  let awblocked := s.lockBuff.awblock
  let previewactivated := s.lockBuff.previewactive
  soc2030_lock_check k client
    (set_lock_preview { s with lockBuff := req } aelocked awblocked previewactivated)
    aelocked awblocked

/-- Modelled from the spec: the enumerations `EFFECT_*` of `media/soc2030.h`
are not among the sources; the entries of `effect_table[]` are taken in the
order of the initialiser. -/
def effect_table : List (List soc2030_regs) :=
  [EffectNoneSequence, EffectBwSequence, EffectNegativeSequence, EffectPosterizeSequence,
    EffectSepiaSequence, EffectSolarizeSequence, EffectAquaSequence]

/-- Modelled from the spec: the enumerations `WB_*` of `media/soc2030.h` are
not among the sources; the entries of `wb_table[]` are taken in the order of
the initialiser (`WB_AUTO` first). -/
def wb_table : List (List soc2030_regs) :=
  [WbAutoSequence, WbIncandescentSequence, WbFluorescentSequence, WbDaylightSequence,
    WbCloudydaylightSequence, WbNightSequence]

/-- Case `SOC2030_IOCTL_SET_EFFECT`; `arg` is `(unsigned int)arg`.  An index
outside the array has no defined result. -/
def ioctl_set_effect (k : Consts) (client : i2c_client) (arg : Nat) (s : Drv) :
    Option (Int × Drv) :=
  if arg ≥ k.EFFECT_MAX then some (-EINVAL_errno, s)
  else
    match effect_table[arg]? with
    | none => none
    | some t =>
      checked (soc2030_write_table k client t s) fun s1 =>
      soc2030_write_table k client refresh_state s1

/-- Case `SOC2030_IOCTL_SET_WHITEBALANCE`; `arg` is `(unsigned int)arg`.
`modes[info->mode]` and `wb_table[arg]` have no defined result for an index
outside the array. -/
def ioctl_set_whitebalance (k : Consts) (client : i2c_client) (arg : Nat) (s : Drv) :
    Option (Int × Drv) :=
  if arg ≥ k.WB_MAX then some (-EINVAL_errno, s)
  else if s.info.mode < 0 then none
  else
    match modes[s.info.mode.toNat]? with
    | none => none
    | some m =>
      checked (soc2030_write_table k client m.regset s) fun s1 =>
      checked (soc2030_write_table k client SetCCMCommonSequence s1) fun s2 =>
      match wb_table[arg]? with
      | none => none
      | some t => soc2030_write_table k client t s2

/-- The loop `for (step = 1; step <= abs(req_ev); step++)` of the case
`SOC2030_IOCTL_SET_EXP_COMP`; `n` is the number of iterations left, the pair
is `(ev_step, new_target)`.  `/` of C truncates toward zero. -/
def exp_comp_loop (step_size : Int) : Nat → Int × Int → Int × Int
  | 0, p => p
  | n + 1, p =>
    let ev_step := Int.tdiv p.1 step_size
    exp_comp_loop step_size n (ev_step, p.2 + ev_step)

/-- Case `SOC2030_IOCTL_SET_EXP_COMP`; `req_ev` is `(int)arg`. -/
def ioctl_set_exp_comp (k : Consts) (client : i2c_client) (req_ev : Int) (s : Drv) :
    Option (Int × Drv) :=
  if req_ev > k.SOC_EV_MAX ∨ req_ev < k.SOC_EV_MIN then some (-EINVAL_errno, s)
  else
    let ev_step : Int :=
      if req_ev < 0 then -k.EXP_TARGET else if req_ev > 0 then 0x100 - k.EXP_TARGET else 0
    let step_size : Int := if req_ev < 0 then 2 else if req_ev > 0 then 4 else 0
    let new_target := (exp_comp_loop step_size req_ev.natAbs (ev_step, k.EXP_TARGET)).2
    if new_target < 0 then some (-EINVAL_errno, s)
    else
      let rw := soc2030_write_xdma_reg k client 0xA24F (new_target.toNat % 65536) s.trace
      if rw.1 ≠ 0 then some (rw.1, { s with trace := rw.2 })
      else
        match soc2030_write_table k client refresh_state { s with trace := rw.2 } with
        | none => none
        | some (err, s1) =>
          let inhibit :=
            if req_ev ≠ 0 then
              if s1.lockBuff.aelock = false ∧ s1.info.valid_ae_lock_state = false then true
              else s1.info.ae_lock_inhibit
            else false
          some (err, { s1 with info :=
            { s1.info with ae_lock_inhibit := inhibit, current_ev := req_ev } })

/-! ## Auxiliary definitions for the statements on exposure and snapshots -/

/-- Spec wording of the EV step of `fromBaseline`: `x << b` if `b > 0`,
`x >> |b|` if `b < 0`, `x` if `b = 0`, as a number that is not truncated. -/
def fromBaseline_bias (b : Int) (x : Nat) : Nat :=
  if 0 < b then x * 2 ^ b.natAbs
  else if b < 0 then x / 2 ^ b.natAbs
  else x

/-- A history in which context B was requested: on `sensorBus` the context
variable then reads 7. -/
def histB : List Xfer := [Xfer.write 0x098c 0xa103, Xfer.write 0x0990 0x0002]

/-- Spec wording of a lock transition: run the lock table; then, if relock is
requested and the snapshot is valid, replay the snapshot (`restore`);
otherwise capture a fresh snapshot (`save`) and mark it valid.  The first step
that fails ends the transition with its error. -/
def lock_transition (k : Consts) (client : i2c_client) (lock_table : List soc2030_regs)
    (relock valid : Bool) (mark_valid : Drv → Drv) (bias : Int) (s : Drv) :
    Option (Int × Drv) :=
  if relock && valid then
    run_steps [soc2030_write_table k client lock_table,
      soc2030_restore_isp_state k client bias] s
  else
    match run_steps [soc2030_write_table k client lock_table,
        soc2030_save_isp_state k client bias] s with
    | none => none
    | some (e, s1) => if e = 0 then some (0, mark_valid s1) else some (e, s1)

/-- Sets `info->valid_ae_lock_state`. -/
def Drv.mark_ae_valid (s : Drv) : Drv :=
  { s with info := { s.info with valid_ae_lock_state := true } }

/-- Sets `info->valid_awb_lock_state`. -/
def Drv.mark_awb_valid (s : Drv) : Drv :=
  { s with info := { s.info with valid_awb_lock_state := true } }

/-- The stored request with the AE lock and relock flags cleared. -/
def Drv.ae_downgraded (s : Drv) : Drv :=
  { s with lockBuff := { s.lockBuff with aelock := false, aerelock := false } }

/-- State after `soc2030_open` and a first `soc2030_set_mode` for
`(800, 600, 30)` on the simulated sensor. -/
def Drv.preview : Drv :=
  ((soc2030_set_mode k0 sensorBus Drv.opened ⟨800, 600, 30, []⟩).getD (0, Drv.opened)).2

/-- A request that locks AE only. -/
def lockAe : soc2030_lock := ⟨true, false, false, false, false⟩

/-- A request that locks AWB only. -/
def lockAwb : soc2030_lock := ⟨false, false, true, false, false⟩

/-- The state in which `soc2030_lock_check` is entered when `lockAe` is
requested in `Drv.preview`. -/
def Drv.preview_lockAe : Drv := { Drv.preview with lockBuff := lockAe }

/-- A state with AE locked (stored request `lockAe`) and a request that
clears every flag just copied into `lockBuff`. -/
def Drv.unlocking : Drv :=
  { Drv.opened with lockBuff := ⟨false, false, false, false, false⟩ }

/-- A state with the AE-lock-inhibited flag set in which `lockAe` was just
copied into `lockBuff`. -/
def Drv.inhibited_lockAe : Drv :=
  { Drv.opened with
    lockBuff := lockAe
    info := { Drv.opened.info with ae_lock_inhibit := true } }

/-- A simulated sensor in context A on which every register reads as its own
address: every write is acknowledged, an indirect read of the context variable
`0xa104` answers 3, an indirect read of another variable answers the address
of the variable, a direct read answers the address of the register. -/
def mirrorBus : i2c_client :=
  ⟨true, fun _ _ _ => 1, fun h a =>
    (2, match h.getLast? with
        | some (Xfer.write 0x098c 0xa104) => 3
        | some (Xfer.write 0x098c v) => v
        | _ => a)⟩

/-- State after `soc2030_open` with both lock flags set in `lockBuff`. -/
def Drv.both_locked : Drv :=
  { Drv.opened with lockBuff := ⟨true, false, true, false, false⟩ }

/-! ## The ioctl entry point -/

/-- The commands of `soc2030_ioctl` with the argument each one takes from user
space; `unknown` stands for every other command number.  The copies from and
to user space are taken to succeed. -/
inductive Cmd where
  | SOC2030_IOCTL_SET_MODE (mode : soc2030_mode)
  | SOC2030_IOCTL_SET_PRIVATE (reg_sequence : List soc2030_regs)
  | SOC2030_IOCTL_SET_LOCK (req : soc2030_lock)
  | SOC2030_IOCTL_GET_STATUS
  | SOC2030_IOCTL_GET_MODES
  | SOC2030_IOCTL_GET_NUM_MODES
  | SOC2030_IOCTL_SET_EFFECT (arg : Nat)
  | SOC2030_IOCTL_SET_WHITEBALANCE (arg : Nat)
  | SOC2030_IOCTL_SET_EXP_COMP (req_ev : Int)
  | unknown (cmd : Nat)

/-- Function `soc2030_ioctl`: the `switch (cmd)`.  The status array of
`SOC2030_IOCTL_GET_STATUS` is a local of the case and goes to user space; of
that case only the bus history stays in the state. -/
def soc2030_ioctl (k : Consts) (client : i2c_client) (cmd : Cmd) (s : Drv) :
    Option (Int × Drv) :=
  match cmd with
  | Cmd.SOC2030_IOCTL_SET_MODE mode => soc2030_set_mode k client s mode
  | Cmd.SOC2030_IOCTL_SET_PRIVATE reg_sequence => soc2030_write_table k client reg_sequence s
  | Cmd.SOC2030_IOCTL_SET_LOCK req => ioctl_set_lock k client req s
  | Cmd.SOC2030_IOCTL_GET_STATUS =>
    let r := soc2030_get_status k client (fun _ => 0) s.trace
    some (r.1, { s with trace := r.2.2 })
  | Cmd.SOC2030_IOCTL_GET_MODES => some (0, s)
  | Cmd.SOC2030_IOCTL_GET_NUM_MODES => some (0, s)
  | Cmd.SOC2030_IOCTL_SET_EFFECT arg => ioctl_set_effect k client arg s
  | Cmd.SOC2030_IOCTL_SET_WHITEBALANCE arg => ioctl_set_whitebalance k client arg s
  | Cmd.SOC2030_IOCTL_SET_EXP_COMP req_ev => ioctl_set_exp_comp k client req_ev s
  | Cmd.unknown _ => some (-EINVAL_errno, s)

/-- The states of the driver that can be reached from an open: `soc2030_open`
on any content of the statics, then any number of `soc2030_ioctl` calls that
return, each one on a bus of its own (any bus behaviour).  `ok cmd e` is the
condition put on the calls that are followed: command `cmd` returned `e`. -/
inductive Reachable (k : Consts) (ok : Cmd → Int → Prop) : Drv → Prop where
  | opened (s0 : Drv) : Reachable k ok (soc2030_open s0)
  | step (c : i2c_client) (cmd : Cmd) (s : Drv) (e : Int) (s1 : Drv) :
      Reachable k ok s → soc2030_ioctl k c cmd s = some (e, s1) → ok cmd e →
      Reachable k ok s1

/-- No condition on the calls: every sequence of calls is followed, whatever
each call returns. -/
def any_result : Cmd → Int → Prop := fun _ _ => True

/-- Condition "no `SOC2030_IOCTL_SET_LOCK` call has failed": a lock call is
followed only when it returned 0; the other commands may return anything. -/
def lock_succeeded : Cmd → Int → Prop
  | Cmd.SOC2030_IOCTL_SET_LOCK _, e => e = 0
  | _, _ => True

/-- The stored request and every field of `info` other than the recorded mode
are the same in `s1` as in `s`. -/
def Drv.same_flags (s s1 : Drv) : Prop :=
  s1.lockBuff = s.lockBuff ∧ s1.info.current_ev = s.info.current_ev ∧
    s1.info.ae_lock_inhibit = s.info.ae_lock_inhibit ∧
    s1.info.awb_lock_inhibit = s.info.awb_lock_inhibit ∧
    s1.info.valid_ae_lock_state = s.info.valid_ae_lock_state ∧
    s1.info.valid_awb_lock_state = s.info.valid_awb_lock_state

/-- The AE snapshot may be replayed: the stored `aelock` is set only when the
AE valid flag is set. -/
def Drv.ae_replay_valid (s : Drv) : Prop :=
  s.lockBuff.aelock = true → s.info.valid_ae_lock_state = true

/-- Runs the calls `cmds` one after the other on the bus `client`, whatever
each one returns: the list of the results and the state after the last call. -/
def run_ioctls (k : Consts) (client : i2c_client) :
    List Cmd → Drv → Option (List Int × Drv)
  | [], s => some ([], s)
  | cmd :: rest, s =>
    match soc2030_ioctl k client cmd s with
    | none => none
    | some (e, s1) => (run_ioctls k client rest s1).map fun r => (e :: r.1, r.2)

/-! ## Auxiliary definitions for the statements on register access and ioctl cases -/

/-- The history after `n` attempts to write `v` to register `a`, starting from
the history `tr`. -/
def write_attempts (tr : List Xfer) (a v : Nat) (n : Nat) : List Xfer :=
  tr ++ List.replicate n (Xfer.write a v)

/-- The history after `n` reads of register `a`, starting from `tr`. -/
def poll_reads (tr : List Xfer) (a : Nat) (n : Nat) : List Xfer :=
  tr ++ List.replicate n (Xfer.read a)

/-- The history after `n` indirect reads of the variable `a` (each one a write
of `a` to the address register `0x098C` and a read of the data register
`0x0990`), starting from `tr`, on a bus that acknowledges the writes. -/
def poll_xdma_reads (tr : List Xfer) (a : Nat) : Nat → List Xfer
  | 0 => tr
  | n + 1 => poll_xdma_reads tr a n ++ [Xfer.write 0x098c a, Xfer.read 0x0990]

/-- The exposure target that `SOC2030_IOCTL_SET_EXP_COMP` computes for the
step `req_ev` (the value of `new_target` after the loop). -/
def exp_new_target (k : Consts) (req_ev : Int) : Int :=
  let ev_step : Int :=
    if req_ev < 0 then -k.EXP_TARGET else if req_ev > 0 then 0x100 - k.EXP_TARGET else 0
  let step_size : Int := if req_ev < 0 then 2 else if req_ev > 0 then 4 else 0
  (exp_comp_loop step_size req_ev.natAbs (ev_step, k.EXP_TARGET)).2

/-- The conversion `(unsigned int)arg` for an id passed as a (possibly
negative) C `int`. -/
def to_unsigned_int (id : Int) : Nat := (id % 2 ^ 32).toNat

/-- Spec wording of the scratch-slot values `soc2030_set_mode` computes from
the stored lock intent: slot 1 is `0x72` with bit `0x10` cleared iff
`aeLocked` and bit `0x20` cleared iff `awbLocked`; slot 2 is 0 if `aeLocked`
else 1; slot 3 is 0 if `awbLocked` else 1; slot 4 is 0 if `aeLocked` else 1. -/
def slot_values (lk : soc2030_lock) : Fin 4 → Nat
  | 0 => 0x72 - (if lk.aelock then 0x10 else 0) - (if lk.awblock then 0x20 else 0)
  | 1 => if lk.aelock then 0 else 1
  | 2 => if lk.awblock then 0 else 1
  | 3 => if lk.aelock then 0 else 1

/-- A bus on which the first four write attempts are not acknowledged and
every later transfer behaves as on the simulated sensor. -/
def flakyBus : i2c_client :=
  ⟨true, fun h _ _ => if h.length < 4 then 0 else 1, sensorBus.xfer_read⟩

/-- State after open and an exposure compensation of 2 steps on the simulated
sensor. -/
def Drv.after_ev2 : Drv :=
  ((run_ioctls k0 sensorBus [Cmd.SOC2030_IOCTL_SET_EXP_COMP 2] Drv.opened).getD
    ([], Drv.opened)).2

/-! ## Auxiliary definitions for the statements on exposure steps, preview and replay -/

/-- Spec wording of the divisor of the exposure-compensation loop: 2 for a
negative step, 4 for a positive step (0, never used, for step 0). -/
def exp_divisor (s : Int) : Int := if s < 0 then 2 else if s > 0 then 4 else 0

/-- Spec wording of the adjustments `d_0, d_1, ...` for the step `s`:
`d_0 = -EXP_TARGET` if `s < 0`, `d_0 = 0x100 - EXP_TARGET` if `s > 0`, and
`d_n = d_(n-1) / divisor` with the division of C (truncation toward zero). -/
def exp_delta (k : Consts) (s : Int) : Nat → Int
  | 0 => if s < 0 then -k.EXP_TARGET else if s > 0 then 0x100 - k.EXP_TARGET else 0
  | n + 1 => Int.tdiv (exp_delta k s n) (exp_divisor s)

/-- The sum `d_1 + ... + d_n` of the adjustments for the step `s`. -/
def exp_delta_sum (k : Consts) (s : Int) : Nat → Int
  | 0 => 0
  | n + 1 => exp_delta_sum k s n + exp_delta k s (n + 1)

/-- Spec wording of the preview rule of `SOC2030_IOCTL_SET_LOCK`: the valid
flag of an axis is cleared when the requested `previewActive` is true, the
previous one was false and the previous lock flag of the axis was false. -/
def preview_clears (req_preview prev_preview prev_lock : Bool) : Bool :=
  req_preview && !prev_preview && !prev_lock


/-- A simulated sensor in context B with the widest line lengths: every write
is acknowledged, an indirect read of the context variable `0xa104` answers 7,
every other read (the two line lengths among them) answers `0xFFFF`. -/
def wideBus : i2c_client :=
  ⟨true, fun _ _ _ => 1, fun h _ =>
    (2, match h.getLast? with
        | some (Xfer.write 0x098c 0xa104) => 7
        | _ => 0xFFFF)⟩

/-- The simulated sensor behind a bus that never acknowledges the write of
`REG_EV` (`0x2222`) to the address register `0x098c`, the first transfer of the
indirect write to the exposure variable. -/
def evNackBus : i2c_client :=
  ⟨true, fun _ a v => if a = 0x098c ∧ v = 0x2222 then 0 else 1, sensorBus.xfer_read⟩

/-- The register operation that the `switch` of `soc2030_write_table` performs
for the record `next`, with the value it returns and the state it leaves;
`none` for a record that performs none (`DELAY_MS`, a slot command whose index
is outside `vars`, `REG_TABLE_END`, an unrecognised opcode). -/
def record_operation (k : Consts) (client : i2c_client) (next : soc2030_regs)
    (s : Drv) : Option (Int × Drv) :=
  match next.op with
  | Op.WRITE_REG_DATA =>
    let r := soc2030_write_reg k client next.addr next.val s.trace
    some (r.1, { s with trace := r.2 })
  | Op.WRITE_REG_BIT_H =>
    let r := soc2030_set_bits k client next.addr next.val s.trace
    some (r.1, { s with trace := r.2 })
  | Op.WRITE_REG_BIT_L =>
    let r := soc2030_clear_bits k client next.addr next.val s.trace
    some (r.1, { s with trace := r.2 })
  | Op.POLL_REG_DATA =>
    let r := soc2030_poll k client next.addr next.val 0xFFFF s.trace
    some (r.1, { s with trace := r.2 })
  | Op.POLL_REG_BIT_H =>
    let r := soc2030_poll_bit_set k client next.addr next.val s.trace
    some (r.1, { s with trace := r.2 })
  | Op.POLL_REG_BIT_L =>
    let r := soc2030_poll_bit_clear k client next.addr next.val s.trace
    some (r.1, { s with trace := r.2 })
  | Op.WRITE_VAR_DATA =>
    let r := soc2030_write_xdma_reg k client next.addr next.val s.trace
    some (r.1, { s with trace := r.2 })
  | Op.POLL_VAR_DATA =>
    let r := soc2030_poll_xdma_reg k client next.addr next.val s.trace
    some (r.1, { s with trace := r.2 })
  | Op.DELAY_MS => none
  | Op.WRITE_REG_VAR i =>
    if i.val ≥ sizeof_vars then none
    else
      let r := soc2030_write_reg k client next.addr (s.vars i) s.trace
      some (r.1, { s with trace := r.2 })
  | Op.READ_REG_VAR i =>
    if i.val ≥ sizeof_vars then none
    else
      let r := soc2030_read_reg client next.addr (s.vars i) s.trace
      some (r.1, { s with vars := Function.update s.vars i r.2.1, trace := r.2.2 })
  | Op.REG_TABLE_END => none
  | Op.other _ => none

/-- Spec wording "the commands before the k-th": the records `cmds` are run in
order from the state `s`, each of them is a recognised record other than
`REG_TABLE_END`, and the register operation of each one that has an operation
returns 0; the result is the state after the last one (`none` when a record is
`REG_TABLE_END` or unrecognised, or when an operation fails). -/
def run_operations (k : Consts) (client : i2c_client) :
    List soc2030_regs → Drv → Option Drv
  | [], s => some s
  | next :: rest, s =>
    match next.op with
    | Op.REG_TABLE_END => none
    | Op.other _ => none
    | _ =>
      match record_operation k client next s with
      | none => run_operations k client rest s
      | some (e, s1) => if e = 0 then run_operations k client rest s1 else none

/-- The sensor answers a read of the data register `0x0990` with the value
last written to the extended register the address register selects, for the
two geometry registers `0x2703` and `0x2705` (0 when nothing was written). -/
def ReadsBack (c : i2c_client) : Prop :=
  ∀ h, ((geom_of h).addr = some 0x2703 →
      (c.xfer_read h 0x0990).2 % 65536 = (geom_of h).width.getD 0 % 65536) ∧
    ((geom_of h).addr = some 0x2705 →
      (c.xfer_read h 0x0990).2 % 65536 = (geom_of h).height.getD 0 % 65536)

/-- The simulated sensor with the two geometry registers `0x2703` and `0x2705`
kept: a read of the data register while one of them is selected answers the
value last written to it; every other transfer is answered as by `sensorBus`. -/
def geomBus : i2c_client :=
  ⟨true, fun _ _ _ => 1, fun h a =>
    if a = 0x0990 ∧ (geom_of h).addr = some 0x2703 then (2, (geom_of h).width.getD 0)
    else if a = 0x0990 ∧ (geom_of h).addr = some 0x2705 then (2, (geom_of h).height.getD 0)
    else sensorBus.xfer_read h a⟩

/-! ## Register access: basic facts -/

theorem read_reg_trace (c : i2c_client) (a v : Nat) (tr : List Xfer) :
    tr <+: (soc2030_read_reg c a v tr).2.2 := by
  unfold soc2030_read_reg
  dsimp only
  split_ifs <;> simp

theorem write_reg_loop_trace (c : i2c_client) (a v : Nat) (n : Nat) :
    ∀ tr, tr <+: (write_reg_loop c a v n tr).2 := by
  induction n with
  | zero => intro tr; simp [write_reg_loop]
  | succ n ih =>
    intro tr
    unfold write_reg_loop
    split_ifs
    · simp
    · exact (List.prefix_append tr _).trans (ih _)

theorem write_reg_trace (k : Consts) (c : i2c_client) (a v : Nat) (tr : List Xfer) :
    tr <+: (soc2030_write_reg k c a v tr).2 := by
  unfold soc2030_write_reg
  split_ifs
  · simp
  · exact write_reg_loop_trace c a v _ tr

theorem write_bits_trace (k : Consts) (c : i2c_client) (a v m : Nat) (tr : List Xfer) :
    tr <+: (soc2030_write_bits k c a v m tr).2 := by
  unfold soc2030_write_bits
  simp only
  split_ifs
  · exact read_reg_trace c a 0 tr
  · exact (read_reg_trace c a 0 tr).trans (write_reg_trace k c a _ _)

theorem poll_loop_trace (c : i2c_client) (a e m : Nat) (n : Nat) :
    ∀ tr, tr <+: (poll_loop c a e m n tr).2 := by
  induction n with
  | zero => intro tr; simp [poll_loop]
  | succ n ih =>
    intro tr
    unfold poll_loop
    simp only
    split_ifs
    · exact read_reg_trace c a 0 tr
    · exact read_reg_trace c a 0 tr
    · exact (read_reg_trace c a 0 tr).trans (ih _)

theorem write_xdma_trace (k : Consts) (c : i2c_client) (a v : Nat) (tr : List Xfer) :
    tr <+: (soc2030_write_xdma_reg k c a v tr).2 := by
  unfold soc2030_write_xdma_reg
  simp only
  split_ifs
  · exact write_reg_trace k c _ _ tr
  · exact (write_reg_trace k c _ _ tr).trans (write_reg_trace k c _ _ _)
  · exact (write_reg_trace k c _ _ tr).trans (write_reg_trace k c _ _ _)

theorem read_xdma_trace (k : Consts) (c : i2c_client) (a v : Nat) (tr : List Xfer) :
    tr <+: (soc2030_read_xdma_reg k c a v tr).2.2 := by
  unfold soc2030_read_xdma_reg
  simp only
  split_ifs
  · exact write_reg_trace k c _ _ tr
  · exact (write_reg_trace k c _ _ tr).trans (read_reg_trace c _ _ _)
  · exact (write_reg_trace k c _ _ tr).trans (read_reg_trace c _ _ _)

theorem poll_xdma_loop_trace (k : Consts) (c : i2c_client) (a e : Nat) (n : Nat) :
    ∀ tr, tr <+: (poll_xdma_loop k c a e n tr).2 := by
  induction n with
  | zero => intro tr; simp [poll_xdma_loop]
  | succ n ih =>
    intro tr
    unfold poll_xdma_loop
    simp only
    split_ifs
    · exact read_xdma_trace k c a 0 tr
    · exact read_xdma_trace k c a 0 tr
    · exact (read_xdma_trace k c a 0 tr).trans (ih _)

theorem after_op_trace (s : Drv) (r : Int × List Xfer) : (after_op s r).st.trace = r.2 := by
  unfold after_op
  split_ifs <;> rfl

theorem write_table_case_trace (k : Consts) (c : i2c_client) (r : soc2030_regs) (err : Int)
    (s : Drv) : s.trace <+: (write_table_case k c r err s).st.trace := by
  unfold write_table_case
  split
  · rw [after_op_trace]; exact write_reg_trace k c _ _ _
  · rw [after_op_trace]; exact write_bits_trace k c _ _ _ _
  · rw [after_op_trace]; exact write_bits_trace k c _ _ _ _
  · rw [after_op_trace]; exact poll_loop_trace c _ _ _ _ _
  · rw [after_op_trace]; exact poll_loop_trace c _ _ _ _ _
  · rw [after_op_trace]; exact poll_loop_trace c _ _ _ _ _
  · rw [after_op_trace]; exact write_xdma_trace k c _ _ _
  · rw [after_op_trace]; exact poll_xdma_loop_trace k c _ _ _ _
  · exact List.prefix_refl _
  · split_ifs
    · exact List.prefix_refl _
    · rw [after_op_trace]; exact write_reg_trace k c _ _ _
  · split_ifs
    · exact List.prefix_refl _
    · simp only [after_op_trace]; exact read_reg_trace c _ _ _
  · exact List.prefix_refl _
  · exact List.prefix_refl _

theorem write_reg_ok (k : Consts) (c : i2c_client) (a v : Nat) (tr : List Xfer)
    (hA : c.adapter = true) (hW : c.xfer_write tr a v = 1) :
    soc2030_write_reg k c a v tr = (0, tr ++ [Xfer.write a v]) := by
  simp [soc2030_write_reg, write_reg_loop, hA, hW]

theorem read_reg_ok (c : i2c_client) (a v : Nat) (tr : List Xfer)
    (hA : c.adapter = true) (hR : (c.xfer_read tr a).1 = 2) :
    soc2030_read_reg c a v tr = (0, (c.xfer_read tr a).2 % 65536, tr ++ [Xfer.read a]) := by
  simp [soc2030_read_reg, hA, hR]

/-! ## Table interpreter: theorems -/

theorem write_table_loop_writes (k : Consts) (c : i2c_client)
    (hA : c.adapter = true) (hW : ∀ h a v, c.xfer_write h a v = 1)
    (cmds : List (Nat × Nat)) (e : soc2030_regs) (he : e.op = Op.REG_TABLE_END)
    (rest : List soc2030_regs) :
    ∀ (err : Int) (s : Drv),
      write_table_loop k c
          (cmds.map (fun p => ⟨Op.WRITE_REG_DATA, p.1, p.2⟩) ++ e :: rest) err s =
        some (0, { s with trace := s.trace ++ cmds.map (fun p => Xfer.write p.1 p.2) }) := by
  induction cmds with
  | nil => intro err s; simp [write_table_loop, he]
  | cons p ps ih =>
    intro err s
    simp [write_table_loop, write_table_case, after_op, write_reg_ok k c _ _ _ hA (hW _ _ _), ih]

/-- C1: a table of `WRITE_REG_DATA` records followed by `REG_TABLE_END`, on a
bus where every transfer succeeds, issues exactly one write per record, in
table order, with that record's address and value, and returns 0. -/
theorem write_table_direct_writes (k : Consts) (c : i2c_client) (hbus : BusOk c)
    (cmds : List (Nat × Nat)) (a v : Nat) (rest : List soc2030_regs) (s : Drv) :
    soc2030_write_table k c
        (cmds.map (fun p => ⟨Op.WRITE_REG_DATA, p.1, p.2⟩) ++
          ⟨Op.REG_TABLE_END, a, v⟩ :: rest) s =
      some (0, { s with trace := s.trace ++ cmds.map (fun p => Xfer.write p.1 p.2) }) :=
  write_table_loop_writes k c hbus.1 hbus.2.1 cmds _ rfl rest _ s

theorem quietBus_ok : BusOk quietBus := ⟨rfl, fun _ _ _ => rfl, fun _ _ => rfl⟩

/-- C1, witness: `[WriteDirect(0x10,1), WriteDirect(0x20,2), End]` issues the
writes `(0x10,1)` then `(0x20,2)` and returns 0. -/
theorem write_table_direct_writes_witness :
    BusOk quietBus ∧
    soc2030_write_table k0 quietBus
        [⟨Op.WRITE_REG_DATA, 0x10, 1⟩, ⟨Op.WRITE_REG_DATA, 0x20, 2⟩,
          ⟨Op.REG_TABLE_END, 0, 0⟩] Drv.opened =
      some (0, { Drv.opened with trace := [Xfer.write 0x10 1, Xfer.write 0x20 2] }) :=
  ⟨quietBus_ok,
    write_table_direct_writes k0 quietBus quietBus_ok [(0x10, 1), (0x20, 2)] 0 0 [] Drv.opened⟩

theorem run_records_trace (k : Consts) (c : i2c_client) (pre : List soc2030_regs) :
    ∀ (err : Int) (s : Drv) (e1 : Int) (s1 : Drv),
      run_records k c pre err s = some (e1, s1) → s.trace <+: s1.trace := by
  induction pre with
  | nil =>
    intro err s e1 s1 h
    simp only [run_records, Option.some.injEq, Prod.mk.injEq] at h
    rw [← h.2]
  | cons r rs ih =>
    intro err s e1 s1 h
    unfold run_records at h
    split_ifs at h
    have ht := write_table_case_trace k c r err s
    cases hc : write_table_case k c r err s with
    | ret e' s' => rw [hc] at h; simp at h
    | next e' s' =>
      rw [hc] at h ht
      exact ht.trans (ih _ _ _ _ h)

theorem write_table_loop_append (k : Consts) (c : i2c_client) (pre tail : List soc2030_regs) :
    ∀ (err : Int) (s : Drv) (e1 : Int) (s1 : Drv),
      run_records k c pre err s = some (e1, s1) →
      write_table_loop k c (pre ++ tail) err s = write_table_loop k c tail e1 s1 := by
  induction pre with
  | nil =>
    intro err s e1 s1 h
    simp only [run_records, Option.some.injEq, Prod.mk.injEq] at h
    rw [← h.1, ← h.2]; rfl
  | cons r rs ih =>
    intro err s e1 s1 h
    unfold run_records at h
    split_ifs at h with hop
    cases hc : write_table_case k c r err s with
    | ret e' s' => rw [hc] at h; simp at h
    | next e' s' =>
      rw [hc] at h
      simp only [List.cons_append, write_table_loop, hop, if_false, hc]
      exact ih _ _ _ _ h

theorem record_operation_fails (k : Consts) (c : i2c_client) (r : soc2030_regs) (err : Int)
    (s : Drv) (e : Int) (s2 : Drv) (h : record_operation k c r s = some (e, s2))
    (he : e ≠ 0) :
    r.op ≠ Op.REG_TABLE_END ∧ write_table_case k c r err s = Flow.ret e s2 := by
  obtain ⟨op, a, v⟩ := r
  cases op <;>
    simp only [record_operation, Option.some.injEq, Prod.mk.injEq, reduceCtorEq] at h
  all_goals first
    | (obtain ⟨rfl, rfl⟩ := h
       exact ⟨by simp, by simp [write_table_case, after_op, he]⟩)
    | (split_ifs at h with hi
       simp only [Option.some.injEq, Prod.mk.injEq] at h
       obtain ⟨rfl, rfl⟩ := h
       exact ⟨by simp, by simp [write_table_case, after_op, he, hi]⟩)

theorem record_operation_ok (k : Consts) (c : i2c_client) (r : soc2030_regs) (err : Int)
    (s : Drv) (s2 : Drv) (h : record_operation k c r s = some (0, s2)) :
    write_table_case k c r err s = Flow.next 0 s2 := by
  obtain ⟨op, a, v⟩ := r
  cases op <;>
    simp only [record_operation, Option.some.injEq, Prod.mk.injEq, reduceCtorEq] at h
  all_goals first
    | (obtain ⟨h1, rfl⟩ := h
       simp [write_table_case, after_op, h1])
    | (split_ifs at h with hi
       simp only [Option.some.injEq, Prod.mk.injEq] at h
       obtain ⟨h1, rfl⟩ := h
       simp [write_table_case, after_op, h1, hi])

theorem record_no_operation (k : Consts) (c : i2c_client) (r : soc2030_regs) (err : Int)
    (s : Drv) (h : record_operation k c r s = none) (h1 : r.op ≠ Op.REG_TABLE_END)
    (h2 : ∀ n, r.op ≠ Op.other n) :
    write_table_case k c r err s = Flow.next err s := by
  obtain ⟨op, a, v⟩ := r
  cases op <;> simp only [record_operation, reduceCtorEq] at h
  all_goals first
    | exact absurd rfl h1
    | exact absurd rfl (h2 _)
    | rfl
    | (split_ifs at h with hi
       simp [write_table_case, hi])

theorem run_operations_records (k : Consts) (c : i2c_client) (pre : List soc2030_regs) :
    ∀ (err : Int) (s s1 : Drv), run_operations k c pre s = some s1 →
      ∃ e1, run_records k c pre err s = some (e1, s1) := by
  induction pre with
  | nil =>
    intro err s s1 h
    simp only [run_operations, Option.some.injEq] at h
    exact ⟨err, by rw [← h]; rfl⟩
  | cons r rs ih =>
    intro err s s1 h
    unfold run_operations at h
    split at h
    · exact absurd h (by simp)
    · exact absurd h (by simp)
    · rename_i hend hother
      have hne : r.op ≠ Op.REG_TABLE_END := fun hh => hend hh
      unfold run_records
      rw [if_neg hne]
      cases hop : record_operation k c r s with
      | none =>
        rw [hop] at h
        rw [record_no_operation k c r err s hop hne (fun n hh => hother n hh)]
        exact ih err s s1 h
      | some p =>
        obtain ⟨e, s2⟩ := p
        rw [hop] at h
        by_cases he : e = 0
        · subst he
          simp only [if_true] at h
          rw [record_operation_ok k c r err s s2 hop]
          exact ih 0 s2 s1 h
        · simp [he] at h

/-- C2: when the records before the k-th are recognised records whose
register operations all return 0 (`run_operations` gives the state `s1` after
them) and the register operation of the k-th record returns the nonzero error
`e`, leaving the state `s2`, then `soc2030_write_table` returns `e` with the
state `s2`: the transfers of the earlier records are in the history, followed
by those of the failing operation, and nothing of a later record is issued. -/
theorem write_table_first_failure (k : Consts) (c : i2c_client)
    (pre post : List soc2030_regs) (cmd : soc2030_regs) (s s1 s2 : Drv) (e : Int)
    (hpre : run_operations k c pre s = some s1)
    (hfail : record_operation k c cmd s1 = some (e, s2)) (he : e ≠ 0) :
    soc2030_write_table k c (pre ++ cmd :: post) s = some (e, s2) ∧ e ≠ 0 ∧
      s.trace <+: s1.trace ∧ s1.trace <+: s2.trace := by
  obtain ⟨e1, hrec⟩ := run_operations_records k c pre (-EIO_errno) s s1 hpre
  obtain ⟨hcmd, hret⟩ := record_operation_fails k c cmd e1 s1 e s2 hfail he
  refine ⟨?_, he, run_records_trace k c pre _ _ _ _ hrec, ?_⟩
  · unfold soc2030_write_table
    rw [write_table_loop_append k c pre _ _ _ _ _ hrec]
    simp [write_table_loop, hcmd, hret]
  · have := write_table_case_trace k c cmd e1 s1
    rw [hret] at this
    exact this

/-- C2, witness: a direct write, a delay and an indirect write complete; the
bit-set command on register `0x20` that follows reads the register and then
fails to write it (never acknowledged, four attempts, `-EIO`); the direct write
after it is not attempted. -/
theorem write_table_first_failure_witness :
    soc2030_write_table k0 nack20Bus
        ([⟨Op.WRITE_REG_DATA, 0x10, 1⟩, ⟨Op.DELAY_MS, 0, 5⟩, ⟨Op.WRITE_VAR_DATA, 0x2703, 800⟩] ++
          ⟨Op.WRITE_REG_BIT_H, 0x20, 4⟩ ::
          [⟨Op.WRITE_REG_DATA, 0x30, 3⟩, ⟨Op.REG_TABLE_END, 0, 0⟩]) Drv.opened =
      some (-5, { Drv.opened with trace :=
        [Xfer.write 0x10 1, Xfer.write 0x098c 0x2703, Xfer.write 0x0990 800,
          Xfer.read 0x20, Xfer.write 0x20 4, Xfer.write 0x20 4, Xfer.write 0x20 4,
          Xfer.write 0x20 4] }) ∧ (-5 : Int) ≠ 0 ∧
      Drv.opened.trace <+:
        [Xfer.write 0x10 1, Xfer.write 0x098c 0x2703, Xfer.write 0x0990 800] ∧
      [Xfer.write 0x10 1, Xfer.write 0x098c 0x2703, Xfer.write 0x0990 800] <+:
        [Xfer.write 0x10 1, Xfer.write 0x098c 0x2703, Xfer.write 0x0990 800,
          Xfer.read 0x20, Xfer.write 0x20 4, Xfer.write 0x20 4, Xfer.write 0x20 4,
          Xfer.write 0x20 4] :=
  write_table_first_failure k0 nack20Bus
    [⟨Op.WRITE_REG_DATA, 0x10, 1⟩, ⟨Op.DELAY_MS, 0, 5⟩, ⟨Op.WRITE_VAR_DATA, 0x2703, 800⟩]
    [⟨Op.WRITE_REG_DATA, 0x30, 3⟩, ⟨Op.REG_TABLE_END, 0, 0⟩] ⟨Op.WRITE_REG_BIT_H, 0x20, 4⟩
    Drv.opened
    { Drv.opened with trace :=
        [Xfer.write 0x10 1, Xfer.write 0x098c 0x2703, Xfer.write 0x0990 800] }
    { Drv.opened with trace :=
        [Xfer.write 0x10 1, Xfer.write 0x098c 0x2703, Xfer.write 0x0990 800,
          Xfer.read 0x20, Xfer.write 0x20 4, Xfer.write 0x20 4, Xfer.write 0x20 4,
          Xfer.write 0x20 4] } (-5) rfl rfl (by decide)

/-- C3 (evaluation at the failing input): after one acknowledged write, a
record with an unrecognised opcode makes `soc2030_write_table` stop without a
further transfer, but the value returned is 0. -/
theorem write_table_unknown_op_returns_zero :
    (soc2030_write_table k0 quietBus
        [⟨Op.WRITE_REG_DATA, 0x10, 1⟩, ⟨Op.other 0x7fff, 0x20, 2⟩,
          ⟨Op.WRITE_REG_DATA, 0x30, 3⟩, ⟨Op.REG_TABLE_END, 0, 0⟩] Drv.opened).map
      (fun r => (r.1, r.2.trace)) = some (0, [Xfer.write 0x10 1]) := by
  decide

theorem write_table_loop_total (k : Consts) (c : i2c_client) (e : soc2030_regs)
    (he : e.op = Op.REG_TABLE_END) (post : List soc2030_regs) (pre : List soc2030_regs) :
    ∀ (err : Int) (s : Drv),
      (∃ res, write_table_loop k c (pre ++ e :: post) err s = some res) ∧
      write_table_loop k c (pre ++ e :: post) err s =
        write_table_loop k c (pre ++ [e]) err s := by
  induction pre with
  | nil => intro err s; simp [write_table_loop, he]
  | cons r rs ih =>
    intro err s
    simp only [List.cons_append, write_table_loop]
    split_ifs
    · exact ⟨⟨_, rfl⟩, rfl⟩
    · cases write_table_case k c r err s with
      | ret e' s' => exact ⟨⟨_, rfl⟩, rfl⟩
      | next e' s' => exact ih e' s'

/-- C4: a table that contains `REG_TABLE_END` always yields a result; the
records after the first `REG_TABLE_END` have no influence on it; when the
records before it complete, the result is 0 with exactly their state (the end
record adds no transfer); a table that starts with `REG_TABLE_END` returns 0
and leaves the state, bus history included, as it was. -/
theorem write_table_stops_at_end (k : Consts) (c : i2c_client)
    (pre post : List soc2030_regs) (a v : Nat) (s : Drv) :
    (∃ res, soc2030_write_table k c (pre ++ ⟨Op.REG_TABLE_END, a, v⟩ :: post) s = some res) ∧
    soc2030_write_table k c (pre ++ ⟨Op.REG_TABLE_END, a, v⟩ :: post) s =
      soc2030_write_table k c (pre ++ [⟨Op.REG_TABLE_END, a, v⟩]) s ∧
    (∀ e1 s1, run_records k c pre (-EIO_errno) s = some (e1, s1) →
      soc2030_write_table k c (pre ++ ⟨Op.REG_TABLE_END, a, v⟩ :: post) s = some (0, s1)) ∧
    soc2030_write_table k c (⟨Op.REG_TABLE_END, a, v⟩ :: post) s = some (0, s) := by
  refine ⟨(write_table_loop_total k c _ rfl post pre _ s).1,
    (write_table_loop_total k c _ rfl post pre _ s).2, ?_, ?_⟩
  · intro e1 s1 h
    unfold soc2030_write_table
    rw [write_table_loop_append k c pre _ _ _ _ _ h]
    simp [write_table_loop]
  · simp [soc2030_write_table, write_table_loop]

/-- C5: `WRITE_REG_VARi` is one `soc2030_write_reg` of slot `i` to the record's
address and changes no slot; `READ_REG_VARi` is one `soc2030_read_reg` of the
record's address whose value, when the read succeeds, becomes slot `i`, the
other slots (and on failure all slots) keeping their value; on a bus where
every transfer succeeds, `[READ_REG_VARi a, WRITE_REG_VARi b, End]` reads `a`
once and writes the value read to `b` once. -/
theorem slot_commands (k : Consts) (c : i2c_client) (i : Fin 4) (a b v w : Nat) (err : Int)
    (s : Drv) :
    (write_table_case k c ⟨Op.WRITE_REG_VAR i, a, v⟩ err s =
        after_op s (soc2030_write_reg k c a (s.vars i) s.trace) ∧
      (write_table_case k c ⟨Op.WRITE_REG_VAR i, a, v⟩ err s).st.vars = s.vars) ∧
    ((write_table_case k c ⟨Op.READ_REG_VAR i, a, v⟩ err s).err =
        (soc2030_read_reg c a (s.vars i) s.trace).1 ∧
      (write_table_case k c ⟨Op.READ_REG_VAR i, a, v⟩ err s).st.trace =
        (soc2030_read_reg c a (s.vars i) s.trace).2.2 ∧
      (write_table_case k c ⟨Op.READ_REG_VAR i, a, v⟩ err s).st.vars i =
        (soc2030_read_reg c a (s.vars i) s.trace).2.1 ∧
      (∀ j, j ≠ i →
        (write_table_case k c ⟨Op.READ_REG_VAR i, a, v⟩ err s).st.vars j = s.vars j) ∧
      ((soc2030_read_reg c a (s.vars i) s.trace).1 ≠ 0 →
        (write_table_case k c ⟨Op.READ_REG_VAR i, a, v⟩ err s).st.vars = s.vars)) ∧
    (BusOk c →
      (soc2030_write_reg k c a (s.vars i) s.trace = (0, s.trace ++ [Xfer.write a (s.vars i)])) ∧
      (soc2030_read_reg c a (s.vars i) s.trace =
        (0, (c.xfer_read s.trace a).2 % 65536, s.trace ++ [Xfer.read a])) ∧
      soc2030_write_table k c
          [⟨Op.READ_REG_VAR i, a, v⟩, ⟨Op.WRITE_REG_VAR i, b, w⟩, ⟨Op.REG_TABLE_END, 0, 0⟩] s =
        some (0, { s with
          trace := s.trace ++ [Xfer.read a, Xfer.write b ((c.xfer_read s.trace a).2 % 65536)]
          vars := Function.update s.vars i ((c.xfer_read s.trace a).2 % 65536) })) := by
  have hi : ¬ (i.val ≥ sizeof_vars) := by
    have := i.isLt
    simp only [sizeof_vars]; omega
  refine ⟨⟨?_, ?_⟩, ⟨?_, ?_, ?_, ?_, ?_⟩, ?_⟩
  · simp [write_table_case, hi]
  · simp only [write_table_case, hi, if_false]
    unfold after_op; split_ifs <;> rfl
  · simp only [write_table_case, hi, if_false]
    unfold after_op; split_ifs <;> rfl
  · simp only [write_table_case, hi, if_false]
    unfold after_op; split_ifs <;> rfl
  · simp only [write_table_case, hi, if_false]
    unfold after_op; split_ifs <;> simp [Flow.st]
  · intro j hj
    simp only [write_table_case, hi, if_false]
    unfold after_op; split_ifs <;> simp [Flow.st, Function.update_noteq hj]
  · intro hne
    simp only [write_table_case, hi, if_false]
    have hv : (soc2030_read_reg c a (s.vars i) s.trace).2.1 = s.vars i := by
      unfold soc2030_read_reg at hne ⊢
      dsimp only at hne ⊢
      split_ifs at hne ⊢ <;> simp_all
    unfold after_op; split_ifs <;> simp [Flow.st, hv]
  · intro hbus
    have hw := fun tr x y => write_reg_ok k c x y tr hbus.1 (hbus.2.1 _ _ _)
    have hr := fun tr x y => read_reg_ok c x y tr hbus.1 (hbus.2.2 _ _)
    refine ⟨hw _ _ _, hr _ _ _, ?_⟩
    simp [soc2030_write_table, write_table_loop, write_table_case, hi, after_op, hw, hr]

/-! ## Mode controller: theorems -/

theorem ctl_eq_refl (s : Drv) : s.ctl_eq s := ⟨rfl, rfl, rfl, rfl⟩

theorem ctl_eq_trans {a b c : Drv} (h1 : a.ctl_eq b) (h2 : b.ctl_eq c) : a.ctl_eq c :=
  ⟨h2.1.trans h1.1, h2.2.1.trans h1.2.1, h2.2.2.1.trans h1.2.2.1, h2.2.2.2.trans h1.2.2.2⟩

theorem ctl_eq_trace (s : Drv) (tr : List Xfer) : s.ctl_eq { s with trace := tr } :=
  ⟨rfl, rfl, rfl, rfl⟩

theorem after_op_ctl (s : Drv) (r : Int × List Xfer) : s.ctl_eq (after_op s r).st := by
  unfold after_op
  split_ifs <;> exact ⟨rfl, rfl, rfl, rfl⟩

theorem write_table_case_ctl (k : Consts) (c : i2c_client) (r : soc2030_regs) (err : Int)
    (s : Drv) : s.ctl_eq (write_table_case k c r err s).st := by
  unfold write_table_case
  split
  any_goals exact after_op_ctl _ _
  any_goals exact ctl_eq_refl _
  · split_ifs
    · exact ctl_eq_refl _
    · exact after_op_ctl _ _
  · split_ifs
    · exact ctl_eq_refl _
    · exact ctl_eq_trans (b := { s with vars := _ }) ⟨rfl, rfl, rfl, rfl⟩
        (after_op_ctl _ _)

theorem write_table_loop_ctl (k : Consts) (c : i2c_client) (tbl : List soc2030_regs) :
    ∀ (err : Int) (s : Drv) (e : Int) (s1 : Drv),
      write_table_loop k c tbl err s = some (e, s1) → s.ctl_eq s1 := by
  induction tbl with
  | nil => intro err s e s1 h; simp [write_table_loop] at h
  | cons r rs ih =>
    intro err s e s1 h
    unfold write_table_loop at h
    split_ifs at h
    · simp only [Option.some.injEq, Prod.mk.injEq] at h
      rw [← h.2]; exact ctl_eq_refl _
    · have hc := write_table_case_ctl k c r err s
      cases hf : write_table_case k c r err s with
      | ret e' s' =>
        rw [hf] at h hc
        simp only [Option.some.injEq, Prod.mk.injEq] at h
        rw [← h.2]; exact hc
      | next e' s' =>
        rw [hf] at h hc
        exact ctl_eq_trans hc (ih _ _ _ _ h)

theorem write_table_ctl (k : Consts) (c : i2c_client) (tbl : List soc2030_regs)
    (s : Drv) (e : Int) (s1 : Drv) (h : soc2030_write_table k c tbl s = some (e, s1)) :
    s.ctl_eq s1 :=
  write_table_loop_ctl k c tbl _ s e s1 h

theorem checked_eq_some (r : Option (Int × Drv)) (f : Drv → Option (Int × Drv))
    (e : Int) (s1 : Drv) :
    checked r f = some (e, s1) ↔
      (r = some (e, s1) ∧ e ≠ 0) ∨ (∃ s0, r = some (0, s0) ∧ f s0 = some (e, s1)) := by
  unfold checked
  cases r with
  | none => simp
  | some p =>
    obtain ⟨e0, s0⟩ := p
    by_cases h0 : e0 = 0
    · subst h0
      constructor
      · intro h
        exact Or.inr ⟨s0, rfl, by simpa using h⟩
      · rintro (⟨h1, h2⟩ | ⟨s0', h1, h2⟩)
        · simp only [Option.some.injEq, Prod.mk.injEq] at h1
          exact absurd h1.1.symm h2
        · simp only [Option.some.injEq, Prod.mk.injEq, true_and] at h1
          subst h1
          simpa using h2
    · constructor
      · intro h
        have h' : some (e0, s0) = some (e, s1) := by simpa [h0] using h
        refine Or.inl ⟨h', ?_⟩
        simp only [Option.some.injEq, Prod.mk.injEq] at h'
        rw [← h'.1]; exact h0
      · rintro (⟨h1, _⟩ | ⟨s0', h1, _⟩)
        · simpa [h0] using h1
        · simp only [Option.some.injEq, Prod.mk.injEq] at h1
          exact absurd h1.1 h0

theorem restore_ae_loop_ctl (k : Consts) (c : i2c_client) (ev : Int)
    (tbl : List soc2030_regs) :
    ∀ (idx : Nat) (s : Drv) (e : Int) (s1 : Drv),
      restore_ae_loop k c ev tbl idx s = some (e, s1) → s.ctl_eq s1 := by
  induction tbl with
  | nil => intro idx s e s1 h; simp [restore_ae_loop] at h
  | cons r rs ih =>
    intro idx s e s1 h
    unfold restore_ae_loop at h
    dsimp only at h
    repeat' split at h
    all_goals first
      | exact ih _ _ _ _ h
      | exact ctl_eq_trans (ctl_eq_trace _ _) (ih _ _ _ _ h)
      | (simp only [Option.some.injEq, Prod.mk.injEq] at h
         rw [← h.2]
         exact ctl_eq_refl _)

theorem restore_awb_loop_ctl (k : Consts) (c : i2c_client) (tbl : List soc2030_regs) :
    ∀ (idx : Nat) (s : Drv) (e : Int) (s1 : Drv),
      restore_awb_loop k c tbl idx s = some (e, s1) → s.ctl_eq s1 := by
  induction tbl with
  | nil => intro idx s e s1 h; simp [restore_awb_loop] at h
  | cons r rs ih =>
    intro idx s e s1 h
    unfold restore_awb_loop at h
    dsimp only at h
    repeat' split at h
    all_goals first
      | exact ih _ _ _ _ h
      | exact ctl_eq_trans (ctl_eq_trace _ _) (ih _ _ _ _ h)
      | (simp only [Option.some.injEq, Prod.mk.injEq] at h
         rw [← h.2]
         exact ctl_eq_refl _)

theorem restore_ctl (k : Consts) (c : i2c_client) (ev : Int) (s : Drv) (e : Int) (s1 : Drv)
    (h : soc2030_restore_isp_state k c ev s = some (e, s1)) : s.ctl_eq s1 := by
  unfold soc2030_restore_isp_state at h
  dsimp only at h
  split_ifs at h
  · simp only [Option.some.injEq, Prod.mk.injEq] at h
    rw [← h.2]; exact ctl_eq_trace _ _
  · rw [checked_eq_some] at h
    rcases h with ⟨h, _⟩ | ⟨s0, h0, h⟩
    · exact ctl_eq_trans (ctl_eq_trace _ _) (restore_ae_loop_ctl k c ev _ _ _ _ _ h)
    · have c0 := ctl_eq_trans (ctl_eq_trace s _) (restore_ae_loop_ctl k c ev _ _ _ _ _ h0)
      rw [checked_eq_some] at h
      rcases h with ⟨h, _⟩ | ⟨s2, h2, h⟩
      · exact ctl_eq_trans c0 (restore_awb_loop_ctl k c _ _ _ _ _ h)
      · simp only [Option.some.injEq, Prod.mk.injEq] at h
        rw [← h.2]
        exact ctl_eq_trans c0 (restore_awb_loop_ctl k c _ _ _ _ _ h2)

theorem set_mode_index_catalog (mode : soc2030_mode) :
    (set_mode_index mode modes 0 = 0 ↔
        (mode.xres, mode.yres, mode.fps) = (800, 600, 30)) ∧
    (set_mode_index mode modes 0 = 1 ↔
        (mode.xres, mode.yres, mode.fps) = (1600, 1200, 15)) ∧
    (set_mode_index mode modes 0 = 2 ↔
        (mode.xres, mode.yres, mode.fps) = (1280, 720, 30)) ∧
    (set_mode_index mode modes 0 = 3 ↔
        (mode.xres, mode.yres, mode.fps) ∉
          [((800 : Int), (600 : Int), (30 : Int)), (1600, 1200, 15), (1280, 720, 30)]) ∧
    set_mode_index mode modes 0 ≤ 3 := by
  simp only [set_mode_index, modes, List.mem_cons, List.mem_singleton, Prod.mk.injEq,
    List.not_mem_nil, or_false]
  by_cases h1 : mode.fps = 30 ∧ mode.xres = 800 ∧ mode.yres = 600
  · obtain ⟨a, b, c⟩ := h1
    simp [a, b, c]
  · by_cases h2 : mode.fps = 15 ∧ mode.xres = 1600 ∧ mode.yres = 1200
    · obtain ⟨a, b, c⟩ := h2
      simp [a, b, c]
    · by_cases h3 : mode.fps = 30 ∧ mode.xres = 1280 ∧ mode.yres = 720
      · obtain ⟨a, b, c⟩ := h3
        simp [a, b, c]
      · simp only [h1, h2, h3, if_false]
        simp only [not_and] at h1 h2 h3
        refine ⟨?_, ?_, ?_, ?_, le_refl _⟩
        · simp; intro a b c; exact h1 c a b
        · simp; intro a b c; exact h2 c a b
        · simp; intro a b c; exact h3 c a b
        · simp only [true_iff, not_or, not_and]
          exact ⟨fun a b c => h1 c a b, fun a b c => h2 c a b, fun a b c => h3 c a b⟩

/-- C6: for a triple that is not one of the three catalog triples (exact match
on all three fields), `soc2030_set_mode` returns `-EINVAL` and the state (bus
history, current mode, slots, snapshots) is the one on entry. -/
theorem set_mode_rejects_unknown (k : Consts) (c : i2c_client) (s : Drv) (mode : soc2030_mode)
    (h : (mode.xres, mode.yres, mode.fps) ∉
      [((800 : Int), (600 : Int), (30 : Int)), (1600, 1200, 15), (1280, 720, 30)]) :
    soc2030_set_mode k c s mode = some (-EINVAL_errno, s) := by
  have hlen : set_mode_index mode modes 0 = modes.length := by
    rw [(set_mode_index_catalog mode).2.2.2.1.mpr h]; rfl
  unfold soc2030_set_mode
  dsimp only
  rw [if_pos hlen]

/-- C6, witness: `(800, 600, 15)` is rejected although `(800, 600, 30)` is in
the catalog. -/
theorem set_mode_rejects_unknown_witness :
    soc2030_set_mode k0 quietBus Drv.opened ⟨800, 600, 15, []⟩ =
      some (-EINVAL_errno, Drv.opened) :=
  set_mode_rejects_unknown k0 quietBus Drv.opened ⟨800, 600, 15, []⟩ (by decide)

set_option maxRecDepth 100000 in
/-- C7 (evaluation at the failing input): the first write of `pll_table` is
never acknowledged, so the PLL table returns `-EIO` after its four attempts;
`soc2030_set_mode` nevertheless runs the base geometry table (the fifth
transfer is its first write) and all later tables, records mode 0 and
returns 0. -/
theorem set_mode_ignores_pll_failure :
    (soc2030_write_table k0 pllNackBus pll_table Drv.opened).map
        (fun r => (r.1, r.2.trace)) =
      some (-5, [Xfer.write 0x001e 0x0503, Xfer.write 0x001e 0x0503,
        Xfer.write 0x001e 0x0503, Xfer.write 0x001e 0x0503]) ∧
    (soc2030_set_mode k0 pllNackBus Drv.opened ⟨800, 600, 30, []⟩).map
        (fun r => (r.1, r.2.info.mode, r.2.trace.take 5)) =
      some (0, 0, [Xfer.write 0x001e 0x0503, Xfer.write 0x001e 0x0503,
        Xfer.write 0x001e 0x0503, Xfer.write 0x001e 0x0503, Xfer.write 0x98C 0x2703]) := by
  decide

theorem run_steps_cons (f : Drv → Option (Int × Drv)) (fs : List (Drv → Option (Int × Drv)))
    (s : Drv) : run_steps (f :: fs) s = checked (f s) (run_steps fs) := by
  unfold checked
  conv_lhs => unfold run_steps
  cases f s with
  | none => rfl
  | some p =>
    obtain ⟨e, s1⟩ := p
    by_cases he : e = 0 <;> simp [he]

theorem set_mode_init_ctl (k : Consts) (c : i2c_client) (s : Drv) (e : Int) (s1 : Drv)
    (h : set_mode_init k c s = some (e, s1)) : s.ctl_eq s1 := by
  unfold set_mode_init at h
  split_ifs at h
  · split at h
    · exact absurd h (by simp)
    · rename_i e0 s0 h0
      have c0 := write_table_ctl k c _ _ _ _ h0
      simp only [checked_eq_some] at h
      rcases h with ⟨h1, _⟩ | ⟨s1', h1, h⟩
      · exact ctl_eq_trans c0 (write_table_ctl k c _ _ _ _ h1)
      have c1 := ctl_eq_trans c0 (write_table_ctl k c _ _ _ _ h1)
      rcases h with ⟨h2, _⟩ | ⟨s2', h2, h⟩
      · exact ctl_eq_trans c1 (write_table_ctl k c _ _ _ _ h2)
      have c2 := ctl_eq_trans c1 (write_table_ctl k c _ _ _ _ h2)
      rcases h with ⟨h3, _⟩ | ⟨s3', h3, h⟩
      · exact ctl_eq_trans c2 (write_table_ctl k c _ _ _ _ h3)
      have c3 := ctl_eq_trans c2 (write_table_ctl k c _ _ _ _ h3)
      rcases h with ⟨h4, _⟩ | ⟨s4', h4, h⟩
      · exact ctl_eq_trans c3 (write_table_ctl k c _ _ _ _ h4)
      have c4 := ctl_eq_trans c3 (write_table_ctl k c _ _ _ _ h4)
      rcases h with ⟨h5, _⟩ | ⟨s5', h5, h⟩
      · exact ctl_eq_trans c4 (write_table_ctl k c _ _ _ _ h5)
      have c5 := ctl_eq_trans c4 (write_table_ctl k c _ _ _ _ h5)
      rcases h with ⟨h6, _⟩ | ⟨s6', h6, h⟩
      · exact ctl_eq_trans c5 (write_table_ctl k c _ _ _ _ h6)
      have c6 := ctl_eq_trans c5 (write_table_ctl k c _ _ _ _ h6)
      rcases h with ⟨h7, _⟩ | ⟨s7', h7, h⟩
      · exact ctl_eq_trans c6 (write_table_ctl k c _ _ _ _ h7)
      have c7 := ctl_eq_trans c6 (write_table_ctl k c _ _ _ _ h7)
      rcases h with ⟨h8, _⟩ | ⟨s8', h8, h⟩
      · exact ctl_eq_trans c7 (write_table_ctl k c _ _ _ _ h8)
      have c8 := ctl_eq_trans c7 (write_table_ctl k c _ _ _ _ h8)
      rcases h with ⟨h9, _⟩ | ⟨s9', h9, h⟩
      · exact ctl_eq_trans c8 (write_table_ctl k c _ _ _ _ h9)
      have c9 := ctl_eq_trans c8 (write_table_ctl k c _ _ _ _ h9)
      simp only [Option.some.injEq, Prod.mk.injEq] at h
      rw [← h.2]; exact c9
  · simp only [Option.some.injEq, Prod.mk.injEq] at h
    rw [← h.2]; exact ctl_eq_refl _

/-- The part of `soc2030_set_mode` after the catalog search, for the catalog
index `i` and entry `m`. -/
theorem set_mode_unfold (k : Consts) (c : i2c_client) (s : Drv) (i : Nat)
    (m mode : soc2030_mode) (hi : modes[i]? = some m)
    (hm : mode.xres = m.xres ∧ mode.yres = m.yres ∧ mode.fps = m.fps) :
    soc2030_set_mode k c s mode =
      checked (set_mode_init k c s) fun s1 =>
      checked (soc2030_write_table k c m.regset
        { s1 with vars := set_mode_vars s1.lockBuff s1.vars }) fun s3 =>
      checked (soc2030_write_table k c refresh_mode s3) fun s4 =>
      checked (soc2030_write_table k c refresh_state s4) fun s5 =>
      if s5.lockBuff.aelock then
        checked (soc2030_restore_isp_state k c s5.info.current_ev s5) fun s6 =>
        some (0, { s6 with info := { s6.info with mode := i } })
      else some (0, { s5 with info := { s5.info with mode := i } }) := by
  have hcat := set_mode_index_catalog mode
  have hidx : set_mode_index mode modes 0 = i := by
    match i, hi with
    | 0, hi =>
      simp only [modes, List.getElem?_cons_zero, Option.some.injEq] at hi
      subst hi
      exact hcat.1.mpr (by simp [hm.1, hm.2.1, hm.2.2])
    | 1, hi =>
      simp only [modes, List.getElem?_cons_succ, List.getElem?_cons_zero,
        Option.some.injEq] at hi
      subst hi
      exact hcat.2.1.mpr (by simp [hm.1, hm.2.1, hm.2.2])
    | 2, hi =>
      simp only [modes, List.getElem?_cons_succ, List.getElem?_cons_zero,
        Option.some.injEq] at hi
      subst hi
      exact hcat.2.2.1.mpr (by simp [hm.1, hm.2.1, hm.2.2])
    | n + 3, hi => simp [modes] at hi
  have hlt : i < 3 := by
    by_contra hge
    have : modes[i]? = none := by
      apply List.getElem?_eq_none
      simp only [modes, List.length_cons, List.length_nil]; omega
    rw [this] at hi; exact absurd hi (by simp)
  have hne : ¬ set_mode_index mode modes 0 = modes.length := by
    rw [hidx]; simp only [modes, List.length_cons, List.length_nil]; omega
  unfold soc2030_set_mode
  dsimp only
  rw [if_neg hne, hidx, hi]

theorem set_mode_tail_eq (k : Consts) (c : i2c_client) (i : Nat) (m : soc2030_mode)
    (s s2 : Drv) (c2 : s.ctl_eq s2) :
    (checked (soc2030_write_table k c m.regset s2) fun s3 =>
      checked (soc2030_write_table k c refresh_mode s3) fun s4 =>
      checked (soc2030_write_table k c refresh_state s4) fun s5 =>
      if s5.lockBuff.aelock then
        checked (soc2030_restore_isp_state k c s5.info.current_ev s5) fun s6 =>
        some (0, { s6 with info := { s6.info with mode := i } })
      else some (0, { s5 with info := { s5.info with mode := i } })) =
    setMode_steps k c i m s s2 := by
  simp only [setMode_steps, List.cons_append, List.nil_append, run_steps_cons, checked]
  cases h3 : soc2030_write_table k c m.regset s2 with
  | none => rfl
  | some p3 =>
    obtain ⟨e3, s3⟩ := p3
    have c3 := ctl_eq_trans c2 (write_table_ctl k c _ _ _ _ h3)
    by_cases he3 : e3 = 0
    swap
    · simp [he3]
    subst he3
    simp only [ne_eq, not_true_eq_false, if_false]
    cases h4 : soc2030_write_table k c refresh_mode s3 with
    | none => rfl
    | some p4 =>
      obtain ⟨e4, s4⟩ := p4
      have c4 := ctl_eq_trans c3 (write_table_ctl k c _ _ _ _ h4)
      by_cases he4 : e4 = 0
      swap
      · simp [he4]
      subst he4
      simp only [ne_eq, not_true_eq_false, if_false]
      cases h5 : soc2030_write_table k c refresh_state s4 with
      | none => rfl
      | some p5 =>
        obtain ⟨e5, s5⟩ := p5
        have c5 := ctl_eq_trans c4 (write_table_ctl k c _ _ _ _ h5)
        by_cases he5 : e5 = 0
        swap
        · simp [he5]
        subst he5
        simp only [ne_eq, not_true_eq_false, if_false, c5.2.1, c5.1]
        by_cases hl : s.lockBuff.aelock = true
        · simp only [hl, if_true, run_steps_cons, checked]
          cases h6 : soc2030_restore_isp_state k c s.info.current_ev s5 with
          | none => rfl
          | some p6 =>
            obtain ⟨e6, s6⟩ := p6
            by_cases he6 : e6 = 0
            · subst he6; simp [run_steps]
            · simp [he6]
        · simp [hl, run_steps, c5.1, c5.2.1]

/-- C8: for a catalog triple with index `i`, once the initialisation block is
passed, `soc2030_set_mode` is exactly: the mode's table, `refresh_mode`,
`refresh_state`, then `soc2030_restore_isp_state` with the current exposure
bias iff `aelock` is set in the stored request; on success it records `i` as
the current mode and returns 0; when it returns an error the recorded mode is
the one on entry. -/
theorem set_mode_sequence (k : Consts) (c : i2c_client) (s s1 : Drv) (i : Nat)
    (m mode : soc2030_mode) (hi : modes[i]? = some m)
    (hm : mode.xres = m.xres ∧ mode.yres = m.yres ∧ mode.fps = m.fps)
    (hinit : set_mode_init k c s = some (0, s1)) :
    soc2030_set_mode k c s mode =
        setMode_steps k c i m s { s1 with vars := set_mode_vars s.lockBuff s1.vars } ∧
      ∀ e s', soc2030_set_mode k c s mode = some (e, s') →
        (e = 0 → s'.info.mode = i) ∧ (e ≠ 0 → s'.info.mode = s.info.mode) := by
  have hu := set_mode_unfold k c s i m mode hi hm
  have c1 := set_mode_init_ctl k c s 0 s1 hinit
  have c2 : s.ctl_eq ({ s1 with vars := set_mode_vars s1.lockBuff s1.vars } : Drv) :=
    ⟨c1.1, c1.2.1, c1.2.2.1, c1.2.2.2⟩
  constructor
  · have ht := set_mode_tail_eq k c i m s _ c2
    rw [hu, hinit]
    conv_rhs => rw [← c1.2.1]
    exact ht
  · intro e s' h
    rw [hu, hinit] at h
    simp only [checked_eq_some] at h
    rcases h with ⟨h, hne⟩ | ⟨s1', h1, h⟩
    · simp only [Option.some.injEq, Prod.mk.injEq] at h
      exact absurd h.1.symm hne
    simp only [Option.some.injEq, Prod.mk.injEq, true_and] at h1
    subst h1
    rcases h with ⟨h3, hne⟩ | ⟨s3, h3, h⟩
    · have c3 := ctl_eq_trans c2 (write_table_ctl k c _ _ _ _ h3)
      exact ⟨fun h0 => absurd h0 hne, fun _ => by rw [c3.1]⟩
    have c3 := ctl_eq_trans c2 (write_table_ctl k c _ _ _ _ h3)
    rcases h with ⟨h4, hne⟩ | ⟨s4, h4, h⟩
    · have c4 := ctl_eq_trans c3 (write_table_ctl k c _ _ _ _ h4)
      exact ⟨fun h0 => absurd h0 hne, fun _ => by rw [c4.1]⟩
    have c4 := ctl_eq_trans c3 (write_table_ctl k c _ _ _ _ h4)
    rcases h with ⟨h5, hne⟩ | ⟨s5, h5, h⟩
    · have c5 := ctl_eq_trans c4 (write_table_ctl k c _ _ _ _ h5)
      exact ⟨fun h0 => absurd h0 hne, fun _ => by rw [c5.1]⟩
    have c5 := ctl_eq_trans c4 (write_table_ctl k c _ _ _ _ h5)
    split_ifs at h
    · simp only [checked_eq_some] at h
      rcases h with ⟨h6, hne⟩ | ⟨s6, h6, h⟩
      · have c6 := ctl_eq_trans c5 (restore_ctl k c _ _ _ _ h6)
        exact ⟨fun h0 => absurd h0 hne, fun _ => by rw [c6.1]⟩
      · simp only [Option.some.injEq, Prod.mk.injEq] at h
        rw [← h.1, ← h.2]
        exact ⟨fun _ => rfl, fun h0 => absurd rfl h0⟩
    · simp only [Option.some.injEq, Prod.mk.injEq] at h
      rw [← h.1, ← h.2]
      exact ⟨fun _ => rfl, fun h0 => absurd rfl h0⟩

/-- C8, witness: a mode was set before (no initialisation block), the request
is the catalog triple `(1600, 1200, 15)` of index 1. -/
theorem set_mode_sequence_witness :
    soc2030_set_mode k0 sensorBus Drv.mode0 ⟨1600, 1200, 15, []⟩ =
        setMode_steps k0 sensorBus 1 ⟨1600, 1200, 15, mode_1600x1200⟩ Drv.mode0
          { Drv.mode0 with vars := set_mode_vars Drv.mode0.lockBuff Drv.mode0.vars } ∧
      ∀ e s', soc2030_set_mode k0 sensorBus Drv.mode0 ⟨1600, 1200, 15, []⟩ = some (e, s') →
        (e = 0 → s'.info.mode = (1 : Nat)) ∧ (e ≠ 0 → s'.info.mode = Drv.mode0.info.mode) :=
  set_mode_sequence k0 sensorBus Drv.mode0 Drv.mode0 1 ⟨1600, 1200, 15, mode_1600x1200⟩
    ⟨1600, 1200, 15, []⟩ rfl ⟨rfl, rfl, rfl⟩ rfl

/-! ## Exposure conversion: theorems -/

theorem read_reg_val_lt (c : i2c_client) (a v0 : Nat) (tr : List Xfer) (v : Nat)
    (tr1 : List Xfer) (h : soc2030_read_reg c a v0 tr = (0, v, tr1)) : v < 65536 := by
  unfold soc2030_read_reg at h
  dsimp only at h
  split_ifs at h
  · simp [ENODEV_errno] at h
  · simp [EIO_errno] at h
  · simp only [Prod.mk.injEq, true_and] at h
    rw [← h.1]; exact Nat.mod_lt _ (by norm_num)

theorem read_xdma_val_lt (k : Consts) (c : i2c_client) (a v0 : Nat) (tr : List Xfer) (v : Nat)
    (tr1 : List Xfer) (h : soc2030_read_xdma_reg k c a v0 tr = (0, v, tr1)) : v < 65536 := by
  unfold soc2030_read_xdma_reg at h
  dsimp only at h
  split_ifs at h with h1 h2
  · simp only [Prod.mk.injEq] at h
    exact absurd h.1 h1
  · rw [h] at h2; exact absurd rfl h2
  · simp only [Prod.mk.injEq, true_and] at h
    have h2' : (soc2030_read_reg c 0x0990 v0 (soc2030_write_reg k c 0x098c a tr).2).1 = 0 := by
      simpa using h2
    refine read_reg_val_lt c 0x0990 v0 (soc2030_write_reg k c 0x098c a tr).2 v tr1 ?_
    rw [← h.1, ← h.2, ← h2']

/-- C10: `soc2030_conv_exp2ev0a` on a 16-bit exposure `x`, when the context
read succeeds with value `ctx`: if `ctx` is not 7 no line length is read and
the result is the EV step applied to `x`; if `ctx` is 7 and the two
line-length reads give `la` (nonzero) and `lb`, the result is the EV step
applied to `floor(x * lb / la) mod 2^16`, the product being formed before the
division. -/
theorem conv_exp2ev0a_value (k : Consts) (c : i2c_client) (b : Int) (x : Nat)
    (tr tr1 : List Xfer) (ctx : Nat) (hx : x < 65536)
    (hctx : soc2030_read_xdma_reg k c REG_CONTEXT 0 tr = (0, ctx, tr1)) :
    (ctx ≠ 7 → soc2030_conv_exp2ev0a k c b x tr = (0, toBaseline_bias b x, tr1)) ∧
    (ctx = 7 → ∀ la lb tr2 tr3,
      soc2030_read_xdma_reg k c REG_LINE_LENGTH_A 0 tr1 = (0, la, tr2) →
      soc2030_read_xdma_reg k c REG_LINE_LENGTH_B 0 tr2 = (0, lb, tr3) → la ≠ 0 →
      soc2030_conv_exp2ev0a k c b x tr =
        (0, toBaseline_bias b (x * lb / la % 65536), tr3)) := by
  constructor
  · intro h7
    unfold soc2030_conv_exp2ev0a toBaseline_bias
    simp only [hctx, ne_eq, not_true_eq_false, if_false, h7, gt_iff_lt,
      Nat.shiftRight_eq_div_pow, Nat.shiftLeft_eq]
    split_ifs <;> rfl
  · intro h7 la lb tr2 tr3 hla hlb _
    have hlb' := read_xdma_val_lt k c _ _ _ _ _ hlb
    have hprod : x * lb % 2 ^ 32 = x * lb := by
      apply Nat.mod_eq_of_lt
      calc x * lb < 65536 * 65536 := Nat.mul_lt_mul'' hx hlb'
        _ = 2 ^ 32 := by norm_num
    subst h7
    unfold soc2030_conv_exp2ev0a toBaseline_bias
    simp only [hctx, hla, hlb, ne_eq, not_true_eq_false, if_false, if_true, gt_iff_lt,
      Nat.shiftRight_eq_div_pow, Nat.shiftLeft_eq, hprod]
    split_ifs <;> rfl

/-- C10, witness: context B (register value 7), line lengths 2026 and 2217,
exposure 1000, bias -1. -/
theorem conv_exp2ev0a_value_witness :
    (1000 < 65536 ∧
      soc2030_read_xdma_reg k0 sensorBus REG_CONTEXT 0
          [Xfer.write 0x098c 0xa103, Xfer.write 0x0990 0x0002] =
        (0, 7, [Xfer.write 0x098c 0xa103, Xfer.write 0x0990 0x0002,
          Xfer.write 0x098c 0xa104, Xfer.read 0x0990])) ∧
    soc2030_conv_exp2ev0a k0 sensorBus (-1) 1000
        [Xfer.write 0x098c 0xa103, Xfer.write 0x0990 0x0002] =
      (0, 2188, [Xfer.write 0x098c 0xa103, Xfer.write 0x0990 0x0002,
          Xfer.write 0x098c 0xa104, Xfer.read 0x0990,
          Xfer.write 0x098c 0x2721, Xfer.read 0x0990,
          Xfer.write 0x098c 0x2737, Xfer.read 0x0990]) :=
  ⟨⟨by decide, by decide⟩,
    (conv_exp2ev0a_value k0 sensorBus (-1) 1000
      [Xfer.write 0x098c 0xa103, Xfer.write 0x0990 0x0002]
      [Xfer.write 0x098c 0xa103, Xfer.write 0x0990 0x0002,
        Xfer.write 0x098c 0xa104, Xfer.read 0x0990] 7 (by decide) (by decide)).2 rfl
      2026 2217
      [Xfer.write 0x098c 0xa103, Xfer.write 0x0990 0x0002,
        Xfer.write 0x098c 0xa104, Xfer.read 0x0990,
        Xfer.write 0x098c 0x2721, Xfer.read 0x0990]
      [Xfer.write 0x098c 0xa103, Xfer.write 0x0990 0x0002,
        Xfer.write 0x098c 0xa104, Xfer.read 0x0990,
        Xfer.write 0x098c 0x2721, Xfer.read 0x0990,
        Xfer.write 0x098c 0x2737, Xfer.read 0x0990]
      (by decide) (by decide) (by decide)⟩

/-! ## Geometry registers after the first mode set: theorems -/

theorem geom_of_snoc (tr : List Xfer) (x : Xfer) :
    geom_of (tr ++ [x]) = (geom_of tr).step x := by
  simp [geom_of, List.foldl_append]

theorem geom_step_idem (g : Geom) (x : Xfer) : (g.step x).step x = g.step x := by
  cases x with
  | read a => rfl
  | write a v =>
    unfold Geom.step
    by_cases h1 : a = 0x098c
    · simp [h1]
    · by_cases h2 : a = 0x0990
      · by_cases h3 : g.addr = some 0x2703
        · simp [h2, h3]
        · by_cases h4 : g.addr = some 0x2705
          · simp [h2, h3, h4]
          · simp [h2, h3, h4]
      · simp [h1, h2]

theorem write_reg_loop_geom (c : i2c_client) (a v : Nat) (n : Nat) :
    ∀ tr, (write_reg_loop c a v n tr).1 = 0 →
      geom_of (write_reg_loop c a v n tr).2 = (geom_of tr).step (Xfer.write a v) := by
  induction n with
  | zero => intro tr h; simp [write_reg_loop, EIO_errno] at h
  | succ n ih =>
    intro tr h
    unfold write_reg_loop at h ⊢
    split_ifs at h ⊢
    · exact geom_of_snoc _ _
    · rw [ih _ h, geom_of_snoc, geom_step_idem]

theorem write_reg_geom (k : Consts) (c : i2c_client) (a v : Nat) (tr : List Xfer)
    (h : (soc2030_write_reg k c a v tr).1 = 0) :
    geom_of (soc2030_write_reg k c a v tr).2 = (geom_of tr).step (Xfer.write a v) := by
  unfold soc2030_write_reg at h ⊢
  split_ifs at h ⊢
  · simp [ENODEV_errno] at h
  · exact write_reg_loop_geom c a v _ tr h

theorem read_reg_geom (c : i2c_client) (a v0 : Nat) (tr : List Xfer) :
    geom_of (soc2030_read_reg c a v0 tr).2.2 = geom_of tr := by
  unfold soc2030_read_reg
  dsimp only
  split_ifs
  · rfl
  · rw [geom_of_snoc]; rfl
  · rw [geom_of_snoc]; rfl

theorem geom_step_other (g : Geom) (a v : Nat) (h1 : a ≠ 0x098c) (h2 : a ≠ 0x0990) :
    g.step (Xfer.write a v) = g := by
  simp [Geom.step, h1, h2]

theorem write_bits_geom (k : Consts) (c : i2c_client) (a v m : Nat) (tr : List Xfer)
    (h1 : a ≠ 0x098c) (h2 : a ≠ 0x0990) (h : (soc2030_write_bits k c a v m tr).1 = 0) :
    geom_of (soc2030_write_bits k c a v m tr).2 = geom_of tr := by
  unfold soc2030_write_bits at h ⊢
  dsimp only at h ⊢
  split_ifs at h ⊢
  · exact read_reg_geom c a 0 tr
  · rw [write_reg_geom k c _ _ _ h, geom_step_other _ _ _ h1 h2, read_reg_geom]

theorem poll_loop_geom (c : i2c_client) (a e m : Nat) (n : Nat) :
    ∀ tr, geom_of (poll_loop c a e m n tr).2 = geom_of tr := by
  induction n with
  | zero => intro tr; rfl
  | succ n ih =>
    intro tr
    unfold poll_loop
    dsimp only
    split_ifs
    · exact read_reg_geom c a 0 tr
    · exact read_reg_geom c a 0 tr
    · rw [ih, read_reg_geom]

theorem write_xdma_geom (k : Consts) (c : i2c_client) (a v : Nat) (tr : List Xfer)
    (h : (soc2030_write_xdma_reg k c a v tr).1 = 0) :
    geom_of (soc2030_write_xdma_reg k c a v tr).2 =
      ((geom_of tr).step (Xfer.write 0x098c a)).step (Xfer.write 0x0990 v) := by
  unfold soc2030_write_xdma_reg at h ⊢
  dsimp only at h ⊢
  split_ifs at h ⊢ with h1 h2
  · exact absurd h h1
  · exact absurd h h2
  · have e1 : (soc2030_write_reg k c 0x098c a tr).1 = 0 := by simpa using h1
    have e2 : (soc2030_write_reg k c 0x0990 v (soc2030_write_reg k c 0x098c a tr).2).1 = 0 := by
      simpa using h2
    show geom_of (soc2030_write_reg k c 0x0990 v (soc2030_write_reg k c 0x098c a tr).2).2 = _
    rw [write_reg_geom k c _ _ _ e2, write_reg_geom k c _ _ _ e1]

theorem read_xdma_geom (k : Consts) (c : i2c_client) (a v0 : Nat) (tr : List Xfer)
    (h : (soc2030_read_xdma_reg k c a v0 tr).1 = 0) :
    geom_of (soc2030_read_xdma_reg k c a v0 tr).2.2 = (geom_of tr).step (Xfer.write 0x098c a) := by
  unfold soc2030_read_xdma_reg at h ⊢
  dsimp only at h ⊢
  split_ifs at h ⊢ with h1 h2
  · exact absurd h h1
  · exact absurd h h2
  · have e1 : (soc2030_write_reg k c 0x098c a tr).1 = 0 := by simpa using h1
    show geom_of (soc2030_read_reg c 0x0990 v0 (soc2030_write_reg k c 0x098c a tr).2).2.2 = _
    rw [read_reg_geom, write_reg_geom k c _ _ _ e1]

theorem poll_xdma_loop_geom (k : Consts) (c : i2c_client) (a e : Nat) (n : Nat) :
    ∀ tr, (poll_xdma_loop k c a e n tr).1 = 0 →
      geom_of (poll_xdma_loop k c a e n tr).2 = (geom_of tr).step (Xfer.write 0x098c a) := by
  induction n with
  | zero => intro tr h; simp [poll_xdma_loop, EINVAL_errno] at h
  | succ n ih =>
    intro tr h
    unfold poll_xdma_loop at h ⊢
    dsimp only at h ⊢
    split_ifs at h ⊢ with h1 h2
    · exact absurd h h1
    · exact read_xdma_geom k c a 0 tr (by simpa using h1)
    · rw [ih _ h, read_xdma_geom k c a 0 tr (by simpa using h1), geom_step_idem]

theorem after_op_next (s : Drv) (r : Int × List Xfer) (e : Int) (s1 : Drv)
    (h : after_op s r = Flow.next e s1) : r.1 = 0 ∧ s1 = { s with trace := r.2 } := by
  unfold after_op at h
  split_ifs at h with h0
  simp only [Flow.next.injEq] at h
  exact ⟨by simpa using h0, h.2.symm⟩

theorem after_op_ret (s : Drv) (r : Int × List Xfer) (e : Int) (s1 : Drv)
    (h : after_op s r = Flow.ret e s1) : e ≠ 0 := by
  unfold after_op at h
  split_ifs at h with h0
  simp only [Flow.ret.injEq] at h
  rw [← h.1]; exact h0

theorem write_table_case_geom (k : Consts) (c : i2c_client) (r : soc2030_regs) (err : Int)
    (s : Drv) (g : Geom) (hg : (geom_of s.trace).after_record r = some g) :
    (∀ e s1, write_table_case k c r err s = Flow.next e s1 → geom_of s1.trace = g) ∧
    (∀ e s1, write_table_case k c r err s = Flow.ret e s1 → e ≠ 0) := by
  obtain ⟨op, a, v⟩ := r
  cases op with
  | REG_TABLE_END => simp [Geom.after_record] at hg
  | other n => simp [Geom.after_record] at hg
  | READ_REG_VAR i => simp [Geom.after_record] at hg
  | WRITE_REG_DATA =>
    simp only [Geom.after_record, Option.some.injEq] at hg
    simp only [write_table_case]
    refine ⟨fun e s1 h => ?_, fun e s1 h => after_op_ret _ _ _ _ h⟩
    obtain ⟨h0, hs⟩ := after_op_next _ _ _ _ h
    rw [hs, ← hg]; exact write_reg_geom k c _ _ _ h0
  | WRITE_REG_BIT_H =>
    simp only [Geom.after_record] at hg
    split_ifs at hg with ha
    simp only [Option.some.injEq] at hg
    simp only [write_table_case]
    refine ⟨fun e s1 h => ?_, fun e s1 h => after_op_ret _ _ _ _ h⟩
    obtain ⟨h0, hs⟩ := after_op_next _ _ _ _ h
    rw [hs, ← hg]
    exact write_bits_geom k c _ _ _ _ (fun h => ha (Or.inl h)) (fun h => ha (Or.inr h)) h0
  | WRITE_REG_BIT_L =>
    simp only [Geom.after_record] at hg
    split_ifs at hg with ha
    simp only [Option.some.injEq] at hg
    simp only [write_table_case]
    refine ⟨fun e s1 h => ?_, fun e s1 h => after_op_ret _ _ _ _ h⟩
    obtain ⟨h0, hs⟩ := after_op_next _ _ _ _ h
    rw [hs, ← hg]
    exact write_bits_geom k c _ _ _ _ (fun h => ha (Or.inl h)) (fun h => ha (Or.inr h)) h0
  | POLL_REG_DATA =>
    simp only [Geom.after_record, Option.some.injEq] at hg
    simp only [write_table_case]
    refine ⟨fun e s1 h => ?_, fun e s1 h => after_op_ret _ _ _ _ h⟩
    obtain ⟨h0, hs⟩ := after_op_next _ _ _ _ h
    rw [hs, ← hg]; exact poll_loop_geom c _ _ _ _ _
  | POLL_REG_BIT_H =>
    simp only [Geom.after_record, Option.some.injEq] at hg
    simp only [write_table_case]
    refine ⟨fun e s1 h => ?_, fun e s1 h => after_op_ret _ _ _ _ h⟩
    obtain ⟨h0, hs⟩ := after_op_next _ _ _ _ h
    rw [hs, ← hg]; exact poll_loop_geom c _ _ _ _ _
  | POLL_REG_BIT_L =>
    simp only [Geom.after_record, Option.some.injEq] at hg
    simp only [write_table_case]
    refine ⟨fun e s1 h => ?_, fun e s1 h => after_op_ret _ _ _ _ h⟩
    obtain ⟨h0, hs⟩ := after_op_next _ _ _ _ h
    rw [hs, ← hg]; exact poll_loop_geom c _ _ _ _ _
  | WRITE_VAR_DATA =>
    simp only [Geom.after_record, Option.some.injEq] at hg
    simp only [write_table_case]
    refine ⟨fun e s1 h => ?_, fun e s1 h => after_op_ret _ _ _ _ h⟩
    obtain ⟨h0, hs⟩ := after_op_next _ _ _ _ h
    rw [hs, ← hg]; exact write_xdma_geom k c _ _ _ h0
  | POLL_VAR_DATA =>
    simp only [Geom.after_record, Option.some.injEq] at hg
    simp only [write_table_case]
    refine ⟨fun e s1 h => ?_, fun e s1 h => after_op_ret _ _ _ _ h⟩
    obtain ⟨h0, hs⟩ := after_op_next _ _ _ _ h
    rw [hs, ← hg]; exact poll_xdma_loop_geom k c _ _ _ _ h0
  | DELAY_MS =>
    simp only [Geom.after_record, Option.some.injEq] at hg
    simp only [write_table_case]
    refine ⟨fun e s1 h => ?_, fun e s1 h => ?_⟩
    · simp only [Flow.next.injEq] at h
      rw [← h.2, ← hg]
    · simp at h
  | WRITE_REG_VAR i =>
    simp only [Geom.after_record] at hg
    split_ifs at hg with ha hb
    simp only [Option.some.injEq] at hg
    have hi : ¬ (i.val ≥ sizeof_vars) := by
      have := i.isLt
      simp only [sizeof_vars]; omega
    simp only [write_table_case, hi, if_false]
    refine ⟨fun e s1 h => ?_, fun e s1 h => after_op_ret _ _ _ _ h⟩
    obtain ⟨h0, hs⟩ := after_op_next _ _ _ _ h
    rw [hs, ← hg]
    show geom_of (soc2030_write_reg k c a (s.vars i) s.trace).2 = _
    rw [write_reg_geom k c _ _ _ h0]
    unfold Geom.step
    simp only [ha, if_false]
    by_cases h990 : a = 0x0990
    · have h3 : ¬ (geom_of s.trace).addr = some 0x2703 := fun h => hb ⟨h990, Or.inl h⟩
      have h5 : ¬ (geom_of s.trace).addr = some 0x2705 := fun h => hb ⟨h990, Or.inr h⟩
      simp [h990, h3, h5]
    · simp [h990]

theorem write_table_loop_geom (k : Consts) (c : i2c_client) (tbl : List soc2030_regs) :
    ∀ (err : Int) (s s1 : Drv) (g : Geom),
      write_table_loop k c tbl err s = some (0, s1) →
      (geom_of s.trace).after_table tbl = some g → geom_of s1.trace = g := by
  induction tbl with
  | nil => intro err s s1 g h; simp [write_table_loop] at h
  | cons r rs ih =>
    intro err s s1 g h hg
    unfold write_table_loop at h
    unfold Geom.after_table at hg
    split_ifs at h hg with hend
    · simp only [Option.some.injEq, Prod.mk.injEq, true_and] at h
      simp only [Option.some.injEq] at hg
      rw [← h, ← hg]
    · cases hr : (geom_of s.trace).after_record r with
      | none => rw [hr] at hg; simp at hg
      | some g1 =>
        rw [hr] at hg
        have hc := write_table_case_geom k c r err s g1 hr
        cases hf : write_table_case k c r err s with
        | ret e' s' =>
          rw [hf] at h
          simp only [Option.some.injEq, Prod.mk.injEq] at h
          exact absurd h.1 (hc.2 _ _ hf)
        | next e' s' =>
          rw [hf] at h
          have hg1 := hc.1 _ _ hf
          exact ih _ _ _ _ h (by rw [hg1]; exact hg)

theorem run_tables_geom (k : Consts) (c : i2c_client) (tbls : List (List soc2030_regs)) :
    ∀ (s s1 : Drv) (g : Geom),
      run_steps (tbls.map (soc2030_write_table k c)) s = some (0, s1) →
      (geom_of s.trace).after_tables tbls = some g → geom_of s1.trace = g := by
  induction tbls with
  | nil =>
    intro s s1 g h hg
    simp only [List.map_nil, run_steps, Option.some.injEq, Prod.mk.injEq, true_and] at h
    simp only [Geom.after_tables, Option.some.injEq] at hg
    rw [← h, ← hg]
  | cons t ts ih =>
    intro s s1 g h hg
    rw [List.map_cons, run_steps_cons, checked_eq_some] at h
    unfold Geom.after_tables at hg
    rcases h with ⟨_, h0⟩ | ⟨s0, h0, h⟩
    · exact absurd rfl h0
    · cases ht : (geom_of s.trace).after_table t with
      | none => rw [ht] at hg; simp at hg
      | some g1 =>
        rw [ht] at hg
        have := write_table_loop_geom k c t _ s s0 g1 h0 ht
        exact ih _ _ _ h (by rw [this]; exact hg)

theorem geom_inv_step (w h : Option Nat) (g : Geom) (a v : Nat) (hI : Geom.Inv w h g)
    (hc : a ≠ 0x098c ∨ (v ≠ 0x2703 ∧ v ≠ 0x2705)) :
    Geom.Inv w h (g.step (Xfer.write a v)) := by
  obtain ⟨hw, hh, h3, h5⟩ := hI
  unfold Geom.step
  by_cases h1 : a = 0x098c
  · rcases hc with hc | ⟨hv3, hv5⟩
    · exact absurd h1 hc
    · simp only [h1, if_true]
      exact ⟨hw, hh, by simpa using hv3, by simpa using hv5⟩
  · by_cases h2 : a = 0x0990
    · simp only [h1, h2, h3, h5, if_false, if_true]
      exact ⟨hw, hh, h3, h5⟩
    · simp only [h1, h2, if_false]
      exact ⟨hw, hh, h3, h5⟩

theorem write_reg_loop_inv (c : i2c_client) (w h : Option Nat) (a v : Nat)
    (hc : a ≠ 0x098c ∨ (v ≠ 0x2703 ∧ v ≠ 0x2705)) (n : Nat) :
    ∀ tr, Geom.Inv w h (geom_of tr) →
      Geom.Inv w h (geom_of (write_reg_loop c a v n tr).2) := by
  induction n with
  | zero => intro tr hI; exact hI
  | succ n ih =>
    intro tr hI
    have hs : Geom.Inv w h (geom_of (tr ++ [Xfer.write a v])) := by
      rw [geom_of_snoc]; exact geom_inv_step w h _ a v hI hc
    unfold write_reg_loop
    split_ifs
    · exact hs
    · exact ih _ hs

theorem write_reg_inv (k : Consts) (c : i2c_client) (w h : Option Nat) (a v : Nat)
    (tr : List Xfer) (hI : Geom.Inv w h (geom_of tr))
    (hc : a ≠ 0x098c ∨ (v ≠ 0x2703 ∧ v ≠ 0x2705)) :
    Geom.Inv w h (geom_of (soc2030_write_reg k c a v tr).2) := by
  unfold soc2030_write_reg
  split_ifs
  · exact hI
  · exact write_reg_loop_inv c w h a v hc _ tr hI

theorem write_xdma_inv (k : Consts) (c : i2c_client) (w h : Option Nat) (a v : Nat)
    (tr : List Xfer) (hI : Geom.Inv w h (geom_of tr)) (h3 : a ≠ 0x2703) (h5 : a ≠ 0x2705) :
    Geom.Inv w h (geom_of (soc2030_write_xdma_reg k c a v tr).2) := by
  have I1 := write_reg_inv k c w h 0x098c a tr hI (Or.inr ⟨h3, h5⟩)
  have I2 := write_reg_inv k c w h 0x0990 v _ I1 (Or.inl (by decide))
  unfold soc2030_write_xdma_reg
  dsimp only
  split_ifs
  · exact I1
  · exact I2
  · exact I2

theorem read_xdma_inv (k : Consts) (c : i2c_client) (w h : Option Nat) (a v0 : Nat)
    (tr : List Xfer) (hI : Geom.Inv w h (geom_of tr)) (h3 : a ≠ 0x2703) (h5 : a ≠ 0x2705) :
    Geom.Inv w h (geom_of (soc2030_read_xdma_reg k c a v0 tr).2.2) := by
  have I1 := write_reg_inv k c w h 0x098c a tr hI (Or.inr ⟨h3, h5⟩)
  have I2 : Geom.Inv w h
      (geom_of (soc2030_read_reg c 0x0990 v0 (soc2030_write_reg k c 0x098c a tr).2).2.2) := by
    rw [read_reg_geom]; exact I1
  unfold soc2030_read_xdma_reg
  dsimp only
  split_ifs
  · exact I1
  · exact I2
  · exact I2

theorem conv_exp2evxx_inv (k : Consts) (c : i2c_client) (w h : Option Nat) (ev : Int)
    (x : Nat) (tr : List Xfer) (hI : Geom.Inv w h (geom_of tr)) :
    Geom.Inv w h (geom_of (soc2030_conv_exp2evxx k c ev x tr).2.2) := by
  have I1 := read_xdma_inv k c w h REG_CONTEXT 0 tr hI (by decide) (by decide)
  have I2 := read_xdma_inv k c w h REG_LINE_LENGTH_A 0 _ I1 (by decide) (by decide)
  have I3 := read_xdma_inv k c w h REG_LINE_LENGTH_B 0 _ I2 (by decide) (by decide)
  unfold soc2030_conv_exp2evxx
  dsimp only
  split_ifs <;> first | exact I1 | exact I2 | exact I3

theorem restore_ae_loop_inv (k : Consts) (c : i2c_client) (w h : Option Nat) (ev : Int)
    (tbl : List soc2030_regs) :
    (∀ r ∈ tbl, r.addr ≠ 0x098c ∧ r.addr ≠ 0x2703 ∧ r.addr ≠ 0x2705) →
    ∀ (idx : Nat) (s : Drv) (e : Int) (s1 : Drv),
      restore_ae_loop k c ev tbl idx s = some (e, s1) →
      Geom.Inv w h (geom_of s.trace) → Geom.Inv w h (geom_of s1.trace) := by
  induction tbl with
  | nil => intro _ idx s e s1 hr; simp [restore_ae_loop] at hr
  | cons r rs ih =>
    intro ht idx s e s1 hr hI
    have hr0 := ht r (List.mem_cons_self _ _)
    have ih' := ih (fun r' hr' => ht r' (List.mem_cons_of_mem _ hr'))
    have I1 := conv_exp2evxx_inv k c w h ev (s.ae_lock_state idx) s.trace hI
    have I2 := write_xdma_inv k c w h REG_EV
      (soc2030_conv_exp2evxx k c ev (s.ae_lock_state idx) s.trace).2.1 _ I1
      (by decide) (by decide)
    have I3 := write_reg_inv k c w h r.addr
      (soc2030_conv_exp2evxx k c ev (s.ae_lock_state idx) s.trace).2.1 _ I2 (Or.inl hr0.1)
    have I4 := write_reg_inv k c w h r.addr (s.ae_lock_state idx) s.trace hI (Or.inl hr0.1)
    have I5 := write_xdma_inv k c w h r.addr (s.ae_lock_state idx) s.trace hI hr0.2.1 hr0.2.2
    unfold restore_ae_loop at hr
    dsimp only at hr
    repeat' split at hr
    all_goals first
      | exact ih' _ _ _ _ hr hI
      | exact ih' _ _ _ _ hr I3
      | exact ih' _ _ _ _ hr I4
      | exact ih' _ _ _ _ hr I5
      | (simp only [Option.some.injEq, Prod.mk.injEq] at hr
         rw [← hr.2]
         first | exact hI | exact I1 | exact I3 | exact I4 | exact I5)

theorem restore_awb_loop_inv (k : Consts) (c : i2c_client) (w h : Option Nat)
    (tbl : List soc2030_regs) :
    (∀ r ∈ tbl, r.addr ≠ 0x098c ∧ r.addr ≠ 0x2703 ∧ r.addr ≠ 0x2705) →
    ∀ (idx : Nat) (s : Drv) (e : Int) (s1 : Drv),
      restore_awb_loop k c tbl idx s = some (e, s1) →
      Geom.Inv w h (geom_of s.trace) → Geom.Inv w h (geom_of s1.trace) := by
  induction tbl with
  | nil => intro _ idx s e s1 hr; simp [restore_awb_loop] at hr
  | cons r rs ih =>
    intro ht idx s e s1 hr hI
    have hr0 := ht r (List.mem_cons_self _ _)
    have ih' := ih (fun r' hr' => ht r' (List.mem_cons_of_mem _ hr'))
    have I4 := write_reg_inv k c w h r.addr (s.awb_lock_state idx) s.trace hI (Or.inl hr0.1)
    have I5 := write_xdma_inv k c w h r.addr (s.awb_lock_state idx) s.trace hI hr0.2.1 hr0.2.2
    unfold restore_awb_loop at hr
    dsimp only at hr
    repeat' split at hr
    all_goals first
      | exact ih' _ _ _ _ hr hI
      | exact ih' _ _ _ _ hr I4
      | exact ih' _ _ _ _ hr I5
      | (simp only [Option.some.injEq, Prod.mk.injEq] at hr
         rw [← hr.2]
         first | exact hI | exact I4 | exact I5)

theorem restore_inv (k : Consts) (c : i2c_client) (w h : Option Nat) (ev : Int) (s : Drv)
    (e : Int) (s1 : Drv) (hr : soc2030_restore_isp_state k c ev s = some (e, s1))
    (hI : Geom.Inv w h (geom_of s.trace)) : Geom.Inv w h (geom_of s1.trace) := by
  have I0 := read_xdma_inv k c w h 0xa104 0 s.trace hI (by decide) (by decide)
  have hae : ∀ r ∈ ae_lock_state_sequence,
      r.addr ≠ 0x098c ∧ r.addr ≠ 0x2703 ∧ r.addr ≠ 0x2705 := by decide
  have hawb : ∀ r ∈ awb_lock_state_sequence,
      r.addr ≠ 0x098c ∧ r.addr ≠ 0x2703 ∧ r.addr ≠ 0x2705 := by decide
  unfold soc2030_restore_isp_state at hr
  dsimp only at hr
  split_ifs at hr
  · simp only [Option.some.injEq, Prod.mk.injEq] at hr
    rw [← hr.2]; exact I0
  · rw [checked_eq_some] at hr
    rcases hr with ⟨hr, _⟩ | ⟨s0, h0, hr⟩
    · exact restore_ae_loop_inv k c w h ev _ hae _ _ _ _ hr I0
    · have J1 := restore_ae_loop_inv k c w h ev _ hae _ _ _ _ h0 I0
      rw [checked_eq_some] at hr
      rcases hr with ⟨hr, _⟩ | ⟨s2, h2, hr⟩
      · exact restore_awb_loop_inv k c w h _ hawb _ _ _ _ hr J1
      · simp only [Option.some.injEq, Prod.mk.injEq] at hr
        rw [← hr.2]
        exact restore_awb_loop_inv k c w h _ hawb _ _ _ _ h2 J1

theorem run_steps_append (A B : List (Drv → Option (Int × Drv))) :
    ∀ (s s1 : Drv), run_steps (A ++ B) s = some (0, s1) →
      ∃ sm, run_steps A s = some (0, sm) ∧ run_steps B sm = some (0, s1) := by
  induction A with
  | nil => intro s s1 h; exact ⟨s, rfl, h⟩
  | cons f fs ih =>
    intro s s1 h
    rw [List.cons_append, run_steps_cons, checked_eq_some] at h
    rcases h with ⟨_, h0⟩ | ⟨s0, h0, h⟩
    · exact absurd rfl h0
    · obtain ⟨sm, h1, h2⟩ := ih _ _ h
      refine ⟨sm, ?_, h2⟩
      rw [run_steps_cons, checked_eq_some]
      exact Or.inr ⟨s0, h0, h1⟩

theorem init_geom (g : Geom) :
    g.after_tables init_tables = some ⟨some 0xa104, some 800, some 600⟩ := by
  rfl

theorem set_mode_init_first (k : Consts) (c : i2c_client) (s s1 : Drv)
    (hfirst : s.info.mode = -1) (hinit : set_mode_init k c s = some (0, s1)) :
    ∃ s0, run_steps (init_tables.map (soc2030_write_table k c)) s0 = some (0, s1) := by
  unfold set_mode_init at hinit
  rw [if_pos hfirst] at hinit
  split at hinit
  · exact absurd hinit (by simp)
  · rename_i e0 s0 _
    refine ⟨s0, ?_⟩
    have hcons : ∀ (f : Drv → Option (Int × Drv)) (fs : List (Drv → Option (Int × Drv))),
        run_steps (f :: fs) = fun s => checked (f s) (run_steps fs) :=
      fun f fs => funext (run_steps_cons f fs)
    have hnil : run_steps [] = fun s => some (0, s) := rfl
    simp only [init_tables, List.map_cons, List.map_nil, hcons, hnil]
    exact hinit

theorem first_set_mode_geom_aux (k : Consts) (c : i2c_client) (s : Drv) (i : Nat)
    (m mode : soc2030_mode) (hi : modes[i]? = some m)
    (hm : mode.xres = m.xres ∧ mode.yres = m.yres ∧ mode.fps = m.fps)
    (hfirst : s.info.mode = -1) (W H : Option Nat)
    (hG : (⟨some 0xa104, some 800, some 600⟩ : Geom).after_tables
      [m.regset, refresh_mode, refresh_state] = some ⟨some 0xa103, W, H⟩)
    (s' : Drv) (hok : soc2030_set_mode k c s mode = some (0, s')) :
    (geom_of s'.trace).width = W ∧ (geom_of s'.trace).height = H := by
  rw [set_mode_unfold k c s i m mode hi hm, checked_eq_some] at hok
  rcases hok with ⟨_, h0⟩ | ⟨s1, hinit, htail⟩
  · exact absurd rfl h0
  obtain ⟨s0, hrun⟩ := set_mode_init_first k c s s1 hfirst hinit
  have g1 := run_tables_geom k c init_tables s0 s1 _ hrun (init_geom _)
  have c1 := set_mode_init_ctl k c s 0 s1 hinit
  have c2 : s.ctl_eq ({ s1 with vars := set_mode_vars s1.lockBuff s1.vars } : Drv) :=
    ⟨c1.1, c1.2.1, c1.2.2.1, c1.2.2.2⟩
  rw [set_mode_tail_eq k c i m s _ c2] at htail
  unfold setMode_steps at htail
  split at htail
  · exact absurd htail (by simp)
  rename_i e sx hsx
  split_ifs at htail with he
  swap
  · simp only [Option.some.injEq, Prod.mk.injEq] at htail
    exact absurd htail.1 he
  subst he
  simp only [Option.some.injEq, Prod.mk.injEq, true_and] at htail
  obtain ⟨sm, hA, hB⟩ := run_steps_append _ _ _ _ hsx
  have gm : geom_of sm.trace = ⟨some 0xa103, W, H⟩ :=
    run_tables_geom k c [m.regset, refresh_mode, refresh_state] _ sm _ hA
      (by rw [show geom_of ({ s1 with vars := set_mode_vars s1.lockBuff s1.vars } : Drv).trace =
            geom_of s1.trace from rfl, g1]; exact hG)
  have hIm : Geom.Inv W H (geom_of sm.trace) := by
    rw [gm]; exact ⟨rfl, rfl, by simp, by simp⟩
  have hIx : Geom.Inv W H (geom_of sx.trace) := by
    by_cases hl : s.lockBuff.aelock = true
    · rw [if_pos hl, run_steps_cons, checked_eq_some] at hB
      rcases hB with ⟨hB, h0⟩ | ⟨s6, h6, hB⟩
      · exact absurd rfl h0
      · simp only [run_steps, Option.some.injEq, Prod.mk.injEq, true_and] at hB
        rw [← hB]
        exact restore_inv k c W H _ _ _ _ h6 hIm
    · rw [if_neg hl] at hB
      simp only [run_steps, Option.some.injEq, Prod.mk.injEq, true_and] at hB
      rw [← hB]; exact hIm
  rw [← htail]
  exact ⟨hIx.1, hIx.2.1⟩

theorem read_xdma_reads_back (k : Consts) (c : i2c_client) (a v0 : Nat) (tr : List Xfer)
    (h : (soc2030_read_xdma_reg k c a v0 tr).1 = 0) :
    ∃ hist, (geom_of hist) = (geom_of tr).step (Xfer.write 0x098c a) ∧
      (soc2030_read_xdma_reg k c a v0 tr).2.1 = (c.xfer_read hist 0x0990).2 % 65536 := by
  refine ⟨(soc2030_write_reg k c 0x098c a tr).2, ?_, ?_⟩
  · unfold soc2030_read_xdma_reg at h
    dsimp only at h
    split_ifs at h with h1 h2
    · exact absurd h h1
    · exact absurd h h2
    · exact write_reg_geom k c _ _ _ (by simpa using h1)
  · unfold soc2030_read_xdma_reg at h ⊢
    dsimp only at h ⊢
    split_ifs at h ⊢ with h1 h2
    · exact absurd h h1
    · exact absurd h h2
    · have e2 : (soc2030_read_reg c 0x0990 v0 (soc2030_write_reg k c 0x098c a tr).2).1 = 0 := by
        simpa using h2
      unfold soc2030_read_reg at e2 ⊢
      dsimp only at e2 ⊢
      split_ifs at e2 ⊢
      · simp [ENODEV_errno] at e2
      · simp [EIO_errno] at e2
      · rfl

theorem geom_step_select (g : Geom) (a : Nat) :
    (g.step (Xfer.write 0x098c a)).addr = some a ∧
      (g.step (Xfer.write 0x098c a)).width = g.width ∧
      (g.step (Xfer.write 0x098c a)).height = g.height := by
  simp [Geom.step]

theorem get_status_geometry (k : Consts) (c : i2c_client) (status : Fin 5 → Nat)
    (tr : List Xfer) (hrb : ReadsBack c)
    (h : (soc2030_get_status k c status tr).1 = 0) :
    (soc2030_get_status k c status tr).2.1 2 = (geom_of tr).width.getD 0 % 65536 ∧
      (soc2030_get_status k c status tr).2.1 3 = (geom_of tr).height.getD 0 % 65536 := by
  unfold soc2030_get_status at h ⊢
  dsimp only at h ⊢
  split_ifs at h ⊢ with h0 h1 h2 h3 h4
  · exact absurd h h0
  · exact absurd h h1
  · exact absurd h h2
  · exact absurd h h3
  · exact absurd h h4
  · have e0 := not_not.mp h0
    have e1 := not_not.mp h1
    have e2 := not_not.mp h2
    have e3 := not_not.mp h3
    have g0 := read_xdma_geom k c _ _ _ e0
    have g1 := read_xdma_geom k c _ _ _ e1
    have g2 := read_xdma_geom k c _ _ _ e2
    obtain ⟨hw, hgw, hvw⟩ := read_xdma_reads_back k c _ _ _ e2
    obtain ⟨hh, hgh, hvh⟩ := read_xdma_reads_back k c _ _ _ e3
    dsimp only
    constructor
    · rw [Function.update_noteq (show (2 : Fin 5) ≠ 4 by decide),
        Function.update_noteq (show (2 : Fin 5) ≠ 3 by decide),
        Function.update_same (2 : Fin 5), hvw, (hrb hw).1 (by rw [hgw]; exact (geom_step_select _ _).1),
        hgw, (geom_step_select _ _).2.1, g1, (geom_step_select _ _).2.1, g0,
        (geom_step_select _ _).2.1]
    · rw [Function.update_noteq (show (3 : Fin 5) ≠ 4 by decide),
        Function.update_same (3 : Fin 5), hvh,
        (hrb hh).2 (by rw [hgh]; exact (geom_step_select _ _).1),
        hgh, (geom_step_select _ _).2.2, g2, (geom_step_select _ _).2.2, g1,
        (geom_step_select _ _).2.2, g0, (geom_step_select _ _).2.2]

theorem geomBus_reads_back : ReadsBack geomBus := by
  intro h
  constructor
  · intro ha
    simp [geomBus, ha]
  · intro ha
    simp [geomBus, ha]

/-- C9 (amended): after a first `soc2030_set_mode` (current mode -1) that
returns 0 for the catalog entry of index `i`, on any bus, the values last
written to the extended registers `0x2703` and `0x2705` are 800 and 600 for
entries 0 and 1 (the values `base_mode` writes; `mode_1600x1200` does not
write these registers) and 1280 and 720 for entry 2; and on a sensor that
answers a read of these registers with the value last written, a
`soc2030_get_status` that follows and returns 0 has these two values as the
third and fourth elements of its status array. -/
theorem first_set_mode_geometry (k : Consts) (c : i2c_client) (s : Drv) (i : Nat)
    (m mode : soc2030_mode) (hi : modes[i]? = some m)
    (hm : mode.xres = m.xres ∧ mode.yres = m.yres ∧ mode.fps = m.fps)
    (hfirst : s.info.mode = -1)
    (hok : (soc2030_set_mode k c s mode).map Prod.fst = some 0) :
    (soc2030_set_mode k c s mode).map
        (fun r => ((geom_of r.2.trace).width, (geom_of r.2.trace).height)) =
      some (if i = 2 then (some 1280, some 720) else (some 800, some 600)) ∧
    (ReadsBack c → ∀ (status : Fin 5 → Nat) (e : Int) (s1 : Drv),
      soc2030_set_mode k c s mode = some (e, s1) →
      (soc2030_get_status k c status s1.trace).1 = 0 →
      ((soc2030_get_status k c status s1.trace).2.1 2,
          (soc2030_get_status k c status s1.trace).2.1 3) =
        if i = 2 then (1280, 720) else (800, 600)) := by
  cases hres : soc2030_set_mode k c s mode with
  | none => rw [hres] at hok; simp at hok
  | some p =>
    obtain ⟨e, s'⟩ := p
    rw [hres] at hok
    simp only [Option.map_some', Option.some.injEq] at hok
    subst hok
    simp only [Option.map_some', Option.some.injEq]
    have key : (geom_of s'.trace).width = (if i = 2 then some 1280 else some 800) ∧
        (geom_of s'.trace).height = (if i = 2 then some 720 else some 600) := by
      match i, hi with
      | 0, hi =>
        have hm0 : m = ⟨800, 600, 30, mode_800x600⟩ := by
          simpa [modes] using hi.symm
        have := first_set_mode_geom_aux k c s 0 m mode hi hm hfirst (some 800) (some 600)
          (by rw [hm0]; rfl) s' hres
        simp [this.1, this.2]
      | 1, hi =>
        have hm0 : m = ⟨1600, 1200, 15, mode_1600x1200⟩ := by
          simpa [modes] using hi.symm
        have := first_set_mode_geom_aux k c s 1 m mode hi hm hfirst (some 800) (some 600)
          (by rw [hm0]; rfl) s' hres
        simp [this.1, this.2]
      | 2, hi =>
        have hm0 : m = ⟨1280, 720, 30, mode_1280x720⟩ := by
          simpa [modes] using hi.symm
        have := first_set_mode_geom_aux k c s 2 m mode hi hm hfirst (some 1280) (some 720)
          (by rw [hm0]; rfl) s' hres
        simp [this.1, this.2]
      | n + 3, hi => simp [modes] at hi
    constructor
    · rw [key.1, key.2]
      split_ifs <;> rfl
    · intro hrb status e1 s1 hs hg
      simp only [Prod.mk.injEq] at hs
      obtain ⟨_, rfl⟩ := hs
      obtain ⟨gw, gh⟩ := get_status_geometry k c status s'.trace hrb hg
      rw [gw, gh, key.1, key.2]
      split_ifs <;> rfl

set_option maxRecDepth 100000 in
/-- C9, witness of the amended claim: first mode set for `(1280, 720, 30)` on
the simulated sensor that keeps the two geometry registers: the sensor reads
them back, the mode set returns 0, and the `soc2030_get_status` that follows
returns 0 with 1280 and 720 as third and fourth elements. -/
theorem first_set_mode_geometry_witness :
    (ReadsBack geomBus ∧
      ((soc2030_set_mode k0 geomBus Drv.opened ⟨1280, 720, 30, []⟩).map fun r =>
          (r.1, (soc2030_get_status k0 geomBus (fun _ => 0) r.2.trace).1,
            (soc2030_get_status k0 geomBus (fun _ => 0) r.2.trace).2.1 2,
            (soc2030_get_status k0 geomBus (fun _ => 0) r.2.trace).2.1 3)) =
        some (0, 0, 1280, 720)) ∧
    ((soc2030_set_mode k0 geomBus Drv.opened ⟨1280, 720, 30, []⟩).map
        (fun r => ((geom_of r.2.trace).width, (geom_of r.2.trace).height)) =
      some (if 2 = 2 then (some 1280, some 720) else (some 800, some 600)) ∧
    (ReadsBack geomBus → ∀ (status : Fin 5 → Nat) (e : Int) (s1 : Drv),
      soc2030_set_mode k0 geomBus Drv.opened ⟨1280, 720, 30, []⟩ = some (e, s1) →
      (soc2030_get_status k0 geomBus status s1.trace).1 = 0 →
      ((soc2030_get_status k0 geomBus status s1.trace).2.1 2,
          (soc2030_get_status k0 geomBus status s1.trace).2.1 3) =
        if 2 = 2 then (1280, 720) else (800, 600))) :=
  ⟨⟨geomBus_reads_back, by decide⟩,
    first_set_mode_geometry k0 geomBus Drv.opened 2 ⟨1280, 720, 30, mode_1280x720⟩
      ⟨1280, 720, 30, []⟩ rfl ⟨rfl, rfl, rfl⟩ rfl (by decide)⟩

set_option maxRecDepth 100000 in
/-- C9, counterexample: the first mode set for the catalog entry
`(1600, 1200, 15)` on the simulated sensor returns 0 and records mode 1, and
the values last written to `0x2703` and `0x2705` are 800 and 600, not 1600
and 1200. -/
theorem first_set_mode_1600_not_reflected :
    ∃ w h : Nat,
      (soc2030_set_mode k0 sensorBus Drv.opened ⟨1600, 1200, 15, []⟩).map
          (fun r => (r.1, r.2.info.mode, (geom_of r.2.trace).width,
            (geom_of r.2.trace).height)) =
        some ((0 : Int), (1 : Int), some w, some h) ∧ w ≠ 1600 ∧ h ≠ 1200 :=
  ⟨800, 600, by decide, by decide, by decide⟩

/-! ## Every call returns -/

theorem write_table_loop_returns (k : Consts) (c : i2c_client) (tbl : List soc2030_regs) :
    (∃ r ∈ tbl, r.op = Op.REG_TABLE_END) →
    ∀ (err : Int) (s : Drv), (write_table_loop k c tbl err s).isSome = true := by
  induction tbl with
  | nil => intro h; simp at h
  | cons r rs ih =>
    intro h err s
    unfold write_table_loop
    by_cases he : r.op = Op.REG_TABLE_END
    · simp [he]
    · rw [if_neg he]
      have hrs : ∃ r ∈ rs, r.op = Op.REG_TABLE_END := by
        obtain ⟨x, hx, hop⟩ := h
        rcases List.mem_cons.mp hx with rfl | hx
        · exact absurd hop he
        · exact ⟨x, hx, hop⟩
      cases write_table_case k c r err s with
      | ret e s1 => rfl
      | next e s1 => exact ih hrs e s1

theorem write_table_total (k : Consts) (c : i2c_client) (tbl : List soc2030_regs)
    (h : ∃ r ∈ tbl, r.op = Op.REG_TABLE_END) (s : Drv) :
    (soc2030_write_table k c tbl s).isSome = true :=
  write_table_loop_returns k c tbl h _ s

theorem checked_total (r : Option (Int × Drv)) (f : Drv → Option (Int × Drv))
    (hr : r.isSome = true) (hf : ∀ s, (f s).isSome = true) : (checked r f).isSome = true := by
  unfold checked
  cases r with
  | none => simp at hr
  | some p =>
    obtain ⟨e, s⟩ := p
    dsimp only
    split_ifs
    · rfl
    · exact hf s

theorem save_ae_loop_total (k : Consts) (c : i2c_client) (b : Int) (tbl : List soc2030_regs) :
    (∃ r ∈ tbl, r.op = Op.REG_TABLE_END) →
    ∀ (idx : Nat) (s : Drv), (save_ae_loop k c b tbl idx s).isSome = true := by
  induction tbl with
  | nil => intro h; simp at h
  | cons r rs ih =>
    intro h idx s
    unfold save_ae_loop
    by_cases he : r.op = Op.REG_TABLE_END
    · simp [he]
    · rw [if_neg he]
      have hrs : ∃ r ∈ rs, r.op = Op.REG_TABLE_END := by
        obtain ⟨x, hx, hop⟩ := h
        rcases List.mem_cons.mp hx with rfl | hx
        · exact absurd hop he
        · exact ⟨x, hx, hop⟩
      dsimp only
      repeat' split
      all_goals first
        | rfl
        | exact ih hrs _ _

theorem save_awb_loop_total (k : Consts) (c : i2c_client) (tbl : List soc2030_regs) :
    (∃ r ∈ tbl, r.op = Op.REG_TABLE_END) →
    ∀ (idx : Nat) (s : Drv), (save_awb_loop k c tbl idx s).isSome = true := by
  induction tbl with
  | nil => intro h; simp at h
  | cons r rs ih =>
    intro h idx s
    unfold save_awb_loop
    by_cases he : r.op = Op.REG_TABLE_END
    · simp [he]
    · rw [if_neg he]
      have hrs : ∃ r ∈ rs, r.op = Op.REG_TABLE_END := by
        obtain ⟨x, hx, hop⟩ := h
        rcases List.mem_cons.mp hx with rfl | hx
        · exact absurd hop he
        · exact ⟨x, hx, hop⟩
      dsimp only
      repeat' split
      all_goals first
        | rfl
        | exact ih hrs _ _

theorem restore_ae_loop_total (k : Consts) (c : i2c_client) (b : Int)
    (tbl : List soc2030_regs) :
    (∃ r ∈ tbl, r.op = Op.REG_TABLE_END) →
    ∀ (idx : Nat) (s : Drv), (restore_ae_loop k c b tbl idx s).isSome = true := by
  induction tbl with
  | nil => intro h; simp at h
  | cons r rs ih =>
    intro h idx s
    unfold restore_ae_loop
    by_cases he : r.op = Op.REG_TABLE_END
    · simp [he]
    · rw [if_neg he]
      have hrs : ∃ r ∈ rs, r.op = Op.REG_TABLE_END := by
        obtain ⟨x, hx, hop⟩ := h
        rcases List.mem_cons.mp hx with rfl | hx
        · exact absurd hop he
        · exact ⟨x, hx, hop⟩
      dsimp only
      repeat' split
      all_goals first
        | rfl
        | exact ih hrs _ _

theorem restore_awb_loop_total (k : Consts) (c : i2c_client) (tbl : List soc2030_regs) :
    (∃ r ∈ tbl, r.op = Op.REG_TABLE_END) →
    ∀ (idx : Nat) (s : Drv), (restore_awb_loop k c tbl idx s).isSome = true := by
  induction tbl with
  | nil => intro h; simp at h
  | cons r rs ih =>
    intro h idx s
    unfold restore_awb_loop
    by_cases he : r.op = Op.REG_TABLE_END
    · simp [he]
    · rw [if_neg he]
      have hrs : ∃ r ∈ rs, r.op = Op.REG_TABLE_END := by
        obtain ⟨x, hx, hop⟩ := h
        rcases List.mem_cons.mp hx with rfl | hx
        · exact absurd hop he
        · exact ⟨x, hx, hop⟩
      dsimp only
      repeat' split
      all_goals first
        | rfl
        | exact ih hrs _ _

theorem save_total (k : Consts) (c : i2c_client) (b : Int) (s : Drv) :
    (soc2030_save_isp_state k c b s).isSome = true := by
  unfold soc2030_save_isp_state
  refine checked_total _ _ (save_ae_loop_total k c b _ (by decide) _ _) fun s1 => ?_
  exact checked_total _ _ (save_awb_loop_total k c _ (by decide) _ _) fun _ => rfl

theorem restore_total (k : Consts) (c : i2c_client) (b : Int) (s : Drv) :
    (soc2030_restore_isp_state k c b s).isSome = true := by
  unfold soc2030_restore_isp_state
  dsimp only
  split_ifs
  · rfl
  · refine checked_total _ _ (restore_ae_loop_total k c b _ (by decide) _ _) fun s1 => ?_
    exact checked_total _ _ (restore_awb_loop_total k c _ (by decide) _ _) fun _ => rfl

theorem lock_check_ae_total (k : Consts) (c : i2c_client) (s : Drv) (aelocked : Bool) :
    (lock_check_ae k c s aelocked).isSome = true := by
  unfold lock_check_ae
  dsimp only
  split_ifs
  all_goals first
    | rfl
    | (refine checked_total _ _ (write_table_total k c _ (by decide) _) fun s2 => ?_
       try split_ifs
       all_goals first
         | rfl
         | exact checked_total _ _ (restore_total k c _ _) fun _ => rfl
         | exact checked_total _ _ (save_total k c _ _) fun _ => rfl)

theorem lock_check_awb_total (k : Consts) (c : i2c_client) (s : Drv) (changed : Bool) :
    (lock_check_awb k c s changed).isSome = true := by
  unfold lock_check_awb
  dsimp only
  split_ifs
  all_goals first
    | rfl
    | (refine checked_total _ _ (write_table_total k c _ (by decide) _) fun s2 => ?_
       try split_ifs
       all_goals first
         | rfl
         | exact checked_total _ _ (restore_total k c _ _) fun _ => rfl
         | exact checked_total _ _ (save_total k c _ _) fun _ => rfl)

theorem lock_check_total (k : Consts) (c : i2c_client) (s : Drv) (aelocked awblocked : Bool) :
    (soc2030_lock_check k c s aelocked awblocked).isSome = true := by
  unfold soc2030_lock_check
  exact checked_total _ _ (lock_check_ae_total k c _ _) fun _ => lock_check_awb_total k c _ _

theorem ioctl_set_lock_total (k : Consts) (c : i2c_client) (req : soc2030_lock) (s : Drv) :
    (ioctl_set_lock k c req s).isSome = true := by
  unfold ioctl_set_lock
  exact lock_check_total k c _ _ _

/-! ## Exposure conversion back and forth: theorems -/

theorem ev0a_eq_A (k : Consts) (c : i2c_client) (b : Int) (x : Nat) (tr tr1 : List Xfer)
    (ctx : Nat) (hctx : soc2030_read_xdma_reg k c REG_CONTEXT 0 tr = (0, ctx, tr1))
    (h7 : ctx ≠ 7) :
    soc2030_conv_exp2ev0a k c b x tr = (0, toBaseline_bias b x, tr1) := by
  unfold soc2030_conv_exp2ev0a toBaseline_bias
  simp only [hctx, ne_eq, not_true_eq_false, if_false, h7, gt_iff_lt,
    Nat.shiftRight_eq_div_pow, Nat.shiftLeft_eq]
  split_ifs <;> rfl

theorem ev0a_eq_B (k : Consts) (c : i2c_client) (b : Int) (x : Nat)
    (tr tr1 tr2 tr3 : List Xfer) (la lb : Nat) (hx : x < 65536)
    (hctx : soc2030_read_xdma_reg k c REG_CONTEXT 0 tr = (0, 7, tr1))
    (hla : soc2030_read_xdma_reg k c REG_LINE_LENGTH_A 0 tr1 = (0, la, tr2))
    (hlb : soc2030_read_xdma_reg k c REG_LINE_LENGTH_B 0 tr2 = (0, lb, tr3)) :
    soc2030_conv_exp2ev0a k c b x tr =
      (0, toBaseline_bias b (x * lb / la % 65536), tr3) := by
  have hlb' := read_xdma_val_lt k c _ _ _ _ _ hlb
  have hprod : x * lb % 2 ^ 32 = x * lb := by
    apply Nat.mod_eq_of_lt
    calc x * lb < 65536 * 65536 := Nat.mul_lt_mul'' hx hlb'
      _ = 2 ^ 32 := by norm_num
  unfold soc2030_conv_exp2ev0a toBaseline_bias
  simp only [hctx, hla, hlb, ne_eq, not_true_eq_false, if_false, if_true, gt_iff_lt,
    Nat.shiftRight_eq_div_pow, Nat.shiftLeft_eq, hprod]
  split_ifs <;> rfl

theorem evxx_shift_eq (b : Int) (x : Nat) :
    (if b > 0 then (x <<< b.natAbs) % 2 ^ 32 else if b < 0 then x >>> b.natAbs else x) =
      if 0 < b then (x * 2 ^ b.natAbs) % 2 ^ 32 else fromBaseline_bias b x := by
  unfold fromBaseline_bias
  simp only [gt_iff_lt, Nat.shiftRight_eq_div_pow, Nat.shiftLeft_eq]
  split_ifs <;> rfl

theorem evxx_eq_A (k : Consts) (c : i2c_client) (b : Int) (x : Nat) (tr tr1 : List Xfer)
    (ctx : Nat) (hctx : soc2030_read_xdma_reg k c REG_CONTEXT 0 tr = (0, ctx, tr1))
    (h7 : ctx ≠ 7) :
    soc2030_conv_exp2evxx k c b x tr = (0, fromBaseline_bias b x % 65536, tr1) := by
  unfold soc2030_conv_exp2evxx
  simp only [hctx, ne_eq, not_true_eq_false, if_false, h7, evxx_shift_eq]
  by_cases hb : 0 < b
  · have hd : (65536 : Nat) ∣ 2 ^ 32 := ⟨65536, by norm_num⟩
    simp only [hb, if_true, fromBaseline_bias, Nat.mod_mod_of_dvd _ hd]
  · simp only [hb, if_false]

theorem evxx_eq_B (k : Consts) (c : i2c_client) (b : Int) (x : Nat)
    (tr tr1 tr2 tr3 : List Xfer) (la lb : Nat)
    (hctx : soc2030_read_xdma_reg k c REG_CONTEXT 0 tr = (0, 7, tr1))
    (hla : soc2030_read_xdma_reg k c REG_LINE_LENGTH_A 0 tr1 = (0, la, tr2))
    (hlb : soc2030_read_xdma_reg k c REG_LINE_LENGTH_B 0 tr2 = (0, lb, tr3))
    (hfit : fromBaseline_bias b x * la < 2 ^ 32) :
    soc2030_conv_exp2evxx k c b x tr =
      (0, fromBaseline_bias b x * la / lb % 65536, tr3) := by
  unfold soc2030_conv_exp2evxx
  simp only [hctx, hla, hlb, ne_eq, not_true_eq_false, if_false, if_true, evxx_shift_eq]
  have key : (if 0 < b then (x * 2 ^ b.natAbs) % 2 ^ 32 else fromBaseline_bias b x) * la
      % 2 ^ 32 = fromBaseline_bias b x * la := by
    by_cases hb : 0 < b
    · simp only [hb, if_true]
      have : fromBaseline_bias b x = x * 2 ^ b.natAbs := by simp [fromBaseline_bias, hb]
      rw [this] at hfit ⊢
      rw [Nat.mul_mod, Nat.mod_mod, ← Nat.mul_mod]
      exact Nat.mod_eq_of_lt hfit
    · simp only [hb, if_false]
      exact Nat.mod_eq_of_lt hfit
  rw [key]

/-- C11: `soc2030_conv_exp2evxx` on a 16-bit exposure `x`, when the context
read succeeds with value `ctx`: the EV step comes first (`x << b`, `x >> |b|`
or `x`); if `ctx` is not 7 the result is that value mod 2^16 and no line
length is read; if `ctx` is 7 and the line-length reads give `la` and `lb`
(nonzero), the result is `floor(y * la / lb) mod 2^16` for the shifted value
`y`, whenever `y * la` fits in 32 bits. -/
theorem conv_exp2evxx_value (k : Consts) (c : i2c_client) (b : Int) (x : Nat)
    (tr tr1 : List Xfer) (ctx : Nat) (hx : x < 65536)
    (hctx : soc2030_read_xdma_reg k c REG_CONTEXT 0 tr = (0, ctx, tr1)) :
    (ctx ≠ 7 →
      soc2030_conv_exp2evxx k c b x tr = (0, fromBaseline_bias b x % 65536, tr1)) ∧
    (ctx = 7 → ∀ la lb tr2 tr3,
      soc2030_read_xdma_reg k c REG_LINE_LENGTH_A 0 tr1 = (0, la, tr2) →
      soc2030_read_xdma_reg k c REG_LINE_LENGTH_B 0 tr2 = (0, lb, tr3) → lb ≠ 0 →
      fromBaseline_bias b x * la < 2 ^ 32 →
      soc2030_conv_exp2evxx k c b x tr =
        (0, fromBaseline_bias b x * la / lb % 65536, tr3)) := by
  have _ := hx
  constructor
  · intro h7
    exact evxx_eq_A k c b x tr tr1 ctx hctx h7
  · intro h7 la lb tr2 tr3 hla hlb _ hfit
    subst h7
    exact evxx_eq_B k c b x tr tr1 tr2 tr3 la lb hctx hla hlb hfit

/-- C11, witness: context B (register value 7), line lengths 2026 and 2217,
baseline exposure 1000, bias 1: `(1000 << 1) * 2026 / 2217 = 1827`. -/
theorem conv_exp2evxx_value_witness :
    (1000 < 65536 ∧
      soc2030_read_xdma_reg k0 sensorBus REG_CONTEXT 0 histB =
        (0, 7, histB ++ [Xfer.write 0x098c 0xa104, Xfer.read 0x0990])) ∧
    soc2030_conv_exp2evxx k0 sensorBus 1 1000 histB =
      (0, 1827, histB ++ [Xfer.write 0x098c 0xa104, Xfer.read 0x0990,
          Xfer.write 0x098c 0x2721, Xfer.read 0x0990,
          Xfer.write 0x098c 0x2737, Xfer.read 0x0990]) :=
  ⟨⟨by decide, by decide⟩,
    (conv_exp2evxx_value k0 sensorBus 1 1000 histB
      (histB ++ [Xfer.write 0x098c 0xa104, Xfer.read 0x0990]) 7 (by decide)
      (by decide)).2 rfl 2026 2217
      (histB ++ [Xfer.write 0x098c 0xa104, Xfer.read 0x0990,
        Xfer.write 0x098c 0x2721, Xfer.read 0x0990])
      (histB ++ [Xfer.write 0x098c 0xa104, Xfer.read 0x0990,
        Xfer.write 0x098c 0x2721, Xfer.read 0x0990,
        Xfer.write 0x098c 0x2737, Xfer.read 0x0990])
      (by decide) (by decide) (by decide) (by decide)⟩

/-- C12 (amended): with bias 0, `soc2030_conv_exp2evxx` applied to the result
of `soc2030_conv_exp2ev0a` gives back `x` exactly when both calls read a
context other than 7; when both read context 7 and the same nonzero line
lengths `la`, `lb`, and the rescaled value fits in 16 bits, the result `r`
satisfies `r ≤ x` and `(x - r) * lb < la + lb` (so it can fall short of `x`). -/
theorem conv_roundtrip_bias0 (k : Consts) (c : i2c_client) (x : Nat)
    (tr t1 : List Xfer) (ctx : Nat) (hx : x < 65536)
    (h1 : soc2030_read_xdma_reg k c REG_CONTEXT 0 tr = (0, ctx, t1)) :
    (ctx ≠ 7 → ∀ ctx2 t2,
      soc2030_read_xdma_reg k c REG_CONTEXT 0 t1 = (0, ctx2, t2) → ctx2 ≠ 7 →
      soc2030_conv_exp2evxx k c 0 (soc2030_conv_exp2ev0a k c 0 x tr).2.1
        (soc2030_conv_exp2ev0a k c 0 x tr).2.2 = (0, x, t2)) ∧
    (ctx = 7 → ∀ la lb t2 t3 t4 t5 t6,
      soc2030_read_xdma_reg k c REG_LINE_LENGTH_A 0 t1 = (0, la, t2) →
      soc2030_read_xdma_reg k c REG_LINE_LENGTH_B 0 t2 = (0, lb, t3) →
      soc2030_read_xdma_reg k c REG_CONTEXT 0 t3 = (0, 7, t4) →
      soc2030_read_xdma_reg k c REG_LINE_LENGTH_A 0 t4 = (0, la, t5) →
      soc2030_read_xdma_reg k c REG_LINE_LENGTH_B 0 t5 = (0, lb, t6) →
      la ≠ 0 → lb ≠ 0 → x * lb / la < 65536 →
      ∃ r, soc2030_conv_exp2evxx k c 0 (soc2030_conv_exp2ev0a k c 0 x tr).2.1
          (soc2030_conv_exp2ev0a k c 0 x tr).2.2 = (0, r, t6) ∧
        r ≤ x ∧ (x - r) * lb < la + lb) := by
  constructor
  · intro h7 ctx2 t2 h2 h72
    rw [ev0a_eq_A k c 0 x tr t1 ctx h1 h7]
    rw [evxx_eq_A k c 0 _ t1 t2 ctx2 h2 h72]
    simp only [toBaseline_bias, fromBaseline_bias, lt_self_iff_false, if_false,
      Nat.mod_eq_of_lt hx]
  · intro h7 la lb t2 t3 t4 t5 t6 ha hb h4 ha2 hb2 hla hlb hfit
    subst h7
    have hla0 : 0 < la := Nat.pos_of_ne_zero hla
    have hlb0 : 0 < lb := Nat.pos_of_ne_zero hlb
    rw [ev0a_eq_B k c 0 x tr t1 t2 t3 la lb hx h1 ha hb]
    have hy : toBaseline_bias 0 (x * lb / la % 65536) = x * lb / la := by
      simp only [toBaseline_bias, lt_self_iff_false, if_false, Nat.mod_eq_of_lt hfit]
    simp only [hy]
    have hlb' := read_xdma_val_lt k c _ _ _ _ _ hb
    have hyla : x * lb / la * la ≤ x * lb := Nat.div_mul_le_self _ _
    have hxlb : x * lb < 2 ^ 32 := by
      calc x * lb < 65536 * 65536 := Nat.mul_lt_mul'' hx hlb'
        _ = 2 ^ 32 := by norm_num
    have hfb : fromBaseline_bias 0 (x * lb / la) = x * lb / la := by
      simp [fromBaseline_bias]
    rw [evxx_eq_B k c 0 _ t3 t4 t5 t6 la lb h4 ha2 hb2
      (by rw [hfb]; exact lt_of_le_of_lt hyla hxlb), hfb]
    have hr_le : x * lb / la * la / lb ≤ x := by
      apply Nat.div_le_of_le_mul
      rw [Nat.mul_comm lb x]; exact hyla
    have hmod : x * lb / la * la / lb % 65536 = x * lb / la * la / lb :=
      Nat.mod_eq_of_lt (lt_of_le_of_lt hr_le hx)
    refine ⟨_, by rw [hmod], hr_le, ?_⟩
    set y := x * lb / la with hydef
    set r := y * la / lb with hrdef
    have h_y : x * lb < (y + 1) * la := by
      rw [hydef, Nat.mul_comm (x * lb / la + 1) la]
      exact Nat.lt_mul_div_succ _ hla0
    have h_r : y * la < (r + 1) * lb := by
      rw [hrdef, Nat.mul_comm (y * la / lb + 1) lb]
      exact Nat.lt_mul_div_succ _ hlb0
    have hsub : (x - r) * lb = x * lb - r * lb := Nat.sub_mul _ _ _
    rw [hsub]
    have e1 : (y + 1) * la = y * la + la := by ring
    have e2 : (r + 1) * lb = r * lb + lb := by ring
    omega

/-- C12, witness of the amended claim: context A on the simulated sensor. -/
theorem conv_roundtrip_bias0_witness :
    (1000 < 65536 ∧
      soc2030_read_xdma_reg k0 sensorBus REG_CONTEXT 0 [] =
        (0, 3, [Xfer.write 0x098c 0xa104, Xfer.read 0x0990])) ∧
    soc2030_conv_exp2evxx k0 sensorBus 0 (soc2030_conv_exp2ev0a k0 sensorBus 0 1000 []).2.1
        (soc2030_conv_exp2ev0a k0 sensorBus 0 1000 []).2.2 =
      (0, 1000, [Xfer.write 0x098c 0xa104, Xfer.read 0x0990,
        Xfer.write 0x098c 0xa104, Xfer.read 0x0990]) :=
  ⟨⟨by decide, by decide⟩,
    (conv_roundtrip_bias0 k0 sensorBus 1000 []
      [Xfer.write 0x098c 0xa104, Xfer.read 0x0990] 3 (by decide) (by decide)).1
      (by decide) 3
      [Xfer.write 0x098c 0xa104, Xfer.read 0x0990,
        Xfer.write 0x098c 0xa104, Xfer.read 0x0990] (by decide) (by decide)⟩

/-- C12, counterexample: context B with the line lengths of `base_mode`
(2026 and 2217), bias 0, exposure 1: the converted value is 1 and the value
converted back is 0. -/
theorem conv_roundtrip_bias0_ctxB_loses :
    soc2030_conv_exp2ev0a k0 sensorBus 0 1 histB =
      (0, 1, histB ++ [Xfer.write 0x098c 0xa104, Xfer.read 0x0990,
        Xfer.write 0x098c 0x2721, Xfer.read 0x0990,
        Xfer.write 0x098c 0x2737, Xfer.read 0x0990]) ∧
    (soc2030_conv_exp2evxx k0 sensorBus 0 (soc2030_conv_exp2ev0a k0 sensorBus 0 1 histB).2.1
        (soc2030_conv_exp2ev0a k0 sensorBus 0 1 histB).2.2).1 = 0 ∧
    (soc2030_conv_exp2evxx k0 sensorBus 0 (soc2030_conv_exp2ev0a k0 sensorBus 0 1 histB).2.1
        (soc2030_conv_exp2ev0a k0 sensorBus 0 1 histB).2.2).2.1 = 0 ∧
    (soc2030_conv_exp2evxx k0 sensorBus 0 (soc2030_conv_exp2ev0a k0 sensorBus 0 1 histB).2.1
        (soc2030_conv_exp2ev0a k0 sensorBus 0 1 histB).2.2).2.1 ≠ 1 := by
  decide

theorem shl_trunc_shr (x n : Nat) : x * 2 ^ n % 65536 / 2 ^ n = x % 2 ^ (16 - n) := by
  by_cases hn : n ≤ 16
  · have h16 : (65536 : Nat) = 2 ^ (16 - n) * 2 ^ n := by
      rw [← pow_add, Nat.sub_add_cancel hn]; norm_num
    rw [h16, Nat.mul_mod_mul_right, Nat.mul_div_cancel _ (by positivity)]
  · have hn' : 16 < n := Nat.lt_of_not_le hn
    have hz : 16 - n = 0 := by omega
    have hd : (65536 : Nat) ∣ x * 2 ^ n := by
      have : (2 : Nat) ^ 16 ∣ 2 ^ n := pow_dvd_pow 2 (le_of_lt hn')
      exact Dvd.dvd.mul_left (by simpa using this) x
    rw [Nat.mod_eq_zero_of_dvd hd, hz]
    simp [Nat.mod_one]

/-- C13 (amended): in context A (both calls read a context other than 7) the
value `r` that `soc2030_conv_exp2evxx` gives back from the result of
`soc2030_conv_exp2ev0a` is: for `b > 0`, `x` with its low `b` bits cleared, so
`r ≤ x` and `x - r < 2^b`; for `b < 0`, `x mod 2^(16-|b|)`, the bits shifted
out of the 16-bit value being lost, so `r = x` only for `x < 2^(16-|b|)`; for
`b = 0`, `x`. -/
theorem conv_roundtrip_ctxA (k : Consts) (c : i2c_client) (b : Int) (x : Nat)
    (tr t1 t2 : List Xfer) (ctx ctx2 : Nat) (hx : x < 65536)
    (h1 : soc2030_read_xdma_reg k c REG_CONTEXT 0 tr = (0, ctx, t1)) (hA : ctx ≠ 7)
    (h2 : soc2030_read_xdma_reg k c REG_CONTEXT 0 t1 = (0, ctx2, t2)) (hA2 : ctx2 ≠ 7) :
    ∃ r, soc2030_conv_exp2evxx k c b (soc2030_conv_exp2ev0a k c b x tr).2.1
          (soc2030_conv_exp2ev0a k c b x tr).2.2 = (0, r, t2) ∧
      (0 < b → r = x / 2 ^ b.natAbs * 2 ^ b.natAbs ∧ r ≤ x ∧ x - r < 2 ^ b.natAbs) ∧
      (b < 0 → r = x % 2 ^ (16 - b.natAbs)) ∧
      (b = 0 → r = x) := by
  rw [ev0a_eq_A k c b x tr t1 ctx h1 hA]
  rw [evxx_eq_A k c b _ t1 t2 ctx2 h2 hA2]
  refine ⟨_, rfl, ?_, ?_, ?_⟩
  · intro hb
    have hle : x / 2 ^ b.natAbs * 2 ^ b.natAbs ≤ x := Nat.div_mul_le_self _ _
    have hval : fromBaseline_bias b (toBaseline_bias b x) % 65536 =
        x / 2 ^ b.natAbs * 2 ^ b.natAbs := by
      simp only [toBaseline_bias, fromBaseline_bias, hb, if_true]
      exact Nat.mod_eq_of_lt (lt_of_le_of_lt hle hx)
    rw [hval]
    refine ⟨rfl, hle, ?_⟩
    have hpos : 0 < 2 ^ b.natAbs := by positivity
    have := Nat.lt_mul_div_succ x hpos
    rw [Nat.mul_comm, Nat.add_mul, Nat.one_mul] at this
    omega
  · intro hb
    have hnb : ¬ 0 < b := not_lt.mpr (le_of_lt hb)
    simp only [toBaseline_bias, fromBaseline_bias, hb, hnb, if_true, if_false]
    rw [shl_trunc_shr]
    apply Nat.mod_eq_of_lt
    exact lt_of_le_of_lt (Nat.mod_le _ _) hx
  · intro hb
    subst hb
    simp only [toBaseline_bias, fromBaseline_bias, lt_self_iff_false, if_false,
      Nat.mod_eq_of_lt hx]

/-- C13, witness of the amended claim: context A on the simulated sensor,
exposure 1001, bias 2. -/
theorem conv_roundtrip_ctxA_witness :
    ∃ r, soc2030_conv_exp2evxx k0 sensorBus 2 (soc2030_conv_exp2ev0a k0 sensorBus 2 1001 []).2.1
          (soc2030_conv_exp2ev0a k0 sensorBus 2 1001 []).2.2 =
        (0, r, [Xfer.write 0x098c 0xa104, Xfer.read 0x0990,
          Xfer.write 0x098c 0xa104, Xfer.read 0x0990]) ∧
      ((0 : Int) < 2 → r = 1001 / 2 ^ (2 : Int).natAbs * 2 ^ (2 : Int).natAbs ∧ r ≤ 1001 ∧
        1001 - r < 2 ^ (2 : Int).natAbs) ∧
      ((2 : Int) < 0 → r = 1001 % 2 ^ (16 - (2 : Int).natAbs)) ∧
      ((2 : Int) = 0 → r = 1001) :=
  conv_roundtrip_ctxA k0 sensorBus 2 1001 []
    [Xfer.write 0x098c 0xa104, Xfer.read 0x0990]
    [Xfer.write 0x098c 0xa104, Xfer.read 0x0990,
      Xfer.write 0x098c 0xa104, Xfer.read 0x0990] 3 3
    (by decide) (by decide) (by decide) (by decide) (by decide)

/-- C13, counterexample: bias -1 (within `[SOC_EV_MIN, SOC_EV_MAX]` of the
sample constants), context A, exposure 0x8000: the baseline value is 0 and so
is the value converted back, at distance 32768 from `x`, not less than 2. -/
theorem conv_roundtrip_negative_bias_loses :
    (k0.SOC_EV_MIN ≤ -1 ∧ (-1 : Int) ≤ k0.SOC_EV_MAX) ∧
    soc2030_conv_exp2evxx k0 sensorBus (-1) (soc2030_conv_exp2ev0a k0 sensorBus (-1) 0x8000 []).2.1
        (soc2030_conv_exp2ev0a k0 sensorBus (-1) 0x8000 []).2.2 =
      (0, 0, [Xfer.write 0x098c 0xa104, Xfer.read 0x0990,
        Xfer.write 0x098c 0xa104, Xfer.read 0x0990]) ∧
    ¬ (0x8000 - 0 < 2 ^ (-1 : Int).natAbs) := by
  decide

/-! ## Capturing the snapshot: theorems -/

theorem checked_ret (r : Option (Int × Drv)) : (checked r fun s => some (0, s)) = r := by
  unfold checked
  cases r with
  | none => rfl
  | some p =>
    obtain ⟨e, s⟩ := p
    by_cases he : e = 0
    · subst he; simp
    · simp [he]

theorem save_ae_loop_frame (k : Consts) (c : i2c_client) (ev : Int)
    (tbl : List soc2030_regs) :
    ∀ (idx : Nat) (s : Drv) (e : Int) (s1 : Drv),
      save_ae_loop k c ev tbl idx s = some (e, s1) →
      s1.info = s.info ∧ s1.lockBuff = s.lockBuff ∧
        s1.awb_lock_state = s.awb_lock_state ∧ s1.vars = s.vars := by
  induction tbl with
  | nil => intro idx s e s1 h; simp [save_ae_loop] at h
  | cons r rs ih =>
    intro idx s e s1 h
    unfold save_ae_loop at h
    dsimp only at h
    repeat' split at h
    all_goals first
      | (have f := ih _ _ _ _ h
         exact f)
      | (simp only [Option.some.injEq, Prod.mk.injEq] at h
         rw [← h.2]
         exact ⟨rfl, rfl, rfl, rfl⟩)

theorem save_awb_loop_frame (k : Consts) (c : i2c_client) (tbl : List soc2030_regs) :
    ∀ (idx : Nat) (s : Drv) (e : Int) (s1 : Drv),
      save_awb_loop k c tbl idx s = some (e, s1) →
      s1.info = s.info ∧ s1.lockBuff = s.lockBuff ∧
        s1.ae_lock_state = s.ae_lock_state ∧ s1.vars = s.vars := by
  induction tbl with
  | nil => intro idx s e s1 h; simp [save_awb_loop] at h
  | cons r rs ih =>
    intro idx s e s1 h
    unfold save_awb_loop at h
    dsimp only at h
    repeat' split at h
    all_goals first
      | (have f := ih _ _ _ _ h
         exact f)
      | (simp only [Option.some.injEq, Prod.mk.injEq] at h
         rw [← h.2]
         exact ⟨rfl, rfl, rfl, rfl⟩)

theorem save_ae_loop_unlocked (k : Consts) (c : i2c_client) (ev : Int)
    (tbl : List soc2030_regs) (htbl : tbl ≠ []) (idx : Nat) (s : Drv)
    (h : s.lockBuff.aelock = false) : save_ae_loop k c ev tbl idx s = some (0, s) := by
  cases tbl with
  | nil => exact absurd rfl htbl
  | cons r rs =>
    unfold save_ae_loop
    split_ifs <;> rfl

theorem save_awb_loop_unlocked (k : Consts) (c : i2c_client)
    (tbl : List soc2030_regs) (htbl : tbl ≠ []) (idx : Nat) (s : Drv)
    (h : s.lockBuff.awblock = false) : save_awb_loop k c tbl idx s = some (0, s) := by
  cases tbl with
  | nil => exact absurd rfl htbl
  | cons r rs =>
    unfold save_awb_loop
    split_ifs <;> rfl

theorem save_frame (k : Consts) (c : i2c_client) (ev : Int) (s : Drv) (e : Int) (s1 : Drv)
    (h : soc2030_save_isp_state k c ev s = some (e, s1)) :
    s1.info = s.info ∧ s1.lockBuff = s.lockBuff ∧ s1.vars = s.vars ∧
      (s.lockBuff.aelock = false → s1.ae_lock_state = s.ae_lock_state) ∧
      (s.lockBuff.awblock = false → s1.awb_lock_state = s.awb_lock_state) := by
  unfold soc2030_save_isp_state at h
  simp only [checked_ret] at h
  rw [checked_eq_some] at h
  have hne1 : ae_lock_state_sequence ≠ [] := by simp [ae_lock_state_sequence]
  have hne2 : awb_lock_state_sequence ≠ [] := by simp [awb_lock_state_sequence]
  rcases h with ⟨h, _⟩ | ⟨s0, h0, h⟩
  · have f := save_ae_loop_frame k c ev _ _ _ _ _ h
    refine ⟨f.1, f.2.1, f.2.2.2, ?_, fun _ => f.2.2.1⟩
    intro hl
    rw [save_ae_loop_unlocked k c ev _ hne1 0 s hl] at h
    simp only [Option.some.injEq, Prod.mk.injEq] at h
    rw [← h.2]
  · have f := save_ae_loop_frame k c ev _ _ _ _ _ h0
    have g := save_awb_loop_frame k c _ _ _ _ _ h
    refine ⟨g.1.trans f.1, g.2.1.trans f.2.1, g.2.2.2.trans f.2.2.2, ?_, ?_⟩
    · intro hl
      rw [save_ae_loop_unlocked k c ev _ hne1 0 s hl] at h0
      simp only [Option.some.injEq, Prod.mk.injEq, true_and] at h0
      rw [g.2.2.1, ← h0]
    · intro hl
      have hl0 : s0.lockBuff.awblock = false := by rw [f.2.1]; exact hl
      rw [save_awb_loop_unlocked k c _ hne2 0 s0 hl0] at h
      simp only [Option.some.injEq, Prod.mk.injEq] at h
      rw [← h.2, f.2.2.1]

/-- C15: `soc2030_save_isp_state` never changes `info` (so neither valid flag)
nor the stored request.  With `aelock` false the AE loop is left at once (no
transfer, state unchanged), save is just the AWB loop and the AE snapshot is
unchanged; with `awblock` false the AWB loop is left at once on any state,
save is just the AE loop and the AWB snapshot is unchanged; with both false
save returns 0 and changes nothing; in every case save returns. -/
theorem save_skips_unlocked_axis (k : Consts) (c : i2c_client) (b : Int) (s : Drv) :
    (∀ e s1, soc2030_save_isp_state k c b s = some (e, s1) →
      s1.info = s.info ∧ s1.lockBuff = s.lockBuff) ∧
    (s.lockBuff.aelock = false →
      save_ae_loop k c b ae_lock_state_sequence 0 s = some (0, s) ∧
      soc2030_save_isp_state k c b s = save_awb_loop k c awb_lock_state_sequence 0 s ∧
      ∀ e s1, soc2030_save_isp_state k c b s = some (e, s1) →
        s1.ae_lock_state = s.ae_lock_state) ∧
    (s.lockBuff.awblock = false →
      (∀ s0 : Drv, s0.lockBuff.awblock = false →
        save_awb_loop k c awb_lock_state_sequence 0 s0 = some (0, s0)) ∧
      soc2030_save_isp_state k c b s = save_ae_loop k c b ae_lock_state_sequence 0 s ∧
      ∀ e s1, soc2030_save_isp_state k c b s = some (e, s1) →
        s1.awb_lock_state = s.awb_lock_state) ∧
    (s.lockBuff.aelock = false → s.lockBuff.awblock = false →
      soc2030_save_isp_state k c b s = some (0, s)) ∧
    (soc2030_save_isp_state k c b s).isSome = true := by
  have hne1 : ae_lock_state_sequence ≠ [] := by simp [ae_lock_state_sequence]
  have hne2 : awb_lock_state_sequence ≠ [] := by simp [awb_lock_state_sequence]
  have hawb : s.lockBuff.awblock = false →
      soc2030_save_isp_state k c b s = save_ae_loop k c b ae_lock_state_sequence 0 s := by
    intro hl
    unfold soc2030_save_isp_state
    simp only [checked_ret]
    cases hr : save_ae_loop k c b ae_lock_state_sequence 0 s with
    | none => rfl
    | some p =>
      obtain ⟨e, s0⟩ := p
      have f := save_ae_loop_frame k c b _ _ _ _ _ hr
      have hl0 : s0.lockBuff.awblock = false := by rw [f.2.1]; exact hl
      by_cases he : e = 0
      · subst he
        simp [checked, save_awb_loop_unlocked k c _ hne2 0 s0 hl0]
      · simp [checked, he]
  have hae : s.lockBuff.aelock = false →
      soc2030_save_isp_state k c b s = save_awb_loop k c awb_lock_state_sequence 0 s := by
    intro hl
    unfold soc2030_save_isp_state
    simp only [checked_ret]
    rw [save_ae_loop_unlocked k c b _ hne1 0 s hl]
    simp [checked]
  refine ⟨fun e s1 h => ?_, fun hl => ⟨save_ae_loop_unlocked k c b _ hne1 0 s hl, hae hl,
    fun e s1 h => (save_frame k c b s e s1 h).2.2.2.1 hl⟩,
    fun hl => ⟨fun s0 h0 => save_awb_loop_unlocked k c _ hne2 0 s0 h0, hawb hl,
      fun e s1 h => (save_frame k c b s e s1 h).2.2.2.2 hl⟩, fun h1 h2 => ?_,
    save_total k c b s⟩
  · have f := save_frame k c b s e s1 h
    exact ⟨f.1, f.2.1⟩
  · rw [hae h1]
    exact save_awb_loop_unlocked k c _ hne2 0 s h2

/-! ## Lock transitions: theorems -/

theorem run_steps_two (f g : Drv → Option (Int × Drv)) (s : Drv) :
    run_steps [f, g] s = checked (f s) fun s1 => checked (g s1) fun s2 => some (0, s2) := by
  have hcons : ∀ (f : Drv → Option (Int × Drv)) (fs : List (Drv → Option (Int × Drv))),
      run_steps (f :: fs) = fun s => checked (f s) (run_steps fs) :=
    fun f fs => funext (run_steps_cons f fs)
  have hnil : run_steps [] = fun s => some (0, s) := rfl
  simp only [hcons, hnil]

theorem lock_transition_eq (k : Consts) (c : i2c_client) (tbl : List soc2030_regs)
    (relock valid : Bool) (mark : Drv → Drv) (bias : Int) (s : Drv) :
    lock_transition k c tbl relock valid mark bias s =
      checked (soc2030_write_table k c tbl s) fun s2 =>
        if relock && valid then
          checked (soc2030_restore_isp_state k c bias s2) fun s3 => some (0, s3)
        else
          checked (soc2030_save_isp_state k c bias s2) fun s3 => some (0, mark s3) := by
  unfold lock_transition
  simp only [run_steps_two]
  by_cases hrv : (relock && valid) = true
  · simp only [hrv, if_true]
  · simp only [hrv, if_false]
    cases h1 : soc2030_write_table k c tbl s with
    | none => simp [checked]
    | some p1 =>
      obtain ⟨e1, s1⟩ := p1
      by_cases he1 : e1 = 0
      swap
      · simp [checked, he1]
      subst he1
      simp only [checked, ne_eq, not_true_eq_false, if_false]
      cases h2 : soc2030_save_isp_state k c bias s1 with
      | none => simp
      | some p2 =>
        obtain ⟨e2, s2⟩ := p2
        by_cases he2 : e2 = 0
        · subst he2; simp
        · simp [he2]

theorem lock_check_ae_lock (k : Consts) (c : i2c_client) (s : Drv)
    (hreq : s.lockBuff.aelock = true) (hinh : s.info.ae_lock_inhibit = false) :
    lock_check_ae k c s false =
      lock_transition k c exposureLockSequence s.lockBuff.aerelock
        s.info.valid_ae_lock_state Drv.mark_ae_valid s.info.current_ev s := by
  rw [lock_transition_eq]
  unfold lock_check_ae
  simp only [hreq, hinh, Bool.xor_false, Bool.false_and, Bool.and_self, if_true,
    Bool.false_eq_true, if_false]
  cases h1 : soc2030_write_table k c exposureLockSequence s with
  | none => simp [checked]
  | some p1 =>
    obtain ⟨e1, s1⟩ := p1
    have c1 := write_table_ctl k c _ _ _ _ h1
    by_cases he1 : e1 = 0
    swap
    · simp [checked, he1]
    subst he1
    simp only [checked, ne_eq, not_true_eq_false, if_false, c1.1, c1.2.1, hinh, if_true]
    rfl

theorem lock_check_awb_lock (k : Consts) (c : i2c_client) (s : Drv)
    (hreq : s.lockBuff.awblock = true) (hinh : s.info.awb_lock_inhibit = false) :
    lock_check_awb k c s true =
      lock_transition k c awbLockSequence s.lockBuff.awbrelock
        s.info.valid_awb_lock_state Drv.mark_awb_valid s.info.current_ev s := by
  rw [lock_transition_eq]
  unfold lock_check_awb
  simp only [hreq, hinh, Bool.false_and, Bool.and_self, if_true,
    Bool.false_eq_true, if_false]
  cases h1 : soc2030_write_table k c awbLockSequence s with
  | none => simp [checked]
  | some p1 =>
    obtain ⟨e1, s1⟩ := p1
    have c1 := write_table_ctl k c _ _ _ _ h1
    by_cases he1 : e1 = 0
    swap
    · simp [checked, he1]
    subst he1
    simp only [checked, ne_eq, not_true_eq_false, if_false, c1.1, c1.2.1, hinh, if_true]
    rfl

theorem lock_transition_post (k : Consts) (c : i2c_client) (tbl : List soc2030_regs)
    (relock valid : Bool) (mark : Drv → Drv) (bias : Int) (s : Drv) (e : Int) (s1 : Drv)
    (h : lock_transition k c tbl relock valid mark bias s = some (e, s1)) :
    ((relock && valid) = true → s.ctl_eq s1) ∧
    ((relock && valid) = false → e = 0 → ∃ s0, s1 = mark s0 ∧ s0.info = s.info ∧
      s0.lockBuff = s.lockBuff) := by
  rw [lock_transition_eq, checked_eq_some] at h
  constructor
  · intro hrv
    rcases h with ⟨h, _⟩ | ⟨s2, h2, h⟩
    · exact write_table_ctl k c _ _ _ _ h
    · have c2 := write_table_ctl k c _ _ _ _ h2
      simp only [hrv, if_true, checked_ret] at h
      exact ctl_eq_trans c2 (restore_ctl k c _ _ _ _ h)
  · intro hrv he
    subst he
    rcases h with ⟨_, h0⟩ | ⟨s2, h2, h⟩
    · exact absurd rfl h0
    · have c2 := write_table_ctl k c _ _ _ _ h2
      simp only [hrv, Bool.false_eq_true, if_false] at h
      rw [checked_eq_some] at h
      rcases h with ⟨_, h0⟩ | ⟨s3, h3, h⟩
      · exact absurd rfl h0
      · have f := save_frame k c _ _ _ _ h3
        simp only [Option.some.injEq, Prod.mk.injEq, true_and] at h
        exact ⟨s3, h.symm, f.1.trans c2.1, f.2.1.trans c2.2.1⟩

/-- C16: when the stored request has the lock flag set, the previous flag was
clear and the lock is not inhibited, the AE half (resp. AWB half) of
`soc2030_lock_check` is the lock transition: the axis's lock table first; then
`restore` if relock is requested and the valid flag is set (no save; `info`,
hence the valid flag, and both snapshots are as before); otherwise `save`
followed by setting the valid flag; the result is 0 when every step returns 0,
else the first error; both halves return on every bus. -/
theorem lock_transition_runs (k : Consts) (c : i2c_client) (s : Drv) :
    (s.lockBuff.aelock = true → s.info.ae_lock_inhibit = false →
      lock_check_ae k c s false =
        lock_transition k c exposureLockSequence s.lockBuff.aerelock
          s.info.valid_ae_lock_state Drv.mark_ae_valid s.info.current_ev s ∧
      ∀ e s1, lock_check_ae k c s false = some (e, s1) →
        ((s.lockBuff.aerelock && s.info.valid_ae_lock_state) = true → s.ctl_eq s1) ∧
        ((s.lockBuff.aerelock && s.info.valid_ae_lock_state) = false → e = 0 →
          s1.info.valid_ae_lock_state = true)) ∧
    (s.lockBuff.awblock = true → s.info.awb_lock_inhibit = false →
      lock_check_awb k c s true =
        lock_transition k c awbLockSequence s.lockBuff.awbrelock
          s.info.valid_awb_lock_state Drv.mark_awb_valid s.info.current_ev s ∧
      ∀ e s1, lock_check_awb k c s true = some (e, s1) →
        ((s.lockBuff.awbrelock && s.info.valid_awb_lock_state) = true → s.ctl_eq s1) ∧
        ((s.lockBuff.awbrelock && s.info.valid_awb_lock_state) = false → e = 0 →
          s1.info.valid_awb_lock_state = true)) ∧
    (lock_check_ae k c s false).isSome = true ∧
    (lock_check_awb k c s true).isSome = true := by
  refine ⟨?_, ?_, lock_check_ae_total k c _ _, lock_check_awb_total k c _ _⟩
  · intro hreq hinh
    have heq := lock_check_ae_lock k c s hreq hinh
    refine ⟨heq, fun e s1 h => ?_⟩
    rw [heq] at h
    have hp := lock_transition_post k c _ _ _ _ _ _ _ _ h
    refine ⟨hp.1, fun hrv he => ?_⟩
    obtain ⟨s0, hs0, _⟩ := hp.2 hrv he
    rw [hs0]; rfl
  · intro hreq hinh
    have heq := lock_check_awb_lock k c s hreq hinh
    refine ⟨heq, fun e s1 h => ?_⟩
    rw [heq] at h
    have hp := lock_transition_post k c _ _ _ _ _ _ _ _ h
    refine ⟨hp.1, fun hrv he => ?_⟩
    obtain ⟨s0, hs0, _⟩ := hp.2 hrv he
    rw [hs0]; rfl

theorem lock_check_awb_unchanged (k : Consts) (c : i2c_client) (s : Drv) :
    lock_check_awb k c s false = some (0, s) := by
  simp [lock_check_awb]

theorem lock_check_ae_unchanged (k : Consts) (c : i2c_client) (s : Drv) :
    lock_check_ae k c s s.lockBuff.aelock = some (0, s) := by
  simp [lock_check_ae]

/-- C17: when the stored request has the lock flag clear and the previous flag
was set, the AE half (resp. AWB half) of `soc2030_lock_check` is exactly the
run of the axis's unlock table; whatever it returns, `info` (both valid
flags), the stored request and both snapshot arrays are as before; and with
the other axis unchanged the whole of `soc2030_lock_check` is that table
run; both halves return on every bus. -/
theorem unlock_transition_runs (k : Consts) (c : i2c_client) (s : Drv) :
    (s.lockBuff.aelock = false →
      lock_check_ae k c s true = soc2030_write_table k c exposureUnLockSequence s ∧
      (∀ e s1, lock_check_ae k c s true = some (e, s1) → s.ctl_eq s1) ∧
      soc2030_lock_check k c s true s.lockBuff.awblock =
        soc2030_write_table k c exposureUnLockSequence s) ∧
    (s.lockBuff.awblock = false →
      lock_check_awb k c s true = soc2030_write_table k c awbUnLockSequence s ∧
      (∀ e s1, lock_check_awb k c s true = some (e, s1) → s.ctl_eq s1) ∧
      soc2030_lock_check k c s s.lockBuff.aelock true =
        soc2030_write_table k c awbUnLockSequence s) ∧
    (lock_check_ae k c s true).isSome = true ∧
    (lock_check_awb k c s true).isSome = true := by
  refine ⟨?_, ?_, lock_check_ae_total k c _ _, lock_check_awb_total k c _ _⟩
  · intro hl
    have heq : lock_check_ae k c s true =
        soc2030_write_table k c exposureUnLockSequence s := by
      unfold lock_check_ae
      simp [hl, checked_ret]
    refine ⟨heq, fun e s1 h => ?_, ?_⟩
    · rw [heq] at h
      exact write_table_ctl k c _ _ _ _ h
    · unfold soc2030_lock_check
      simp only [heq, bne_self_eq_false, Bool.xor_self, lock_check_awb_unchanged, checked_ret]
  · intro hl
    have heq : lock_check_awb k c s true =
        soc2030_write_table k c awbUnLockSequence s := by
      unfold lock_check_awb
      simp [hl, checked_ret]
    refine ⟨heq, fun e s1 h => ?_, ?_⟩
    · rw [heq] at h
      exact write_table_ctl k c _ _ _ _ h
    · unfold soc2030_lock_check
      rw [lock_check_ae_unchanged, hl]
      simp only [checked, ne_eq, not_true_eq_false, if_false, Bool.xor_true, Bool.not_false,
        Bool.false_xor]
      exact heq

/-- C19: with the AE-lock-inhibited flag set, a request with `aelock` set
while the previous flag was clear is downgraded: the AE half of
`soc2030_lock_check` clears `aelock` and `aerelock` in the stored request and
is then exactly the run of `exposureUnLockSequence` (the lock table, `save`
and `restore` are not run); it returns, and whatever it returns, the two
flags are clear and
`info` (the valid flags) and both snapshot arrays are as before. -/
theorem inhibited_ae_lock_downgraded (k : Consts) (c : i2c_client) (s : Drv)
    (hinh : s.info.ae_lock_inhibit = true) (hreq : s.lockBuff.aelock = true) :
    lock_check_ae k c s false =
        soc2030_write_table k c exposureUnLockSequence s.ae_downgraded ∧
      (lock_check_ae k c s false).isSome = true ∧
      ∀ e s1, lock_check_ae k c s false = some (e, s1) →
        s1.lockBuff.aelock = false ∧ s1.lockBuff.aerelock = false ∧
          s1.lockBuff.awblock = s.lockBuff.awblock ∧
          s1.info = s.info ∧ s1.ae_lock_state = s.ae_lock_state ∧
          s1.awb_lock_state = s.awb_lock_state := by
  have heq : lock_check_ae k c s false =
      soc2030_write_table k c exposureUnLockSequence s.ae_downgraded := by
    unfold lock_check_ae Drv.ae_downgraded
    simp [hinh, hreq, checked_ret]
  refine ⟨heq, lock_check_ae_total k c _ _, fun e s1 h => ?_⟩
  rw [heq] at h
  have c1 := write_table_ctl k c _ _ _ _ h
  refine ⟨?_, ?_, ?_, c1.1, c1.2.2.1, c1.2.2.2⟩
  · rw [c1.2.1]; rfl
  · rw [c1.2.1]; rfl
  · rw [c1.2.1]; rfl

set_option maxRecDepth 100000 in
/-- C16, witness: after open and `soc2030_set_mode` for `(800, 600, 30)` on
the simulated sensor, the request `lockAe` runs `exposureLockSequence` (13
transfers) followed by a fresh save (the 15 reads of the AE list and the
context read of the conversion), sets the AE valid flag and returns 0. -/
theorem lock_transition_runs_witness :
    (lock_check_ae k0 sensorBus Drv.preview_lockAe false =
        lock_transition k0 sensorBus exposureLockSequence Drv.preview_lockAe.lockBuff.aerelock
          Drv.preview_lockAe.info.valid_ae_lock_state Drv.mark_ae_valid
          Drv.preview_lockAe.info.current_ev Drv.preview_lockAe ∧
      ∀ e s1, lock_check_ae k0 sensorBus Drv.preview_lockAe false = some (e, s1) →
        ((Drv.preview_lockAe.lockBuff.aerelock &&
            Drv.preview_lockAe.info.valid_ae_lock_state) = true →
          Drv.preview_lockAe.ctl_eq s1) ∧
        ((Drv.preview_lockAe.lockBuff.aerelock &&
            Drv.preview_lockAe.info.valid_ae_lock_state) = false → e = 0 →
          s1.info.valid_ae_lock_state = true)) ∧
    (ioctl_set_lock k0 sensorBus lockAe Drv.preview).map
        (fun r => (r.1, r.2.info.valid_ae_lock_state, r.2.trace.drop 390)) =
      some (0, true,
        [Xfer.write 0x098c 0xA102, Xfer.read 0x0990, Xfer.write 0x0990 0,
          Xfer.write 0x098c 0xA115, Xfer.write 0x0990 0,
          Xfer.write 0x098c 0xA11D, Xfer.write 0x0990 0,
          Xfer.write 0x098c 0xA117, Xfer.write 0x0990 0,
          Xfer.write 0x098c 0xA129, Xfer.write 0x0990 0,
          Xfer.write 0x098c 0xA120, Xfer.write 0x0990 0,
          Xfer.read 0x302e, Xfer.read 0x3028, Xfer.read 0x3030, Xfer.read 0x302a,
          Xfer.read 0x302c, Xfer.read 0x3058, Xfer.read 0x3012,
          Xfer.write 0x098c 0xa104, Xfer.read 0x0990,
          Xfer.read 0x3036, Xfer.read 0x3038, Xfer.read 0x3032, Xfer.read 0x3034,
          Xfer.read 0x3014, Xfer.read 0x3056, Xfer.read 0x305c, Xfer.read 0x305a]) :=
  ⟨(lock_transition_runs k0 sensorBus Drv.preview_lockAe).1 rfl (by decide), by decide⟩

/-- C17, witness: AE was locked and the request just copied clears it. -/
theorem unlock_transition_runs_witness :
    lock_check_ae k0 sensorBus Drv.unlocking true =
        soc2030_write_table k0 sensorBus exposureUnLockSequence Drv.unlocking ∧
      (∀ e s1, lock_check_ae k0 sensorBus Drv.unlocking true = some (e, s1) →
        Drv.unlocking.ctl_eq s1) ∧
      soc2030_lock_check k0 sensorBus Drv.unlocking true Drv.unlocking.lockBuff.awblock =
        soc2030_write_table k0 sensorBus exposureUnLockSequence Drv.unlocking :=
  (unlock_transition_runs k0 sensorBus Drv.unlocking).1 rfl

/-- C19, witness: the inhibit flag is set and `lockAe` was just requested. -/
theorem inhibited_ae_lock_downgraded_witness :
    lock_check_ae k0 sensorBus Drv.inhibited_lockAe false =
        soc2030_write_table k0 sensorBus exposureUnLockSequence
          Drv.inhibited_lockAe.ae_downgraded ∧
      (lock_check_ae k0 sensorBus Drv.inhibited_lockAe false).isSome = true ∧
      ∀ e s1, lock_check_ae k0 sensorBus Drv.inhibited_lockAe false = some (e, s1) →
        s1.lockBuff.aelock = false ∧ s1.lockBuff.aerelock = false ∧
          s1.lockBuff.awblock = Drv.inhibited_lockAe.lockBuff.awblock ∧
          s1.info = Drv.inhibited_lockAe.info ∧
          s1.ae_lock_state = Drv.inhibited_lockAe.ae_lock_state ∧
          s1.awb_lock_state = Drv.inhibited_lockAe.awb_lock_state :=
  inhibited_ae_lock_downgraded k0 sensorBus Drv.inhibited_lockAe rfl rfl

theorem lock_check_ae_keeps (k : Consts) (c : i2c_client) (s : Drv) (prev : Bool)
    (e : Int) (s1 : Drv) (h : lock_check_ae k c s prev = some (e, s1))
    (hno : ¬ (s.info.ae_lock_inhibit = true ∧ s.lockBuff.aelock = true)) :
    s1.lockBuff = s.lockBuff ∧ s1.info.ae_lock_inhibit = s.info.ae_lock_inhibit ∧
      s1.info.awb_lock_inhibit = s.info.awb_lock_inhibit := by
  have hd : (s.info.ae_lock_inhibit && s.lockBuff.aelock &&
      xor s.lockBuff.aelock prev) = false := by
    cases hi : s.info.ae_lock_inhibit <;> cases hl : s.lockBuff.aelock <;> simp_all
  unfold lock_check_ae at h
  simp only [hd, Bool.false_eq_true, if_false] at h
  split_ifs at h
  · rw [checked_eq_some] at h
    rcases h with ⟨h, _⟩ | ⟨s2, h2, h⟩
    · have c1 := write_table_ctl k c _ _ _ _ h
      exact ⟨c1.2.1, by rw [c1.1], by rw [c1.1]⟩
    · have c1 := write_table_ctl k c _ _ _ _ h2
      split_ifs at h
      · rw [checked_ret] at h
        have c2 := ctl_eq_trans c1 (restore_ctl k c _ _ _ _ h)
        exact ⟨c2.2.1, by rw [c2.1], by rw [c2.1]⟩
      · rw [checked_eq_some] at h
        rcases h with ⟨h, _⟩ | ⟨s3, h3, h⟩
        · have f := save_frame k c _ _ _ _ h
          exact ⟨f.2.1.trans c1.2.1, by rw [f.1, c1.1], by rw [f.1, c1.1]⟩
        · have f := save_frame k c _ _ _ _ h3
          simp only [Option.some.injEq, Prod.mk.injEq] at h
          rw [← h.2]
          exact ⟨f.2.1.trans c1.2.1, by show s3.info.ae_lock_inhibit = _; rw [f.1, c1.1],
            by show s3.info.awb_lock_inhibit = _; rw [f.1, c1.1]⟩
      · simp only [Option.some.injEq, Prod.mk.injEq] at h
        rw [← h.2]
        exact ⟨c1.2.1, by rw [c1.1], by rw [c1.1]⟩
  · rw [checked_ret] at h
    have c1 := write_table_ctl k c _ _ _ _ h
    exact ⟨c1.2.1, by rw [c1.1], by rw [c1.1]⟩
  · simp only [Option.some.injEq, Prod.mk.injEq] at h
    rw [← h.2]
    exact ⟨rfl, rfl, rfl⟩

theorem lock_check_awb_keeps (k : Consts) (c : i2c_client) (s : Drv) (chg : Bool)
    (e : Int) (s1 : Drv) (h : lock_check_awb k c s chg = some (e, s1))
    (hno : ¬ (s.info.awb_lock_inhibit = true ∧ s.lockBuff.awblock = true)) :
    s1.lockBuff = s.lockBuff := by
  have hd : (s.info.awb_lock_inhibit && s.lockBuff.awblock && chg) = false := by
    cases hi : s.info.awb_lock_inhibit <;> cases hl : s.lockBuff.awblock <;> simp_all
  unfold lock_check_awb at h
  simp only [hd, Bool.false_eq_true, if_false] at h
  split_ifs at h
  · rw [checked_eq_some] at h
    rcases h with ⟨h, _⟩ | ⟨s2, h2, h⟩
    · exact (write_table_ctl k c _ _ _ _ h).2.1
    · have c1 := write_table_ctl k c _ _ _ _ h2
      split_ifs at h
      · rw [checked_ret] at h
        exact (ctl_eq_trans c1 (restore_ctl k c _ _ _ _ h)).2.1
      · rw [checked_eq_some] at h
        rcases h with ⟨h, _⟩ | ⟨s3, h3, h⟩
        · exact (save_frame k c _ _ _ _ h).2.1.trans c1.2.1
        · have f := save_frame k c _ _ _ _ h3
          simp only [Option.some.injEq, Prod.mk.injEq] at h
          rw [← h.2]
          exact f.2.1.trans c1.2.1
      · simp only [Option.some.injEq, Prod.mk.injEq] at h
        rw [← h.2]
        exact c1.2.1
  · rw [checked_ret] at h
    exact (write_table_ctl k c _ _ _ _ h).2.1
  · simp only [Option.some.injEq, Prod.mk.injEq] at h
    rw [← h.2]

theorem set_lock_preview_keeps (s : Drv) (a b p : Bool) :
    (set_lock_preview s a b p).lockBuff = s.lockBuff ∧
      (set_lock_preview s a b p).info.ae_lock_inhibit = s.info.ae_lock_inhibit ∧
      (set_lock_preview s a b p).info.awb_lock_inhibit = s.info.awb_lock_inhibit ∧
      (set_lock_preview s a b p).trace = s.trace := by
  unfold set_lock_preview
  dsimp only
  split_ifs <;> exact ⟨rfl, rfl, rfl, rfl⟩

theorem set_lock_preview_same (s : Drv) (a b : Bool) :
    set_lock_preview s a b s.lockBuff.previewactive = s := by
  simp [set_lock_preview]

theorem ioctl_set_lock_same (k : Consts) (c : i2c_client) (req : soc2030_lock) (s1 : Drv)
    (hs : s1.lockBuff = req) : ioctl_set_lock k c req s1 = some (0, s1) := by
  have hst : ({ s1 with lockBuff := req } : Drv) = s1 := by
    cases s1; simp_all
  unfold ioctl_set_lock
  simp only [hst, set_lock_preview_same]
  unfold soc2030_lock_check
  rw [lock_check_ae_unchanged]
  simp only [checked, ne_eq, not_true_eq_false, if_false, bne_self_eq_false, Bool.xor_self,
    lock_check_awb_unchanged]

/-- C18 (amended): when the first `SOC2030_IOCTL_SET_LOCK` with request `req`
does not have to downgrade an inhibited lock (not both "AE lock inhibited" and
`req.aelock`, and the same for AWB), the first call returns, and whatever it
returns, a second call with the same `req` returns 0 and leaves the state, bus
history included, exactly as the first call left it. -/
theorem set_lock_twice_silent (k : Consts) (c : i2c_client) (s : Drv) (req : soc2030_lock)
    (hae : ¬ (s.info.ae_lock_inhibit = true ∧ req.aelock = true))
    (hawb : ¬ (s.info.awb_lock_inhibit = true ∧ req.awblock = true)) :
    ∃ e1 s1, ioctl_set_lock k c req s = some (e1, s1) ∧
      ioctl_set_lock k c req s1 = some (0, s1) := by
  obtain ⟨⟨e1, s1⟩, h1⟩ := Option.isSome_iff_exists.mp (ioctl_set_lock_total k c req s)
  refine ⟨e1, s1, h1, ?_⟩
  apply ioctl_set_lock_same
  unfold ioctl_set_lock at h1
  dsimp only at h1
  have hprop := set_lock_preview_keeps { s with lockBuff := req } s.lockBuff.aelock
    s.lockBuff.awblock s.lockBuff.previewactive
  generalize set_lock_preview { s with lockBuff := req } s.lockBuff.aelock
    s.lockBuff.awblock s.lockBuff.previewactive = s2 at h1 hprop
  unfold soc2030_lock_check at h1
  rw [checked_eq_some] at h1
  have hae2 : ¬ (s2.info.ae_lock_inhibit = true ∧ s2.lockBuff.aelock = true) := by
    rw [hprop.1, hprop.2.1]; exact hae
  rcases h1 with ⟨h, _⟩ | ⟨sa, ha, h⟩
  · exact (lock_check_ae_keeps k c _ _ _ _ h hae2).1.trans hprop.1
  · have ka := lock_check_ae_keeps k c _ _ _ _ ha hae2
    have hawb2 : ¬ (sa.info.awb_lock_inhibit = true ∧ sa.lockBuff.awblock = true) := by
      rw [ka.1, ka.2.2, hprop.1, hprop.2.2.1]; exact hawb
    exact (lock_check_awb_keeps k c _ _ _ _ h hawb2).trans (ka.1.trans hprop.1)

/-- C18, witness of the amended claim: `lockAe` requested twice right after
open on the simulated sensor (the first call returns 0). -/
theorem set_lock_twice_silent_witness :
    (ioctl_set_lock k0 sensorBus lockAe Drv.opened).map Prod.fst = some 0 ∧
    ∃ e1 s1, ioctl_set_lock k0 sensorBus lockAe Drv.opened = some (e1, s1) ∧
      ioctl_set_lock k0 sensorBus lockAe s1 = some (0, s1) :=
  ⟨by decide, set_lock_twice_silent k0 sensorBus Drv.opened lockAe (by decide) (by decide)⟩

/-- C18, counterexample: open, exposure compensation 1 (returns 0 and sets the
AE-lock-inhibited flag), then `lockAe` requested twice: all three calls return
0 (first list), the inhibit flag is set and the stored `aelock` is clear after
the first lock request (second list), 27 transfers were made up to then, and
the second lock request issues 21 further transfers, the whole of
`exposureUnLockSequence`. -/
theorem set_lock_twice_inhibited_not_silent :
    ((ioctl_set_exp_comp k0 sensorBus 1 Drv.opened).bind fun p =>
      (ioctl_set_lock k0 sensorBus lockAe p.2).bind fun q =>
        (ioctl_set_lock k0 sensorBus lockAe q.2).map fun z =>
          ([p.1, q.1, z.1], [p.2.info.ae_lock_inhibit, q.2.lockBuff.aelock],
            q.2.trace.length, z.2.trace.drop q.2.trace.length)) =
      some ([0, 0, 0], [true, false], 27,
        [Xfer.write 0x098c 0xA102, Xfer.read 0x0990, Xfer.write 0x0990 9,
          Xfer.write 0x098c 0xA115, Xfer.write 0x0990 1,
          Xfer.write 0x098c 0xA11D, Xfer.write 0x0990 1,
          Xfer.write 0x098c 0xA117, Xfer.write 0x0990 1,
          Xfer.write 0x098c 0xA129, Xfer.write 0x0990 1,
          Xfer.write 0x098c 0xA120, Xfer.write 0x0990 1,
          Xfer.write 0x098c 0xa103, Xfer.write 0x0990 6,
          Xfer.write 0x098c 0xa103, Xfer.read 0x0990,
          Xfer.write 0x098c 0xa103, Xfer.write 0x0990 5,
          Xfer.write 0x098c 0xa103, Xfer.read 0x0990]) := by
  decide

theorem ioctl_set_whitebalance_frame (k : Consts) (c : i2c_client) (arg : Nat) (s : Drv)
    (e : Int) (s1 : Drv) (h : ioctl_set_whitebalance k c arg s = some (e, s1)) :
    s.ctl_eq s1 := by
  unfold ioctl_set_whitebalance at h
  split_ifs at h
  · simp only [Option.some.injEq, Prod.mk.injEq] at h
    rw [← h.2]; exact ctl_eq_refl _
  · split at h
    · exact absurd h (by simp)
    · rw [checked_eq_some] at h
      rcases h with ⟨h, _⟩ | ⟨s2, h2, h⟩
      · exact write_table_ctl k c _ _ _ _ h
      · have c2 := write_table_ctl k c _ _ _ _ h2
        rw [checked_eq_some] at h
        rcases h with ⟨h, _⟩ | ⟨s3, h3, h⟩
        · exact ctl_eq_trans c2 (write_table_ctl k c _ _ _ _ h)
        · have c3 := ctl_eq_trans c2 (write_table_ctl k c _ _ _ _ h3)
          split at h
          · exact absurd h (by simp)
          · exact ctl_eq_trans c3 (write_table_ctl k c _ _ _ _ h)

set_option maxRecDepth 100000 in
/-- C20 (evaluation at the failing input): `SOC2030_IOCTL_SET_WHITEBALANCE`
never changes `info`, so it never sets the AWB-lock-inhibited flag; after
open, `soc2030_set_mode` for `(800, 600, 30)` and white balance 3 (a
non-auto entry of `wb_table`) on the simulated sensor, both calls return 0
(first list); the flag is clear after the white-balance call and the request
`lockAwb` is not downgraded: `awblock` is still set and the AWB valid flag is
set (second list); the lock call runs `awbLockSequence` (5 transfers) and a
save (57 transfers). -/
theorem manual_wb_does_not_inhibit :
    (∀ (k : Consts) (c : i2c_client) (arg : Nat) (s : Drv) (e : Int) (s1 : Drv),
      ioctl_set_whitebalance k c arg s = some (e, s1) → s1.info = s.info) ∧
    ((ioctl_set_whitebalance k0 sensorBus 3 Drv.preview).bind fun p =>
      (ioctl_set_lock k0 sensorBus lockAwb p.2).map fun q =>
        ([p.1, q.1], [p.2.info.awb_lock_inhibit, q.2.lockBuff.awblock,
            q.2.info.valid_awb_lock_state], (q.2.trace.drop p.2.trace.length).take 5,
          (q.2.trace.drop p.2.trace.length).length)) =
      some ([0, 0], [false, true, true],
        [Xfer.write 0x098c 0xA102, Xfer.read 0x0990, Xfer.write 0x0990 0,
          Xfer.write 0x098c 0xA11F, Xfer.write 0x0990 0], 62) :=
  ⟨fun k c arg s e s1 h => (ioctl_set_whitebalance_frame k c arg s e s1 h).1, by decide⟩

/-! ## Save followed by restore: theorems -/

theorem read_reg_success (c : i2c_client) (a v0 : Nat) (tr : List Xfer)
    (h : (soc2030_read_reg c a v0 tr).1 = 0) :
    soc2030_read_reg c a v0 tr = (0, (c.xfer_read tr a).2 % 65536, tr ++ [Xfer.read a]) := by
  unfold soc2030_read_reg at h ⊢
  dsimp only at h ⊢
  split_ifs at h ⊢
  · simp [ENODEV_errno] at h
  · simp [EIO_errno] at h
  · rfl

theorem read_xdma_ok (k : Consts) (c : i2c_client) (a v0 : Nat) (tr : List Xfer)
    (hbus : BusOk c) :
    soc2030_read_xdma_reg k c a v0 tr =
      (0, (c.xfer_read (tr ++ [Xfer.write 0x098c a]) 0x0990).2 % 65536,
        tr ++ [Xfer.write 0x098c a, Xfer.read 0x0990]) := by
  unfold soc2030_read_xdma_reg
  simp [write_reg_ok k c _ _ _ hbus.1 (hbus.2.1 _ _ _),
    read_reg_ok c _ _ _ hbus.1 (hbus.2.2 _ _)]

theorem write_attempts_succ (tr : List Xfer) (a v n : Nat) :
    write_attempts (tr ++ [Xfer.write a v]) a v n = write_attempts tr a v (n + 1) := by
  unfold write_attempts
  rw [List.replicate_succ, List.append_assoc, List.singleton_append]

theorem write_reg_loop_first (c : i2c_client) (a v : Nat) :
    ∀ (n : Nat) (tr : List Xfer) (j : Nat), j < n →
      (∀ i, i < j → c.xfer_write (write_attempts tr a v i) a v ≠ 1) →
      c.xfer_write (write_attempts tr a v j) a v = 1 →
      write_reg_loop c a v n tr = (0, write_attempts tr a v (j + 1)) := by
  intro n
  induction n with
  | zero => intro tr j hj; exact absurd hj (Nat.not_lt_zero _)
  | succ n ih =>
    intro tr j hj hfail hok
    unfold write_reg_loop
    cases j with
    | zero =>
      have h0 : c.xfer_write tr a v = 1 := by simpa [write_attempts] using hok
      rw [if_pos h0]
      simp [write_attempts]
    | succ j =>
      have h0 : ¬ c.xfer_write tr a v = 1 := by
        simpa [write_attempts] using hfail 0 (Nat.succ_pos _)
      rw [if_neg h0, ih (tr ++ [Xfer.write a v]) j (Nat.lt_of_succ_lt_succ hj)]
      · rw [write_attempts_succ]
      · intro i hi
        rw [write_attempts_succ]
        exact hfail (i + 1) (Nat.succ_lt_succ hi)
      · rw [write_attempts_succ]; exact hok

theorem write_reg_loop_exhaust (c : i2c_client) (a v : Nat) :
    ∀ (n : Nat) (tr : List Xfer),
      (∀ i, i < n → c.xfer_write (write_attempts tr a v i) a v ≠ 1) →
      write_reg_loop c a v n tr = (-EIO_errno, write_attempts tr a v n) := by
  intro n
  induction n with
  | zero => intro tr _; simp [write_reg_loop, write_attempts]
  | succ n ih =>
    intro tr hfail
    unfold write_reg_loop
    have h0 : ¬ c.xfer_write tr a v = 1 := by
      simpa [write_attempts] using hfail 0 (Nat.succ_pos _)
    rw [if_neg h0, ih (tr ++ [Xfer.write a v])]
    · rw [write_attempts_succ]
    · intro i hi
      rw [write_attempts_succ]
      exact hfail (i + 1) (Nat.succ_lt_succ hi)

theorem write_reg_loop_cases (c : i2c_client) (a v : Nat) (n : Nat) (tr : List Xfer) :
    (∃ j, j < n ∧ (∀ i, i < j → c.xfer_write (write_attempts tr a v i) a v ≠ 1) ∧
        c.xfer_write (write_attempts tr a v j) a v = 1) ∨
      (∀ i, i < n → c.xfer_write (write_attempts tr a v i) a v ≠ 1) := by
  by_cases h : ∃ j, j < n ∧ c.xfer_write (write_attempts tr a v j) a v = 1
  · left
    classical
    refine ⟨Nat.find h, (Nat.find_spec h).1, fun i hi hok => ?_, (Nat.find_spec h).2⟩
    exact Nat.find_min h hi ⟨hi.trans (Nat.find_spec h).1, hok⟩
  · right
    intro i hi hok
    exact h ⟨i, hi, hok⟩

/-- C26: `soc2030_write_reg` without an adapter returns `-ENODEV` and attempts
nothing.  With an adapter it attempts the same write (same address, same
value) at most `SOC2030_MAX_RETRIES + 1` times: if attempt `j` (counted from
0, `j ≤ SOC2030_MAX_RETRIES`) is the first acknowledged one, it returns 0 after
exactly `j + 1` attempts; if none of the `SOC2030_MAX_RETRIES + 1` attempts is
acknowledged it returns `-EIO` after all of them; it returns `-EIO` if and only
if all of them fail, and otherwise 0. -/
theorem write_reg_retries (k : Consts) (c : i2c_client) (a v : Nat) (tr : List Xfer) :
    (c.adapter = false → soc2030_write_reg k c a v tr = (-ENODEV_errno, tr)) ∧
    (c.adapter = true →
      (∀ j, j ≤ k.SOC2030_MAX_RETRIES →
        (∀ i, i < j → c.xfer_write (write_attempts tr a v i) a v ≠ 1) →
        c.xfer_write (write_attempts tr a v j) a v = 1 →
        soc2030_write_reg k c a v tr = (0, write_attempts tr a v (j + 1))) ∧
      ((∀ i, i ≤ k.SOC2030_MAX_RETRIES → c.xfer_write (write_attempts tr a v i) a v ≠ 1) →
        soc2030_write_reg k c a v tr =
          (-EIO_errno, write_attempts tr a v (k.SOC2030_MAX_RETRIES + 1))) ∧
      ((soc2030_write_reg k c a v tr).1 = -EIO_errno ↔
        ∀ i, i ≤ k.SOC2030_MAX_RETRIES →
          c.xfer_write (write_attempts tr a v i) a v ≠ 1) ∧
      ((soc2030_write_reg k c a v tr).1 = 0 ∨ (soc2030_write_reg k c a v tr).1 = -EIO_errno) ∧
      ∃ n, n ≤ k.SOC2030_MAX_RETRIES + 1 ∧ 1 ≤ n ∧
        (soc2030_write_reg k c a v tr).2 = write_attempts tr a v n) := by
  constructor
  · intro hA
    simp [soc2030_write_reg, hA]
  · intro hA
    have heq : soc2030_write_reg k c a v tr =
        write_reg_loop c a v (k.SOC2030_MAX_RETRIES + 1) tr := by
      simp [soc2030_write_reg, hA]
    have hfirst := write_reg_loop_first c a v (k.SOC2030_MAX_RETRIES + 1) tr
    have hex := write_reg_loop_exhaust c a v (k.SOC2030_MAX_RETRIES + 1) tr
    rw [heq]
    refine ⟨fun j hj hf hok => hfirst j (Nat.lt_succ_of_le hj) hf hok,
      fun hf => hex fun i hi => hf i (Nat.le_of_lt_succ hi), ?_, ?_, ?_⟩
    · constructor
      · intro hr i hi hok
        rcases write_reg_loop_cases c a v (k.SOC2030_MAX_RETRIES + 1) tr with
          ⟨j, hj, hf, hj1⟩ | hall
        · rw [hfirst j hj hf hj1] at hr
          simp [EIO_errno] at hr
        · exact hall i (Nat.lt_succ_of_le hi) hok
      · intro hf
        rw [hex fun i hi => hf i (Nat.le_of_lt_succ hi)]
    · rcases write_reg_loop_cases c a v (k.SOC2030_MAX_RETRIES + 1) tr with
        ⟨j, hj, hf, hj1⟩ | hall
      · left; rw [hfirst j hj hf hj1]
      · right; rw [hex hall]
    · rcases write_reg_loop_cases c a v (k.SOC2030_MAX_RETRIES + 1) tr with
        ⟨j, hj, hf, hj1⟩ | hall
      · exact ⟨j + 1, hj, Nat.succ_pos _, by rw [hfirst j hj hf hj1]⟩
      · exact ⟨_, le_refl _, Nat.succ_pos _, by rw [hex hall]⟩

theorem testBit_65535 (i : Nat) : Nat.testBit 65535 i = decide (i < 16) := by
  have : (65535 : Nat) = 2 ^ 16 - 1 := by norm_num
  rw [this, Nat.testBit_two_pow_sub_one]

theorem testBit_u16_high (x i : Nat) (hx : x < 65536) (hi : ¬ i < 16) :
    x.testBit i = false := by
  apply Nat.testBit_lt_two_pow
  calc x < 2 ^ 16 := by simpa using hx
    _ ≤ 2 ^ i := Nat.pow_le_pow_right (by norm_num) (Nat.le_of_not_lt hi)

theorem write_bits_set_value (r m : Nat) (hr : r < 65536) (hm : m < 65536) :
    (((65535 ^^^ m) &&& r) ||| m) % 65536 = r ||| m := by
  have hlt : ((65535 ^^^ m) &&& r) ||| m < 2 ^ 16 :=
    Nat.or_lt_two_pow (Nat.and_lt_two_pow _ (by simpa using hr)) (by simpa using hm)
  rw [Nat.mod_eq_of_lt (by simpa using hlt)]
  apply Nat.eq_of_testBit_eq
  intro i
  simp only [Nat.testBit_or, Nat.testBit_and, Nat.testBit_xor, testBit_65535]
  by_cases hi : i < 16
  · cases r.testBit i <;> cases m.testBit i <;> simp [hi]
  · simp [hi, testBit_u16_high r i hr hi, testBit_u16_high m i hm hi]

theorem write_bits_clear_value (r m : Nat) (hr : r < 65536) :
    (((65535 ^^^ m) &&& r) ||| 0) % 65536 = r &&& (65535 ^^^ m) := by
  have hlt : (65535 ^^^ m) &&& r < 2 ^ 16 := Nat.and_lt_two_pow _ (by simpa using hr)
  rw [Nat.or_zero, Nat.mod_eq_of_lt (by simpa using hlt), Nat.and_comm]

/-- C27: with `r` the 16-bit value the bus gives for the single read of `addr`
and `m` a 16-bit mask: if the read fails (no adapter, or the transfer fails),
`soc2030_set_bits` and `soc2030_clear_bits` return the read's error and the
history holds at most that read and no write; if it succeeds, `soc2030_set_bits`
is the write of `r | m` to `addr` and `soc2030_clear_bits` the write of
`r & ~m`, both after exactly that one read; bit `i` of `r | m` is set iff it is
set in `r` or in `m`, bit `i` of `r & ~m` is set iff it is set in `r` and not in
`m` (bits outside `m` are written back unchanged). -/
theorem set_clear_bits_rmw (k : Consts) (c : i2c_client) (a m : Nat) (tr : List Xfer)
    (hm : m < 65536) :
    ((soc2030_read_reg c a 0 tr).1 ≠ 0 →
      soc2030_set_bits k c a m tr = ((soc2030_read_reg c a 0 tr).1, (soc2030_read_reg c a 0 tr).2.2) ∧
      soc2030_clear_bits k c a m tr =
        ((soc2030_read_reg c a 0 tr).1, (soc2030_read_reg c a 0 tr).2.2) ∧
      ((soc2030_read_reg c a 0 tr).2.2 = tr ∨
        (soc2030_read_reg c a 0 tr).2.2 = tr ++ [Xfer.read a])) ∧
    ((soc2030_read_reg c a 0 tr).1 = 0 →
      soc2030_set_bits k c a m tr =
        soc2030_write_reg k c a ((c.xfer_read tr a).2 % 65536 ||| m) (tr ++ [Xfer.read a]) ∧
      soc2030_clear_bits k c a m tr =
        soc2030_write_reg k c a ((c.xfer_read tr a).2 % 65536 &&& (65535 ^^^ m))
          (tr ++ [Xfer.read a]) ∧
      ∀ i, ((c.xfer_read tr a).2 % 65536 ||| m).testBit i =
            (((c.xfer_read tr a).2 % 65536).testBit i || m.testBit i) ∧
          ((c.xfer_read tr a).2 % 65536 &&& (65535 ^^^ m)).testBit i =
            (((c.xfer_read tr a).2 % 65536).testBit i && !m.testBit i)) := by
  constructor
  · intro hf
    refine ⟨?_, ?_, ?_⟩
    · unfold soc2030_set_bits soc2030_write_bits
      simp only [hf, ne_eq, not_false_eq_true, if_true]
    · unfold soc2030_clear_bits soc2030_write_bits
      simp only [hf, ne_eq, not_false_eq_true, if_true]
    · unfold soc2030_read_reg
      dsimp only
      split_ifs <;> simp
  · intro hok
    have hrd := read_reg_success c a 0 tr hok
    have hr : (c.xfer_read tr a).2 % 65536 < 65536 := Nat.mod_lt _ (by norm_num)
    refine ⟨?_, ?_, fun i => ⟨Nat.testBit_or _ _ _, ?_⟩⟩
    · unfold soc2030_set_bits soc2030_write_bits
      simp only [hrd, ne_eq, not_true_eq_false, if_false, write_bits_set_value _ _ hr hm]
    · unfold soc2030_clear_bits soc2030_write_bits
      simp only [hrd, ne_eq, not_true_eq_false, if_false, write_bits_clear_value _ _ hr]
    · simp only [Nat.testBit_and, Nat.testBit_xor, testBit_65535]
      by_cases hi : i < 16
      · simp [hi]
      · simp [hi, testBit_u16_high _ i hr hi]

/-- C27, witness: on the simulated context-A sensor, where register `0x3012`
reads `0x3012`, setting the bits `0x00F0` writes `0x30F2` and clearing them
writes `0x3002`, each after one read. -/
theorem set_clear_bits_rmw_witness :
    (0x00F0 < 65536 ∧ (soc2030_read_reg mirrorBus 0x3012 0 []).1 = 0) ∧
    soc2030_set_bits k0 mirrorBus 0x3012 0x00F0 [] =
      (0, [Xfer.read 0x3012, Xfer.write 0x3012 0x30F2]) ∧
    soc2030_clear_bits k0 mirrorBus 0x3012 0x00F0 [] =
      (0, [Xfer.read 0x3012, Xfer.write 0x3012 0x3002]) ∧
    soc2030_set_bits k0 mirrorBus 0x3012 0x00F0 [] =
      soc2030_write_reg k0 mirrorBus 0x3012
        ((mirrorBus.xfer_read [] 0x3012).2 % 65536 ||| 0x00F0) ([] ++ [Xfer.read 0x3012]) :=
  ⟨⟨by decide, by decide⟩, by decide, by decide,
    ((set_clear_bits_rmw k0 mirrorBus 0x3012 0x00F0 [] (by decide)).2 (by decide)).1⟩

theorem poll_reads_succ (tr : List Xfer) (a n : Nat) :
    poll_reads (tr ++ [Xfer.read a]) a n = poll_reads tr a (n + 1) := by
  unfold poll_reads
  rw [List.replicate_succ, List.append_assoc, List.singleton_append]

theorem read_reg_adapter (c : i2c_client) (a v : Nat) (tr : List Xfer)
    (hA : c.adapter = true) :
    soc2030_read_reg c a v tr =
      if (c.xfer_read tr a).1 ≠ 2 then (-EIO_errno, v, tr ++ [Xfer.read a])
      else (0, (c.xfer_read tr a).2 % 65536, tr ++ [Xfer.read a]) := by
  simp [soc2030_read_reg, hA]

/-- The outcome of the `j`-th read of a poll (counted from 0). -/
theorem poll_loop_stops (c : i2c_client) (a e m : Nat) (hA : c.adapter = true) :
    ∀ (n : Nat) (tr : List Xfer) (j : Nat), j < n →
      (∀ i, i < j → (c.xfer_read (poll_reads tr a i) a).1 = 2 ∧
        e ≠ (c.xfer_read (poll_reads tr a i) a).2 % 65536 &&& m) →
      ((c.xfer_read (poll_reads tr a j) a).1 = 2 →
        e = (c.xfer_read (poll_reads tr a j) a).2 % 65536 &&& m →
        poll_loop c a e m n tr = (0, poll_reads tr a (j + 1))) ∧
      ((c.xfer_read (poll_reads tr a j) a).1 ≠ 2 →
        poll_loop c a e m n tr = (-EIO_errno, poll_reads tr a (j + 1))) := by
  intro n
  induction n with
  | zero => intro tr j hj; exact absurd hj (Nat.not_lt_zero _)
  | succ n ih =>
    intro tr j hj hprev
    cases j with
    | zero =>
      constructor
      · intro h2 hmatch
        have h2' : (c.xfer_read tr a).1 = 2 := by simpa [poll_reads] using h2
        have hm' : e = (c.xfer_read tr a).2 % 65536 &&& m := by simpa [poll_reads] using hmatch
        unfold poll_loop
        simp only [read_reg_adapter c a 0 tr hA, h2', ne_eq, not_true_eq_false, if_false]
        rw [if_pos hm']
        simp [poll_reads]
      · intro h2
        have h2' : ¬ (c.xfer_read tr a).1 = 2 := by simpa [poll_reads] using h2
        unfold poll_loop
        simp only [read_reg_adapter c a 0 tr hA, h2', ne_eq, not_false_eq_true, if_true]
        simp [poll_reads, EIO_errno]
    | succ j =>
      have h0 := hprev 0 (Nat.succ_pos _)
      have h2' : (c.xfer_read tr a).1 = 2 := by simpa [poll_reads] using h0.1
      have hm' : ¬ e = (c.xfer_read tr a).2 % 65536 &&& m := by simpa [poll_reads] using h0.2
      have step : poll_loop c a e m (n + 1) tr = poll_loop c a e m n (tr ++ [Xfer.read a]) := by
        conv_lhs => unfold poll_loop
        simp only [read_reg_adapter c a 0 tr hA, h2', ne_eq, not_true_eq_false, if_false]
        rw [if_neg hm']
      have := ih (tr ++ [Xfer.read a]) j (Nat.lt_of_succ_lt_succ hj) (by
        intro i hi
        rw [poll_reads_succ]
        exact hprev (i + 1) (Nat.succ_lt_succ hi))
      rw [poll_reads_succ, poll_reads_succ] at this
      rw [step]
      exact this

theorem poll_loop_exhaust (c : i2c_client) (a e m : Nat) (hA : c.adapter = true) :
    ∀ (n : Nat) (tr : List Xfer),
      (∀ i, i < n → (c.xfer_read (poll_reads tr a i) a).1 = 2 ∧
        e ≠ (c.xfer_read (poll_reads tr a i) a).2 % 65536 &&& m) →
      poll_loop c a e m n tr = (-EIO_errno, poll_reads tr a n) := by
  intro n
  induction n with
  | zero => intro tr _; simp [poll_loop, poll_reads]
  | succ n ih =>
    intro tr hprev
    have h0 := hprev 0 (Nat.succ_pos _)
    have h2' : (c.xfer_read tr a).1 = 2 := by simpa [poll_reads] using h0.1
    have hm' : ¬ e = (c.xfer_read tr a).2 % 65536 &&& m := by simpa [poll_reads] using h0.2
    conv_lhs => unfold poll_loop
    simp only [read_reg_adapter c a 0 tr hA, h2', ne_eq, not_true_eq_false, if_false]
    rw [if_neg hm', ih (tr ++ [Xfer.read a]), poll_reads_succ]
    intro i hi
    rw [poll_reads_succ]
    exact hprev (i + 1) (Nat.succ_lt_succ hi)

theorem read_reg_trace_cases (c : i2c_client) (a v : Nat) (tr : List Xfer) :
    (soc2030_read_reg c a v tr).2.2 = tr ∨
      (soc2030_read_reg c a v tr).2.2 = tr ++ [Xfer.read a] := by
  unfold soc2030_read_reg
  dsimp only
  split_ifs <;> simp

theorem poll_loop_reads (c : i2c_client) (a e m : Nat) :
    ∀ (n : Nat) (tr : List Xfer),
      ∃ j, j ≤ n ∧ (poll_loop c a e m n tr).2 = poll_reads tr a j := by
  intro n
  induction n with
  | zero => intro tr; exact ⟨0, le_refl _, by simp [poll_loop, poll_reads]⟩
  | succ n ih =>
    intro tr
    unfold poll_loop
    dsimp only
    by_cases hr : (soc2030_read_reg c a 0 tr).1 = 0
    · have hrd := read_reg_success c a 0 tr hr
      rw [hrd]
      simp only [ne_eq, not_true_eq_false, if_false]
      split_ifs
      · exact ⟨1, Nat.succ_le_succ (Nat.zero_le _), by simp [poll_reads]⟩
      · obtain ⟨j, hj, he⟩ := ih (tr ++ [Xfer.read a])
        exact ⟨j + 1, Nat.succ_le_succ hj, by rw [he, poll_reads_succ]⟩
    · rw [if_pos hr]
      rcases read_reg_trace_cases c a 0 tr with h | h
      · exact ⟨0, Nat.zero_le _, by simp [poll_reads, h]⟩
      · exact ⟨1, Nat.succ_le_succ (Nat.zero_le _), by simp [poll_reads, h]⟩

/-- C28: `soc2030_poll(addr, expected, mask)` reads `addr` at most
`SOC2030_POLL_RETRIES` times.  With an adapter, if the reads before the `j`-th
(counted from 0, `j < SOC2030_POLL_RETRIES`) all succeed without a match, then
a `j`-th read whose value `v` has `expected = v & mask` makes it return 0 after
exactly `j + 1` reads, and a failing `j`-th read makes it return the read's
error `-EIO` after `j + 1` reads; if all `SOC2030_POLL_RETRIES` reads succeed
without a match it returns `-EIO` after all of them.  Without an adapter the
first read returns `-ENODEV` and nothing is transferred.  The table opcodes
`POLL_REG_BIT_H`, `POLL_REG_BIT_L`, `POLL_REG_DATA` are `poll(val, val)`,
`poll(0, val)` and `poll(val, 0xFFFF)` on the record's address. -/
theorem poll_first_match (k : Consts) (c : i2c_client) (a e m : Nat) (tr : List Xfer) :
    (c.adapter = false → 0 < k.SOC2030_POLL_RETRIES →
      soc2030_poll k c a e m tr = (-ENODEV_errno, tr)) ∧
    (c.adapter = true →
      (∀ j, j < k.SOC2030_POLL_RETRIES →
        (∀ i, i < j → (c.xfer_read (poll_reads tr a i) a).1 = 2 ∧
          e ≠ (c.xfer_read (poll_reads tr a i) a).2 % 65536 &&& m) →
        ((c.xfer_read (poll_reads tr a j) a).1 = 2 →
          e = (c.xfer_read (poll_reads tr a j) a).2 % 65536 &&& m →
          soc2030_poll k c a e m tr = (0, poll_reads tr a (j + 1))) ∧
        ((c.xfer_read (poll_reads tr a j) a).1 ≠ 2 →
          soc2030_poll k c a e m tr = (-EIO_errno, poll_reads tr a (j + 1)))) ∧
      ((∀ i, i < k.SOC2030_POLL_RETRIES → (c.xfer_read (poll_reads tr a i) a).1 = 2 ∧
          e ≠ (c.xfer_read (poll_reads tr a i) a).2 % 65536 &&& m) →
        soc2030_poll k c a e m tr = (-EIO_errno, poll_reads tr a k.SOC2030_POLL_RETRIES))) ∧
    (∃ j, j ≤ k.SOC2030_POLL_RETRIES ∧ (soc2030_poll k c a e m tr).2 = poll_reads tr a j) ∧
    (∀ (r : soc2030_regs) (err : Int) (s : Drv),
      (r.op = Op.POLL_REG_BIT_H →
        write_table_case k c r err s = after_op s (soc2030_poll k c r.addr r.val r.val s.trace)) ∧
      (r.op = Op.POLL_REG_BIT_L →
        write_table_case k c r err s = after_op s (soc2030_poll k c r.addr 0 r.val s.trace)) ∧
      (r.op = Op.POLL_REG_DATA →
        write_table_case k c r err s =
          after_op s (soc2030_poll k c r.addr r.val 0xFFFF s.trace))) := by
  refine ⟨?_, ?_, poll_loop_reads c a e m _ tr, ?_⟩
  · intro hA hpos
    obtain ⟨n, hn⟩ := Nat.exists_eq_succ_of_ne_zero (Nat.pos_iff_ne_zero.mp hpos)
    unfold soc2030_poll
    rw [hn]
    unfold poll_loop soc2030_read_reg
    simp [hA, ENODEV_errno]
  · intro hA
    exact ⟨fun j hj hprev => poll_loop_stops c a e m hA _ tr j hj hprev,
      fun hall => poll_loop_exhaust c a e m hA _ tr hall⟩
  · intro r err s
    refine ⟨fun h => ?_, fun h => ?_, fun h => ?_⟩
    · unfold write_table_case; rw [h]; rfl
    · unfold write_table_case; rw [h]; rfl
    · unfold write_table_case; rw [h]

theorem poll_xdma_reads_succ (tr : List Xfer) (a : Nat) :
    ∀ n, poll_xdma_reads (tr ++ [Xfer.write 0x098c a, Xfer.read 0x0990]) a n =
      poll_xdma_reads tr a (n + 1) := by
  intro n
  induction n with
  | zero => rfl
  | succ n ih =>
    show poll_xdma_reads _ a n ++ _ = poll_xdma_reads tr a (n + 1) ++ _
    rw [ih]

theorem poll_xdma_loop_stops (k : Consts) (c : i2c_client) (a e : Nat) (hbus : BusOk c) :
    ∀ (n : Nat) (tr : List Xfer) (j : Nat), j < n →
      (∀ i, i < j →
        e ≠ (c.xfer_read (poll_xdma_reads tr a i ++ [Xfer.write 0x098c a]) 0x0990).2 % 65536) →
      e = (c.xfer_read (poll_xdma_reads tr a j ++ [Xfer.write 0x098c a]) 0x0990).2 % 65536 →
      poll_xdma_loop k c a e n tr = (0, poll_xdma_reads tr a (j + 1)) := by
  intro n
  induction n with
  | zero => intro tr j hj; exact absurd hj (Nat.not_lt_zero _)
  | succ n ih =>
    intro tr j hj hprev hmatch
    conv_lhs => unfold poll_xdma_loop
    simp only [read_xdma_ok k c _ _ _ hbus, ne_eq, not_true_eq_false, if_false]
    cases j with
    | zero =>
      rw [if_pos (by simpa [poll_xdma_reads] using hmatch)]
      rfl
    | succ j =>
      rw [if_neg (by simpa [poll_xdma_reads] using hprev 0 (Nat.succ_pos _))]
      rw [ih _ j (Nat.lt_of_succ_lt_succ hj), poll_xdma_reads_succ]
      · intro i hi
        rw [poll_xdma_reads_succ]
        exact hprev (i + 1) (Nat.succ_lt_succ hi)
      · rw [poll_xdma_reads_succ]; exact hmatch

theorem poll_xdma_loop_exhaust (k : Consts) (c : i2c_client) (a e : Nat) (hbus : BusOk c) :
    ∀ (n : Nat) (tr : List Xfer),
      (∀ i, i < n →
        e ≠ (c.xfer_read (poll_xdma_reads tr a i ++ [Xfer.write 0x098c a]) 0x0990).2 % 65536) →
      poll_xdma_loop k c a e n tr = (-EINVAL_errno, poll_xdma_reads tr a n) := by
  intro n
  induction n with
  | zero => intro tr _; rfl
  | succ n ih =>
    intro tr hprev
    conv_lhs => unfold poll_xdma_loop
    simp only [read_xdma_ok k c _ _ _ hbus, ne_eq, not_true_eq_false, if_false]
    rw [if_neg (by simpa [poll_xdma_reads] using hprev 0 (Nat.succ_pos _))]
    rw [ih, poll_xdma_reads_succ]
    intro i hi
    rw [poll_xdma_reads_succ]
    exact hprev (i + 1) (Nat.succ_lt_succ hi)

/-- C29: on a bus where every transfer succeeds, `soc2030_poll_xdma_reg` makes
at most `SOC2030_POLL_RETRIES` indirect reads, each one a write of the
variable's address to `0x098C` followed by a read of `0x0990`, and returns 0 at
the first read whose value equals `expected` (no mask); when none of the
`SOC2030_POLL_RETRIES` reads matches it returns `-EINVAL` (-22), not the
`-EIO` (-5) that `soc2030_poll` returns on timeout.  Evaluation: on a bus where
every read gives 0, polling variable `0xa103` for the value 1 returns -22 after
five indirect reads, and the direct poll of the same address returns -5 after
five reads. -/
theorem poll_xdma_timeout_is_einval :
    (∀ (k : Consts) (c : i2c_client) (a e : Nat) (tr : List Xfer), BusOk c →
      (∀ j, j < k.SOC2030_POLL_RETRIES →
        (∀ i, i < j →
          e ≠ (c.xfer_read (poll_xdma_reads tr a i ++ [Xfer.write 0x098c a]) 0x0990).2 % 65536) →
        e = (c.xfer_read (poll_xdma_reads tr a j ++ [Xfer.write 0x098c a]) 0x0990).2 % 65536 →
        soc2030_poll_xdma_reg k c a e tr = (0, poll_xdma_reads tr a (j + 1))) ∧
      ((∀ i, i < k.SOC2030_POLL_RETRIES →
          e ≠ (c.xfer_read (poll_xdma_reads tr a i ++ [Xfer.write 0x098c a]) 0x0990).2 % 65536) →
        soc2030_poll_xdma_reg k c a e tr =
          (-EINVAL_errno, poll_xdma_reads tr a k.SOC2030_POLL_RETRIES))) ∧
    -EINVAL_errno ≠ -EIO_errno ∧
    soc2030_poll_xdma_reg k0 quietBus 0xa103 1 [] =
      (-22, [Xfer.write 0x098c 0xa103, Xfer.read 0x0990, Xfer.write 0x098c 0xa103,
        Xfer.read 0x0990, Xfer.write 0x098c 0xa103, Xfer.read 0x0990,
        Xfer.write 0x098c 0xa103, Xfer.read 0x0990, Xfer.write 0x098c 0xa103,
        Xfer.read 0x0990]) ∧
    soc2030_poll k0 quietBus 0xa103 1 0xFFFF [] =
      (-5, [Xfer.read 0xa103, Xfer.read 0xa103, Xfer.read 0xa103, Xfer.read 0xa103,
        Xfer.read 0xa103]) := by
  refine ⟨fun k c a e tr hbus => ⟨fun j hj hprev hm => ?_, fun hall => ?_⟩, by decide,
    by decide, by decide⟩
  · exact poll_xdma_loop_stops k c a e hbus _ tr j hj hprev hm
  · exact poll_xdma_loop_exhaust k c a e hbus _ tr hall

/-! ## Scratch slots of the mode change -/

theorem set_mode_vars_eq (lk : soc2030_lock) (vars : Fin 4 → Nat) :
    set_mode_vars lk vars = slot_values lk := by
  obtain ⟨ae, aer, awb, awbr, p⟩ := lk
  funext i
  fin_cases i <;> cases ae <;> cases awb <;>
    simp [set_mode_vars, slot_values, Function.update]

/-- C30: the slot values `soc2030_set_mode` assigns do not depend on the
previous slot contents and are, for every lock intent: slot 1 = `0x72` with
bit `0x10` cleared iff `aelock` and bit `0x20` cleared iff `awblock` (one of
`0x72`, `0x62`, `0x52`, `0x42`), slot 2 = 0 if `aelock` else 1, slot 3 = 0 if
`awblock` else 1, slot 4 = 0 if `aelock` else 1; and for a catalog triple, once
the initialisation block is passed, the mode table (and everything after it)
runs on the state that holds exactly these values. -/
theorem set_mode_slot_values (k : Consts) (c : i2c_client) (s s1 : Drv) (i : Nat)
    (m mode : soc2030_mode) (hi : modes[i]? = some m)
    (hm : mode.xres = m.xres ∧ mode.yres = m.yres ∧ mode.fps = m.fps)
    (hinit : set_mode_init k c s = some (0, s1)) :
    (∀ (lk : soc2030_lock) (vars : Fin 4 → Nat),
      set_mode_vars lk vars 0 =
          0x72 - (if lk.aelock then 0x10 else 0) - (if lk.awblock then 0x20 else 0) ∧
        set_mode_vars lk vars 0 ∈ [0x72, 0x62, 0x52, 0x42] ∧
        (set_mode_vars lk vars 0 &&& 0x10 = 0 ↔ lk.aelock = true) ∧
        (set_mode_vars lk vars 0 &&& 0x20 = 0 ↔ lk.awblock = true) ∧
        set_mode_vars lk vars 1 = (if lk.aelock then 0 else 1) ∧
        set_mode_vars lk vars 2 = (if lk.awblock then 0 else 1) ∧
        set_mode_vars lk vars 3 = (if lk.aelock then 0 else 1)) ∧
    soc2030_set_mode k c s mode =
      setMode_steps k c i m s { s1 with vars := slot_values s.lockBuff } := by
  constructor
  · intro lk vars
    rw [set_mode_vars_eq]
    obtain ⟨ae, aer, awb, awbr, p⟩ := lk
    cases ae <;> cases awb <;> simp [slot_values] <;> decide
  · have hu := set_mode_unfold k c s i m mode hi hm
    have c1 := set_mode_init_ctl k c s 0 s1 hinit
    have c2 : s.ctl_eq ({ s1 with vars := slot_values s.lockBuff } : Drv) :=
      ⟨c1.1, c1.2.1, c1.2.2.1, c1.2.2.2⟩
    rw [hu, hinit]
    have ht := set_mode_tail_eq k c i m s _ c2
    rw [← ht]
    simp only [checked, ne_eq, not_true_eq_false, if_false, set_mode_vars_eq, c1.2.1]

/-- C30, witness: a mode was set before, AE lock is requested in the stored
intent, the request is the catalog triple `(800, 600, 30)`: the slots are
`0x62, 0, 1, 0`. -/
theorem set_mode_slot_values_witness :
    List.ofFn (slot_values lockAe) = [0x62, 0, 1, 0] ∧
    soc2030_set_mode k0 sensorBus { Drv.mode0 with lockBuff := lockAe } ⟨800, 600, 30, []⟩ =
      setMode_steps k0 sensorBus 0 ⟨800, 600, 30, mode_800x600⟩
        { Drv.mode0 with lockBuff := lockAe }
        { ({ Drv.mode0 with lockBuff := lockAe } : Drv) with
          vars := slot_values ({ Drv.mode0 with lockBuff := lockAe } : Drv).lockBuff } :=
  ⟨by decide,
    (set_mode_slot_values k0 sensorBus { Drv.mode0 with lockBuff := lockAe }
      { Drv.mode0 with lockBuff := lockAe } 0 ⟨800, 600, 30, mode_800x600⟩
      ⟨800, 600, 30, []⟩ rfl ⟨rfl, rfl, rfl⟩ rfl).2⟩

/-! ## The ioctl cases: exposure compensation, effect, white balance -/

/-- C21: `SOC2030_IOCTL_SET_EXP_COMP` with a step above `SOC_EV_MAX` or below
`SOC_EV_MIN` returns `-EINVAL` and leaves the whole state as it was: no bus
transfer is made, and the stored exposure bias and the AE-lock-inhibited flag
are unchanged. -/
theorem exp_comp_out_of_range (k : Consts) (c : i2c_client) (req_ev : Int) (s : Drv)
    (h : req_ev > k.SOC_EV_MAX ∨ req_ev < k.SOC_EV_MIN) :
    ioctl_set_exp_comp k c req_ev s = some (-EINVAL_errno, s) ∧
      ∀ e s1, ioctl_set_exp_comp k c req_ev s = some (e, s1) →
        e = -EINVAL_errno ∧ s1.trace = s.trace ∧ s1.info.current_ev = s.info.current_ev ∧
          s1.info.ae_lock_inhibit = s.info.ae_lock_inhibit := by
  have heq : ioctl_set_exp_comp k c req_ev s = some (-EINVAL_errno, s) := by
    unfold ioctl_set_exp_comp
    rw [if_pos h]
  refine ⟨heq, fun e s1 h1 => ?_⟩
  rw [heq] at h1
  simp only [Option.some.injEq, Prod.mk.injEq] at h1
  rw [← h1.1, ← h1.2]
  exact ⟨rfl, rfl, rfl, rfl⟩

/-- C21, witness: step 3 with `SOC_EV_MAX = 2`, and step -3 with
`SOC_EV_MIN = -2`, on the simulated sensor after open. -/
theorem exp_comp_out_of_range_witness :
    ((3 : Int) > k0.SOC_EV_MAX ∨ (3 : Int) < k0.SOC_EV_MIN) ∧
    (ioctl_set_exp_comp k0 sensorBus 3 Drv.opened = some (-EINVAL_errno, Drv.opened) ∧
      ∀ e s1, ioctl_set_exp_comp k0 sensorBus 3 Drv.opened = some (e, s1) →
        e = -EINVAL_errno ∧ s1.trace = Drv.opened.trace ∧
          s1.info.current_ev = Drv.opened.info.current_ev ∧
          s1.info.ae_lock_inhibit = Drv.opened.info.ae_lock_inhibit) :=
  ⟨by decide, exp_comp_out_of_range k0 sensorBus 3 Drv.opened (by decide)⟩

theorem exp_comp_unfold (k : Consts) (c : i2c_client) (req_ev : Int) (s : Drv)
    (hr : k.SOC_EV_MIN ≤ req_ev ∧ req_ev ≤ k.SOC_EV_MAX) (hnt : 0 ≤ exp_new_target k req_ev)
    (hw : (soc2030_write_xdma_reg k c 0xA24F
      ((exp_new_target k req_ev).toNat % 65536) s.trace).1 = 0) :
    ioctl_set_exp_comp k c req_ev s =
      match soc2030_write_table k c refresh_state
          { s with trace := (soc2030_write_xdma_reg k c 0xA24F
            ((exp_new_target k req_ev).toNat % 65536) s.trace).2 } with
      | none => none
      | some (err, s1) =>
        some (err, { s1 with info :=
          { s1.info with
            ae_lock_inhibit :=
              if req_ev ≠ 0 then
                if s1.lockBuff.aelock = false ∧ s1.info.valid_ae_lock_state = false then true
                else s1.info.ae_lock_inhibit
              else false
            current_ev := req_ev } }) := by
  have h1 : ¬ (req_ev > k.SOC_EV_MAX ∨ req_ev < k.SOC_EV_MIN) := by
    rintro (h | h)
    · exact absurd hr.2 (not_le.mpr h)
    · exact absurd hr.1 (not_le.mpr h)
  have h2 : ¬ exp_new_target k req_ev < 0 := not_lt.mpr hnt
  unfold exp_new_target at h2 hw
  unfold ioctl_set_exp_comp exp_new_target
  dsimp only at h2 hw ⊢
  rw [if_neg h1, if_neg h2, if_neg (by rw [hw]; simp)]

/-- C22: after `SOC2030_IOCTL_SET_EXP_COMP` with an in-range step whose
exposure-target write (variable `0xA24F`) succeeds, the call returns (with the
result of the `refresh_state` table), the stored exposure bias is the step,
and the AE-lock-inhibited flag is: false if the step is 0; true if the step
is not 0 and AE is neither locked nor has a valid snapshot; its previous value
if the step is not 0 and AE is locked or a valid AE snapshot exists.  Nothing
else of `info` and nothing of the stored request changes. -/
theorem exp_comp_inhibit_flag (k : Consts) (c : i2c_client) (req_ev : Int) (s : Drv)
    (hr : k.SOC_EV_MIN ≤ req_ev ∧ req_ev ≤ k.SOC_EV_MAX) (hnt : 0 ≤ exp_new_target k req_ev)
    (hw : (soc2030_write_xdma_reg k c 0xA24F
      ((exp_new_target k req_ev).toNat % 65536) s.trace).1 = 0) :
    ∃ e s1, ioctl_set_exp_comp k c req_ev s = some (e, s1) ∧
      s1.info.current_ev = req_ev ∧
      (req_ev = 0 → s1.info.ae_lock_inhibit = false) ∧
      (req_ev ≠ 0 → s.lockBuff.aelock = false → s.info.valid_ae_lock_state = false →
        s1.info.ae_lock_inhibit = true) ∧
      (req_ev ≠ 0 → (s.lockBuff.aelock = true ∨ s.info.valid_ae_lock_state = true) →
        s1.info.ae_lock_inhibit = s.info.ae_lock_inhibit) ∧
      s1.lockBuff = s.lockBuff ∧ s1.info.mode = s.info.mode ∧
      s1.info.awb_lock_inhibit = s.info.awb_lock_inhibit ∧
      s1.info.valid_ae_lock_state = s.info.valid_ae_lock_state ∧
      s1.info.valid_awb_lock_state = s.info.valid_awb_lock_state := by
  rw [exp_comp_unfold k c req_ev s hr hnt hw]
  obtain ⟨⟨e, s2⟩, h2⟩ := Option.isSome_iff_exists.mp
    (write_table_total k c refresh_state (by decide)
      { s with trace := (soc2030_write_xdma_reg k c 0xA24F
        ((exp_new_target k req_ev).toNat % 65536) s.trace).2 })
  have c2 : s.ctl_eq s2 := ctl_eq_trans (ctl_eq_trace s _) (write_table_ctl k c _ _ _ _ h2)
  rw [h2]
  refine ⟨e, _, rfl, rfl, ?_, ?_, ?_, c2.2.1, ?_, ?_, ?_, ?_⟩
  · intro h0
    simp [h0]
  · intro h0 hl hv
    simp [h0, c2.2.1, c2.1, hl, hv]
  · intro h0 hlv
    have : ¬ (s.lockBuff.aelock = false ∧ s.info.valid_ae_lock_state = false) := by
      rintro ⟨a, b⟩
      rcases hlv with h | h
      · rw [a] at h; exact absurd h (by decide)
      · rw [b] at h; exact absurd h (by decide)
    simp only [ne_eq, h0, not_false_eq_true, if_true, c2.2.1, c2.1, this, if_false]
  · simp only [c2.1]
  · simp only [c2.1]
  · simp only [c2.1]
  · simp only [c2.1]

/-- C22, witness: on the simulated sensor after open (AE not locked, no valid
snapshot), step 1 sets the AE-lock-inhibited flag and stores bias 1, and a
following step 0 clears the flag and stores bias 0; both calls return 0. -/
theorem exp_comp_inhibit_flag_witness :
    ((k0.SOC_EV_MIN ≤ 1 ∧ (1 : Int) ≤ k0.SOC_EV_MAX) ∧ 0 ≤ exp_new_target k0 1 ∧
      (soc2030_write_xdma_reg k0 sensorBus 0xA24F
        ((exp_new_target k0 1).toNat % 65536) Drv.opened.trace).1 = 0) ∧
    ((ioctl_set_exp_comp k0 sensorBus 1 Drv.opened).bind fun p =>
      (ioctl_set_exp_comp k0 sensorBus 0 p.2).map fun q =>
        ([p.1, q.1], [p.2.info.current_ev, q.2.info.current_ev],
          [p.2.info.ae_lock_inhibit, q.2.info.ae_lock_inhibit])) =
      some ([0, 0], [1, 0], [true, false]) ∧
    ∃ e s1, ioctl_set_exp_comp k0 sensorBus 1 Drv.opened = some (e, s1) ∧
      s1.info.current_ev = 1 ∧
      ((1 : Int) = 0 → s1.info.ae_lock_inhibit = false) ∧
      ((1 : Int) ≠ 0 → Drv.opened.lockBuff.aelock = false →
        Drv.opened.info.valid_ae_lock_state = false → s1.info.ae_lock_inhibit = true) ∧
      ((1 : Int) ≠ 0 →
        (Drv.opened.lockBuff.aelock = true ∨ Drv.opened.info.valid_ae_lock_state = true) →
        s1.info.ae_lock_inhibit = Drv.opened.info.ae_lock_inhibit) ∧
      s1.lockBuff = Drv.opened.lockBuff ∧ s1.info.mode = Drv.opened.info.mode ∧
      s1.info.awb_lock_inhibit = Drv.opened.info.awb_lock_inhibit ∧
      s1.info.valid_ae_lock_state = Drv.opened.info.valid_ae_lock_state ∧
      s1.info.valid_awb_lock_state = Drv.opened.info.valid_awb_lock_state :=
  ⟨⟨by decide, by decide, by decide⟩, by decide,
    exp_comp_inhibit_flag k0 sensorBus 1 Drv.opened (by decide) (by decide) (by decide)⟩

theorem to_unsigned_int_neg (id : Int) (hneg : id < 0) (hmin : -2 ^ 31 ≤ id) :
    2 ^ 31 ≤ to_unsigned_int id := by
  unfold to_unsigned_int
  have h1 : id % 2 ^ 32 = id + 2 ^ 32 := by
    rw [← Int.add_emod_self]
    exact Int.emod_eq_of_lt (by omega) (by omega)
  rw [h1]
  omega

theorem effect_table_ends : ∀ t ∈ effect_table, ∃ r ∈ t, r.op = Op.REG_TABLE_END := by
  decide

/-- C25: `SOC2030_IOCTL_SET_EFFECT` with `(unsigned int)arg >= EFFECT_MAX`
returns `-EINVAL` with the state, bus history included, unchanged, and so does
`SOC2030_IOCTL_SET_WHITEBALANCE` with `(unsigned int)arg >= WB_MAX`; a
negative 32-bit id converts to an unsigned value of at least `2^31` and is
rejected by both (the bounds being at most `2^31`); for an effect id below
`EFFECT_MAX` that selects the entry `t` of `effect_table`, the call returns
and is exactly the run of `t` followed by `refresh_state`, the first failure
ending it. -/
theorem effect_wb_validation (k : Consts) (c : i2c_client) (s : Drv) :
    (∀ arg, arg ≥ k.EFFECT_MAX → ioctl_set_effect k c arg s = some (-EINVAL_errno, s)) ∧
    (∀ arg, arg ≥ k.WB_MAX → ioctl_set_whitebalance k c arg s = some (-EINVAL_errno, s)) ∧
    (∀ id : Int, id < 0 → -2 ^ 31 ≤ id →
      (k.EFFECT_MAX ≤ 2 ^ 31 →
        ioctl_set_effect k c (to_unsigned_int id) s = some (-EINVAL_errno, s)) ∧
      (k.WB_MAX ≤ 2 ^ 31 →
        ioctl_set_whitebalance k c (to_unsigned_int id) s = some (-EINVAL_errno, s))) ∧
    (∀ arg t, arg < k.EFFECT_MAX → effect_table[arg]? = some t →
      ioctl_set_effect k c arg s =
          run_steps [soc2030_write_table k c t, soc2030_write_table k c refresh_state] s ∧
        (ioctl_set_effect k c arg s).isSome = true) := by
  have he : ∀ arg, arg ≥ k.EFFECT_MAX → ioctl_set_effect k c arg s = some (-EINVAL_errno, s) := by
    intro arg h
    unfold ioctl_set_effect
    rw [if_pos h]
  have hw : ∀ arg, arg ≥ k.WB_MAX →
      ioctl_set_whitebalance k c arg s = some (-EINVAL_errno, s) := by
    intro arg h
    unfold ioctl_set_whitebalance
    rw [if_pos h]
  refine ⟨he, hw, fun id hneg hmin => ⟨fun hb => he _ ?_, fun hb => hw _ ?_⟩, ?_⟩
  · exact le_trans hb (to_unsigned_int_neg id hneg hmin)
  · exact le_trans hb (to_unsigned_int_neg id hneg hmin)
  · intro arg t harg ht
    have heq : ioctl_set_effect k c arg s =
        run_steps [soc2030_write_table k c t, soc2030_write_table k c refresh_state] s := by
      unfold ioctl_set_effect
      rw [if_neg (not_le.mpr harg), ht, run_steps_two]
      simp only [checked_ret]
    refine ⟨heq, ?_⟩
    have hend : ∃ r ∈ t, r.op = Op.REG_TABLE_END :=
      effect_table_ends t (List.getElem?_mem ht)
    unfold ioctl_set_effect
    rw [if_neg (not_le.mpr harg), ht]
    exact checked_total _ _ (write_table_total k c t hend s)
      fun s1 => write_table_total k c refresh_state (by decide) s1

/-! ## States reachable from open -/

theorem same_flags_of_ctl {s s1 : Drv} (h : s.ctl_eq s1) : s.same_flags s1 :=
  ⟨h.2.1, by rw [h.1], by rw [h.1], by rw [h.1], by rw [h.1], by rw [h.1]⟩

theorem same_flags_trans {a b c : Drv} (h1 : a.same_flags b) (h2 : b.same_flags c) :
    a.same_flags c :=
  ⟨h2.1.trans h1.1, h2.2.1.trans h1.2.1, h2.2.2.1.trans h1.2.2.1,
    h2.2.2.2.1.trans h1.2.2.2.1, h2.2.2.2.2.1.trans h1.2.2.2.2.1,
    h2.2.2.2.2.2.trans h1.2.2.2.2.2⟩

theorem set_mode_same_flags (k : Consts) (c : i2c_client) (s : Drv) (mode : soc2030_mode)
    (e : Int) (s1 : Drv) (h : soc2030_set_mode k c s mode = some (e, s1)) :
    s.same_flags s1 := by
  unfold soc2030_set_mode at h
  dsimp only at h
  split_ifs at h
  · simp only [Option.some.injEq, Prod.mk.injEq] at h
    rw [← h.2]; exact same_flags_of_ctl (ctl_eq_refl _)
  · split at h
    · exact absurd h (by simp)
    · rw [checked_eq_some] at h
      rcases h with ⟨h, _⟩ | ⟨s1', h1, h⟩
      · exact same_flags_of_ctl (set_mode_init_ctl k c _ _ _ h)
      have c1 := set_mode_init_ctl k c _ _ _ h1
      have c2 : s.ctl_eq ({ s1' with vars := set_mode_vars s1'.lockBuff s1'.vars } : Drv) :=
        ⟨c1.1, c1.2.1, c1.2.2.1, c1.2.2.2⟩
      rw [checked_eq_some] at h
      rcases h with ⟨h, _⟩ | ⟨s3, h3, h⟩
      · exact same_flags_of_ctl (ctl_eq_trans c2 (write_table_ctl k c _ _ _ _ h))
      have c3 := ctl_eq_trans c2 (write_table_ctl k c _ _ _ _ h3)
      rw [checked_eq_some] at h
      rcases h with ⟨h, _⟩ | ⟨s4, h4, h⟩
      · exact same_flags_of_ctl (ctl_eq_trans c3 (write_table_ctl k c _ _ _ _ h))
      have c4 := ctl_eq_trans c3 (write_table_ctl k c _ _ _ _ h4)
      rw [checked_eq_some] at h
      rcases h with ⟨h, _⟩ | ⟨s5, h5, h⟩
      · exact same_flags_of_ctl (ctl_eq_trans c4 (write_table_ctl k c _ _ _ _ h))
      have c5 := ctl_eq_trans c4 (write_table_ctl k c _ _ _ _ h5)
      split_ifs at h
      · rw [checked_eq_some] at h
        rcases h with ⟨h, _⟩ | ⟨s6, h6, h⟩
        · exact same_flags_of_ctl (ctl_eq_trans c5 (restore_ctl k c _ _ _ _ h))
        have c6 := same_flags_of_ctl (ctl_eq_trans c5 (restore_ctl k c _ _ _ _ h6))
        simp only [Option.some.injEq, Prod.mk.injEq] at h
        rw [← h.2]
        exact c6
      · have c6 := same_flags_of_ctl c5
        simp only [Option.some.injEq, Prod.mk.injEq] at h
        rw [← h.2]
        exact c6

theorem set_effect_ctl (k : Consts) (c : i2c_client) (arg : Nat) (s : Drv)
    (e : Int) (s1 : Drv) (h : ioctl_set_effect k c arg s = some (e, s1)) : s.ctl_eq s1 := by
  unfold ioctl_set_effect at h
  split_ifs at h
  · simp only [Option.some.injEq, Prod.mk.injEq] at h
    rw [← h.2]; exact ctl_eq_refl _
  · split at h
    · exact absurd h (by simp)
    · rw [checked_eq_some] at h
      rcases h with ⟨h, _⟩ | ⟨s2, h2, h⟩
      · exact write_table_ctl k c _ _ _ _ h
      · exact ctl_eq_trans (write_table_ctl k c _ _ _ _ h2) (write_table_ctl k c _ _ _ _ h)

theorem lock_check_ae_ev (k : Consts) (c : i2c_client) (s : Drv) (prev : Bool)
    (e : Int) (s1 : Drv) (h : lock_check_ae k c s prev = some (e, s1)) :
    s1.info.current_ev = s.info.current_ev := by
  unfold lock_check_ae at h
  dsimp only at h
  split_ifs at h
  all_goals first
    | (rw [checked_ret] at h
       have c1 := write_table_ctl k c _ _ _ _ h
       rw [c1.1])
    | (simp only [Option.some.injEq, Prod.mk.injEq] at h
       rw [← h.2])
    | (rw [checked_eq_some] at h
       rcases h with ⟨h, _⟩ | ⟨s2, h2, h⟩
       · have c1 := write_table_ctl k c _ _ _ _ h
         rw [c1.1]
       · have c1 := write_table_ctl k c _ _ _ _ h2
         split_ifs at h
         · rw [checked_ret] at h
           have c2 := restore_ctl k c _ _ _ _ h
           rw [c2.1, c1.1]
         · rw [checked_eq_some] at h
           rcases h with ⟨h, _⟩ | ⟨s3, h3, h⟩
           · have f := save_frame k c _ _ _ _ h
             rw [f.1, c1.1]
           · have f := save_frame k c _ _ _ _ h3
             simp only [Option.some.injEq, Prod.mk.injEq] at h
             rw [← h.2]
             show s3.info.current_ev = _
             rw [f.1, c1.1]
         · simp only [Option.some.injEq, Prod.mk.injEq] at h
           rw [← h.2, c1.1])

theorem lock_check_awb_ae (k : Consts) (c : i2c_client) (s : Drv) (chg : Bool)
    (e : Int) (s1 : Drv) (h : lock_check_awb k c s chg = some (e, s1)) :
    s1.info.current_ev = s.info.current_ev ∧ s1.lockBuff.aelock = s.lockBuff.aelock ∧
      s1.info.valid_ae_lock_state = s.info.valid_ae_lock_state := by
  unfold lock_check_awb at h
  dsimp only at h
  split_ifs at h
  all_goals first
    | (rw [checked_ret] at h
       have c1 := write_table_ctl k c _ _ _ _ h
       rw [c1.1, c1.2.1]
       exact ⟨rfl, rfl, rfl⟩)
    | (simp only [Option.some.injEq, Prod.mk.injEq] at h
       rw [← h.2]
       exact ⟨rfl, rfl, rfl⟩)
    | (rw [checked_eq_some] at h
       rcases h with ⟨h, _⟩ | ⟨s2, h2, h⟩
       · have c1 := write_table_ctl k c _ _ _ _ h
         rw [c1.1, c1.2.1]
         exact ⟨rfl, rfl, rfl⟩
       · have c1 := write_table_ctl k c _ _ _ _ h2
         split_ifs at h
         · rw [checked_ret] at h
           have c2 := restore_ctl k c _ _ _ _ h
           rw [c2.1, c1.1, c2.2.1, c1.2.1]
           exact ⟨rfl, rfl, rfl⟩
         · rw [checked_eq_some] at h
           rcases h with ⟨h, _⟩ | ⟨s3, h3, h⟩
           · have f := save_frame k c _ _ _ _ h
             rw [f.1, c1.1, f.2.1, c1.2.1]
             exact ⟨rfl, rfl, rfl⟩
           · have f := save_frame k c _ _ _ _ h3
             simp only [Option.some.injEq, Prod.mk.injEq] at h
             rw [← h.2]
             show s3.info.current_ev = _ ∧ s3.lockBuff.aelock = _ ∧
               s3.info.valid_ae_lock_state = _
             rw [f.1, c1.1, f.2.1, c1.2.1]
             exact ⟨rfl, rfl, rfl⟩
         · simp only [Option.some.injEq, Prod.mk.injEq] at h
           rw [← h.2, c1.1, c1.2.1]
           exact ⟨rfl, rfl, rfl⟩)

theorem set_lock_preview_ev (s : Drv) (a b p : Bool) :
    (set_lock_preview s a b p).info.current_ev = s.info.current_ev ∧
      (set_lock_preview s a b p).lockBuff = s.lockBuff ∧
      (a = true → (set_lock_preview s a b p).info.valid_ae_lock_state =
        s.info.valid_ae_lock_state) := by
  unfold set_lock_preview
  dsimp only
  refine ⟨?_, ?_, ?_⟩
  · split_ifs <;> rfl
  · split_ifs <;> rfl
  · intro ha
    subst ha
    split_ifs <;> simp_all

theorem ioctl_set_lock_ev (k : Consts) (c : i2c_client) (req : soc2030_lock) (s : Drv)
    (e : Int) (s1 : Drv) (h : ioctl_set_lock k c req s = some (e, s1)) :
    s1.info.current_ev = s.info.current_ev := by
  unfold ioctl_set_lock soc2030_lock_check at h
  dsimp only at h
  have hp := (set_lock_preview_ev { s with lockBuff := req } s.lockBuff.aelock
    s.lockBuff.awblock s.lockBuff.previewactive).1
  rw [checked_eq_some] at h
  rcases h with ⟨h, _⟩ | ⟨s2, h2, h⟩
  · rw [lock_check_ae_ev k c _ _ _ _ h, hp]
  · rw [(lock_check_awb_ae k c _ _ _ _ h).1, lock_check_ae_ev k c _ _ _ _ h2, hp]

theorem ioctl_set_exp_comp_ev (k : Consts) (c : i2c_client) (req_ev : Int) (s : Drv)
    (e : Int) (s1 : Drv) (h : ioctl_set_exp_comp k c req_ev s = some (e, s1)) :
    s1.info.current_ev = s.info.current_ev ∨
      (s1.info.current_ev = req_ev ∧ k.SOC_EV_MIN ≤ req_ev ∧ req_ev ≤ k.SOC_EV_MAX) := by
  by_cases hr : req_ev > k.SOC_EV_MAX ∨ req_ev < k.SOC_EV_MIN
  · unfold ioctl_set_exp_comp at h
    rw [if_pos hr] at h
    simp only [Option.some.injEq, Prod.mk.injEq] at h
    rw [← h.2]; exact Or.inl rfl
  · have hrange : k.SOC_EV_MIN ≤ req_ev ∧ req_ev ≤ k.SOC_EV_MAX := by
      constructor
      · by_contra hlt
        exact hr (Or.inr (not_le.mp hlt))
      · by_contra hlt
        exact hr (Or.inl (not_le.mp hlt))
    by_cases hn : exp_new_target k req_ev < 0
    · unfold ioctl_set_exp_comp at h
      unfold exp_new_target at hn
      dsimp only at h hn
      rw [if_neg hr, if_pos hn] at h
      simp only [Option.some.injEq, Prod.mk.injEq] at h
      rw [← h.2]; exact Or.inl rfl
    · by_cases hw : (soc2030_write_xdma_reg k c 0xA24F
          ((exp_new_target k req_ev).toNat % 65536) s.trace).1 = 0
      · rw [exp_comp_unfold k c req_ev s hrange (not_lt.mp hn) hw] at h
        split at h
        · exact absurd h (by simp)
        · simp only [Option.some.injEq, Prod.mk.injEq] at h
          rw [← h.2]
          exact Or.inr ⟨rfl, hrange⟩
      · unfold ioctl_set_exp_comp at h
        unfold exp_new_target at hn hw
        dsimp only at h hn hw
        rw [if_neg hr, if_neg hn, if_pos hw] at h
        simp only [Option.some.injEq, Prod.mk.injEq] at h
        rw [← h.2]; exact Or.inl rfl

theorem ioctl_set_exp_comp_lock (k : Consts) (c : i2c_client) (req_ev : Int) (s : Drv)
    (e : Int) (s1 : Drv) (h : ioctl_set_exp_comp k c req_ev s = some (e, s1)) :
    s1.lockBuff = s.lockBuff ∧ s1.info.valid_ae_lock_state = s.info.valid_ae_lock_state := by
  by_cases hr : req_ev > k.SOC_EV_MAX ∨ req_ev < k.SOC_EV_MIN
  · unfold ioctl_set_exp_comp at h
    rw [if_pos hr] at h
    simp only [Option.some.injEq, Prod.mk.injEq] at h
    rw [← h.2]; exact ⟨rfl, rfl⟩
  · have hrange : k.SOC_EV_MIN ≤ req_ev ∧ req_ev ≤ k.SOC_EV_MAX := by
      constructor
      · by_contra hlt
        exact hr (Or.inr (not_le.mp hlt))
      · by_contra hlt
        exact hr (Or.inl (not_le.mp hlt))
    by_cases hn : exp_new_target k req_ev < 0
    · unfold ioctl_set_exp_comp at h
      unfold exp_new_target at hn
      dsimp only at h hn
      rw [if_neg hr, if_pos hn] at h
      simp only [Option.some.injEq, Prod.mk.injEq] at h
      rw [← h.2]; exact ⟨rfl, rfl⟩
    · by_cases hw : (soc2030_write_xdma_reg k c 0xA24F
          ((exp_new_target k req_ev).toNat % 65536) s.trace).1 = 0
      · rw [exp_comp_unfold k c req_ev s hrange (not_lt.mp hn) hw] at h
        split at h
        · exact absurd h (by simp)
        · rename_i err s2 h2
          have c2 := ctl_eq_trans (ctl_eq_trace s _) (write_table_ctl k c _ _ _ _ h2)
          simp only [Option.some.injEq, Prod.mk.injEq] at h
          rw [← h.2]
          exact ⟨c2.2.1, by show s2.info.valid_ae_lock_state = _; rw [c2.1]⟩
      · unfold ioctl_set_exp_comp at h
        unfold exp_new_target at hn hw
        dsimp only at h hn hw
        rw [if_neg hr, if_neg hn, if_pos hw] at h
        simp only [Option.some.injEq, Prod.mk.injEq] at h
        rw [← h.2]; exact ⟨rfl, rfl⟩

theorem ioctl_ev (k : Consts) (c : i2c_client) (cmd : Cmd) (s : Drv) (e : Int) (s1 : Drv)
    (h : soc2030_ioctl k c cmd s = some (e, s1)) :
    s1.info.current_ev = s.info.current_ev ∨
      (k.SOC_EV_MIN ≤ s1.info.current_ev ∧ s1.info.current_ev ≤ k.SOC_EV_MAX) := by
  cases cmd with
  | SOC2030_IOCTL_SET_MODE mode => exact Or.inl (set_mode_same_flags k c s mode e s1 h).2.1
  | SOC2030_IOCTL_SET_PRIVATE t =>
    have c1 := write_table_ctl k c t s e s1 h
    exact Or.inl (by rw [c1.1])
  | SOC2030_IOCTL_SET_LOCK req => exact Or.inl (ioctl_set_lock_ev k c req s e s1 h)
  | SOC2030_IOCTL_GET_STATUS =>
    simp only [soc2030_ioctl, Option.some.injEq, Prod.mk.injEq] at h
    rw [← h.2]; exact Or.inl rfl
  | SOC2030_IOCTL_GET_MODES =>
    simp only [soc2030_ioctl, Option.some.injEq, Prod.mk.injEq] at h
    rw [← h.2]; exact Or.inl rfl
  | SOC2030_IOCTL_GET_NUM_MODES =>
    simp only [soc2030_ioctl, Option.some.injEq, Prod.mk.injEq] at h
    rw [← h.2]; exact Or.inl rfl
  | SOC2030_IOCTL_SET_EFFECT arg =>
    have c1 := set_effect_ctl k c arg s e s1 h
    exact Or.inl (by rw [c1.1])
  | SOC2030_IOCTL_SET_WHITEBALANCE arg =>
    have c1 := ioctl_set_whitebalance_frame k c arg s e s1 h
    exact Or.inl (by rw [c1.1])
  | SOC2030_IOCTL_SET_EXP_COMP req_ev =>
    rcases ioctl_set_exp_comp_ev k c req_ev s e s1 h with h1 | ⟨h1, h2, h3⟩
    · exact Or.inl h1
    · exact Or.inr (by rw [h1]; exact ⟨h2, h3⟩)
  | unknown n =>
    simp only [soc2030_ioctl, Option.some.injEq, Prod.mk.injEq] at h
    rw [← h.2]; exact Or.inl rfl

/-- C23: given `SOC_EV_MIN <= 0 <= SOC_EV_MAX`, the stored exposure bias is 0
right after `soc2030_open`, and in every state reached from an open by any
sequence of `soc2030_ioctl` calls (set mode, custom table, set lock, get
status, get modes, set effect, set white balance, set exposure compensation,
unknown commands), whatever each call returns and on whatever bus, it lies in
`[SOC_EV_MIN, SOC_EV_MAX]`. -/
theorem current_ev_in_range (k : Consts) (s : Drv)
    (hk : k.SOC_EV_MIN ≤ 0 ∧ 0 ≤ k.SOC_EV_MAX) (hs : Reachable k any_result s) :
    (∀ s0, (soc2030_open s0).info.current_ev = 0) ∧
      k.SOC_EV_MIN ≤ s.info.current_ev ∧ s.info.current_ev ≤ k.SOC_EV_MAX := by
  refine ⟨fun _ => rfl, ?_⟩
  induction hs with
  | opened s0 => exact hk
  | step c cmd s e s1 _ hstep _ ih =>
    rcases ioctl_ev k c cmd s e s1 hstep with h | h
    · rw [h]; exact ih
    · exact h

theorem lock_check_ae_replay_valid (k : Consts) (c : i2c_client) (s : Drv) (prev : Bool)
    (s1 : Drv) (h : lock_check_ae k c s prev = some (0, s1))
    (hprev : s.lockBuff.aelock = true → prev = true → s.info.valid_ae_lock_state = true) :
    s1.ae_replay_valid := by
  unfold Drv.ae_replay_valid
  unfold lock_check_ae at h
  dsimp only at h
  cases hi : s.info.ae_lock_inhibit <;> cases hl : s.lockBuff.aelock <;> cases prev <;>
    simp only [hi, hl, Bool.xor_false, Bool.xor_true, Bool.not_true, Bool.not_false,
      Bool.and_true, Bool.and_false, Bool.true_and, Bool.false_and, if_true, if_false,
      Bool.false_eq_true, Bool.and_self, Bool.xor_self] at h
  all_goals intro ha
  all_goals first
    | (simp only [Option.some.injEq, Prod.mk.injEq, true_and] at h
       subst h
       first
         | exact hprev ha rfl
         | (rw [hl] at ha; exact absurd ha (by decide)))
    | (rw [checked_ret] at h
       have c1 := write_table_ctl k c _ _ _ _ h
       rw [c1.2.1] at ha
       first
         | (rw [hl] at ha; exact absurd ha (by decide))
         | exact absurd ha (by simp))
    | (rw [checked_eq_some] at h
       rcases h with ⟨_, h0⟩ | ⟨s2, h2, h⟩
       · exact absurd rfl h0
       · have c1 := write_table_ctl k c _ _ _ _ h2
         split_ifs at h with hrv hinh
         · rw [checked_ret] at h
           have c2 := restore_ctl k c _ _ _ _ h
           rw [c2.1]
           simp only [Bool.and_eq_true] at hrv
           exact hrv.2
         · rw [checked_eq_some] at h
           rcases h with ⟨_, h0⟩ | ⟨s3, _, h⟩
           · exact absurd rfl h0
           · simp only [Option.some.injEq, Prod.mk.injEq, true_and] at h
             rw [← h]
         · rw [c1.1, hi] at hinh
           exact absurd rfl hinh)

theorem ioctl_set_lock_replay_valid (k : Consts) (c : i2c_client) (req : soc2030_lock)
    (s s1 : Drv) (h : ioctl_set_lock k c req s = some (0, s1)) (hs : s.ae_replay_valid) :
    s1.ae_replay_valid := by
  unfold ioctl_set_lock soc2030_lock_check at h
  dsimp only at h
  have hp := set_lock_preview_ev { s with lockBuff := req } s.lockBuff.aelock
    s.lockBuff.awblock s.lockBuff.previewactive
  rw [checked_eq_some] at h
  rcases h with ⟨_, h0⟩ | ⟨s2, h2, h⟩
  · exact absurd rfl h0
  · have hv := lock_check_ae_replay_valid k c _ _ _ h2 (by
      intro _ hprev
      rw [hp.2.2 hprev]
      exact hs hprev)
    have hf := lock_check_awb_ae k c _ _ _ _ h
    intro ha
    rw [hf.2.2]
    rw [hf.2.1] at ha
    exact hv ha

theorem same_flags_replay_valid {s s1 : Drv} (h : s.same_flags s1) (hs : s.ae_replay_valid) :
    s1.ae_replay_valid := by
  intro ha
  rw [h.2.2.2.2.1]
  rw [h.1] at ha
  exact hs ha

theorem ioctl_replay_valid (k : Consts) (c : i2c_client) (cmd : Cmd) (s : Drv) (e : Int)
    (s1 : Drv) (h : soc2030_ioctl k c cmd s = some (e, s1)) (hok : lock_succeeded cmd e)
    (hs : s.ae_replay_valid) : s1.ae_replay_valid := by
  cases cmd with
  | SOC2030_IOCTL_SET_MODE mode =>
    exact same_flags_replay_valid (set_mode_same_flags k c s mode e s1 h) hs
  | SOC2030_IOCTL_SET_PRIVATE t =>
    exact same_flags_replay_valid (same_flags_of_ctl (write_table_ctl k c t s e s1 h)) hs
  | SOC2030_IOCTL_SET_LOCK req =>
    have he : e = 0 := hok
    subst he
    exact ioctl_set_lock_replay_valid k c req s s1 h hs
  | SOC2030_IOCTL_GET_STATUS =>
    simp only [soc2030_ioctl, Option.some.injEq, Prod.mk.injEq] at h
    rw [← h.2]; exact hs
  | SOC2030_IOCTL_GET_MODES =>
    simp only [soc2030_ioctl, Option.some.injEq, Prod.mk.injEq] at h
    rw [← h.2]; exact hs
  | SOC2030_IOCTL_GET_NUM_MODES =>
    simp only [soc2030_ioctl, Option.some.injEq, Prod.mk.injEq] at h
    rw [← h.2]; exact hs
  | SOC2030_IOCTL_SET_EFFECT arg =>
    exact same_flags_replay_valid (same_flags_of_ctl (set_effect_ctl k c arg s e s1 h)) hs
  | SOC2030_IOCTL_SET_WHITEBALANCE arg =>
    exact same_flags_replay_valid
      (same_flags_of_ctl (ioctl_set_whitebalance_frame k c arg s e s1 h)) hs
  | SOC2030_IOCTL_SET_EXP_COMP req_ev =>
    have hf := ioctl_set_exp_comp_lock k c req_ev s e s1 h
    intro ha
    rw [hf.2]
    rw [hf.1] at ha
    exact hs ha
  | unknown n =>
    simp only [soc2030_ioctl, Option.some.injEq, Prod.mk.injEq] at h
    rw [← h.2]; exact hs

theorem reachable_replay_valid (k : Consts) (s : Drv) (hs : Reachable k lock_succeeded s) :
    s.ae_replay_valid := by
  induction hs with
  | opened s0 => intro ha; exact absurd ha (by simp [soc2030_open])
  | step c cmd s e s1 _ hstep hok ih => exact ioctl_replay_valid k c cmd s e s1 hstep hok ih

theorem run_ioctls_reachable (k : Consts) (c : i2c_client) (cmds : List Cmd) :
    ∀ (s : Drv) (es : List Int) (s1 : Drv), run_ioctls k c cmds s = some (es, s1) →
      Reachable k any_result s → Reachable k any_result s1 := by
  induction cmds with
  | nil =>
    intro s es s1 h hs
    simp only [run_ioctls, Option.some.injEq, Prod.mk.injEq] at h
    rw [← h.2]; exact hs
  | cons cmd rest ih =>
    intro s es s1 h hs
    unfold run_ioctls at h
    split at h
    · exact absurd h (by simp)
    · rename_i e s2 hstep
      cases hrest : run_ioctls k c rest s2 with
      | none => rw [hrest] at h; exact absurd h (by simp)
      | some p =>
        rw [hrest] at h
        simp only [Option.map_some', Option.some.injEq, Prod.mk.injEq] at h
        rw [← h.2]
        exact ih s2 p.1 p.2 hrest (Reachable.step c cmd s e s2 hs hstep trivial)

theorem run_ioctls_getD_reachable (k : Consts) (c : i2c_client) (cmds : List Cmd) (s : Drv)
    (hs : Reachable k any_result s) :
    Reachable k any_result ((run_ioctls k c cmds s).getD ([], s)).2 := by
  cases h : run_ioctls k c cmds s with
  | none => exact hs
  | some p => exact run_ioctls_reachable k c cmds s p.1 p.2 h hs

theorem after_ev2_reachable : Reachable k0 any_result Drv.after_ev2 :=
  run_ioctls_getD_reachable k0 sensorBus _ _ (Reachable.opened _)

/-- C23, witness: the state after open and an exposure compensation of 2
steps on the simulated sensor is reachable, its stored bias is 2, within
`[-2, 2]`. -/
theorem current_ev_in_range_witness :
    ((k0.SOC_EV_MIN ≤ 0 ∧ 0 ≤ k0.SOC_EV_MAX) ∧ Reachable k0 any_result Drv.after_ev2) ∧
    Drv.after_ev2.info.current_ev = 2 ∧
    (∀ s0, (soc2030_open s0).info.current_ev = 0) ∧
    k0.SOC_EV_MIN ≤ Drv.after_ev2.info.current_ev ∧
    Drv.after_ev2.info.current_ev ≤ k0.SOC_EV_MAX :=
  ⟨⟨by decide, after_ev2_reachable⟩, by decide,
    current_ev_in_range k0 Drv.after_ev2 (by decide) after_ev2_reachable⟩

set_option maxRecDepth 100000 in
/-- C24 (what holds, and the evaluation at the failing input): as long as no
`SOC2030_IOCTL_SET_LOCK` call has failed, every state reached from an open has
the AE valid flag set whenever the stored `aelock` is set.  A failed lock call
breaks it: after open, `SOC2030_IOCTL_SET_LOCK` with `aelock` on a bus that
does not acknowledge the first four write attempts returns -5 having made four
transfers, and leaves `aelock` set with the AE valid flag clear; the
`SOC2030_IOCTL_SET_MODE` for `(800, 600, 30)` that follows returns 0 with the
valid flag still clear, and its last 21 transfers are the replay of
`soc2030_restore_isp_state` with the AE loop writing the never-captured
snapshot (all zeros) to the 15 AE registers. -/
theorem replay_without_valid_snapshot :
    (∀ (k : Consts) (s : Drv), Reachable k lock_succeeded s → s.ae_replay_valid) ∧
    (run_ioctls k0 flakyBus [Cmd.SOC2030_IOCTL_SET_LOCK lockAe] Drv.opened).map
        (fun r => (r.1, [r.2.lockBuff.aelock, r.2.info.valid_ae_lock_state],
          r.2.trace.length)) =
      some ([-5], [true, false], 4) ∧
    (run_ioctls k0 flakyBus [Cmd.SOC2030_IOCTL_SET_LOCK lockAe,
        Cmd.SOC2030_IOCTL_SET_MODE ⟨800, 600, 30, []⟩] Drv.opened).map
        (fun r => (r.1, [r.2.lockBuff.aelock, r.2.info.valid_ae_lock_state],
          r.2.trace.length, r.2.trace.drop 394)) =
      some ([-5, 0], [true, false], 415,
        [Xfer.write 0x098c 0xa104, Xfer.read 0x0990,
          Xfer.write 0x302e 0, Xfer.write 0x3028 0, Xfer.write 0x3030 0, Xfer.write 0x302a 0,
          Xfer.write 0x302c 0, Xfer.write 0x3058 0,
          Xfer.write 0x098c 0xa104, Xfer.read 0x0990,
          Xfer.write 0x098c 0x2222, Xfer.write 0x0990 0, Xfer.write 0x3012 0,
          Xfer.write 0x3036 0, Xfer.write 0x3038 0, Xfer.write 0x3032 0, Xfer.write 0x3034 0,
          Xfer.write 0x3014 0, Xfer.write 0x3056 0, Xfer.write 0x305c 0,
          Xfer.write 0x305a 0]) :=
  ⟨fun k s hs => reachable_replay_valid k s hs, by decide, by decide⟩

/-! ## Preview rule, indirect write, inhibited request -/

/-- C32: `SOC2030_IOCTL_SET_LOCK` enters `soc2030_lock_check` with the request
stored, the bus history untouched and, for each axis, the valid flag false if
the requested `previewactive` is true, the previous one false and the previous
lock flag of the axis false, and equal to its previous value in every other
case; nothing else of `info` differs. -/
theorem set_lock_preview_rule (k : Consts) (c : i2c_client) (req : soc2030_lock) (s : Drv) :
    ∃ s0 : Drv,
      ioctl_set_lock k c req s =
        soc2030_lock_check k c s0 s.lockBuff.aelock s.lockBuff.awblock ∧
      s0.lockBuff = req ∧ s0.trace = s.trace ∧ s0.vars = s.vars ∧
      s0.ae_lock_state = s.ae_lock_state ∧ s0.awb_lock_state = s.awb_lock_state ∧
      s0.info.valid_ae_lock_state =
        (if preview_clears req.previewactive s.lockBuff.previewactive s.lockBuff.aelock
          then false else s.info.valid_ae_lock_state) ∧
      s0.info.valid_awb_lock_state =
        (if preview_clears req.previewactive s.lockBuff.previewactive s.lockBuff.awblock
          then false else s.info.valid_awb_lock_state) ∧
      s0.info.mode = s.info.mode ∧ s0.info.current_ev = s.info.current_ev ∧
      s0.info.ae_lock_inhibit = s.info.ae_lock_inhibit ∧
      s0.info.awb_lock_inhibit = s.info.awb_lock_inhibit := by
  refine ⟨set_lock_preview { s with lockBuff := req } s.lockBuff.aelock s.lockBuff.awblock
    s.lockBuff.previewactive, rfl, ?_⟩
  unfold set_lock_preview preview_clears
  dsimp only
  cases hp : req.previewactive <;> cases hq : s.lockBuff.previewactive <;>
    cases ha : s.lockBuff.aelock <;> cases hw : s.lockBuff.awblock <;> simp [hp]

theorem loop_write_reg_data (k : Consts) (c : i2c_client) (a v : Nat)
    (rest : List soc2030_regs) (err : Int) (s : Drv) :
    write_table_loop k c (⟨Op.WRITE_REG_DATA, a, v⟩ :: rest) err s =
      if (soc2030_write_reg k c a v s.trace).1 ≠ 0 then
        some ((soc2030_write_reg k c a v s.trace).1,
          { s with trace := (soc2030_write_reg k c a v s.trace).2 })
      else write_table_loop k c rest (soc2030_write_reg k c a v s.trace).1
        { s with trace := (soc2030_write_reg k c a v s.trace).2 } := by
  conv_lhs => unfold write_table_loop
  have hne : ¬ (⟨Op.WRITE_REG_DATA, a, v⟩ : soc2030_regs).op = Op.REG_TABLE_END := by simp
  rw [if_neg hne]
  simp only [write_table_case, after_op]
  split_ifs <;> rfl

theorem loop_write_var_data (k : Consts) (c : i2c_client) (a v : Nat)
    (rest : List soc2030_regs) (err : Int) (s : Drv) :
    write_table_loop k c (⟨Op.WRITE_VAR_DATA, a, v⟩ :: rest) err s =
      if (soc2030_write_xdma_reg k c a v s.trace).1 ≠ 0 then
        some ((soc2030_write_xdma_reg k c a v s.trace).1,
          { s with trace := (soc2030_write_xdma_reg k c a v s.trace).2 })
      else write_table_loop k c rest (soc2030_write_xdma_reg k c a v s.trace).1
        { s with trace := (soc2030_write_xdma_reg k c a v s.trace).2 } := by
  conv_lhs => unfold write_table_loop
  have hne : ¬ (⟨Op.WRITE_VAR_DATA, a, v⟩ : soc2030_regs).op = Op.REG_TABLE_END := by simp
  rw [if_neg hne]
  simp only [write_table_case, after_op]
  split_ifs <;> rfl

/-- C33: `soc2030_write_xdma_reg(vaddr, value)` is the write of `vaddr` to
`0x098C` followed, only if that write returned 0, by the write of `value` to
`0x0990`; and on every bus, from every state and whatever follows in the
table, a record `WRITE_VAR_DATA(vaddr, value)` gives the same result and the
same state (bus history included) as the two records
`WRITE_REG_DATA(0x098C, vaddr)`, `WRITE_REG_DATA(0x0990, value)`. -/
theorem write_xdma_is_two_writes (k : Consts) (c : i2c_client) (a v : Nat) :
    (∀ tr, soc2030_write_xdma_reg k c a v tr =
      if (soc2030_write_reg k c 0x098c a tr).1 ≠ 0 then soc2030_write_reg k c 0x098c a tr
      else soc2030_write_reg k c 0x0990 v (soc2030_write_reg k c 0x098c a tr).2) ∧
    (∀ (rest : List soc2030_regs) (err : Int) (s : Drv),
      write_table_loop k c (⟨Op.WRITE_VAR_DATA, a, v⟩ :: rest) err s =
        write_table_loop k c
          (⟨Op.WRITE_REG_DATA, 0x098c, a⟩ :: ⟨Op.WRITE_REG_DATA, 0x0990, v⟩ :: rest) err s) ∧
    (∀ (rest : List soc2030_regs) (s : Drv),
      soc2030_write_table k c (⟨Op.WRITE_VAR_DATA, a, v⟩ :: rest) s =
        soc2030_write_table k c
          (⟨Op.WRITE_REG_DATA, 0x098c, a⟩ :: ⟨Op.WRITE_REG_DATA, 0x0990, v⟩ :: rest) s) := by
  have h1 : ∀ tr, soc2030_write_xdma_reg k c a v tr =
      if (soc2030_write_reg k c 0x098c a tr).1 ≠ 0 then soc2030_write_reg k c 0x098c a tr
      else soc2030_write_reg k c 0x0990 v (soc2030_write_reg k c 0x098c a tr).2 := by
    intro tr
    unfold soc2030_write_xdma_reg
    dsimp only
    split_ifs with ha hb
    · rfl
    · rfl
    · have hb' : (soc2030_write_reg k c 0x0990 v (soc2030_write_reg k c 0x098c a tr).2).1 = 0 :=
        not_not.mp hb
      exact Prod.ext hb'.symm rfl
  have h2 : ∀ (rest : List soc2030_regs) (err : Int) (s : Drv),
      write_table_loop k c (⟨Op.WRITE_VAR_DATA, a, v⟩ :: rest) err s =
        write_table_loop k c
          (⟨Op.WRITE_REG_DATA, 0x098c, a⟩ :: ⟨Op.WRITE_REG_DATA, 0x0990, v⟩ :: rest) err s := by
    intro rest err s
    rw [loop_write_var_data, loop_write_reg_data, h1]
    by_cases ha : (soc2030_write_reg k c 0x098c a s.trace).1 = 0
    · simp only [ha, ne_eq, not_true_eq_false, if_false]
      rw [loop_write_reg_data]
    · simp only [ha, ne_eq, not_false_eq_true, if_true]
  exact ⟨h1, h2, fun rest s => h2 rest _ s⟩

/-! ## The inhibited AE lock request -/

theorem write_table_loop_grows (k : Consts) (c : i2c_client) (tbl : List soc2030_regs) :
    ∀ (err : Int) (s : Drv) (e : Int) (s1 : Drv),
      write_table_loop k c tbl err s = some (e, s1) → s.trace <+: s1.trace := by
  induction tbl with
  | nil => intro err s e s1 h; simp [write_table_loop] at h
  | cons r rs ih =>
    intro err s e s1 h
    unfold write_table_loop at h
    split_ifs at h
    · simp only [Option.some.injEq, Prod.mk.injEq] at h
      rw [← h.2]
    · have hc := write_table_case_trace k c r err s
      cases hf : write_table_case k c r err s with
      | ret e' s' =>
        rw [hf] at h hc
        simp only [Option.some.injEq, Prod.mk.injEq] at h
        rw [← h.2]; exact hc
      | next e' s' =>
        rw [hf] at h hc
        exact hc.trans (ih _ _ _ _ h)

theorem write_reg_attempted (k : Consts) (c : i2c_client) (a v : Nat) (tr : List Xfer)
    (hA : c.adapter = true) :
    tr ++ [Xfer.write a v] <+: (soc2030_write_reg k c a v tr).2 := by
  unfold soc2030_write_reg
  rw [if_neg (by rw [hA]; decide)]
  unfold write_reg_loop
  split_ifs
  · exact List.prefix_refl _
  · exact write_reg_loop_trace c a v _ _

/-- C39: with the AE-lock-inhibited flag set and `aelock` requested while the
previous flag was clear, the AE half of `soc2030_lock_check`, after clearing
`aelock` and `aerelock` in the stored request, is the run of
`exposureUnLockSequence`, and with the AWB axis unchanged the whole of
`soc2030_lock_check` is that run and returns its result; the call returns on
every bus, and with an adapter present its history starts with the first
write of the unlock table (`0x098C := 0xA102`), so the rejected request is not
bus-silent. -/
theorem inhibited_lock_runs_unlock_table (k : Consts) (c : i2c_client) (s : Drv)
    (hinh : s.info.ae_lock_inhibit = true) (hreq : s.lockBuff.aelock = true) :
    lock_check_ae k c s false =
        soc2030_write_table k c exposureUnLockSequence s.ae_downgraded ∧
      soc2030_lock_check k c s false s.lockBuff.awblock =
        soc2030_write_table k c exposureUnLockSequence s.ae_downgraded ∧
      (soc2030_lock_check k c s false s.lockBuff.awblock).isSome = true ∧
      (c.adapter = true → ∀ e s1,
        soc2030_lock_check k c s false s.lockBuff.awblock = some (e, s1) →
        s.trace ++ [Xfer.write 0x098c 0xA102] <+: s1.trace) := by
  have heq : lock_check_ae k c s false =
      soc2030_write_table k c exposureUnLockSequence s.ae_downgraded := by
    unfold lock_check_ae Drv.ae_downgraded
    simp [hinh, hreq, checked_ret]
  have hall : soc2030_lock_check k c s false s.lockBuff.awblock =
      soc2030_write_table k c exposureUnLockSequence s.ae_downgraded := by
    unfold soc2030_lock_check
    simp only [Bool.xor_self, lock_check_awb_unchanged, checked_ret]
    exact heq
  refine ⟨heq, hall, ?_, ?_⟩
  · rw [hall]
    exact write_table_total k c _ (by decide) _
  · intro hA e s1 h
    rw [hall] at h
    unfold soc2030_write_table exposureUnLockSequence at h
    rw [loop_write_reg_data] at h
    have hw := write_reg_attempted k c 0x098c 0xA102 s.ae_downgraded.trace hA
    split_ifs at h
    · simp only [Option.some.injEq, Prod.mk.injEq] at h
      rw [← h.2]
      exact hw
    · exact hw.trans (write_table_loop_grows k c _ _ _ _ _ h)

set_option maxRecDepth 100000 in
/-- C39, witness: the inhibit flag is set and `lockAe` was just requested; on
the simulated sensor the call returns 0 after the 21 transfers of the unlock
table, with `aelock` cleared. -/
theorem inhibited_lock_runs_unlock_table_witness :
    (soc2030_lock_check k0 sensorBus Drv.inhibited_lockAe false
        Drv.inhibited_lockAe.lockBuff.awblock).map
        (fun r => (r.1, r.2.lockBuff.aelock, r.2.trace.length, r.2.trace.take 3)) =
      some (0, false, 21,
        [Xfer.write 0x098c 0xA102, Xfer.read 0x0990, Xfer.write 0x0990 9]) ∧
    (lock_check_ae k0 sensorBus Drv.inhibited_lockAe false =
        soc2030_write_table k0 sensorBus exposureUnLockSequence
          Drv.inhibited_lockAe.ae_downgraded ∧
      soc2030_lock_check k0 sensorBus Drv.inhibited_lockAe false
          Drv.inhibited_lockAe.lockBuff.awblock =
        soc2030_write_table k0 sensorBus exposureUnLockSequence
          Drv.inhibited_lockAe.ae_downgraded ∧
      (soc2030_lock_check k0 sensorBus Drv.inhibited_lockAe false
        Drv.inhibited_lockAe.lockBuff.awblock).isSome = true ∧
      (sensorBus.adapter = true → ∀ e s1,
        soc2030_lock_check k0 sensorBus Drv.inhibited_lockAe false
          Drv.inhibited_lockAe.lockBuff.awblock = some (e, s1) →
        Drv.inhibited_lockAe.trace ++ [Xfer.write 0x098c 0xA102] <+: s1.trace)) :=
  ⟨by decide, inhibited_lock_runs_unlock_table k0 sensorBus Drv.inhibited_lockAe rfl rfl⟩

/-! ## A failed lock request keeps the new intent -/

/-- C36: `SOC2030_IOCTL_SET_LOCK` with `aelock` requested while the AE lock is
not inhibited (and no inhibited AWB lock requested).  The call returns on every
bus; whatever it returns, an error included, the stored request is the new one
(`aelock` set); when the previous flag was clear and the run of
`exposureLockSequence` fails, the call returns that error; and a retry with the
same request, on any bus, returns 0 and leaves the state, bus history
included, unchanged. -/
theorem set_lock_failure_keeps_intent (k : Consts) (c : i2c_client) (req : soc2030_lock)
    (s : Drv) (hreq : req.aelock = true) (hinh : s.info.ae_lock_inhibit = false)
    (hawb : ¬ (s.info.awb_lock_inhibit = true ∧ req.awblock = true)) :
    (∃ e1 s1, ioctl_set_lock k c req s = some (e1, s1) ∧ s1.lockBuff = req ∧
      s1.lockBuff.aelock = true ∧
      ∀ c2, ioctl_set_lock k c2 req s1 = some (0, s1)) ∧
    (s.lockBuff.aelock = false → ∀ e sa,
      soc2030_write_table k c exposureLockSequence
        (set_lock_preview { s with lockBuff := req } s.lockBuff.aelock s.lockBuff.awblock
          s.lockBuff.previewactive) = some (e, sa) →
      e ≠ 0 → ioctl_set_lock k c req s = some (e, sa)) := by
  have hprop := set_lock_preview_keeps { s with lockBuff := req } s.lockBuff.aelock
    s.lockBuff.awblock s.lockBuff.previewactive
  constructor
  · obtain ⟨⟨e1, s1⟩, h1⟩ := Option.isSome_iff_exists.mp (ioctl_set_lock_total k c req s)
    have hl : s1.lockBuff = req := by
      unfold ioctl_set_lock at h1
      dsimp only at h1
      generalize set_lock_preview { s with lockBuff := req } s.lockBuff.aelock
        s.lockBuff.awblock s.lockBuff.previewactive = s2 at h1 hprop
      unfold soc2030_lock_check at h1
      rw [checked_eq_some] at h1
      have hae2 : ¬ (s2.info.ae_lock_inhibit = true ∧ s2.lockBuff.aelock = true) := by
        rw [hprop.2.1]; simp [hinh]
      rcases h1 with ⟨h, _⟩ | ⟨sa, ha, h⟩
      · exact (lock_check_ae_keeps k c _ _ _ _ h hae2).1.trans hprop.1
      · have ka := lock_check_ae_keeps k c _ _ _ _ ha hae2
        have hawb2 : ¬ (sa.info.awb_lock_inhibit = true ∧ sa.lockBuff.awblock = true) := by
          rw [ka.1, ka.2.2, hprop.1, hprop.2.2.1]; exact hawb
        exact (lock_check_awb_keeps k c _ _ _ _ h hawb2).trans (ka.1.trans hprop.1)
    exact ⟨e1, s1, h1, hl, by rw [hl]; exact hreq,
      fun c2 => ioctl_set_lock_same k c2 req s1 hl⟩
  · intro hprev e sa ht he
    unfold ioctl_set_lock
    dsimp only
    generalize set_lock_preview { s with lockBuff := req } s.lockBuff.aelock
      s.lockBuff.awblock s.lockBuff.previewactive = s2 at ht hprop
    have h2l : s2.lockBuff.aelock = true := by rw [hprop.1]; exact hreq
    have h2i : s2.info.ae_lock_inhibit = false := by rw [hprop.2.1]; exact hinh
    have hae : lock_check_ae k c s2 s.lockBuff.aelock = some (e, sa) := by
      unfold lock_check_ae
      simp only [h2i, h2l, hprev, Bool.false_and, Bool.false_eq_true, if_false,
        Bool.xor_false, Bool.and_self, if_true, ht]
      simp [checked, he]
    unfold soc2030_lock_check
    rw [hae]
    simp [checked, he]

set_option maxRecDepth 100000 in
/-- C36, witness: `lockAe` requested right after open on a bus that rejects
the first four write transfers: the call returns `-EIO` after four attempts of
the first write of the lock table with `aelock` stored and no valid snapshot;
the retry is covered by the last part of the statement. -/
theorem set_lock_failure_keeps_intent_witness :
    (ioctl_set_lock k0 flakyBus lockAe Drv.opened).map
        (fun r => (r.1, r.2.lockBuff.aelock, r.2.info.valid_ae_lock_state, r.2.trace)) =
      some (-EIO_errno, true, false,
        [Xfer.write 0x098c 0xA102, Xfer.write 0x098c 0xA102, Xfer.write 0x098c 0xA102,
          Xfer.write 0x098c 0xA102]) ∧
    ((∃ e1 s1, ioctl_set_lock k0 flakyBus lockAe Drv.opened = some (e1, s1) ∧
      s1.lockBuff = lockAe ∧ s1.lockBuff.aelock = true ∧
      ∀ c2, ioctl_set_lock k0 c2 lockAe s1 = some (0, s1)) ∧
    (Drv.opened.lockBuff.aelock = false → ∀ e sa,
      soc2030_write_table k0 flakyBus exposureLockSequence
        (set_lock_preview { Drv.opened with lockBuff := lockAe } Drv.opened.lockBuff.aelock
          Drv.opened.lockBuff.awblock Drv.opened.lockBuff.previewactive) = some (e, sa) →
      e ≠ 0 → ioctl_set_lock k0 flakyBus lockAe Drv.opened = some (e, sa))) :=
  ⟨by decide, set_lock_failure_keeps_intent k0 flakyBus lockAe Drv.opened rfl rfl (by decide)⟩

/-! ## The recorded mode index -/

theorem set_mode_mode (k : Consts) (c : i2c_client) (s : Drv) (mode : soc2030_mode)
    (e : Int) (s1 : Drv) (h : soc2030_set_mode k c s mode = some (e, s1)) :
    s1.info.mode = s.info.mode ∨ ∃ i : Nat, i < 3 ∧ s1.info.mode = i := by
  unfold soc2030_set_mode at h
  dsimp only at h
  split_ifs at h
  · simp only [Option.some.injEq, Prod.mk.injEq] at h
    rw [← h.2]; exact Or.inl rfl
  · split at h
    · exact absurd h (by simp)
    · rename_i m hm
      have hi : set_mode_index mode modes 0 < 3 := by
        have := (List.getElem?_eq_some.mp hm).1
        simpa [modes] using this
      rw [checked_eq_some] at h
      rcases h with ⟨h, _⟩ | ⟨s1', h1, h⟩
      · exact Or.inl (by rw [(set_mode_init_ctl k c _ _ _ h).1])
      have c1 := set_mode_init_ctl k c _ _ _ h1
      have c2 : s.ctl_eq ({ s1' with vars := set_mode_vars s1'.lockBuff s1'.vars } : Drv) :=
        ⟨c1.1, c1.2.1, c1.2.2.1, c1.2.2.2⟩
      rw [checked_eq_some] at h
      rcases h with ⟨h, _⟩ | ⟨s3, h3, h⟩
      · exact Or.inl (by rw [(ctl_eq_trans c2 (write_table_ctl k c _ _ _ _ h)).1])
      have c3 := ctl_eq_trans c2 (write_table_ctl k c _ _ _ _ h3)
      rw [checked_eq_some] at h
      rcases h with ⟨h, _⟩ | ⟨s4, h4, h⟩
      · exact Or.inl (by rw [(ctl_eq_trans c3 (write_table_ctl k c _ _ _ _ h)).1])
      have c4 := ctl_eq_trans c3 (write_table_ctl k c _ _ _ _ h4)
      rw [checked_eq_some] at h
      rcases h with ⟨h, _⟩ | ⟨s5, h5, h⟩
      · exact Or.inl (by rw [(ctl_eq_trans c4 (write_table_ctl k c _ _ _ _ h)).1])
      have c5 := ctl_eq_trans c4 (write_table_ctl k c _ _ _ _ h5)
      split_ifs at h
      · rw [checked_eq_some] at h
        rcases h with ⟨h, _⟩ | ⟨s6, h6, h⟩
        · exact Or.inl (by rw [(ctl_eq_trans c5 (restore_ctl k c _ _ _ _ h)).1])
        simp only [Option.some.injEq, Prod.mk.injEq] at h
        rw [← h.2]
        exact Or.inr ⟨_, hi, rfl⟩
      · simp only [Option.some.injEq, Prod.mk.injEq] at h
        rw [← h.2]
        exact Or.inr ⟨_, hi, rfl⟩

theorem lock_check_ae_mode (k : Consts) (c : i2c_client) (s : Drv) (prev : Bool)
    (e : Int) (s1 : Drv) (h : lock_check_ae k c s prev = some (e, s1)) :
    s1.info.mode = s.info.mode := by
  unfold lock_check_ae at h
  dsimp only at h
  split_ifs at h
  all_goals first
    | (rw [checked_ret] at h
       have c1 := write_table_ctl k c _ _ _ _ h
       rw [c1.1])
    | (simp only [Option.some.injEq, Prod.mk.injEq] at h
       rw [← h.2])
    | (rw [checked_eq_some] at h
       rcases h with ⟨h, _⟩ | ⟨s2, h2, h⟩
       · have c1 := write_table_ctl k c _ _ _ _ h
         rw [c1.1]
       · have c1 := write_table_ctl k c _ _ _ _ h2
         split_ifs at h
         · rw [checked_ret] at h
           have c2 := restore_ctl k c _ _ _ _ h
           rw [c2.1, c1.1]
         · rw [checked_eq_some] at h
           rcases h with ⟨h, _⟩ | ⟨s3, h3, h⟩
           · have f := save_frame k c _ _ _ _ h
             rw [f.1, c1.1]
           · have f := save_frame k c _ _ _ _ h3
             simp only [Option.some.injEq, Prod.mk.injEq] at h
             rw [← h.2]
             show s3.info.mode = _
             rw [f.1, c1.1]
         · simp only [Option.some.injEq, Prod.mk.injEq] at h
           rw [← h.2, c1.1])

theorem lock_check_awb_mode (k : Consts) (c : i2c_client) (s : Drv) (chg : Bool)
    (e : Int) (s1 : Drv) (h : lock_check_awb k c s chg = some (e, s1)) :
    s1.info.mode = s.info.mode := by
  unfold lock_check_awb at h
  dsimp only at h
  split_ifs at h
  all_goals first
    | (rw [checked_ret] at h
       have c1 := write_table_ctl k c _ _ _ _ h
       rw [c1.1])
    | (simp only [Option.some.injEq, Prod.mk.injEq] at h
       rw [← h.2])
    | (rw [checked_eq_some] at h
       rcases h with ⟨h, _⟩ | ⟨s2, h2, h⟩
       · have c1 := write_table_ctl k c _ _ _ _ h
         rw [c1.1]
       · have c1 := write_table_ctl k c _ _ _ _ h2
         split_ifs at h
         · rw [checked_ret] at h
           have c2 := restore_ctl k c _ _ _ _ h
           rw [c2.1, c1.1]
         · rw [checked_eq_some] at h
           rcases h with ⟨h, _⟩ | ⟨s3, h3, h⟩
           · have f := save_frame k c _ _ _ _ h
             rw [f.1, c1.1]
           · have f := save_frame k c _ _ _ _ h3
             simp only [Option.some.injEq, Prod.mk.injEq] at h
             rw [← h.2]
             show s3.info.mode = _
             rw [f.1, c1.1]
         · simp only [Option.some.injEq, Prod.mk.injEq] at h
           rw [← h.2, c1.1])

theorem set_lock_preview_mode (s : Drv) (a b p : Bool) :
    (set_lock_preview s a b p).info.mode = s.info.mode := by
  unfold set_lock_preview
  dsimp only
  split_ifs <;> rfl

theorem ioctl_set_lock_mode (k : Consts) (c : i2c_client) (req : soc2030_lock) (s : Drv)
    (e : Int) (s1 : Drv) (h : ioctl_set_lock k c req s = some (e, s1)) :
    s1.info.mode = s.info.mode := by
  unfold ioctl_set_lock soc2030_lock_check at h
  dsimp only at h
  have hp := set_lock_preview_mode { s with lockBuff := req } s.lockBuff.aelock
    s.lockBuff.awblock s.lockBuff.previewactive
  rw [checked_eq_some] at h
  rcases h with ⟨h, _⟩ | ⟨s2, h2, h⟩
  · rw [lock_check_ae_mode k c _ _ _ _ h, hp]
  · rw [lock_check_awb_mode k c _ _ _ _ h, lock_check_ae_mode k c _ _ _ _ h2, hp]

theorem ioctl_set_exp_comp_mode (k : Consts) (c : i2c_client) (req_ev : Int) (s : Drv)
    (e : Int) (s1 : Drv) (h : ioctl_set_exp_comp k c req_ev s = some (e, s1)) :
    s1.info.mode = s.info.mode := by
  by_cases hr : req_ev > k.SOC_EV_MAX ∨ req_ev < k.SOC_EV_MIN
  · unfold ioctl_set_exp_comp at h
    rw [if_pos hr] at h
    simp only [Option.some.injEq, Prod.mk.injEq] at h
    rw [← h.2]
  · have hrange : k.SOC_EV_MIN ≤ req_ev ∧ req_ev ≤ k.SOC_EV_MAX := by
      constructor
      · by_contra hlt
        exact hr (Or.inr (not_le.mp hlt))
      · by_contra hlt
        exact hr (Or.inl (not_le.mp hlt))
    by_cases hn : exp_new_target k req_ev < 0
    · unfold ioctl_set_exp_comp at h
      unfold exp_new_target at hn
      dsimp only at h hn
      rw [if_neg hr, if_pos hn] at h
      simp only [Option.some.injEq, Prod.mk.injEq] at h
      rw [← h.2]
    · by_cases hw : (soc2030_write_xdma_reg k c 0xA24F
          ((exp_new_target k req_ev).toNat % 65536) s.trace).1 = 0
      · rw [exp_comp_unfold k c req_ev s hrange (not_lt.mp hn) hw] at h
        split at h
        · exact absurd h (by simp)
        · rename_i err s2 h2
          have c2 := ctl_eq_trans (ctl_eq_trace s _) (write_table_ctl k c _ _ _ _ h2)
          simp only [Option.some.injEq, Prod.mk.injEq] at h
          rw [← h.2]
          show s2.info.mode = _
          rw [c2.1]
      · unfold ioctl_set_exp_comp at h
        unfold exp_new_target at hn hw
        dsimp only at h hn hw
        rw [if_neg hr, if_neg hn, if_pos hw] at h
        simp only [Option.some.injEq, Prod.mk.injEq] at h
        rw [← h.2]

theorem ioctl_mode (k : Consts) (c : i2c_client) (cmd : Cmd) (s : Drv) (e : Int) (s1 : Drv)
    (h : soc2030_ioctl k c cmd s = some (e, s1)) :
    s1.info.mode = s.info.mode ∨ ∃ i : Nat, i < 3 ∧ s1.info.mode = i := by
  cases cmd with
  | SOC2030_IOCTL_SET_MODE mode => exact set_mode_mode k c s mode e s1 h
  | SOC2030_IOCTL_SET_PRIVATE t =>
    have c1 := write_table_ctl k c t s e s1 h
    exact Or.inl (by rw [c1.1])
  | SOC2030_IOCTL_SET_LOCK req => exact Or.inl (ioctl_set_lock_mode k c req s e s1 h)
  | SOC2030_IOCTL_GET_STATUS =>
    simp only [soc2030_ioctl, Option.some.injEq, Prod.mk.injEq] at h
    rw [← h.2]; exact Or.inl rfl
  | SOC2030_IOCTL_GET_MODES =>
    simp only [soc2030_ioctl, Option.some.injEq, Prod.mk.injEq] at h
    rw [← h.2]; exact Or.inl rfl
  | SOC2030_IOCTL_GET_NUM_MODES =>
    simp only [soc2030_ioctl, Option.some.injEq, Prod.mk.injEq] at h
    rw [← h.2]; exact Or.inl rfl
  | SOC2030_IOCTL_SET_EFFECT arg =>
    have c1 := set_effect_ctl k c arg s e s1 h
    exact Or.inl (by rw [c1.1])
  | SOC2030_IOCTL_SET_WHITEBALANCE arg =>
    have c1 := ioctl_set_whitebalance_frame k c arg s e s1 h
    exact Or.inl (by rw [c1.1])
  | SOC2030_IOCTL_SET_EXP_COMP req_ev =>
    exact Or.inl (ioctl_set_exp_comp_mode k c req_ev s e s1 h)
  | unknown n =>
    simp only [soc2030_ioctl, Option.some.injEq, Prod.mk.injEq] at h
    rw [← h.2]; exact Or.inl rfl

theorem reachable_mode (k : Consts) (s : Drv) (hs : Reachable k any_result s) :
    s.info.mode = -1 ∨ ∃ i : Nat, i < 3 ∧ s.info.mode = i := by
  induction hs with
  | opened s0 => exact Or.inl rfl
  | step c cmd s e s1 _ h _ ih =>
    rcases ioctl_mode k c cmd s e s1 h with h1 | h1
    · rw [h1]; exact ih
    · exact Or.inr h1

theorem whitebalance_mode_unset (k : Consts) (c : i2c_client) (arg : Nat) (s : Drv)
    (harg : arg < k.WB_MAX) (hm : s.info.mode = -1) :
    ioctl_set_whitebalance k c arg s = none := by
  unfold ioctl_set_whitebalance
  rw [if_neg (by omega), if_pos (by rw [hm]; decide)]

/-- C37 (what holds, and the evaluation at the failing input): in every state
reached from an open the recorded mode is -1 or an index of the 3-entry mode
catalog, and it is -1 right after `soc2030_open`; with the mode -1,
`SOC2030_IOCTL_SET_WHITEBALANCE` with an id below `WB_MAX` evaluates
`modes[-1]`, which has no defined result, on every bus; so does the call with
id 0 made right after open on the simulated sensor. -/
theorem whitebalance_indexes_unset_mode :
    (∀ (k : Consts) (s : Drv), Reachable k any_result s →
      s.info.mode = -1 ∨ ∃ i : Nat, i < 3 ∧ s.info.mode = i) ∧
    (∀ s0 : Drv, (soc2030_open s0).info.mode = -1) ∧
    (∀ (k : Consts) (c : i2c_client) (arg : Nat) (s0 : Drv), arg < k.WB_MAX →
      Reachable k any_result (soc2030_open s0) ∧
      soc2030_ioctl k c (Cmd.SOC2030_IOCTL_SET_WHITEBALANCE arg) (soc2030_open s0) = none) ∧
    (0 < k0.WB_MAX ∧ Drv.opened.info.mode = -1 ∧
      (soc2030_ioctl k0 sensorBus (Cmd.SOC2030_IOCTL_SET_WHITEBALANCE 0) Drv.opened).isNone
        = true) :=
  ⟨fun k s hs => reachable_mode k s hs, fun _ => rfl,
    fun k c arg s0 harg => ⟨Reachable.opened s0,
      whitebalance_mode_unset k c arg (soc2030_open s0) harg rfl⟩,
    by decide, rfl, by decide⟩

/-! ## The exposure target of `SOC2030_IOCTL_SET_EXP_COMP` -/

theorem exp_comp_loop_succ (d : Int) (n : Nat) :
    ∀ p : Int × Int, exp_comp_loop d (n + 1) p =
      (Int.tdiv (exp_comp_loop d n p).1 d,
        (exp_comp_loop d n p).2 + Int.tdiv (exp_comp_loop d n p).1 d) := by
  induction n with
  | zero => intro p; rfl
  | succ m ih =>
    intro p
    have h1 : exp_comp_loop d (m + 1 + 1) p =
        exp_comp_loop d (m + 1) (Int.tdiv p.1 d, p.2 + Int.tdiv p.1 d) := rfl
    have h2 : exp_comp_loop d (m + 1) p =
        exp_comp_loop d m (Int.tdiv p.1 d, p.2 + Int.tdiv p.1 d) := rfl
    rw [h1, ih, h2]

theorem exp_comp_loop_delta (k : Consts) (s : Int) (n : Nat) :
    exp_comp_loop (exp_divisor s) n (exp_delta k s 0, k.EXP_TARGET) =
      (exp_delta k s n, k.EXP_TARGET + exp_delta_sum k s n) := by
  induction n with
  | zero => simp [exp_comp_loop, exp_delta_sum]
  | succ m ih =>
    rw [exp_comp_loop_succ, ih]
    simp only [exp_delta, exp_delta_sum]
    rw [add_assoc]

theorem exp_new_target_eq (k : Consts) (s : Int) :
    exp_new_target k s = k.EXP_TARGET + exp_delta_sum k s s.natAbs := by
  have h := exp_comp_loop_delta k s s.natAbs
  unfold exp_new_target
  unfold exp_divisor exp_delta at h
  dsimp only at h ⊢
  rw [h]

theorem exp_comp_rejected (k : Consts) (c : i2c_client) (req_ev : Int) (s : Drv)
    (hr : k.SOC_EV_MIN ≤ req_ev ∧ req_ev ≤ k.SOC_EV_MAX) (hnt : exp_new_target k req_ev < 0) :
    ioctl_set_exp_comp k c req_ev s = some (-EINVAL_errno, s) := by
  have h1 : ¬ (req_ev > k.SOC_EV_MAX ∨ req_ev < k.SOC_EV_MIN) := by
    rintro (h | h)
    · exact absurd hr.2 (not_le.mpr h)
    · exact absurd hr.1 (not_le.mpr h)
  unfold exp_new_target at hnt
  unfold ioctl_set_exp_comp
  dsimp only at hnt ⊢
  rw [if_neg h1, if_pos hnt]

theorem exp_comp_write_failed (k : Consts) (c : i2c_client) (req_ev : Int) (s : Drv)
    (hr : k.SOC_EV_MIN ≤ req_ev ∧ req_ev ≤ k.SOC_EV_MAX) (hnt : 0 ≤ exp_new_target k req_ev)
    (hw : (soc2030_write_xdma_reg k c 0xA24F
      ((exp_new_target k req_ev).toNat % 65536) s.trace).1 ≠ 0) :
    ioctl_set_exp_comp k c req_ev s =
      some ((soc2030_write_xdma_reg k c 0xA24F
          ((exp_new_target k req_ev).toNat % 65536) s.trace).1,
        { s with trace := (soc2030_write_xdma_reg k c 0xA24F
          ((exp_new_target k req_ev).toNat % 65536) s.trace).2 }) := by
  have h1 : ¬ (req_ev > k.SOC_EV_MAX ∨ req_ev < k.SOC_EV_MIN) := by
    rintro (h | h)
    · exact absurd hr.2 (not_le.mpr h)
    · exact absurd hr.1 (not_le.mpr h)
  have h2 : ¬ exp_new_target k req_ev < 0 := not_lt.mpr hnt
  unfold exp_new_target at h2 hw
  unfold ioctl_set_exp_comp exp_new_target
  dsimp only at h2 hw ⊢
  rw [if_neg h1, if_neg h2, if_pos hw]

theorem exp_comp_write_ok (k : Consts) (c : i2c_client) (req_ev : Int) (s : Drv)
    (hr : k.SOC_EV_MIN ≤ req_ev ∧ req_ev ≤ k.SOC_EV_MAX) (hnt : 0 ≤ exp_new_target k req_ev)
    (hw : (soc2030_write_xdma_reg k c 0xA24F
      ((exp_new_target k req_ev).toNat % 65536) s.trace).1 = 0) :
    ∃ e s2, soc2030_write_table k c refresh_state
        { s with trace := (soc2030_write_xdma_reg k c 0xA24F
          ((exp_new_target k req_ev).toNat % 65536) s.trace).2 } = some (e, s2) ∧
      ∃ s1, ioctl_set_exp_comp k c req_ev s = some (e, s1) ∧ s1.trace = s2.trace := by
  rw [exp_comp_unfold k c req_ev s hr hnt hw]
  obtain ⟨⟨e, s2⟩, h2⟩ := Option.isSome_iff_exists.mp
    (write_table_total k c refresh_state (by decide)
      { s with trace := (soc2030_write_xdma_reg k c 0xA24F
        ((exp_new_target k req_ev).toNat % 65536) s.trace).2 })
  rw [h2]
  exact ⟨e, s2, rfl, _, rfl, rfl⟩

/-- C31: for every in-range step `s` the target computed by
`SOC2030_IOCTL_SET_EXP_COMP` is `EXP_TARGET + (d_1 + ... + d_|s|)` with the
adjustments `d_n` of `exp_delta`; for `s = 0` the loop makes no iteration (so
the divisor 0 is never used) and the target is `EXP_TARGET`.  A negative target
is rejected with `-EINVAL` without a transfer; otherwise the target, cast to 16
bits, is written to variable `0xA24F`: when that write fails the call returns
its error, and when it succeeds the table `refresh_state` is run next and the
call returns its result. -/
theorem exp_comp_target_formula (k : Consts) (c : i2c_client) (s : Int) (st : Drv)
    (hr : k.SOC_EV_MIN ≤ s ∧ s ≤ k.SOC_EV_MAX) :
    exp_new_target k s = k.EXP_TARGET + exp_delta_sum k s s.natAbs ∧
    (s = 0 → s.natAbs = 0 ∧ (∀ d p, exp_comp_loop d s.natAbs p = p) ∧
      exp_new_target k s = k.EXP_TARGET) ∧
    (k.EXP_TARGET + exp_delta_sum k s s.natAbs < 0 →
      ioctl_set_exp_comp k c s st = some (-EINVAL_errno, st)) ∧
    (0 ≤ k.EXP_TARGET + exp_delta_sum k s s.natAbs →
      ((soc2030_write_xdma_reg k c 0xA24F
          ((k.EXP_TARGET + exp_delta_sum k s s.natAbs).toNat % 65536) st.trace).1 ≠ 0 →
        ioctl_set_exp_comp k c s st =
          some ((soc2030_write_xdma_reg k c 0xA24F
              ((k.EXP_TARGET + exp_delta_sum k s s.natAbs).toNat % 65536) st.trace).1,
            { st with trace := (soc2030_write_xdma_reg k c 0xA24F
              ((k.EXP_TARGET + exp_delta_sum k s s.natAbs).toNat % 65536) st.trace).2 })) ∧
      ((soc2030_write_xdma_reg k c 0xA24F
          ((k.EXP_TARGET + exp_delta_sum k s s.natAbs).toNat % 65536) st.trace).1 = 0 →
        ∃ e s2, soc2030_write_table k c refresh_state
            { st with trace := (soc2030_write_xdma_reg k c 0xA24F
              ((k.EXP_TARGET + exp_delta_sum k s s.natAbs).toNat % 65536) st.trace).2 } =
              some (e, s2) ∧
          ∃ s1, ioctl_set_exp_comp k c s st = some (e, s1) ∧ s1.trace = s2.trace)) := by
  have heq := exp_new_target_eq k s
  refine ⟨heq, ?_, ?_, ?_⟩
  · intro h0
    subst h0
    exact ⟨rfl, fun _ _ => rfl, by rw [heq]; simp [exp_delta_sum]⟩
  · intro hneg
    rw [← heq] at hneg
    exact exp_comp_rejected k c s st hr hneg
  · intro hpos
    rw [← heq] at hpos ⊢
    exact ⟨fun hw => exp_comp_write_failed k c s st hr hpos hw,
      fun hw => exp_comp_write_ok k c s st hr hpos hw⟩

set_option maxRecDepth 100000 in
/-- C31, witness: step 2 and step -2 with `EXP_TARGET = 0x32`: the
adjustments are 206, 51, 12 (target 50 + 63 = 113) and -50, -25, -12 (target
50 - 37 = 13); right after open on the simulated sensor the call for step 2
returns 0 and its first two transfers write 113 to variable `0xA24F`. -/
theorem exp_comp_target_formula_witness :
    ([exp_delta k0 2 0, exp_delta k0 2 1, exp_delta k0 2 2, exp_new_target k0 2] =
        [206, 51, 12, 113] ∧
      [exp_delta k0 (-2) 0, exp_delta k0 (-2) 1, exp_delta k0 (-2) 2,
        exp_new_target k0 (-2)] = [-50, -25, -12, 13] ∧
      (ioctl_set_exp_comp k0 sensorBus 2 Drv.opened).map
          (fun r => (r.1, r.2.trace.take 2)) =
        some (0, [Xfer.write 0x098c 0xA24F, Xfer.write 0x0990 113])) ∧
    (exp_new_target k0 2 = k0.EXP_TARGET + exp_delta_sum k0 2 (2 : Int).natAbs ∧
    ((2 : Int) = 0 → (2 : Int).natAbs = 0 ∧
      (∀ d p, exp_comp_loop d (2 : Int).natAbs p = p) ∧
      exp_new_target k0 2 = k0.EXP_TARGET) ∧
    (k0.EXP_TARGET + exp_delta_sum k0 2 (2 : Int).natAbs < 0 →
      ioctl_set_exp_comp k0 sensorBus 2 Drv.opened = some (-EINVAL_errno, Drv.opened)) ∧
    (0 ≤ k0.EXP_TARGET + exp_delta_sum k0 2 (2 : Int).natAbs →
      ((soc2030_write_xdma_reg k0 sensorBus 0xA24F
          ((k0.EXP_TARGET + exp_delta_sum k0 2 (2 : Int).natAbs).toNat % 65536)
            Drv.opened.trace).1 ≠ 0 →
        ioctl_set_exp_comp k0 sensorBus 2 Drv.opened =
          some ((soc2030_write_xdma_reg k0 sensorBus 0xA24F
              ((k0.EXP_TARGET + exp_delta_sum k0 2 (2 : Int).natAbs).toNat % 65536)
                Drv.opened.trace).1,
            { Drv.opened with trace := (soc2030_write_xdma_reg k0 sensorBus 0xA24F
              ((k0.EXP_TARGET + exp_delta_sum k0 2 (2 : Int).natAbs).toNat % 65536)
                Drv.opened.trace).2 })) ∧
      ((soc2030_write_xdma_reg k0 sensorBus 0xA24F
          ((k0.EXP_TARGET + exp_delta_sum k0 2 (2 : Int).natAbs).toNat % 65536)
            Drv.opened.trace).1 = 0 →
        ∃ e s2, soc2030_write_table k0 sensorBus refresh_state
            { Drv.opened with trace := (soc2030_write_xdma_reg k0 sensorBus 0xA24F
              ((k0.EXP_TARGET + exp_delta_sum k0 2 (2 : Int).natAbs).toNat % 65536)
                Drv.opened.trace).2 } = some (e, s2) ∧
          ∃ s1, ioctl_set_exp_comp k0 sensorBus 2 Drv.opened = some (e, s1) ∧
            s1.trace = s2.trace))) :=
  ⟨⟨by decide, by decide, by decide⟩,
    exp_comp_target_formula k0 sensorBus 2 Drv.opened ⟨by decide, by decide⟩⟩

/-! ## Bounds of the exposure target -/

theorem tdiv_four_nonneg (a : Int) (h : 0 ≤ a) : 0 ≤ Int.tdiv a 4 ∧ 2 * Int.tdiv a 4 ≤ a := by
  rw [Int.tdiv_eq_ediv h (by decide)]
  omega

theorem tdiv_two_nonpos (a : Int) (h : a ≤ 0) : Int.tdiv a 2 ≤ 0 ∧ a ≤ 2 * Int.tdiv a 2 := by
  obtain ⟨m, rfl, hm⟩ : ∃ m : Int, a = -m ∧ 0 ≤ m := ⟨-a, by omega, by omega⟩
  rw [Int.neg_tdiv, Int.tdiv_eq_ediv hm (by decide)]
  omega

theorem exp_delta_pos_inv (k : Consts) (s : Int) (hs : 0 < s) (hT : k.EXP_TARGET ≤ 0x100) :
    ∀ n, 0 ≤ exp_delta k s n ∧ 0 ≤ exp_delta_sum k s n ∧
      exp_delta_sum k s n + exp_delta k s n ≤ 0x100 - k.EXP_TARGET := by
  have hd : exp_divisor s = 4 := by
    unfold exp_divisor
    rw [if_neg (by omega), if_pos hs]
  intro n
  induction n with
  | zero =>
    have h0 : exp_delta k s 0 = 0x100 - k.EXP_TARGET := by
      unfold exp_delta
      rw [if_neg (by omega), if_pos hs]
    rw [h0]
    simp only [exp_delta_sum]
    omega
  | succ m ih =>
    have h1 : exp_delta k s (m + 1) = Int.tdiv (exp_delta k s m) 4 := by
      simp only [exp_delta, hd]
    have h2 : exp_delta_sum k s (m + 1) = exp_delta_sum k s m + exp_delta k s (m + 1) := rfl
    have h3 := tdiv_four_nonneg _ ih.1
    rw [h2, h1]
    omega

theorem exp_delta_neg_inv (k : Consts) (s : Int) (hs : s < 0) (hT : 0 ≤ k.EXP_TARGET) :
    ∀ n, exp_delta k s n ≤ 0 ∧ exp_delta_sum k s n ≤ 0 ∧
      -k.EXP_TARGET ≤ exp_delta_sum k s n + exp_delta k s n := by
  have hd : exp_divisor s = 2 := by
    unfold exp_divisor
    rw [if_pos hs]
  intro n
  induction n with
  | zero =>
    have h0 : exp_delta k s 0 = -k.EXP_TARGET := by
      unfold exp_delta
      rw [if_pos hs]
    rw [h0]
    simp only [exp_delta_sum]
    omega
  | succ m ih =>
    have h1 : exp_delta k s (m + 1) = Int.tdiv (exp_delta k s m) 2 := by
      simp only [exp_delta, hd]
    have h2 : exp_delta_sum k s (m + 1) = exp_delta_sum k s m + exp_delta k s (m + 1) := rfl
    have h3 := tdiv_two_nonpos _ ih.1
    rw [h2, h1]
    omega

theorem exp_delta_sign (k : Consts) (s t : Int)
    (h : (0 < s ∧ 0 < t) ∨ (s < 0 ∧ t < 0)) :
    ∀ n, exp_delta k s n = exp_delta k t n ∧ exp_delta_sum k s n = exp_delta_sum k t n := by
  have hd : exp_divisor s = exp_divisor t := by
    unfold exp_divisor
    rcases h with ⟨h1, h2⟩ | ⟨h1, h2⟩
    · rw [if_neg (by omega), if_pos h1, if_neg (by omega), if_pos h2]
    · rw [if_pos h1, if_pos h2]
  have h0 : exp_delta k s 0 = exp_delta k t 0 := by
    unfold exp_delta
    rcases h with ⟨h1, h2⟩ | ⟨h1, h2⟩
    · rw [if_neg (by omega), if_pos h1, if_neg (by omega), if_pos h2]
    · rw [if_pos h1, if_pos h2]
  have hdel : ∀ n, exp_delta k s n = exp_delta k t n := by
    intro n
    induction n with
    | zero => exact h0
    | succ m ih => simp only [exp_delta, ih, hd]
  intro n
  refine ⟨hdel n, ?_⟩
  induction n with
  | zero => rfl
  | succ m ih => simp only [exp_delta_sum, ih, hdel]

theorem exp_delta_sum_mono_pos (k : Consts) (s : Int) (hs : 0 < s) (hT : k.EXP_TARGET ≤ 0x100)
    (n m : Nat) (h : n ≤ m) : exp_delta_sum k s n ≤ exp_delta_sum k s m := by
  induction m with
  | zero =>
    have : n = 0 := by omega
    rw [this]
  | succ j ih =>
    rcases Nat.lt_or_ge n (j + 1) with hlt | hge
    · have h1 := ih (by omega)
      have h2 : exp_delta_sum k s (j + 1) = exp_delta_sum k s j + exp_delta k s (j + 1) := rfl
      have h3 := (exp_delta_pos_inv k s hs hT (j + 1)).1
      omega
    · have : n = j + 1 := by omega
      rw [this]

theorem exp_delta_sum_mono_neg (k : Consts) (s : Int) (hs : s < 0) (hT : 0 ≤ k.EXP_TARGET)
    (n m : Nat) (h : n ≤ m) : exp_delta_sum k s m ≤ exp_delta_sum k s n := by
  induction m with
  | zero =>
    have : n = 0 := by omega
    rw [this]
  | succ j ih =>
    rcases Nat.lt_or_ge n (j + 1) with hlt | hge
    · have h1 := ih (by omega)
      have h2 : exp_delta_sum k s (j + 1) = exp_delta_sum k s j + exp_delta k s (j + 1) := rfl
      have h3 := (exp_delta_neg_inv k s hs hT (j + 1)).1
      omega
    · have : n = j + 1 := by omega
      rw [this]

theorem write_table_grows (k : Consts) (c : i2c_client) (t : List soc2030_regs) (s : Drv)
    (e : Int) (s1 : Drv) (h : soc2030_write_table k c t s = some (e, s1)) :
    s.trace <+: s1.trace :=
  write_table_loop_grows k c t (-EIO_errno) s e s1 h

theorem exp_target_range (k : Consts) (s : Int)
    (hT : 0 ≤ k.EXP_TARGET ∧ k.EXP_TARGET ≤ 0x100) :
    0 ≤ exp_new_target k s ∧ exp_new_target k s ≤ 0x100 := by
  rw [exp_new_target_eq]
  rcases lt_trichotomy s 0 with hs | hs | hs
  · have h := exp_delta_neg_inv k s hs hT.1 s.natAbs
    omega
  · subst hs
    simp only [Int.natAbs_zero, exp_delta_sum]
    omega
  · have h := exp_delta_pos_inv k s hs hT.2 s.natAbs
    omega

/-- C38: with `0 <= EXP_TARGET <= 0x100`, for every step `s` (of any
magnitude) the target computed by the loop of `SOC2030_IOCTL_SET_EXP_COMP`
satisfies `EXP_TARGET <= target <= 0x100` for `s > 0`, `0 <= target <=
EXP_TARGET` for `s < 0`, and is `EXP_TARGET` for `s = 0`; it grows with a
growing positive step and falls with a falling negative step.  So the test
`new_target < 0` is never true, the cast to 16 bits returns the target itself,
and for an in-range step the call returns with the indirect write of the
target to `0xA24F` at the front of what it adds to the bus history. -/
theorem exp_target_bounds (k : Consts) (s : Int)
    (hT : 0 ≤ k.EXP_TARGET ∧ k.EXP_TARGET ≤ 0x100) :
    (0 < s → k.EXP_TARGET ≤ exp_new_target k s ∧ exp_new_target k s ≤ 0x100) ∧
    (s < 0 → 0 ≤ exp_new_target k s ∧ exp_new_target k s ≤ k.EXP_TARGET) ∧
    (s = 0 → exp_new_target k s = k.EXP_TARGET) ∧
    (∀ t, 0 < s → s ≤ t → exp_new_target k s ≤ exp_new_target k t) ∧
    (∀ t, s < 0 → t ≤ s → exp_new_target k t ≤ exp_new_target k s) ∧
    ¬ exp_new_target k s < 0 ∧
    (((exp_new_target k s).toNat % 65536 : Nat) : Int) = exp_new_target k s ∧
    (∀ (c : i2c_client) (st : Drv), k.SOC_EV_MIN ≤ s → s ≤ k.SOC_EV_MAX →
      ∃ e s1, ioctl_set_exp_comp k c s st = some (e, s1) ∧
        (soc2030_write_xdma_reg k c 0xA24F (exp_new_target k s).toNat st.trace).2
          <+: s1.trace) := by
  have hrange := exp_target_range k s hT
  have hcast : (exp_new_target k s).toNat % 65536 = (exp_new_target k s).toNat := by
    apply Nat.mod_eq_of_lt
    omega
  refine ⟨?_, ?_, ?_, ?_, ?_, by omega, ?_, ?_⟩
  · intro hs
    refine ⟨?_, hrange.2⟩
    rw [exp_new_target_eq]
    have h := exp_delta_pos_inv k s hs hT.2 s.natAbs
    omega
  · intro hs
    refine ⟨hrange.1, ?_⟩
    rw [exp_new_target_eq]
    have h := exp_delta_neg_inv k s hs hT.1 s.natAbs
    omega
  · intro hs
    subst hs
    rw [exp_new_target_eq]
    simp [exp_delta_sum]
  · intro t hs hst
    rw [exp_new_target_eq, exp_new_target_eq,
      ← (exp_delta_sign k s t (Or.inl ⟨hs, by omega⟩) t.natAbs).2]
    have := exp_delta_sum_mono_pos k s hs hT.2 s.natAbs t.natAbs (by omega)
    omega
  · intro t hs hst
    rw [exp_new_target_eq, exp_new_target_eq,
      ← (exp_delta_sign k s t (Or.inr ⟨hs, by omega⟩) t.natAbs).2]
    have := exp_delta_sum_mono_neg k s hs hT.1 s.natAbs t.natAbs (by omega)
    omega
  · rw [hcast]
    omega
  · intro c st h1 h2
    by_cases hw : (soc2030_write_xdma_reg k c 0xA24F
        ((exp_new_target k s).toNat % 65536) st.trace).1 = 0
    · obtain ⟨e, s2, ht, s1, hi, htr⟩ := exp_comp_write_ok k c s st ⟨h1, h2⟩ hrange.1 hw
      refine ⟨e, s1, hi, ?_⟩
      rw [htr, ← hcast]
      exact write_table_grows k c _ _ _ _ ht
    · rw [exp_comp_write_failed k c s st ⟨h1, h2⟩ hrange.1 hw]
      refine ⟨_, _, rfl, ?_⟩
      rw [hcast]

/-- C38, witness: `EXP_TARGET = 0x32`; the targets for the steps
-4, ..., 4 are 4, 7, 13, 25, 50, 101, 113, 116, 116. -/
theorem exp_target_bounds_witness :
    [exp_new_target k0 (-4), exp_new_target k0 (-3), exp_new_target k0 (-2),
        exp_new_target k0 (-1), exp_new_target k0 0, exp_new_target k0 1,
        exp_new_target k0 2, exp_new_target k0 3, exp_new_target k0 4] =
      [4, 7, 13, 25, 50, 101, 113, 116, 116] ∧
    ((0 < (2 : Int) → k0.EXP_TARGET ≤ exp_new_target k0 2 ∧ exp_new_target k0 2 ≤ 0x100) ∧
    ((2 : Int) < 0 → 0 ≤ exp_new_target k0 2 ∧ exp_new_target k0 2 ≤ k0.EXP_TARGET) ∧
    ((2 : Int) = 0 → exp_new_target k0 2 = k0.EXP_TARGET) ∧
    (∀ t, 0 < (2 : Int) → 2 ≤ t → exp_new_target k0 2 ≤ exp_new_target k0 t) ∧
    (∀ t, (2 : Int) < 0 → t ≤ 2 → exp_new_target k0 t ≤ exp_new_target k0 2) ∧
    ¬ exp_new_target k0 2 < 0 ∧
    (((exp_new_target k0 2).toNat % 65536 : Nat) : Int) = exp_new_target k0 2 ∧
    (∀ (c : i2c_client) (st : Drv), k0.SOC_EV_MIN ≤ 2 → 2 ≤ k0.SOC_EV_MAX →
      ∃ e s1, ioctl_set_exp_comp k0 c 2 st = some (e, s1) ∧
        (soc2030_write_xdma_reg k0 c 0xA24F (exp_new_target k0 2).toNat st.trace).2
          <+: s1.trace)) :=
  ⟨by decide, exp_target_bounds k0 2 ⟨by decide, by decide⟩⟩

/-! ## The 32-bit products of the exposure converters -/

/-- C40 (amended): in context B (context register 7) with a 16-bit exposure
`x` and the line lengths `la`, `lb` read from the sensor (16-bit values,
neither of them 0, so that the divisions are defined), the
product `x * lb` of `soc2030_conv_exp2ev0a` is at most `2^32 - 1` and its
rescale is the exact quotient `x * lb / la` reduced to 16 bits (before the EV
step); the product `y * la` of `soc2030_conv_exp2evxx`, `y` being the exposure
shifted by the bias, is at most `2^32 - 1` whenever `y` still fits in 16 bits,
which is the case for every bias `b <= 0`; and whenever that product is at
most `2^32 - 1` the rescale is the exact quotient `y * la / lb` reduced to 16
bits. -/
theorem conv_products_fit (k : Consts) (c : i2c_client) (b : Int) (x : Nat)
    (tr tr1 tr2 tr3 : List Xfer) (la lb : Nat) (hx : x < 65536)
    (hctx : soc2030_read_xdma_reg k c REG_CONTEXT 0 tr = (0, 7, tr1))
    (hla : soc2030_read_xdma_reg k c REG_LINE_LENGTH_A 0 tr1 = (0, la, tr2))
    (hlb : soc2030_read_xdma_reg k c REG_LINE_LENGTH_B 0 tr2 = (0, lb, tr3))
    (hla0 : la ≠ 0) (hlb0 : lb ≠ 0) :
    (la ≤ 0xFFFF ∧ lb ≤ 0xFFFF) ∧
    x * lb ≤ 2 ^ 32 - 1 ∧
    soc2030_conv_exp2ev0a k c b x tr =
      (0, toBaseline_bias b (x * lb / la % 65536), tr3) ∧
    (b ≤ 0 → fromBaseline_bias b x ≤ 0xFFFF) ∧
    (fromBaseline_bias b x ≤ 0xFFFF → fromBaseline_bias b x * la ≤ 2 ^ 32 - 1) ∧
    (fromBaseline_bias b x * la ≤ 2 ^ 32 - 1 →
      soc2030_conv_exp2evxx k c b x tr =
        (0, fromBaseline_bias b x * la / lb % 65536, tr3)) := by
  have _ := hla0
  have _ := hlb0
  have hla' := read_xdma_val_lt k c _ _ _ _ _ hla
  have hlb' := read_xdma_val_lt k c _ _ _ _ _ hlb
  refine ⟨⟨by omega, by omega⟩, ?_, ev0a_eq_B k c b x tr tr1 tr2 tr3 la lb hx hctx hla hlb,
    ?_, ?_, ?_⟩
  · have : x * lb ≤ 65535 * 65535 := Nat.mul_le_mul (by omega) (by omega)
    norm_num at this ⊢
    omega
  · intro hb
    unfold fromBaseline_bias
    rw [if_neg (by omega)]
    split_ifs
    · have : x / 2 ^ b.natAbs ≤ x := Nat.div_le_self _ _
      omega
    · omega
  · intro hy
    have : fromBaseline_bias b x * la ≤ 65535 * 65535 := Nat.mul_le_mul hy (by omega)
    norm_num at this ⊢
    omega
  · intro hfit
    exact evxx_eq_B k c b x tr tr1 tr2 tr3 la lb hctx hla hlb (by
      have h32 : (2 : Nat) ^ 32 = 4294967296 := by norm_num
      omega)

/-- C40, witness of the amended claim: context B with line lengths 2026 and
2217, exposure 1000, bias 1: `1000 * 2217 / 2026 = 1094`, then `>> 1`, gives
547 in `soc2030_conv_exp2ev0a`, and `(1000 << 1) * 2026 / 2217 = 1827` in
`soc2030_conv_exp2evxx`. -/
theorem conv_products_fit_witness :
    ((2026 ≤ 0xFFFF ∧ 2217 ≤ 0xFFFF) ∧
    1000 * 2217 ≤ 2 ^ 32 - 1 ∧
    soc2030_conv_exp2ev0a k0 sensorBus 1 1000 histB =
      (0, toBaseline_bias 1 (1000 * 2217 / 2026 % 65536),
        histB ++ [Xfer.write 0x098c 0xa104, Xfer.read 0x0990,
          Xfer.write 0x098c 0x2721, Xfer.read 0x0990,
          Xfer.write 0x098c 0x2737, Xfer.read 0x0990]) ∧
    ((1 : Int) ≤ 0 → fromBaseline_bias 1 1000 ≤ 0xFFFF) ∧
    (fromBaseline_bias 1 1000 ≤ 0xFFFF → fromBaseline_bias 1 1000 * 2026 ≤ 2 ^ 32 - 1) ∧
    (fromBaseline_bias 1 1000 * 2026 ≤ 2 ^ 32 - 1 →
      soc2030_conv_exp2evxx k0 sensorBus 1 1000 histB =
        (0, fromBaseline_bias 1 1000 * 2026 / 2217 % 65536,
          histB ++ [Xfer.write 0x098c 0xa104, Xfer.read 0x0990,
            Xfer.write 0x098c 0x2721, Xfer.read 0x0990,
            Xfer.write 0x098c 0x2737, Xfer.read 0x0990]))) ∧
    [toBaseline_bias 1 (1000 * 2217 / 2026 % 65536),
      fromBaseline_bias 1 1000 * 2026 / 2217 % 65536] = [547, 1827] :=
  ⟨conv_products_fit k0 sensorBus 1 1000 histB
      (histB ++ [Xfer.write 0x098c 0xa104, Xfer.read 0x0990])
      (histB ++ [Xfer.write 0x098c 0xa104, Xfer.read 0x0990,
        Xfer.write 0x098c 0x2721, Xfer.read 0x0990])
      (histB ++ [Xfer.write 0x098c 0xa104, Xfer.read 0x0990,
        Xfer.write 0x098c 0x2721, Xfer.read 0x0990,
        Xfer.write 0x098c 0x2737, Xfer.read 0x0990])
      2026 2217 (by decide) (by decide) (by decide) (by decide) (by decide) (by decide),
    by decide⟩

/-- C40, counterexample: bias 1 (within `[SOC_EV_MIN, SOC_EV_MAX] = [-2, 2]`),
exposure `0xFFFF`, context B with both line lengths `0xFFFF`: the shifted
exposure is 131070 and the product `131070 * 65535 = 8589672450` exceeds
`2^32 - 1`; the exact quotient reduced to 16 bits would be 65534, but
`soc2030_conv_exp2evxx` returns 0 with the exposure 65532, computed from the
product wrapped to 32 bits (4294705154). -/
theorem conv_exp2evxx_product_wraps :
    (k0.SOC_EV_MIN ≤ 1 ∧ (1 : Int) ≤ k0.SOC_EV_MAX ∧ 0xFFFF < 65536) ∧
    (soc2030_read_xdma_reg k0 wideBus REG_CONTEXT 0 [] =
        (0, 7, [Xfer.write 0x098c 0xa104, Xfer.read 0x0990]) ∧
      soc2030_read_xdma_reg k0 wideBus REG_LINE_LENGTH_A 0
          [Xfer.write 0x098c 0xa104, Xfer.read 0x0990] =
        (0, 0xFFFF, [Xfer.write 0x098c 0xa104, Xfer.read 0x0990,
          Xfer.write 0x098c 0x2721, Xfer.read 0x0990]) ∧
      soc2030_read_xdma_reg k0 wideBus REG_LINE_LENGTH_B 0
          [Xfer.write 0x098c 0xa104, Xfer.read 0x0990,
            Xfer.write 0x098c 0x2721, Xfer.read 0x0990] =
        (0, 0xFFFF, [Xfer.write 0x098c 0xa104, Xfer.read 0x0990,
          Xfer.write 0x098c 0x2721, Xfer.read 0x0990,
          Xfer.write 0x098c 0x2737, Xfer.read 0x0990])) ∧
    (fromBaseline_bias 1 0xFFFF * 0xFFFF = 8589672450 ∧
      ¬ fromBaseline_bias 1 0xFFFF * 0xFFFF ≤ 2 ^ 32 - 1 ∧
      fromBaseline_bias 1 0xFFFF * 0xFFFF / 0xFFFF % 65536 = 65534 ∧
      8589672450 % 2 ^ 32 = 4294705154 ∧ 4294705154 / 0xFFFF = 65532) ∧
    ((soc2030_conv_exp2evxx k0 wideBus 1 0xFFFF []).1 = 0 ∧
      (soc2030_conv_exp2evxx k0 wideBus 1 0xFFFF []).2.1 = 65532) := by
  refine ⟨by decide, ⟨by decide, by decide, by decide⟩, ?_, by decide, by decide⟩
  refine ⟨by decide, by decide, by decide, by decide, by decide⟩

/-! ## The write to the exposure variable during a restore -/

theorem restore_ae_loop_coarse_step (k : Consts) (c : i2c_client) (ev : Int) (v : Nat)
    (rest : List soc2030_regs) (idx : Nat) (s : Drv) (hae : s.lockBuff.aelock = true)
    (hconv : (soc2030_conv_exp2evxx k c ev (s.ae_lock_state idx) s.trace).1 = 0) :
    restore_ae_loop k c ev (⟨Op.WRITE_REG_DATA, REG_COARSE_INTEGRATION, v⟩ :: rest) idx s =
      if (soc2030_write_reg k c REG_COARSE_INTEGRATION
          (soc2030_conv_exp2evxx k c ev (s.ae_lock_state idx) s.trace).2.1
          (soc2030_write_xdma_reg k c REG_EV
            (soc2030_conv_exp2evxx k c ev (s.ae_lock_state idx) s.trace).2.1
            (soc2030_conv_exp2evxx k c ev (s.ae_lock_state idx) s.trace).2.2).2).1 ≠ 0 then
        some ((soc2030_write_reg k c REG_COARSE_INTEGRATION
            (soc2030_conv_exp2evxx k c ev (s.ae_lock_state idx) s.trace).2.1
            (soc2030_write_xdma_reg k c REG_EV
              (soc2030_conv_exp2evxx k c ev (s.ae_lock_state idx) s.trace).2.1
              (soc2030_conv_exp2evxx k c ev (s.ae_lock_state idx) s.trace).2.2).2).1,
          { s with trace := (soc2030_write_reg k c REG_COARSE_INTEGRATION
            (soc2030_conv_exp2evxx k c ev (s.ae_lock_state idx) s.trace).2.1
            (soc2030_write_xdma_reg k c REG_EV
              (soc2030_conv_exp2evxx k c ev (s.ae_lock_state idx) s.trace).2.1
              (soc2030_conv_exp2evxx k c ev (s.ae_lock_state idx) s.trace).2.2).2).2 })
      else restore_ae_loop k c ev rest (idx + 1)
          { s with trace := (soc2030_write_reg k c REG_COARSE_INTEGRATION
            (soc2030_conv_exp2evxx k c ev (s.ae_lock_state idx) s.trace).2.1
            (soc2030_write_xdma_reg k c REG_EV
              (soc2030_conv_exp2evxx k c ev (s.ae_lock_state idx) s.trace).2.1
              (soc2030_conv_exp2evxx k c ev (s.ae_lock_state idx) s.trace).2.2).2).2 } := by
  conv_lhs => unfold restore_ae_loop
  dsimp only
  rw [if_neg (by decide), if_neg (by rw [hae]; decide), if_pos rfl, if_neg (by rw [hconv]; simp)]

set_option maxRecDepth 100000 in
/-- C34 (the evaluation at the failing input, and the general step): at the
integration-time entry of the AE list `soc2030_restore_isp_state` makes the
indirect write of the converted exposure to `REG_EV` and then the direct write
to `0x3012`, and what it does next depends on the result of the second write
only, whatever the first one returned.  On a bus that never acknowledges the
write of `0x2222` to `0x098c`, with both lock flags set and the captured
integration time 1000, the indirect write returns `-EIO` after four attempts,
yet the restore returns 0 after 80 transfers: the four failed attempts are
followed by the write of 1000 to `0x3012` and by the 8 + 38 remaining
entries. -/
theorem restore_ignores_ev_write_error :
    (∀ (k : Consts) (c : i2c_client) (ev : Int) (v : Nat) (rest : List soc2030_regs)
      (idx : Nat) (s : Drv), s.lockBuff.aelock = true →
      (soc2030_conv_exp2evxx k c ev (s.ae_lock_state idx) s.trace).1 = 0 →
      (soc2030_write_reg k c REG_COARSE_INTEGRATION
          (soc2030_conv_exp2evxx k c ev (s.ae_lock_state idx) s.trace).2.1
          (soc2030_write_xdma_reg k c REG_EV
            (soc2030_conv_exp2evxx k c ev (s.ae_lock_state idx) s.trace).2.1
            (soc2030_conv_exp2evxx k c ev (s.ae_lock_state idx) s.trace).2.2).2).1 = 0 →
      restore_ae_loop k c ev (⟨Op.WRITE_REG_DATA, REG_COARSE_INTEGRATION, v⟩ :: rest) idx s =
        restore_ae_loop k c ev rest (idx + 1)
          { s with trace := (soc2030_write_reg k c REG_COARSE_INTEGRATION
            (soc2030_conv_exp2evxx k c ev (s.ae_lock_state idx) s.trace).2.1
            (soc2030_write_xdma_reg k c REG_EV
              (soc2030_conv_exp2evxx k c ev (s.ae_lock_state idx) s.trace).2.1
              (soc2030_conv_exp2evxx k c ev (s.ae_lock_state idx) s.trace).2.2).2).2 }) ∧
    (soc2030_write_xdma_reg k0 evNackBus REG_EV 1000 []).1 = -EIO_errno ∧
    (soc2030_restore_isp_state k0 evNackBus 0
        { Drv.both_locked with ae_lock_state := fun i => if i = 6 then 1000 else 0 }).map
        (fun r => (r.1, r.2.trace.length, (r.2.trace.drop 8).take 8)) =
      some (0, 80,
        [Xfer.write 0x098c 0xa104, Xfer.read 0x0990,
          Xfer.write 0x098c 0x2222, Xfer.write 0x098c 0x2222,
          Xfer.write 0x098c 0x2222, Xfer.write 0x098c 0x2222,
          Xfer.write 0x3012 1000, Xfer.write 0x3036 0]) := by
  refine ⟨?_, by decide, by decide⟩
  intro k c ev v rest idx s hae hconv hw
  rw [restore_ae_loop_coarse_step k c ev v rest idx s hae hconv, if_neg (by rw [hw]; simp)]

/-! ## Repeated restores -/

end Soc2030
